import Mathlib

/-!
# HDF5 DAOS VOL connector: the asynchronous orchestration layer

A shallow embedding of the request / task-callback machinery of
`src/daos_vol.c`: the generic prepare and completion callbacks, the
transaction finalizer (`H5_daos_h5op_finalize`, `H5_daos_tx_comp_cb`), the
object-index lease (`H5_daos_oidx_generate` and its callbacks) and the
collective error check.

Conventions of the embedding.

* C `int` status words are `Int` (the code only copies and compares them);
  `uint64_t` object indices are `Nat` reduced modulo `2 ^ 64` where the code
  does arithmetic on them.
* A request (`H5_daos_req_t`) is threaded through the callbacks as a value;
  every callback returns the updated request together with its `ret_value`.
* `D_GOTO_ERROR (.., code, ..)` and `D_GOTO_DONE (code)` set `ret_value` to
  `code` and jump to `done:`; `D_DONE_ERROR (.., code, ..)` sets `ret_value`
  to `code` and falls through.
* `assert (..)` on a value that the model carries is a failing run
  (`Option.none`); assertions that a pointer is non-NULL are discharged by
  the types.
* The constants of `daos_vol.h` are not part of the sources at hand and are
  parameters (`Codes`, `OidxConsts`); a theorem names the order relations
  between them that it relies on.
-/

namespace DaosVol

/-! ## Constants of the header -/

/-- The status and error codes of `daos_vol.h` used by `daos_vol.c`.  Every
field is the constant as written in the source (`H5_DAOS_PRE_ERROR`, ...);
the source always uses it negated. -/
structure Codes where
  H5_DAOS_INCOMPLETE : Int
  H5_DAOS_SHORT_CIRCUIT : Int
  H5_DAOS_CANCELED : Int
  H5_DAOS_PRE_ERROR : Int
  H5_DAOS_H5_OPEN_ERROR : Int
  H5_DAOS_H5_CLOSE_ERROR : Int
  H5_DAOS_REMOTE_ERROR : Int
  H5_DAOS_DAOS_GET_ERROR : Int
  H5_DAOS_FREE_ERROR : Int
  H5_DAOS_CALLBACK_ERROR : Int
  H5_DAOS_BAD_VALUE : Int
  H5_DAOS_MPI_ERROR : Int
  H5_DAOS_H5_ENCODE_ERROR : Int
  H5_DAOS_ALLOC_ERROR : Int
deriving DecidableEq, Repr

/-- A concrete assignment of the codes, in the order in which the callbacks
compare them (incomplete, short circuit, canceled, precursor error, then the
proper error codes); used to evaluate the model at concrete inputs. -/
def sampleCodes : Codes where
  H5_DAOS_INCOMPLETE := 1
  H5_DAOS_SHORT_CIRCUIT := 2
  H5_DAOS_CANCELED := 3
  H5_DAOS_PRE_ERROR := 4
  H5_DAOS_H5_OPEN_ERROR := 5
  H5_DAOS_H5_CLOSE_ERROR := 6
  H5_DAOS_REMOTE_ERROR := 7
  H5_DAOS_DAOS_GET_ERROR := 8
  H5_DAOS_FREE_ERROR := 9
  H5_DAOS_CALLBACK_ERROR := 10
  H5_DAOS_BAD_VALUE := 11
  H5_DAOS_MPI_ERROR := 12
  H5_DAOS_H5_ENCODE_ERROR := 13
  H5_DAOS_ALLOC_ERROR := 14

/-! ## Requests -/

/-- The fields of `H5_daos_req_t` read or written by the callbacks below.
`notify_cb` records whether a notify callback is registered. -/
structure H5_daos_req_t where
  status : Int
  failed_task : Option String
  rc : Int
  th_open : Bool
  notify_cb : Bool
deriving DecidableEq, Repr

/-- Modelled from the spec: `H5_daos_req_free_int` is defined outside the
source files at hand.  Section 4.1, `release()`: the reference count is
decremented (the request is reclaimed when it reaches zero).  Returns the
request and the `herr_t` result, which is success. -/
def H5_daos_req_free_int (req : H5_daos_req_t) : H5_daos_req_t × Int :=
  ({ req with rc := req.rc - 1 }, 0)

/-- The private data of a generic task, `H5_daos_generic_cb_ud_t`; its `req`
pointer is the request threaded through the callbacks. -/
structure H5_daos_generic_cb_ud_t where
  task_name : String
deriving DecidableEq, Repr

/-- What a prepare callback did: its return value and, when it called
`tse_task_complete` on its own task, the code it passed. -/
structure PrepResult where
  ret_value : Int
  completed : Option Int
deriving DecidableEq, Repr

/-! ## Generic callbacks (`daos_vol.c`, lines 3458-3539) -/

/-- The prepare callback `H5_daos_generic_prep_cb`: the short-circuit check on
the request status. -/
def H5_daos_generic_prep_cb (c : Codes) (udata : Option H5_daos_generic_cb_ud_t)
    (req : H5_daos_req_t) : PrepResult :=
  match udata with
  | none => ⟨-c.H5_DAOS_DAOS_GET_ERROR, none⟩
  | some _ =>
    if req.status < -c.H5_DAOS_SHORT_CIRCUIT then
      ⟨-c.H5_DAOS_PRE_ERROR, some (-c.H5_DAOS_PRE_ERROR)⟩
    else if req.status = -c.H5_DAOS_SHORT_CIRCUIT then
      ⟨-c.H5_DAOS_SHORT_CIRCUIT, some (-c.H5_DAOS_SHORT_CIRCUIT)⟩
    else ⟨0, none⟩

/-- The error-recording block shared by the completion callbacks: the task
result is stored as the request status, with the given label, when it is below
`-H5_DAOS_PRE_ERROR` and the request carries no error yet. -/
def record_task_error (c : Codes) (dt_result : Int) (name : String)
    (req : H5_daos_req_t) : H5_daos_req_t :=
  if dt_result < -c.H5_DAOS_PRE_ERROR ∧ req.status ≥ -c.H5_DAOS_SHORT_CIRCUIT then
    { req with status := dt_result, failed_task := some name }
  else req

/-- The block `if(ret_value < -H5_DAOS_SHORT_CIRCUIT && req->status >=
-H5_DAOS_SHORT_CIRCUIT)` that records an error of the callback itself. -/
def record_own_error (c : Codes) (ret_value : Int) (name : String)
    (req : H5_daos_req_t) : H5_daos_req_t :=
  if ret_value < -c.H5_DAOS_SHORT_CIRCUIT ∧ req.status ≥ -c.H5_DAOS_SHORT_CIRCUIT then
    { req with status := ret_value, failed_task := some name }
  else req

/-- The completion callback `H5_daos_generic_comp_cb`, run with the task
result `dt_result`. -/
def H5_daos_generic_comp_cb (c : Codes) (dt_result : Int)
    (udata : Option H5_daos_generic_cb_ud_t) (req : H5_daos_req_t) :
    H5_daos_req_t × Int :=
  match udata with
  | none => (req, -c.H5_DAOS_DAOS_GET_ERROR)
  | some ud =>
    let req1 := record_task_error c dt_result ud.task_name req
    let freed := H5_daos_req_free_int req1
    (freed.1, if freed.2 < 0 then -c.H5_DAOS_FREE_ERROR else 0)

/-! ## A chain of dependent generic steps -/

/-- One step of a chain: the private data given to its task and the result
the underlying store operation returns if it is attempted. -/
structure ChainStep where
  udata : H5_daos_generic_cb_ud_t
  op_result : Int
deriving DecidableEq, Repr

/-- What happened to one step. -/
structure StepTrace where
  task_name : String
  prep_completed : Option Int
  op_attempted : Bool
  dt_result : Int
  comp_cb_ran : Bool
  refs_released : Int
deriving DecidableEq, Repr

/-- The engine contract for one scheduled task whose predecessors are done
(spec, sections 2 and 3; the engine is external): the prepare callback runs
first; when it force-completes the task the underlying operation is not
issued and the task result is the code passed, otherwise the operation is
issued and yields the task result; the completion callback then runs with
that result. -/
def run_step (c : Codes) (req : H5_daos_req_t) (s : ChainStep) :
    H5_daos_req_t × StepTrace :=
  let p := H5_daos_generic_prep_cb c (some s.udata) req
  let dt_result := match p.completed with
    | some code => code
    | none => s.op_result
  let r := H5_daos_generic_comp_cb c dt_result (some s.udata) req
  (r.1, { task_name := s.udata.task_name
          prep_completed := p.completed
          op_attempted := p.completed.isNone
          dt_result := dt_result
          comp_cb_ran := true
          refs_released := req.rc - r.1.rc })

/-- A chain of dependent steps on one request: each step runs after its
predecessor has completed. -/
def run_chain (c : Codes) (req : H5_daos_req_t) :
    List ChainStep → H5_daos_req_t × List StepTrace
  | [] => (req, [])
  | s :: rest =>
    let r := run_step c req s
    let t := run_chain c r.1 rest
    (t.1, r.2 :: t.2)

/-- A sequence of task completions handled by `H5_daos_generic_comp_cb` on
one request, in the order given: each entry is a task result and the private
data of its task. -/
def comp_cb_seq (c : Codes) (req : H5_daos_req_t) :
    List (Int × H5_daos_generic_cb_ud_t) → H5_daos_req_t
  | [] => req
  | t :: rest => comp_cb_seq c (H5_daos_generic_comp_cb c t.1 (some t.2) req).1 rest

/-! ## The transaction finalizer (`daos_vol.c`, lines 3209-3441) -/

/-- The two task opcodes used by the finalizer. -/
inductive daos_opc_t where
  | DAOS_OPC_TX_ABORT
  | DAOS_OPC_TX_COMMIT
deriving DecidableEq, Repr

/-- The outcome handed to a notify callback. -/
inductive H5ES_status_t where
  | H5ES_STATUS_SUCCEED
  | H5ES_STATUS_CANCELED
  | H5ES_STATUS_FAIL
deriving DecidableEq, Repr

/-- The calls that `H5_daos_h5op_finalize` and `H5_daos_tx_comp_cb` make to
the engine, the store and the application, in program order, with the value
each call returned where the code tests it.  `tse_task_complete_tx` is
`tse_task_complete` on the abort or commit task, `tse_task_complete_finalize`
is `tse_task_complete` on `req->finalize_task`. -/
inductive Call where
  | daos_task_create (opc : daos_opc_t) (ret : Int)
  | daos_task_get_args (opc : daos_opc_t) (non_null : Bool)
  | tse_task_register_comp_cb (opc : daos_opc_t) (ret : Int)
  | tse_task_set_priv (opc : daos_opc_t)
  | tse_task_schedule (opc : daos_opc_t) (ret : Int)
  | tse_task_complete_tx (opc : daos_opc_t) (code : Int)
  | tse_task_complete_finalize (code : Int)
  | daos_tx_close (ret : Int)
  | notify_cb (status : H5ES_status_t) (ret : Int)
  | H5_daos_req_free_int
deriving DecidableEq, Repr

/-- What the engine, the store and the application return to the finalizer:
the results of `daos_task_create`, `daos_task_get_args` (non-NULL or not),
`tse_task_register_comp_cb`, `tse_task_schedule`, `daos_tx_close` and of the
notify callback. -/
structure TxEnv where
  task_create_ret : Int
  get_args_non_null : Bool
  register_ret : Int
  schedule_ret : Int
  tx_close_ret : Int
  notify_ret : Int
deriving DecidableEq, Repr

/-- Local state of a finalizer callback: the request, `ret_value`, `close_tx`
and the calls made so far. -/
structure FinAcc where
  req : H5_daos_req_t
  ret_value : Int
  close_tx : Bool
  calls : List Call
deriving DecidableEq, Repr

/-- The argument of the notify callback as both callbacks compute it:
`ret_value >= 0 && (status == -H5_DAOS_INCOMPLETE || status ==
-H5_DAOS_SHORT_CIRCUIT) ? SUCCEED : status == -H5_DAOS_CANCELED ? CANCELED :
FAIL`. -/
def notify_status (c : Codes) (ret_value : Int) (status : Int) : H5ES_status_t :=
  if ret_value ≥ 0 ∧ (status = -c.H5_DAOS_INCOMPLETE ∨ status = -c.H5_DAOS_SHORT_CIRCUIT) then
    .H5ES_STATUS_SUCCEED
  else if status = -c.H5_DAOS_CANCELED then .H5ES_STATUS_CANCELED
  else .H5ES_STATUS_FAIL

/-- The notify block: when a notify callback is registered it is called with
`notify_status`, and a negative return sets `ret_value` to
`-H5_DAOS_CALLBACK_ERROR`. -/
def make_notify (c : Codes) (env : TxEnv) (a : FinAcc) : FinAcc :=
  if a.req.notify_cb then
    { a with
      ret_value := if env.notify_ret < 0 then -c.H5_DAOS_CALLBACK_ERROR else a.ret_value
      calls := a.calls ++ [.notify_cb (notify_status c a.ret_value a.req.status) env.notify_ret] }
  else a

/-- The block that marks the request as completed: the status becomes 0 when
`ret_value >= 0` and the status is incomplete or short circuit. -/
def mark_completed (c : Codes) (ret_value : Int) (req : H5_daos_req_t) : H5_daos_req_t :=
  if ret_value ≥ 0 ∧
      (req.status = -c.H5_DAOS_INCOMPLETE ∨ req.status = -c.H5_DAOS_SHORT_CIRCUIT) then
    { req with status := 0 }
  else req

/-- The completion callback `H5_daos_tx_comp_cb` of the abort or commit task,
run with the task result `dt_result` on the request set as private data by
`H5_daos_h5op_finalize`.  Returns the request, `ret_value` and the calls
made. -/
def H5_daos_tx_comp_cb (c : Codes) (env : TxEnv) (dt_result : Int) (req : H5_daos_req_t) :
    H5_daos_req_t × Int × List Call :=
  let req1 := record_task_error c dt_result "transaction commit/abort" req
  let a : FinAcc :=
    if env.tx_close_ret ≠ 0 then
      { req := req1, ret_value := env.tx_close_ret, close_tx := false
        calls := [.daos_tx_close env.tx_close_ret] }
    else
      { req := { req1 with th_open := false }, ret_value := 0, close_tx := false
        calls := [.daos_tx_close 0] }
  let b : FinAcc := { a with calls := a.calls ++ [.tse_task_complete_finalize a.ret_value] }
  let n := make_notify c env b
  let req3 := mark_completed c n.ret_value n.req
  let req4 := record_own_error c n.ret_value "transaction commit/abort completion callback" req3
  let freed := H5_daos_req_free_int req4
  (freed.1, if freed.2 < 0 then -c.H5_DAOS_FREE_ERROR else n.ret_value,
    n.calls ++ [.H5_daos_req_free_int])

/-- The block of `H5_daos_h5op_finalize` that creates, fills, registers and
schedules the abort or the commit task (lines 3313-3351 for abort, 3355-3393
for commit; the two copies differ in the opcode only).  `ret_value` is the
value of the variable on entry to the block.  `tse_task_complete` on the abort
or commit task follows the engine contract used by `run_step` (spec, sections
2 and 3): the completion callbacks registered on the task run, with the code
passed as the task result.  After a failed `tse_task_register_comp_cb` (lines
3333-3337) no callback is registered and the call has no further effect; after
a failed `tse_task_schedule` (lines 3344-3348) the callback
`H5_daos_tx_comp_cb` is registered and the request is the private data, so
the callback runs inside `tse_task_complete`, on the request whose `th_open`
was just cleared, before the block jumps to `done:` with `close_tx` set. -/
def start_tx_task (c : Codes) (env : TxEnv) (opc : daos_opc_t) (req : H5_daos_req_t)
    (ret_value : Int) : FinAcc :=
  if env.task_create_ret ≠ 0 then
    { req := { req with th_open := false }, ret_value := env.task_create_ret, close_tx := true
      calls := [.daos_task_create opc env.task_create_ret] }
  else if env.get_args_non_null = false then
    { req := { req with th_open := false }, ret_value := -c.H5_DAOS_DAOS_GET_ERROR
      close_tx := true
      calls := [.daos_task_create opc 0, .daos_task_get_args opc false] }
  else if env.register_ret ≠ 0 then
    { req := { req with th_open := false }, ret_value := env.register_ret, close_tx := true
      calls := [.daos_task_create opc 0, .daos_task_get_args opc true,
                .tse_task_register_comp_cb opc env.register_ret,
                .tse_task_complete_tx opc ret_value] }
  else if env.schedule_ret ≠ 0 then
    { req := (H5_daos_tx_comp_cb c env ret_value { req with th_open := false }).1
      ret_value := env.schedule_ret, close_tx := true
      calls := [.daos_task_create opc 0, .daos_task_get_args opc true,
                .tse_task_register_comp_cb opc 0, .tse_task_set_priv opc,
                .tse_task_schedule opc env.schedule_ret,
                .tse_task_complete_tx opc ret_value]
        ++ (H5_daos_tx_comp_cb c env ret_value { req with th_open := false }).2.2 }
  else
    { req := { req with rc := req.rc + 1 }, ret_value := ret_value, close_tx := false
      calls := [.daos_task_create opc 0, .daos_task_get_args opc true,
                .tse_task_register_comp_cb opc 0, .tse_task_set_priv opc,
                .tse_task_schedule opc 0] }

/-- The part of `H5_daos_h5op_finalize` before the `done:` label: the check of
the request status (an error sets `ret_value` to the status through
`D_DONE_ERROR`) and the start of the abort or the commit task when a
transaction is open. -/
def finalize_body (c : Codes) (env : TxEnv) (req : H5_daos_req_t) : FinAcc :=
  if req.status < -c.H5_DAOS_SHORT_CIRCUIT then
    if req.th_open then start_tx_task c env .DAOS_OPC_TX_ABORT req req.status
    else { req := req, ret_value := req.status, close_tx := false, calls := [] }
  else
    if req.th_open then start_tx_task c env .DAOS_OPC_TX_COMMIT req 0
    else { req := req, ret_value := 0, close_tx := false, calls := [] }

/-- The part of `H5_daos_h5op_finalize` from the `done:` label on: the
fallback close of the transaction, the notification and completion of the
finalize task when no transaction is open any more, the recording of an error
of the routine itself, and the release of the reference. -/
def finalize_done (c : Codes) (env : TxEnv) (a : FinAcc) : H5_daos_req_t × Int × List Call :=
  let b : FinAcc :=
    if a.close_tx then
      { a with
        req := { a.req with th_open := false }
        ret_value := if env.tx_close_ret ≠ 0 then env.tx_close_ret else a.ret_value
        calls := a.calls ++ [.daos_tx_close env.tx_close_ret] }
    else a
  let d : FinAcc :=
    if b.req.th_open = false then
      let n := make_notify c env b
      { n with
        req := mark_completed c n.ret_value n.req
        calls := n.calls ++ [.tse_task_complete_finalize n.ret_value] }
    else b
  let req5 := record_own_error c d.ret_value "h5 op finalize" d.req
  let freed := H5_daos_req_free_int req5
  (freed.1, if freed.2 < 0 then -c.H5_DAOS_FREE_ERROR else d.ret_value,
    d.calls ++ [.H5_daos_req_free_int])

/-- The task body `H5_daos_h5op_finalize`, for a task whose private data is
the request (on a NULL private data the function dereferences NULL after the
`done:` label).  Returns the request, `ret_value` and the calls made. -/
def H5_daos_h5op_finalize (c : Codes) (env : TxEnv) (req : H5_daos_req_t) :
    H5_daos_req_t × Int × List Call :=
  finalize_done c env (finalize_body c env req)

/-- Whether a call is the successful scheduling of the task with the given
opcode. -/
def Call.schedules (opc : daos_opc_t) : Call → Bool
  | .tse_task_schedule o ret => decide (o = opc ∧ ret = 0)
  | _ => false

/-- Whether a call is a `daos_task_create` with the given opcode. -/
def Call.creates (opc : daos_opc_t) : Call → Bool
  | .daos_task_create o _ => decide (o = opc)
  | _ => false

/-- Whether a call is a `daos_tx_close`. -/
def Call.closes_tx : Call → Bool
  | .daos_tx_close _ => true
  | _ => false

/-- The notify callback invocations among a list of calls, with their
arguments. -/
def notifications (calls : List Call) : List H5ES_status_t :=
  calls.filterMap fun
    | .notify_cb st _ => some st
    | _ => none

/-- How many abort (or commit) tasks were issued to the engine, that is
scheduled successfully. -/
def issued (opc : daos_opc_t) (calls : List Call) : Nat :=
  calls.countP (Call.schedules opc)

/-- How many times `daos_tx_close` was called. -/
def tx_closes (calls : List Call) : Nat :=
  calls.countP Call.closes_tx

/-- The finalizer of one request run to completion (engine contract, spec
sections 2 and 4.7; the engine is external).  `H5_daos_h5op_finalize` runs as
the body of the finalize task; when it has scheduled an abort or a commit
task, that task completes with the result `dt_result` and the engine runs its
registered completion callback `H5_daos_tx_comp_cb` on the request.  When
`tse_task_schedule` fails, the callback has already run inside
`H5_daos_h5op_finalize` (see `start_tx_task`) and no task is left to
complete. -/
def run_finalizer (c : Codes) (env : TxEnv) (dt_result : Int) (req : H5_daos_req_t) :
    H5_daos_req_t × List Call :=
  let f := H5_daos_h5op_finalize c env req
  if f.2.2.any (fun call => Call.schedules .DAOS_OPC_TX_ABORT call
      || Call.schedules .DAOS_OPC_TX_COMMIT call) then
    let t := H5_daos_tx_comp_cb c env dt_result f.1
    (t.1, f.2.2 ++ t.2.2)
  else (f.1, f.2.2)

/-- Whether the start block fails at `tse_task_schedule`, that is after the
completion callback has been registered on the abort or commit task. -/
def TxEnv.schedule_refused (env : TxEnv) : Bool :=
  decide (env.task_create_ret = 0) && env.get_args_non_null
    && decide (env.register_ret = 0) && decide (env.schedule_ret ≠ 0)

/-- Whether every engine call of the start block succeeds. -/
def TxEnv.engine_ok (env : TxEnv) : Bool :=
  decide (env.task_create_ret = 0) && env.get_args_non_null
    && decide (env.register_ret = 0) && decide (env.schedule_ret = 0)

/-- The tri-state outcome in the words of the claim: success when the
notifying callback hit no error and the status is incomplete or short
circuit, otherwise canceled when the status is the canceled code, otherwise
failure. -/
def notify_outcome (c : Codes) (no_error : Bool) (status : Int) : H5ES_status_t :=
  if no_error = true ∧
      (status = -c.H5_DAOS_INCOMPLETE ∨ status = -c.H5_DAOS_SHORT_CIRCUIT) then
    .H5ES_STATUS_SUCCEED
  else if status = -c.H5_DAOS_CANCELED then .H5ES_STATUS_CANCELED
  else .H5ES_STATUS_FAIL

/-! ## The collective error check (`daos_vol.c`, lines 4445-4580) -/

/-- One process of a collective operation during a collective error check:
its rank, its request and the status word `req->collective.coll_status`, which
is the broadcast buffer (`err_check_ud.buffer` points to it). -/
structure RankState where
  my_rank : Nat
  req : H5_daos_req_t
  coll_status : Int
deriving DecidableEq, Repr

/-- The builder `H5_daos_collective_error_check` on the path on which every
engine call of `H5_daos_mpi_ibcast` succeeds: the status word is reset to 0
and becomes the broadcast buffer (it is already allocated, and `empty` is
FALSE, so `H5_daos_mpi_ibcast` leaves it as it is), and the broadcast task
takes one reference to the request.  The prepare callback is registered on
rank 0 only. -/
def H5_daos_collective_error_check (my_rank : Nat) (req : H5_daos_req_t) : RankState :=
  { my_rank := my_rank, req := { req with rc := req.rc + 1 }, coll_status := 0 }

/-- The prepare callback `H5_daos_collective_error_check_prep_cb`, registered
on rank 0 only (it asserts `my_rank == 0`): the request status is written into
the broadcast buffer. -/
def H5_daos_collective_error_check_prep_cb (s : RankState) : Option RankState :=
  if s.my_rank = 0 then some { s with coll_status := s.req.status } else none

/-- The completion callback `H5_daos_collective_error_check_comp_cb`, run with
the task result `dt_result` on the rank `my_rank` whose broadcast buffer holds
`status_buf`.  `obj_close` is the result of `H5_daos_object_close` when the
private data has an object (`udata->obj`), and `none` when it has not.  The
run fails when the assertion `*status_buf != -H5_DAOS_PRE_ERROR` does. -/
def H5_daos_collective_error_check_comp_cb (c : Codes) (dt_result : Int) (my_rank : Nat)
    (status_buf : Int) (obj_close : Option Int) (req : H5_daos_req_t) :
    Option (H5_daos_req_t × Int) :=
  let main : Option H5_daos_req_t :=
    if dt_result < -c.H5_DAOS_PRE_ERROR ∧ req.status ≥ -c.H5_DAOS_SHORT_CIRCUIT then
      some { req with status := dt_result
                      failed_task := some "MPI_Ibcast of collective operation status" }
    else if dt_result = 0 ∧ my_rank ≠ 0 then
      if status_buf = -c.H5_DAOS_PRE_ERROR then none
      else if status_buf ≤ -c.H5_DAOS_H5_OPEN_ERROR then
        some { req with status := -c.H5_DAOS_REMOTE_ERROR, failed_task := some "remote task" }
      else some req
    else some req
  match main with
  | none => none
  | some req1 =>
    let rv1 : Int := match obj_close with
      | some r => if r < 0 then -c.H5_DAOS_H5_CLOSE_ERROR else 0
      | none => 0
    let freed := H5_daos_req_free_int req1
    some (freed.1, if freed.2 < 0 then -c.H5_DAOS_FREE_ERROR else rv1)

/-- Modelled from the spec: the messaging binding (`MPI_Ibcast` with root 0,
external).  Section 2: one sender fans a byte buffer out to all cooperating
processes; the buffers are listed by rank and every rank ends with the buffer
of rank 0. -/
def MPI_Ibcast (bufs : List Int) : List Int :=
  match bufs with
  | [] => []
  | root :: rest => root :: rest.map (fun _ => root)

/-- The results of a list of fallible runs, when all of them succeed. -/
def all_some {α : Type} : List (Option α) → Option (List α)
  | [] => some []
  | none :: _ => none
  | some a :: rest => (all_some rest).map (fun l => a :: l)

/-- A collective error check carried out by all the processes of a collective
operation, listed by rank: every process runs the builder, rank 0 runs the
prepare callback, the status word is broadcast from rank 0, and every process
runs the completion callback with the task result 0 (the broadcast completed
successfully).  No process passes an object. -/
def collective_error_check_round (c : Codes) (reqs : List H5_daos_req_t) :
    Option (List H5_daos_req_t) :=
  let built := reqs.enum.map (fun ir => H5_daos_collective_error_check ir.1 ir.2)
  let prepared := all_some (built.map (fun s =>
    if s.my_rank = 0 then H5_daos_collective_error_check_prep_cb s else some s))
  match prepared with
  | none => none
  | some ranks =>
    let received := MPI_Ibcast (ranks.map RankState.coll_status)
    all_some ((ranks.zip received).map (fun sb =>
      (H5_daos_collective_error_check_comp_cb c 0 sb.1.my_rank sb.2 none sb.1.req).map
        Prod.fst))

/-! ## The object-index lease (`daos_vol.c`, lines 37-57 and 2336-2725) -/

/-- The two constants of `daos_vol.h` used by the lease: the size of a batch
of object indices and the first index that is not reserved. -/
structure OidxConsts where
  H5_DAOS_OIDX_NALLOC : Nat
  H5_DAOS_OIDX_FIRST_USER : Nat
deriving DecidableEq, Repr

/-- A concrete assignment of the lease constants (batches of 1024 indices,
indices 0 and 1 reserved); used to evaluate the model at concrete inputs. -/
def sampleOidx : OidxConsts where
  H5_DAOS_OIDX_NALLOC := 1024
  H5_DAOS_OIDX_FIRST_USER := 2

/-- One lease of a file: the pair `next_oidx`, `max_oidx` (independent) or
`next_oidx_collective`, `max_oidx_collective` (collective), both `uint64_t`. -/
structure Lease where
  next_oidx : Nat
  max_oidx : Nat
deriving DecidableEq, Repr

/-- The macro `H5_DAOS_ALLOCATE_NEXT_OIDX`: asserts `next <= max`, hands out
`next` and increments it (in 64-bit arithmetic). -/
def H5_DAOS_ALLOCATE_NEXT_OIDX (l : Lease) : Option (Nat × Lease) :=
  if l.next_oidx ≤ l.max_oidx then
    some (l.next_oidx, { l with next_oidx := (l.next_oidx + 1) % 2 ^ 64 })
  else none

/-- The macro `H5_DAOS_ADJUST_MAX_AND_NEXT_OIDX`: `max = next + NALLOC - 1` in
64-bit arithmetic, the assertion `NALLOC > FIRST_USER`, and the skip of the
reserved indices. -/
def H5_DAOS_ADJUST_MAX_AND_NEXT_OIDX (k : OidxConsts) (l : Lease) : Option Lease :=
  let l1 : Lease :=
    { l with max_oidx := (l.next_oidx + k.H5_DAOS_OIDX_NALLOC + (2 ^ 64 - 1)) % 2 ^ 64 }
  if k.H5_DAOS_OIDX_NALLOC > k.H5_DAOS_OIDX_FIRST_USER then
    if l1.next_oidx < k.H5_DAOS_OIDX_FIRST_USER then
      some { l1 with next_oidx := k.H5_DAOS_OIDX_FIRST_USER }
    else some l1
  else none

/-- The fields of `H5_daos_file_t` used by the lease. -/
structure H5_daos_file_t where
  my_rank : Nat
  num_procs : Nat
  next_oidx : Nat
  max_oidx : Nat
  next_oidx_collective : Nat
  max_oidx_collective : Nat
deriving DecidableEq, Repr

/-- The lease selected by `collective ? &file->next_oidx_collective :
&file->next_oidx` and the same for `max_oidx`. -/
def H5_daos_file_t.lease (f : H5_daos_file_t) (collective : Bool) : Lease :=
  if collective then ⟨f.next_oidx_collective, f.max_oidx_collective⟩
  else ⟨f.next_oidx, f.max_oidx⟩

/-- Writing through the two pointers selected by `collective`. -/
def H5_daos_file_t.set_lease (f : H5_daos_file_t) (collective : Bool) (l : Lease) :
    H5_daos_file_t :=
  if collective then
    { f with next_oidx_collective := l.next_oidx, max_oidx_collective := l.max_oidx }
  else { f with next_oidx := l.next_oidx, max_oidx := l.max_oidx }

/-- What `H5_daos_oidx_generate` did: it handed out an index from the local
lease, or it created the batch-allocation task and/or the broadcast task. -/
inductive OidxPlan where
  | allocated (oidx : Nat)
  | tasks (generate : Bool) (bcast : Bool)
deriving DecidableEq, Repr

/-- The builder `H5_daos_oidx_generate`, as far as the lease and the reference
count of the request go, on the path on which every allocation and engine call
succeeds: when the lease is exhausted (`max == 0` or `next > max`) it creates
the batch-allocation task unless the call is collective on a rank other than
0, and (through `H5_daos_oidx_bcast`) the broadcast task when the call is
collective with more than one process, each task taking one reference to the
request; otherwise it allocates from the local lease. -/
def H5_daos_oidx_generate (file : H5_daos_file_t) (req : H5_daos_req_t) (collective : Bool) :
    Option (H5_daos_file_t × H5_daos_req_t × OidxPlan) :=
  let l := file.lease collective
  if l.max_oidx = 0 ∨ l.next_oidx > l.max_oidx then
    let gen : Bool := !collective || decide (file.my_rank = 0)
    let bc : Bool := collective && decide (file.num_procs > 1)
    let req1 := if gen then { req with rc := req.rc + 1 } else req
    let req2 := if bc then { req1 with rc := req1.rc + 1 } else req1
    some (file, req2, .tasks gen bc)
  else
    match H5_DAOS_ALLOCATE_NEXT_OIDX l with
    | none => none
    | some r => some (file.set_lease collective r.2, req, .allocated r.1)

/-- The end of the two completion callbacks of the lease: the block recording
an error of the callback itself (`ret_value` is 0 there) and the release of
the reference.  Returns the file, the request, the index written to
`*oidx_out` if any, and `ret_value`. -/
def oidx_cb_done (c : Codes) (name : String) (file : H5_daos_file_t) (req : H5_daos_req_t)
    (oidx_out : Option Nat) : H5_daos_file_t × H5_daos_req_t × Option Nat × Int :=
  let req1 := record_own_error c 0 name req
  let freed := H5_daos_req_free_int req1
  (file, freed.1, oidx_out, if freed.2 < 0 then -c.H5_DAOS_FREE_ERROR else 0)

/-- The completion callback `H5_daos_oidx_generate_comp_cb` of the
batch-allocation task, run with the task result `dt_result`; `collective` is
the flag stored in the private data, and the store has written the start of
the granted batch through `alloc_args->oid`, that is into `next_oidx` of the
lease. -/
def H5_daos_oidx_generate_comp_cb (c : Codes) (k : OidxConsts) (dt_result : Int)
    (collective : Bool) (file : H5_daos_file_t) (req : H5_daos_req_t) :
    Option (H5_daos_file_t × H5_daos_req_t × Option Nat × Int) :=
  if dt_result < -c.H5_DAOS_PRE_ERROR ∧ req.status ≥ -c.H5_DAOS_SHORT_CIRCUIT then
    some (oidx_cb_done c "OIDX generation" file
      { req with status := dt_result, failed_task := some "OIDX generation" } none)
  else if dt_result = 0 then
    if !collective || decide (file.num_procs = 1) then
      match H5_DAOS_ADJUST_MAX_AND_NEXT_OIDX k (file.lease collective) with
      | none => none
      | some l1 =>
        match H5_DAOS_ALLOCATE_NEXT_OIDX l1 with
        | none => none
        | some r =>
          some (oidx_cb_done c "OIDX generation" (file.set_lease collective r.2) req (some r.1))
    else some (oidx_cb_done c "OIDX generation" file req none)
  else some (oidx_cb_done c "OIDX generation" file req none)

/-- The prepare callback `H5_daos_oidx_bcast_prep_cb`, registered on rank 0
only: the value of `next_oidx_collective` is encoded into the broadcast
buffer.  The buffer is modelled by the 64-bit value it encodes. -/
def H5_daos_oidx_bcast_prep_cb (file : H5_daos_file_t) : Nat :=
  file.next_oidx_collective

/-- The completion callback `H5_daos_oidx_bcast_comp_cb` of the index
broadcast, run with the task result `dt_result`; `buffer` is the value held by
the broadcast buffer. -/
def H5_daos_oidx_bcast_comp_cb (c : Codes) (k : OidxConsts) (dt_result : Int) (buffer : Nat)
    (file : H5_daos_file_t) (req : H5_daos_req_t) :
    Option (H5_daos_file_t × H5_daos_req_t × Option Nat × Int) :=
  if dt_result < -c.H5_DAOS_PRE_ERROR ∧ req.status ≥ -c.H5_DAOS_SHORT_CIRCUIT then
    some (oidx_cb_done c "MPI_Ibcast next object index completion callback" file
      { req with status := dt_result, failed_task := some "MPI_Ibcast next object index" } none)
  else if dt_result = 0 then
    let l := file.lease true
    let l0 : Lease := if file.my_rank ≠ 0 then { l with next_oidx := buffer } else l
    match H5_DAOS_ADJUST_MAX_AND_NEXT_OIDX k l0 with
    | none => none
    | some l1 =>
      match H5_DAOS_ALLOCATE_NEXT_OIDX l1 with
      | none => none
      | some r =>
        some (oidx_cb_done c "MPI_Ibcast next object index completion callback"
          (file.set_lease true r.2) req (some r.1))
  else some (oidx_cb_done c "MPI_Ibcast next object index completion callback" file req none)

/-- One call of `H5_daos_oidx_generate` run to completion on one process, with
the store granting the batch that starts at `granted` when the lease has to be
replenished.  The batch-allocation task, when this process creates it,
completes with result 0 after the store has written `granted` into `next_oidx`
of the lease; the broadcast task, when created, completes with result 0, its
buffer holding what rank 0 encoded: on rank 0 the value written by the prepare
callback, on the other ranks the start `granted` of the batch granted to rank
0.  Returns the file, the request and the index handed out. -/
def oidx_generate_run (c : Codes) (k : OidxConsts) (file : H5_daos_file_t)
    (req : H5_daos_req_t) (collective : Bool) (granted : Nat) :
    Option (H5_daos_file_t × H5_daos_req_t × Option Nat) :=
  match H5_daos_oidx_generate file req collective with
  | none => none
  | some (f0, req0, .allocated x) => some (f0, req0, some x)
  | some (f0, req0, .tasks gen bc) =>
    let s1 : Option (H5_daos_file_t × H5_daos_req_t × Option Nat) :=
      if gen then
        let f1 := f0.set_lease collective { f0.lease collective with next_oidx := granted }
        (H5_daos_oidx_generate_comp_cb c k 0 collective f1 req0).map
          (fun r => (r.1, r.2.1, r.2.2.1))
      else some (f0, req0, none)
    match s1 with
    | none => none
    | some r1 =>
      if bc then
        let buffer := if r1.1.my_rank = 0 then H5_daos_oidx_bcast_prep_cb r1.1 else granted
        (H5_daos_oidx_bcast_comp_cb c k 0 buffer r1.1 r1.2.1).map
          (fun r => (r.1, r.2.1, r.2.2.1))
      else some r1

/-- A sequence of `H5_daos_oidx_generate` calls on one file, each run to
completion before the next.  A call is its collective flag and the start of
the batch the store grants if the call replenishes the lease.  Returns the
file, the request and, in call order, the index handed out by each call with
the flag of the call. -/
def oidx_generate_seq (c : Codes) (k : OidxConsts) (file : H5_daos_file_t)
    (req : H5_daos_req_t) :
    List (Bool × Nat) → Option (H5_daos_file_t × H5_daos_req_t × List (Bool × Nat))
  | [] => some (file, req, [])
  | call :: rest =>
    match oidx_generate_run c k file req call.1 call.2 with
    | none => none
    | some r =>
      match oidx_generate_seq c k r.1 r.2.1 rest with
      | none => none
      | some t =>
        some (t.1, t.2.1,
          match r.2.2 with
          | some x => (call.1, x) :: t.2.2
          | none => t.2.2)

/-- A sequence of `H5_daos_oidx_generate` calls on one file, each run to
completion before the next, with the store as a state: `grant i` is the start
of the batch the store grants to its request number `i`, and `used` counts the
batches granted so far.  A call that finds its lease exhausted is served the
next batch (in a collective call on a rank other than 0: the batch granted to
rank 0, received through the broadcast); a call served from the local lease
asks nothing of the store.  A call is its collective flag.  Returns the file,
the request, the number of batches granted and, in call order, the index
handed out by each call with the flag of the call. -/
def oidx_generate_store_seq (c : Codes) (k : OidxConsts) (grant : Nat → Nat)
    (file : H5_daos_file_t) (req : H5_daos_req_t) (used : Nat) :
    List Bool → Option (H5_daos_file_t × H5_daos_req_t × Nat × List (Bool × Nat))
  | [] => some (file, req, used, [])
  | b :: rest =>
    match oidx_generate_run c k file req b (grant used) with
    | none => none
    | some r =>
      match oidx_generate_store_seq c k grant r.1 r.2.1
          (if (file.lease b).max_oidx = 0 ∨ (file.lease b).next_oidx > (file.lease b).max_oidx
            then used + 1 else used) rest with
      | none => none
      | some t =>
        some (t.1, t.2.1, t.2.2.1,
          match r.2.2 with
          | some x => (b, x) :: t.2.2.2
          | none => t.2.2.2)

/-- A small assignment of the lease constants (batches of 4 indices, indices 0
and 1 reserved), with which a lease is exhausted after a few calls. -/
def smallOidx : OidxConsts where
  H5_DAOS_OIDX_NALLOC := 4
  H5_DAOS_OIDX_FIRST_USER := 2

/-- Whether the index `x` is among those a lease can still hand out by local
allocation: the lease has been replenished (`max_oidx` is not 0) and
`next_oidx <= x <= max_oidx`. -/
def Lease.holds (l : Lease) (x : Nat) : Prop :=
  l.max_oidx ≠ 0 ∧ l.next_oidx ≤ x ∧ x ≤ l.max_oidx

/-- The state of a file and of the indices handed out so far (in call order,
each with the flag of its call) between two calls, relative to a bound `lo`
below which no further batch starts: both leases end below `lo`, every index
handed out is below `lo`, below `next_oidx` of its own lease and outside what
either lease can still hand out, the two leases cannot hand out a common
index, no index was handed out twice, and the indices of each lease were
handed out in increasing order. -/
structure OidxInv (f : H5_daos_file_t) (outs : List (Bool × Nat)) (lo : Nat) : Prop where
  bound_max : ∀ b, (f.lease b).max_oidx ≠ 0 → (f.lease b).max_oidx < lo
  bound_out : ∀ p ∈ outs, p.2 < lo
  lt_next : ∀ p ∈ outs, p.2 < (f.lease p.1).next_oidx
  window_free : ∀ p ∈ outs, ∀ b, ¬ (f.lease b).holds p.2
  disjoint : ∀ x, ¬ ((f.lease false).holds x ∧ (f.lease true).holds x)
  nodup : (outs.map Prod.snd).Nodup
  sorted : ∀ b, ((outs.filter (fun p => p.1 == b)).map Prod.snd).Pairwise (fun x y => x < y)

/-- The lease step in closed form: a replenishment with the batch starting at
`s` when the lease is exhausted, a local allocation otherwise.  Returns the
index handed out and the lease. -/
def lease_step (k : OidxConsts) (l : Lease) (s : Nat) : Nat × Lease :=
  if l.max_oidx = 0 ∨ l.next_oidx > l.max_oidx then
    (max s k.H5_DAOS_OIDX_FIRST_USER,
      ⟨max s k.H5_DAOS_OIDX_FIRST_USER + 1, s + k.H5_DAOS_OIDX_NALLOC - 1⟩)
  else (l.next_oidx, ⟨l.next_oidx + 1, l.max_oidx⟩)

/-! ## The index broadcast buffer (`daos_vol.c`, lines 2603-2725) -/

/-- Modelled from the spec: the macro `UINT64ENCODE` of the absent header,
which writes a 64-bit value into `H5_DAOS_ENCODED_UINT64_T_SIZE` = 8 bytes
(section 6: 64-bit fields of 8 bytes), least significant byte first, the same
on every host (comment at lines 3186-3187). -/
def UINT64ENCODE (n : Nat) : List Nat :=
  (List.range 8).map (fun i => (n / 256 ^ i) % 256)

/-- Modelled from the spec: the macro `UINT64DECODE` of the absent header, the
reader of the 8 bytes written by `UINT64ENCODE`. -/
def UINT64DECODE (p : List Nat) : Nat :=
  ((p.take 8).foldr (fun byte acc => byte % 256 + 256 * acc) 0) % 2 ^ 64

/-- The 8-byte broadcast buffer after `H5_daos_oidx_bcast_prep_cb` on rank 0:
`UINT64ENCODE(p, *udata->next_oidx)`. -/
def oidx_bcast_buffer (file : H5_daos_file_t) : List Nat :=
  UINT64ENCODE (H5_daos_oidx_bcast_prep_cb file)

/-- The completion callback `H5_daos_oidx_bcast_comp_cb` on the 8-byte buffer:
a receiving rank decodes it with `UINT64DECODE`. -/
def oidx_bcast_comp_cb_bytes (c : Codes) (k : OidxConsts) (dt_result : Int)
    (buffer : List Nat) (file : H5_daos_file_t) (req : H5_daos_req_t) :
    Option (H5_daos_file_t × H5_daos_req_t × Option Nat × Int) :=
  H5_daos_oidx_bcast_comp_cb c k dt_result (UINT64DECODE buffer) file req

/-! ## The prepare callbacks of the builders -/

/-- What a prepare callback with operation arguments did: its return value,
the code it passed to `tse_task_complete` when it completed its own task, and
whether it filled in the arguments of the operation. -/
structure PrepOut where
  ret_value : Int
  completed : Option Int
  args_set : Bool
deriving DecidableEq, Repr

/-- The `done:` block of the three pool prepare callbacks:
`if(ret_value < 0) tse_task_complete(task, ret_value)`. -/
def pool_prep_done (ret_value : Int) (args_set : Bool) : PrepOut :=
  { ret_value := ret_value
    completed := if ret_value < 0 then some ret_value else none
    args_set := args_set }

/-- The prepare callback `H5_daos_pool_connect_prep_cb` (lines 1588-1630).
`udata_non_null` is whether the task has private data, `uuid_is_null` the
result of `uuid_is_null(*udata->puuid)`, `args_non_null` whether
`daos_task_get_args` returns the argument struct. -/
def H5_daos_pool_connect_prep_cb (c : Codes) (udata_non_null : Bool) (uuid_is_null : Bool)
    (args_non_null : Bool) (req : H5_daos_req_t) : PrepOut :=
  if udata_non_null = false then pool_prep_done (-c.H5_DAOS_DAOS_GET_ERROR) false
  else if req.status < -c.H5_DAOS_SHORT_CIRCUIT then pool_prep_done (-c.H5_DAOS_PRE_ERROR) false
  else if req.status = -c.H5_DAOS_SHORT_CIRCUIT then
    pool_prep_done (-c.H5_DAOS_SHORT_CIRCUIT) false
  else if uuid_is_null then pool_prep_done (-c.H5_DAOS_BAD_VALUE) false
  else if args_non_null = false then pool_prep_done (-c.H5_DAOS_DAOS_GET_ERROR) false
  else pool_prep_done 0 true

/-- The prepare callback `H5_daos_pool_disconnect_prep_cb` (lines 1786-1823);
`handle_is_inval` is the result of `daos_handle_is_inval(*udata->poh)`. -/
def H5_daos_pool_disconnect_prep_cb (c : Codes) (udata_non_null : Bool)
    (handle_is_inval : Bool) (args_non_null : Bool) (req : H5_daos_req_t) : PrepOut :=
  if udata_non_null = false then pool_prep_done (-c.H5_DAOS_DAOS_GET_ERROR) false
  else if req.status < -c.H5_DAOS_SHORT_CIRCUIT then pool_prep_done (-c.H5_DAOS_PRE_ERROR) false
  else if req.status = -c.H5_DAOS_SHORT_CIRCUIT then
    pool_prep_done (-c.H5_DAOS_SHORT_CIRCUIT) false
  else if handle_is_inval then pool_prep_done (-c.H5_DAOS_BAD_VALUE) false
  else if args_non_null = false then pool_prep_done (-c.H5_DAOS_DAOS_GET_ERROR) false
  else pool_prep_done 0 true

/-- The prepare callback `H5_daos_pool_query_prep_cb` (lines 1968-2008). -/
def H5_daos_pool_query_prep_cb (c : Codes) (udata_non_null : Bool)
    (handle_is_inval : Bool) (args_non_null : Bool) (req : H5_daos_req_t) : PrepOut :=
  if udata_non_null = false then pool_prep_done (-c.H5_DAOS_DAOS_GET_ERROR) false
  else if req.status < -c.H5_DAOS_SHORT_CIRCUIT then pool_prep_done (-c.H5_DAOS_PRE_ERROR) false
  else if req.status = -c.H5_DAOS_SHORT_CIRCUIT then
    pool_prep_done (-c.H5_DAOS_SHORT_CIRCUIT) false
  else if handle_is_inval then pool_prep_done (-c.H5_DAOS_BAD_VALUE) false
  else if args_non_null = false then pool_prep_done (-c.H5_DAOS_DAOS_GET_ERROR) false
  else pool_prep_done 0 true

/-- The prepare callback `H5_daos_md_rw_prep_cb` (lines 3558-3601): every
branch that gives up completes the task itself, except the one on missing
private data. -/
def H5_daos_md_rw_prep_cb (c : Codes) (udata_non_null : Bool) (args_non_null : Bool)
    (req : H5_daos_req_t) : PrepOut :=
  if udata_non_null = false then ⟨-c.H5_DAOS_DAOS_GET_ERROR, none, false⟩
  else if req.status < -c.H5_DAOS_SHORT_CIRCUIT then
    ⟨-c.H5_DAOS_PRE_ERROR, some (-c.H5_DAOS_PRE_ERROR), false⟩
  else if req.status = -c.H5_DAOS_SHORT_CIRCUIT then
    ⟨-c.H5_DAOS_SHORT_CIRCUIT, some (-c.H5_DAOS_SHORT_CIRCUIT), false⟩
  else if args_non_null = false then
    ⟨-c.H5_DAOS_DAOS_GET_ERROR, some (-c.H5_DAOS_DAOS_GET_ERROR), false⟩
  else ⟨0, none, true⟩

/-- The prepare callback `H5_daos_list_key_prep_cb` (lines 3789-3826). -/
def H5_daos_list_key_prep_cb (c : Codes) (udata_non_null : Bool) (args_non_null : Bool)
    (req : H5_daos_req_t) : PrepOut :=
  if udata_non_null = false then ⟨-c.H5_DAOS_DAOS_GET_ERROR, none, false⟩
  else if req.status < -c.H5_DAOS_SHORT_CIRCUIT then
    ⟨-c.H5_DAOS_PRE_ERROR, some (-c.H5_DAOS_PRE_ERROR), false⟩
  else if req.status = -c.H5_DAOS_SHORT_CIRCUIT then
    ⟨-c.H5_DAOS_SHORT_CIRCUIT, some (-c.H5_DAOS_SHORT_CIRCUIT), false⟩
  else if args_non_null = false then
    ⟨-c.H5_DAOS_DAOS_GET_ERROR, some (-c.H5_DAOS_DAOS_GET_ERROR), false⟩
  else ⟨0, none, true⟩

/-- The prepare callback `H5_daos_obj_open_prep_cb` (lines 4207-4243). -/
def H5_daos_obj_open_prep_cb (c : Codes) (udata_non_null : Bool) (args_non_null : Bool)
    (req : H5_daos_req_t) : PrepOut :=
  if udata_non_null = false then ⟨-c.H5_DAOS_DAOS_GET_ERROR, none, false⟩
  else if req.status < -c.H5_DAOS_SHORT_CIRCUIT then
    ⟨-c.H5_DAOS_PRE_ERROR, some (-c.H5_DAOS_PRE_ERROR), false⟩
  else if req.status = -c.H5_DAOS_SHORT_CIRCUIT then
    ⟨-c.H5_DAOS_SHORT_CIRCUIT, some (-c.H5_DAOS_SHORT_CIRCUIT), false⟩
  else if args_non_null = false then
    ⟨-c.H5_DAOS_DAOS_GET_ERROR, some (-c.H5_DAOS_DAOS_GET_ERROR), false⟩
  else ⟨0, none, true⟩

/-- The short-circuit check in the words of the claim, for a callback that
gave the outcome `out` on a request with the given status: on an unrecoverable
error the task is completed with `-H5_DAOS_PRE_ERROR` and no argument is
filled in, on a short circuit it is completed with `-H5_DAOS_SHORT_CIRCUIT`
and no argument is filled in. -/
def short_circuit_check (c : Codes) (status : Int) (out : PrepOut) : Prop :=
  (status < -c.H5_DAOS_SHORT_CIRCUIT →
    out.completed = some (-c.H5_DAOS_PRE_ERROR) ∧ out.args_set = false) ∧
  (status = -c.H5_DAOS_SHORT_CIRCUIT →
    out.completed = some (-c.H5_DAOS_SHORT_CIRCUIT) ∧ out.args_set = false)

/-! ## The progress pump -/

/-- Constants of the progress pump that come from headers outside `src/`:
the poll interval of `daos_vol.h` and the engine's timed-out code. -/
structure PumpConsts where
  H5_DAOS_ASYNC_POLL_INTERVAL : Int
  DER_TIMEDOUT : Int
deriving DecidableEq, Repr

/-- A concrete assignment of the pump constants, used to evaluate the model. -/
def samplePump : PumpConsts where
  H5_DAOS_ASYNC_POLL_INTERVAL := 10
  DER_TIMEDOUT := 1011

/-- The C constant `INT64_MAX`. -/
def INT64_MAX : Int := 2 ^ 63 - 1

/-- The HDF5 return value `FAIL`. -/
def FAIL : Int := -1

/-- The HDF5 return value `SUCCEED`. -/
def SUCCEED : Int := 0

/-- What one call of `daos_progress` did, as seen by the pump: its return
value, the value it left in the `is_empty` flag it was given, and the
broadcast task, if any, whose body `H5_daos_mpi_ibcast_task` the engine ran
during the call. -/
structure EngineCall where
  ret : Int
  is_empty : Bool
  mpi_task_started : Option Nat
deriving DecidableEq, Repr

/-- What the world does during one pass of the pump loop: the result of
`MPI_Test` (whether it returned `MPI_SUCCESS`, and the flag it wrote), the
engine calls (the second one is made by `H5_daos_progress_2` only), and the
status of the request when the loop condition reads it. -/
structure PassEnv where
  mpi_test_ok : Bool
  mpi_test_completed : Bool
  call1 : EngineCall
  call2 : EngineCall
  req_status : Int
deriving DecidableEq, Repr

/-- What the pump does that is visible from outside: a poll of the in-flight
broadcast, a forced completion of a task (with the value of the global slot
`H5_daos_mpi_task_g` at the time of the call), an engine progress call with
its time slice. -/
inductive PumpEvent
  | MPI_Test (task : Nat)
  | tse_task_complete (task : Nat) (code : Int) (slot_at_call : Option Nat)
  | daos_progress (sched : Nat) (slice : Int)
deriving DecidableEq, Repr

/-- The variables of `H5_daos_progress` / `H5_daos_progress_2`, the global
in-flight slot, and the trace of what was done. -/
structure PumpState where
  timeout_rem : Int
  ret_value : Int
  is_empty1 : Bool
  is_empty2 : Bool
  H5_daos_mpi_task_g : Option Nat
  trace : List PumpEvent
deriving DecidableEq, Repr

/-- Outcome of a run of the pump: an `assert` failed, the model ran out of
fuel, or the function returned in the given state. -/
inductive PumpResult
  | assert_failed
  | out_of_fuel
  | returned (st : PumpState)
deriving DecidableEq, Repr

/-- The task body `H5_daos_mpi_ibcast_task` (lines 3685-3714) as far as the
global slot goes: `assert(!H5_daos_mpi_task_g)`, then, when `MPI_Ibcast`
succeeds, the task registers itself as the in-flight one.  Gives the new slot
and the return value. -/
def H5_daos_mpi_ibcast_task (c : Codes) (slot : Option Nat) (task : Nat) (ibcast_ok : Bool) :
    Option (Option Nat × Int) :=
  match slot with
  | some _ => none
  | none => if ibcast_ok then some (some task, 0) else some (none, -c.H5_DAOS_MPI_ERROR)

/-- The block "Progress MPI if there is a task in flight" (lines 4788-4805,
the same at 4856-4873).  `D_DONE_ERROR` sets `ret_value` to `FAIL` and goes
on; the test that follows reads `ret_value`. -/
def progress_mpi (c : Codes) (e : PassEnv) (st : PumpState) : PumpState :=
  match st.H5_daos_mpi_task_g with
  | none => st
  | some t =>
    let ret_value := if e.mpi_test_ok then st.ret_value else FAIL
    if ret_value < 0 then
      { st with
        ret_value := ret_value
        H5_daos_mpi_task_g := none
        trace := st.trace ++ [.MPI_Test t, .tse_task_complete t (-c.H5_DAOS_MPI_ERROR) none] }
    else if e.mpi_test_completed then
      { st with
        ret_value := ret_value
        H5_daos_mpi_task_g := none
        trace := st.trace ++ [.MPI_Test t, .tse_task_complete t 0 none] }
    else
      { st with ret_value := ret_value, trace := st.trace ++ [.MPI_Test t] }

/-- The slot after the engine ran (or did not run) a broadcast task body
during a progress call. -/
def engine_slot (c : Codes) (slot : Option Nat) (started : Option Nat) : Option (Option Nat) :=
  match started with
  | none => some slot
  | some t => (H5_daos_mpi_ibcast_task c slot t true).map (fun r => r.1)

/-- One "Progress DAOS" block followed by "Advance time": the call
`daos_progress(sched, timeout_rem > INTERVAL ? INTERVAL : timeout_rem, flag)`,
`D_GOTO_ERROR(FAIL)` when it returns neither 0 nor `-DER_TIMEDOUT`, else
`timeout_rem -= INTERVAL`.  `first_flag` says which flag receives the
emptiness report.  The boolean of the result is whether the function jumped
to `done`. -/
def progress_daos (c : Codes) (k : PumpConsts) (sched : Nat) (first_flag : Bool)
    (e : EngineCall) (st : PumpState) : Option (PumpState × Bool) :=
  match engine_slot c st.H5_daos_mpi_task_g e.mpi_task_started with
  | none => none
  | some slot =>
    let slice := if st.timeout_rem > k.H5_DAOS_ASYNC_POLL_INTERVAL
      then k.H5_DAOS_ASYNC_POLL_INTERVAL else st.timeout_rem
    let st1 : PumpState :=
      { st with
        H5_daos_mpi_task_g := slot
        is_empty1 := if first_flag then e.is_empty else st.is_empty1
        is_empty2 := if first_flag then st.is_empty2 else e.is_empty
        trace := st.trace ++ [.daos_progress sched slice] }
    if e.ret ≠ 0 ∧ e.ret ≠ -k.DER_TIMEDOUT then
      some ({ st1 with ret_value := FAIL }, true)
    else
      some ({ st1 with timeout_rem := st1.timeout_rem - k.H5_DAOS_ASYNC_POLL_INTERVAL }, false)

/-- The loop condition of `H5_daos_progress` (lines 4816-4817). -/
def progress_cond (c : Codes) (req_given : Bool) (e : PassEnv) (st : PumpState) : Bool :=
  (if req_given then
      decide (e.req_status = -c.H5_DAOS_INCOMPLETE ∨ e.req_status = -c.H5_DAOS_SHORT_CIRCUIT)
    else !st.is_empty1)
  && decide (st.timeout_rem > 0)

/-- The `do ... while` loop of `H5_daos_progress` (lines 4786-4817), pass
number `i` onwards. -/
def progress_loop (c : Codes) (k : PumpConsts) (req_given : Bool) (env : Nat → PassEnv) :
    Nat → Nat → PumpState → PumpResult
  | 0, _, _ => .out_of_fuel
  | fuel + 1, i, st =>
    match progress_daos c k 1 true (env i).call1 (progress_mpi c (env i) st) with
    | none => .assert_failed
    | some (st1, true) => .returned st1
    | some (st1, false) =>
      if progress_cond c req_given (env i) st1 then
        progress_loop c k req_given env fuel (i + 1) st1
      else .returned st1

/-- The state in which the pump loop is entered: `timeout_rem` set "being
careful to avoid overflow", `is_empty` flags `FALSE`, `ret_value = SUCCEED`. -/
def pump_init (timeout : Nat) (slot : Option Nat) : PumpState :=
  { timeout_rem := if (timeout : Int) > INT64_MAX then INT64_MAX else timeout
    ret_value := SUCCEED
    is_empty1 := false
    is_empty2 := false
    H5_daos_mpi_task_g := slot
    trace := [] }

/-- The function `H5_daos_progress` (lines 4771-4821).  `req_given` is
whether `req` is non-NULL, `slot` the global in-flight task on entry.  The
fuel is one more than the remaining timeout, which is enough whenever the
poll interval is positive. -/
def H5_daos_progress (c : Codes) (k : PumpConsts) (req_given : Bool) (timeout : Nat)
    (slot : Option Nat) (env : Nat → PassEnv) : PumpResult :=
  progress_loop c k req_given env ((pump_init timeout slot).timeout_rem.toNat + 1) 0
    (pump_init timeout slot)

/-- The loop condition of `H5_daos_progress_2` (lines 4894-4895). -/
def progress_2_cond (c : Codes) (req_given : Bool) (e : PassEnv) (st : PumpState) : Bool :=
  (if req_given then
      decide (e.req_status = -c.H5_DAOS_INCOMPLETE ∨ e.req_status = -c.H5_DAOS_SHORT_CIRCUIT)
    else !(st.is_empty1 && st.is_empty2))
  && decide (st.timeout_rem > 0)

/-- The `do ... while` loop of `H5_daos_progress_2` (lines 4854-4895).  Both
engine calls are given `&is_empty1` (lines 4878 and 4888). -/
def progress_2_loop (c : Codes) (k : PumpConsts) (req_given : Bool) (env : Nat → PassEnv) :
    Nat → Nat → PumpState → PumpResult
  | 0, _, _ => .out_of_fuel
  | fuel + 1, i, st =>
    match progress_daos c k 1 true (env i).call1 (progress_mpi c (env i) st) with
    | none => .assert_failed
    | some (st1, true) => .returned st1
    | some (st1, false) =>
      match progress_daos c k 2 true (env i).call2 st1 with
      | none => .assert_failed
      | some (st2, true) => .returned st2
      | some (st2, false) =>
        if progress_2_cond c req_given (env i) st2 then
          progress_2_loop c k req_given env fuel (i + 1) st2
        else .returned st2

/-- The function `H5_daos_progress_2` (lines 4836-4899). -/
def H5_daos_progress_2 (c : Codes) (k : PumpConsts) (req_given : Bool) (timeout : Nat)
    (slot : Option Nat) (env : Nat → PassEnv) : PumpResult :=
  progress_2_loop c k req_given env ((pump_init timeout slot).timeout_rem.toNat + 1) 0
    (pump_init timeout slot)

/-- The time slices of the engine progress calls of a trace, in order. -/
def slices : List PumpEvent → List Int
  | [] => []
  | .daos_progress _ s :: rest => s :: slices rest
  | _ :: rest => slices rest

/-- The forced completions of a trace, in order: task and code. -/
def completions : List PumpEvent → List (Nat × Int)
  | [] => []
  | .tse_task_complete t code _ :: rest => (t, code) :: completions rest
  | _ :: rest => completions rest

/-- The condition under which the claim says the pump loops again after a
pass: with a request, its status is incomplete or short circuit; without one,
the engine did not report its queue empty. -/
def keep_going (c : Codes) (req_given : Bool) (e : PassEnv) : Prop :=
  if req_given then
    e.req_status = -c.H5_DAOS_INCOMPLETE ∨ e.req_status = -c.H5_DAOS_SHORT_CIRCUIT
  else e.call1.is_empty = false

/-- The engine reported an error other than timed-out in the given pass. -/
def engine_error (k : PumpConsts) (e : PassEnv) : Prop :=
  e.call1.ret ≠ 0 ∧ e.call1.ret ≠ -k.DER_TIMEDOUT

/-! ## Object identifiers -/

/-- The HDF5 identifier types that reach the identifier code. -/
inductive H5I_type_t
  | H5I_BADID
  | H5I_FILE
  | H5I_GROUP
  | H5I_DATATYPE
  | H5I_DATASPACE
  | H5I_DATASET
  | H5I_MAP
  | H5I_ATTR
deriving DecidableEq, Repr

/-- The type tags and their mask, constants of `daos_vol.h` (outside `src/`);
64-bit values. -/
structure TypeConsts where
  H5_DAOS_TYPE_MASK : Nat
  H5_DAOS_TYPE_GRP : Nat
  H5_DAOS_TYPE_DSET : Nat
  H5_DAOS_TYPE_DTYPE : Nat
  H5_DAOS_TYPE_MAP : Nat
deriving DecidableEq, Repr

/-- A concrete assignment of the type constants: the tags in "the upper 2 bits
of the lower 32 of oid.hi", as the comment in `H5_daos_oid_encode` puts it;
used to evaluate the model. -/
def sampleTypes : TypeConsts where
  H5_DAOS_TYPE_MASK := 3 * 2 ^ 30
  H5_DAOS_TYPE_GRP := 0
  H5_DAOS_TYPE_DSET := 2 ^ 30
  H5_DAOS_TYPE_DTYPE := 2 * 2 ^ 30
  H5_DAOS_TYPE_MAP := 3 * 2 ^ 30

/-- The object classes and feature flags of the store's headers. -/
structure DaosConsts where
  OC_UNKNOWN : Nat
  OC_SX : Nat
  OC_S1 : Nat
  DAOS_OF_DKEY_LEXICAL : Nat
  DAOS_OF_AKEY_LEXICAL : Nat
  DAOS_OF_DKEY_HASHED : Nat
deriving DecidableEq, Repr

/-- A concrete assignment of the store's constants, used to evaluate the
model. -/
def sampleDaos : DaosConsts where
  OC_UNKNOWN := 0
  OC_SX := 214
  OC_S1 := 200
  DAOS_OF_DKEY_LEXICAL := 2
  DAOS_OF_AKEY_LEXICAL := 8
  DAOS_OF_DKEY_HASHED := 4

/-- The 128-bit object identifier `daos_obj_id_t`: two 64-bit words. -/
structure daos_obj_id_t where
  lo : Nat
  hi : Nat
deriving DecidableEq, Repr

/-- What the property-list queries of `H5_daos_oid_encode` find:
`crt_plist_id == H5P_DEFAULT`, `H5Pexist` failing, the property not existing,
`H5Pget` failing, or `H5Pget` giving the string pointer (`none` is `NULL`). -/
inductive PlistProp
  | H5P_DEFAULT
  | exist_error
  | absent
  | get_error
  | value (oclass_str : Option String)
deriving DecidableEq, Repr

/-- The type tag `H5_daos_oid_encode` stores in `oid->hi` (lines 2755-2764);
`none` is the failing `assert(obj_type == H5I_MAP)`. -/
def type_tag (t : TypeConsts) (obj_type : H5I_type_t) : Option Nat :=
  if obj_type = .H5I_GROUP then some t.H5_DAOS_TYPE_GRP
  else if obj_type = .H5I_DATASET then some t.H5_DAOS_TYPE_DSET
  else if obj_type = .H5I_DATATYPE then some t.H5_DAOS_TYPE_DTYPE
  else if obj_type = .H5I_MAP then some t.H5_DAOS_TYPE_MAP
  else none

/-- The block "Check for object class set on crt_plist_id" (lines 2776-2789):
the value of `object_class` after it, `none` when it leaves through
`D_GOTO_ERROR(FAIL)`.  `name2id` is the store's `daos_oclass_name2id`. -/
def plist_object_class (d : DaosConsts) (name2id : String → Nat) (plist : PlistProp) :
    Option Nat :=
  match plist with
  | .H5P_DEFAULT => some d.OC_UNKNOWN
  | .exist_error => none
  | .absent => some d.OC_UNKNOWN
  | .get_error => none
  | .value none => some d.OC_UNKNOWN
  | .value (some s) =>
    if s ≠ "" then
      if d.OC_UNKNOWN = name2id s then none else some (name2id s)
    else some d.OC_UNKNOWN

/-- What `H5_daos_oid_encode` did: its return value, the identifier as it
leaves it, and the feature flags and object class it passed to
`H5_daos_obj_generate_id` when it got that far. -/
structure EncodeResult where
  ret_value : Int
  oid : daos_obj_id_t
  generate_call : Option (Nat × Nat)
deriving DecidableEq, Repr

/-- The function `H5_daos_oid_encode` (lines 2741-2806).  `gen` is
`H5_daos_obj_generate_id` (header and store, outside `src/`), taken as a
parameter; `default_object_class` is `file->fapl_cache.default_object_class`.
The result is `none` when the `assert` on the object type fails. -/
def H5_daos_oid_encode (t : TypeConsts) (d : DaosConsts) (name2id : String → Nat)
    (gen : daos_obj_id_t → Nat → Nat → daos_obj_id_t) (oidx : Nat) (obj_type : H5I_type_t)
    (plist : PlistProp) (default_object_class : Nat) : Option EncodeResult :=
  match type_tag t obj_type with
  | none => none
  | some hi =>
    let oid : daos_obj_id_t := { lo := oidx, hi := hi }
    let object_feats :=
      if obj_type = .H5I_GROUP then d.DAOS_OF_DKEY_LEXICAL ||| d.DAOS_OF_AKEY_LEXICAL
      else d.DAOS_OF_DKEY_HASHED ||| d.DAOS_OF_AKEY_LEXICAL
    match plist_object_class d name2id plist with
    | none => some { ret_value := FAIL, oid := oid, generate_call := none }
    | some oc =>
      let oc1 := if oc = d.OC_UNKNOWN then default_object_class else oc
      let oc2 :=
        if oc1 = d.OC_UNKNOWN then (if obj_type = .H5I_DATASET then d.OC_SX else d.OC_S1)
        else oc1
      some { ret_value := SUCCEED, oid := gen oid object_feats oc2,
             generate_call := some (object_feats, oc2) }

/-- The function `H5_daos_oid_to_type` (lines 3036-3053). -/
def H5_daos_oid_to_type (t : TypeConsts) (oid : daos_obj_id_t) : H5I_type_t :=
  let type_bits := oid.hi &&& t.H5_DAOS_TYPE_MASK
  if type_bits = t.H5_DAOS_TYPE_GRP then .H5I_GROUP
  else if type_bits = t.H5_DAOS_TYPE_DSET then .H5I_DATASET
  else if type_bits = t.H5_DAOS_TYPE_DTYPE then .H5I_DATATYPE
  else if type_bits = t.H5_DAOS_TYPE_MAP then .H5I_MAP
  else .H5I_BADID

/-- The closed set of object kinds of the claim. -/
def is_object_kind (obj_type : H5I_type_t) : Prop :=
  obj_type = .H5I_GROUP ∨ obj_type = .H5I_DATASET ∨ obj_type = .H5I_DATATYPE ∨
  obj_type = .H5I_MAP

/-- An id-generation step that stands for the store's in evaluations: it
writes the feature flags and the class into the upper 32 bits of `hi` and
keeps the lower 32 bits. -/
def sample_generate_id (oid : daos_obj_id_t) (feats cid : Nat) : daos_obj_id_t :=
  { lo := oid.lo, hi := oid.hi % 2 ^ 32 + 2 ^ 32 * ((feats * 2 ^ 16 + cid) % 2 ^ 32) }

/-- A stand-in for the store's table of class names in evaluations. -/
def sample_name2id (s : String) : Nat :=
  if s = "SX" then 214 else if s = "S1" then 200 else if s = "RP_2G1" then 240 else 0

/-- The override a creation call supplies, in the words of the claim: the
string of the object-class property when the property is there, not `NULL`
and not empty; otherwise there is none. -/
def call_override (plist : PlistProp) : Option String :=
  match plist with
  | .value (some s) => if s = "" then none else some s
  | _ => none

/-- The override chain in the words of the claim, first match wins: the class
named by the creation call's override, an error (`none`) when the store does
not know the name; else the file's default class when it is not `OC_UNKNOWN`;
else `OC_SX` for datasets and `OC_S1` for every other kind. -/
def placement_class_spec (d : DaosConsts) (name2id : String → Nat) (obj_type : H5I_type_t)
    (override : Option String) (default_object_class : Nat) : Option Nat :=
  match override with
  | some s => if name2id s = d.OC_UNKNOWN then none else some (name2id s)
  | none =>
    if default_object_class ≠ d.OC_UNKNOWN then some default_object_class
    else if obj_type = .H5I_DATASET then some d.OC_SX
    else some d.OC_S1

/-! ## The builders -/

/-- What a task runs: the store operation it was created for with
`daos_task_create`, the body given to `tse_task_create`, or nothing at all
(`tse_task_create(NULL, ...)`, a meta task). -/
inductive TaskFn
  | DAOS_OPC_POOL_CONNECT
  | DAOS_OPC_POOL_DISCONNECT
  | DAOS_OPC_POOL_QUERY
  | DAOS_OPC_OBJ_OPEN
  | DAOS_OPC_CONT_ALLOC_OIDS
  | DAOS_OPC_OBJ_LIST
  | H5_daos_mpi_ibcast_task
  | H5_daos_list_key_finish
  | H5_daos_oid_encode_task
  | no_body
deriving DecidableEq, Repr

/-- An engine task as the builders leave it: what it runs, the tasks it waits
for, whether callbacks were registered on it, whether it carries private data,
and whether it was handed to `tse_task_schedule`. -/
structure Task where
  fn : TaskFn
  deps : List Nat
  cbs : Bool
  priv : Bool
  scheduled : Bool
deriving DecidableEq, Repr

/-- What a builder reads and writes: the tasks created so far (a task is named
by its position), `*first_task`, `*dep_task`, `req->rc`, and the numbers of
private-data blocks allocated and freed by builders. -/
structure BuildState where
  tasks : List Task
  first_task : Option Nat
  dep_task : Option Nat
  rc : Int
  mallocs : Nat
  frees : Nat
deriving DecidableEq, Repr

/-- The results of the allocations and engine calls one builder makes; an
engine call succeeds when it returns 0. -/
structure BuildEnv where
  malloc_ok : Bool
  buffer_ok : Bool
  task_create_ret : Int
  metatask_create_ret : Int
  register_deps_ret : Int
  register_cbs_ret : Int
  get_args_ok : Bool
  schedule_ret : Int
  metatask_deps_ret : Int
  metatask_schedule_ret : Int
deriving DecidableEq, Repr

/-- The environment in which every allocation and engine call succeeds. -/
def BuildEnv.ok : BuildEnv :=
  { malloc_ok := true, buffer_ok := true, task_create_ret := 0, metatask_create_ret := 0,
    register_deps_ret := 0, register_cbs_ret := 0, get_args_ok := true, schedule_ret := 0,
    metatask_deps_ret := 0, metatask_schedule_ret := 0 }

/-- The end shared by the single-task builders: "schedule the task (or save
it to be scheduled later) and give it a reference to req", then `*dep_task =
task`.  `freed` is the state the `done:` block leaves when scheduling fails,
`st1` the state before the task `t` is added. -/
def schedule_or_first (e : BuildEnv) (st st1 freed : BuildState) (t : Task) :
    Int × BuildState :=
  match st.first_task with
  | some _ =>
    if e.schedule_ret ≠ 0 then (FAIL, { freed with tasks := st.tasks ++ [t] })
    else
      (SUCCEED, { st1 with
        tasks := st.tasks ++ [{ t with scheduled := true }]
        rc := st.rc + 1
        dep_task := some st.tasks.length })
  | none =>
    (SUCCEED, { st1 with
      tasks := st.tasks ++ [t]
      first_task := some st.tasks.length
      rc := st.rc + 1
      dep_task := some st.tasks.length })

/-- The sequence of calls of the three pool builders (lines 1525-1569,
1729-1762, 1910-1945): allocate the private data, `daos_task_create` with
`*dep_task` as the only dependency, `tse_task_register_cbs`,
`tse_task_set_priv`, schedule or save as first task, `req->rc++`; on failure
the `done:` block frees the private data. -/
def pool_builder (fn : TaskFn) (e : BuildEnv) (st : BuildState) : Int × BuildState :=
  if e.malloc_ok = false then (FAIL, st)
  else
    let st1 := { st with mallocs := st.mallocs + 1 }
    let freed := { st1 with frees := st1.frees + 1 }
    if e.task_create_ret ≠ 0 then (FAIL, freed)
    else
      let t : Task := ⟨fn, st.dep_task.toList, false, false, false⟩
      if e.register_cbs_ret ≠ 0 then (FAIL, { freed with tasks := st.tasks ++ [t] })
      else schedule_or_first e st st1 freed { t with cbs := true, priv := true }

/-- The builder `H5_daos_pool_connect` (lines 1506-1571). -/
def H5_daos_pool_connect (e : BuildEnv) (st : BuildState) : Int × BuildState :=
  pool_builder .DAOS_OPC_POOL_CONNECT e st

/-- The builder `H5_daos_pool_disconnect` (lines 1714-1770). -/
def H5_daos_pool_disconnect (e : BuildEnv) (st : BuildState) : Int × BuildState :=
  pool_builder .DAOS_OPC_POOL_DISCONNECT e st

/-- The builder `H5_daos_pool_query` (lines 1894-1951). -/
def H5_daos_pool_query (e : BuildEnv) (st : BuildState) : Int × BuildState :=
  pool_builder .DAOS_OPC_POOL_QUERY e st

/-- The sequence of calls of `H5_daos_obj_open` (lines 4277-4310) and of the
batch-allocation block of `H5_daos_oidx_generate` (lines 2359-2398):
`daos_task_create` with `*dep_task` as the only dependency,
`tse_task_register_cbs`, allocate the private data and set it on the task,
`daos_task_get_args`, schedule or save as first task, `req->rc++`; on failure
the private data is freed if it was allocated. -/
def args_builder (fn : TaskFn) (e : BuildEnv) (st : BuildState) : Int × BuildState :=
  if e.task_create_ret ≠ 0 then (FAIL, st)
  else
    let t : Task := ⟨fn, st.dep_task.toList, false, false, false⟩
    if e.register_cbs_ret ≠ 0 then (FAIL, { st with tasks := st.tasks ++ [t] })
    else if e.malloc_ok = false then
      (FAIL, { st with tasks := st.tasks ++ [{ t with cbs := true }] })
    else
      let st1 := { st with mallocs := st.mallocs + 1 }
      let freed := { st1 with frees := st1.frees + 1 }
      let t1 : Task := { t with cbs := true, priv := true }
      if e.get_args_ok = false then (FAIL, { freed with tasks := st.tasks ++ [t1] })
      else schedule_or_first e st st1 freed t1

/-- The builder `H5_daos_obj_open` (lines 4260-4321). -/
def H5_daos_obj_open (e : BuildEnv) (st : BuildState) : Int × BuildState :=
  args_builder .DAOS_OPC_OBJ_OPEN e st

/-- The builder `H5_daos_oidx_bcast` (lines 2519-2584): allocate the private
data, `tse_task_create` with the broadcast body and the private data,
`tse_task_register_deps` on `*dep_task` if there is one,
`tse_task_register_cbs`, schedule or save as first task, `req->rc++`. -/
def H5_daos_oidx_bcast (e : BuildEnv) (st : BuildState) : Int × BuildState :=
  if e.malloc_ok = false then (FAIL, st)
  else
    let st1 := { st with mallocs := st.mallocs + 1 }
    let freed := { st1 with frees := st1.frees + 1 }
    if e.task_create_ret ≠ 0 then (FAIL, freed)
    else
      let t : Task := ⟨.H5_daos_mpi_ibcast_task, [], false, true, false⟩
      if st.dep_task.isSome ∧ e.register_deps_ret ≠ 0 then
        (FAIL, { freed with tasks := st.tasks ++ [t] })
      else
        let t1 : Task := { t with deps := st.dep_task.toList }
        if e.register_cbs_ret ≠ 0 then (FAIL, { freed with tasks := st.tasks ++ [t1] })
        else schedule_or_first e st st1 freed { t1 with cbs := true }

/-- The builder `H5_daos_mpi_ibcast` (lines 4339-4428).  `udata_given` is
whether the caller passed `_bcast_udata`, `buffer_given` whether that struct
already has a buffer.  The meta task is the task at position
`st.tasks.length`, the broadcast task the one after it.  The cleanup frees
the buffer and the struct whenever the struct is there, the caller's too. -/
def H5_daos_mpi_ibcast (e : BuildEnv) (udata_given buffer_given : Bool) (st : BuildState) :
    Int × BuildState :=
  if udata_given = false ∧ e.malloc_ok = false then (FAIL, st)
  else
    let st1 := { st with mallocs := st.mallocs + (if udata_given then 0 else 1) }
    let has_buffer := udata_given && buffer_given
    if has_buffer = false ∧ e.buffer_ok = false then
      (FAIL, { st1 with frees := st1.frees + 1 })
    else
      let st2 := { st1 with mallocs := st1.mallocs + (if has_buffer then 0 else 1) }
      let freed := { st2 with frees := st2.frees + 2 }
      if e.metatask_create_ret ≠ 0 then (FAIL, freed)
      else
        let meta : Task := ⟨.no_body, [], false, false, false⟩
        if e.task_create_ret ≠ 0 then (FAIL, { freed with tasks := st.tasks ++ [meta] })
        else
          let b : Task := ⟨.H5_daos_mpi_ibcast_task, [], false, true, false⟩
          if st.dep_task.isSome ∧ e.register_deps_ret ≠ 0 then
            (FAIL, { freed with tasks := st.tasks ++ [meta, b] })
          else
            let b1 : Task := { b with deps := st.dep_task.toList }
            if e.register_cbs_ret ≠ 0 then
              (FAIL, { freed with tasks := st.tasks ++ [meta, b1] })
            else
              let b2 : Task := { b1 with cbs := true }
              if e.metatask_schedule_ret ≠ 0 then
                (FAIL, { freed with tasks := st.tasks ++ [meta, b2] })
              else
                let meta1 : Task := { meta with scheduled := true }
                match st.first_task with
                | some _ =>
                  if e.schedule_ret ≠ 0 then
                    (FAIL, { freed with tasks := st.tasks ++ [meta1, b2] })
                  else
                    (SUCCEED, { st2 with
                      tasks := st.tasks ++ [meta1, { b2 with scheduled := true }]
                      rc := st.rc + 1
                      dep_task := some st.tasks.length })
                | none =>
                  (SUCCEED, { st2 with
                    tasks := st.tasks ++ [meta1, b2]
                    first_task := some (st.tasks.length + 1)
                    rc := st.rc + 1
                    dep_task := some st.tasks.length })

/-- The task-building side of `H5_daos_oidx_generate` (lines 2336-2422), with
the fallible calls: when the lease is exhausted, the batch-allocation task is
built unless the call is collective on a rank other than 0, then
`H5_daos_oidx_bcast` is called when the call is collective with more than one
process.  `e` holds the results of the builder's own calls, `eb` those of the
broadcast builder.  With a lease that is not exhausted no task is built. -/
def H5_daos_oidx_generate_tasks (e eb : BuildEnv) (file : H5_daos_file_t) (collective : Bool)
    (st : BuildState) : Int × BuildState :=
  let l := file.lease collective
  if l.max_oidx = 0 ∨ l.next_oidx > l.max_oidx then
    let r : Int × BuildState :=
      if collective = false ∨ file.my_rank = 0 then args_builder .DAOS_OPC_CONT_ALLOC_OIDS e st
      else (SUCCEED, st)
    if r.1 < 0 then r
    else if collective = true ∧ file.num_procs > 1 then
      let rb := H5_daos_oidx_bcast eb r.2
      if rb.1 < 0 then (FAIL, rb.2) else (SUCCEED, rb.2)
    else r
  else (SUCCEED, st)

/-- Apply `f` to the task at position `i`. -/
def modify_task (f : Task → Task) : Nat → List Task → List Task
  | _, [] => []
  | 0, t :: rest => f t :: rest
  | i + 1, t :: rest => t :: modify_task f i rest

/-- The block that queues the iteration meta task `m` on a failure (lines
4006-4018, and again 4131-4141): make it depend on `*dep_task` if there is
one, schedule it or save it as first task, and make it the new `*dep_task`.
A failing call here replaces `ret_value` (`D_DONE_ERROR`) and goes on. -/
def queue_metatask (e : BuildEnv) (m : Nat) (ret_value : Int) (st : BuildState) :
    Int × BuildState :=
  let deps_fail : Bool := st.dep_task.isSome && decide (e.metatask_deps_ret ≠ 0)
  let ret1 := if deps_fail then e.metatask_deps_ret else ret_value
  let tasks1 :=
    if deps_fail then st.tasks
    else modify_task (fun t => { t with deps := t.deps ++ st.dep_task.toList }) m st.tasks
  match st.first_task with
  | some _ =>
    if e.metatask_schedule_ret ≠ 0 then
      (e.metatask_schedule_ret, { st with tasks := tasks1, dep_task := some m })
    else
      (ret1, { st with
        tasks := modify_task (fun t => { t with scheduled := true }) m tasks1
        dep_task := some m })
  | none => (ret1, { st with tasks := tasks1, first_task := some m, dep_task := some m })

/-- The function `H5_daos_list_key_start` (lines 3947-4021); `m` is the
iteration meta task of the private data it is given.  On success the list
task holds the private data and `*dep_task` becomes the meta task; on failure
the meta task is queued instead.  It does not touch `req->rc`. -/
def H5_daos_list_key_start (c : Codes) (e : BuildEnv) (m : Nat) (st : BuildState) :
    Int × BuildState :=
  if e.task_create_ret ≠ 0 then queue_metatask e m e.task_create_ret st
  else
    let t : Task := ⟨.DAOS_OPC_OBJ_LIST, st.dep_task.toList, false, false, false⟩
    if e.register_cbs_ret ≠ 0 then
      queue_metatask e m e.register_cbs_ret { st with tasks := st.tasks ++ [t] }
    else
      let t1 : Task := { t with cbs := true, priv := true }
      if e.get_args_ok = false then
        queue_metatask e m (-c.H5_DAOS_DAOS_GET_ERROR) { st with tasks := st.tasks ++ [t1] }
      else
        match st.first_task with
        | some _ =>
          if e.schedule_ret ≠ 0 then
            queue_metatask e m e.schedule_ret { st with tasks := st.tasks ++ [t1] }
          else
            (0, { st with
              tasks := st.tasks ++ [{ t1 with scheduled := true }]
              dep_task := some m })
        | none =>
          (0, { st with
            tasks := st.tasks ++ [t1]
            first_task := some st.tasks.length
            dep_task := some m })

/-- The results of the allocations `H5_daos_list_key_init` makes itself. -/
structure ListKeyEnv where
  udata_ok : Bool
  iter_data_ok : Bool
  kds_ok : Bool
  key_buf_ok : Bool
deriving DecidableEq, Repr

/-- The branch "No metatask, clean up directly here" of
`H5_daos_list_key_init` (lines 4144-4172): `blocks` is the number of buffers
the private data holds besides the copy of the iteration data, `iter_copy`
whether that copy was made; the copy is freed only for a recursive
iteration. -/
def list_key_direct_cleanup (ret_value : Int) (is_recursive base_iter iter_copy : Bool)
    (blocks : Nat) (st : BuildState) : Int × BuildState :=
  let n_iter := if is_recursive && base_iter && iter_copy then 1 else 0
  (ret_value, { st with frees := st.frees + n_iter + blocks + 1 })

/-- The function `H5_daos_list_key_init` (lines 4046-4184).  `big_kds` is
whether the key descriptors do not fit the static array.  The meta task, with
the body `H5_daos_list_key_finish` and the private data, is the task at
position `st.tasks.length`. -/
def H5_daos_list_key_init (c : Codes) (le : ListKeyEnv) (e : BuildEnv)
    (base_iter is_recursive big_kds : Bool) (st : BuildState) : Int × BuildState :=
  if le.udata_ok = false then (FAIL, st)
  else
    let st1 := { st with mallocs := st.mallocs + 1 }
    if base_iter = true ∧ le.iter_data_ok = false then
      list_key_direct_cleanup FAIL is_recursive base_iter false 0 st1
    else
      let st2 := { st1 with mallocs := st1.mallocs + (if base_iter then 1 else 0) }
      if big_kds = true ∧ le.kds_ok = false then
        list_key_direct_cleanup (-c.H5_DAOS_ALLOC_ERROR) is_recursive base_iter base_iter 0 st2
      else
        let n_kds := if big_kds then 1 else 0
        let st3 := { st2 with mallocs := st2.mallocs + n_kds }
        if le.key_buf_ok = false then
          list_key_direct_cleanup (-c.H5_DAOS_ALLOC_ERROR) is_recursive base_iter base_iter
            n_kds st3
        else
          let st4 := { st3 with mallocs := st3.mallocs + 1 }
          if e.metatask_create_ret ≠ 0 then
            list_key_direct_cleanup e.metatask_create_ret is_recursive base_iter base_iter
              (n_kds + 1) st4
          else
            let m := st.tasks.length
            let meta : Task := ⟨.H5_daos_list_key_finish, [], false, true, false⟩
            let r := H5_daos_list_key_start c e m { st4 with tasks := st4.tasks ++ [meta] }
            if r.1 ≠ 0 then
              if some m ≠ r.2.dep_task then queue_metatask e m r.1 r.2
              else r
            else (0, { r.2 with rc := r.2.rc + 1 })

/-- The task body `H5_daos_list_key_finish` (lines 3843-3931) as far as the
request goes: the end of a short circuit this iteration began, the errors of
`H5Idec_ref` (base of the iteration only) and `H5_daos_object_close`, the
block recording an error of the function itself, and the release of the
request.  Returns the request and the code the task is completed with. -/
def H5_daos_list_key_finish (c : Codes) (udata_non_null base_iter short_circuit_init
    dec_ref_ok close_ok : Bool) (req : H5_daos_req_t) : H5_daos_req_t × Int :=
  if udata_non_null = false then (req, -c.H5_DAOS_DAOS_GET_ERROR)
  else
    let req1 :=
      if base_iter = true ∧ short_circuit_init = true ∧ req.status = -c.H5_DAOS_SHORT_CIRCUIT
      then { req with status := -c.H5_DAOS_INCOMPLETE } else req
    let ret_value : Int :=
      if (base_iter = true ∧ dec_ref_ok = false) ∨ close_ok = false
      then -c.H5_DAOS_H5_CLOSE_ERROR else 0
    let req2 := record_own_error c ret_value "key list finish" req1
    let freed := H5_daos_req_free_int req2
    (freed.1, if freed.2 < 0 then -c.H5_DAOS_FREE_ERROR else ret_value)

/-- Whether `H5_daos_oidx_generate` has handed a task to the chain: the lease
is exhausted and either the batch-allocation block ran (the call is
independent or the rank is 0) and succeeded, or that block was skipped and the
broadcast builder succeeded. -/
def oidx_tasks_handed (e eb : BuildEnv) (file : H5_daos_file_t) (collective : Bool)
    (st : BuildState) : Bool :=
  decide ((file.lease collective).max_oidx = 0 ∨
      (file.lease collective).next_oidx > (file.lease collective).max_oidx) &&
    (if collective = false ∨ file.my_rank = 0 then
      decide (0 ≤ (args_builder .DAOS_OPC_CONT_ALLOC_OIDS e st).1)
     else decide (collective = true ∧ file.num_procs > 1) &&
      decide (0 ≤ (H5_daos_oidx_bcast eb st).1))

/-- The builder `H5_daos_oid_generate` (lines 2885-2966), as far as the chain,
the private data and the reference count go.  `eo` holds the results of the
builder's own allocation and engine calls, `e` and `eb` those of
`H5_daos_oidx_generate` and of the broadcast builder it calls; `encode_ok` is
the result of the synchronous `H5_daos_oid_encode`, `plist_default` whether
`crt_plist_id` is `H5P_DEFAULT` and `inc_ref_ok` the result of `H5Iinc_ref`.
The encoding is synchronous when `H5_daos_oidx_generate` left `*dep_task` as
it was; otherwise the encode task is created with the private data, made to
depend on `*dep_task`, scheduled or saved as first task, and given a
reference.  The `done:` block frees the private data unless the encode task
took it over. -/
def H5_daos_oid_generate (eo e eb : BuildEnv) (encode_ok plist_default inc_ref_ok : Bool)
    (file : H5_daos_file_t) (collective : Bool) (st : BuildState) : Int × BuildState :=
  if eo.malloc_ok = false then (FAIL, st)
  else
    let r := H5_daos_oidx_generate_tasks e eb file collective
      { st with mallocs := st.mallocs + 1 }
    let freed : BuildState := { r.2 with frees := r.2.frees + 1 }
    if r.1 < 0 then (FAIL, freed)
    else if r.2.dep_task = st.dep_task then
      (if encode_ok then SUCCEED else FAIL, freed)
    else if eo.task_create_ret ≠ 0 then (FAIL, freed)
    else
      let t : Task := ⟨.H5_daos_oid_encode_task, [], false, true, false⟩
      if r.2.dep_task.isSome ∧ eo.register_deps_ret ≠ 0 then
        (FAIL, { freed with tasks := r.2.tasks ++ [t] })
      else
        let t1 : Task := { t with deps := r.2.dep_task.toList }
        match r.2.first_task with
        | some _ =>
          if eo.schedule_ret ≠ 0 then (FAIL, { freed with tasks := r.2.tasks ++ [t1] })
          else if plist_default = false ∧ inc_ref_ok = false then
            (FAIL, { r.2 with
              tasks := r.2.tasks ++ [{ t1 with scheduled := true }]
              rc := r.2.rc + 1 })
          else
            (SUCCEED, { r.2 with
              tasks := r.2.tasks ++ [{ t1 with scheduled := true }]
              rc := r.2.rc + 1
              dep_task := some r.2.tasks.length })
        | none =>
          if plist_default = false ∧ inc_ref_ok = false then
            (FAIL, { r.2 with
              tasks := r.2.tasks ++ [t1]
              first_task := some r.2.tasks.length
              rc := r.2.rc + 1 })
          else
            (SUCCEED, { r.2 with
              tasks := r.2.tasks ++ [t1]
              first_task := some r.2.tasks.length
              rc := r.2.rc + 1
              dep_task := some r.2.tasks.length })

/-- Whether `H5_daos_list_key_init` gets as far as creating its meta task:
its allocations and `tse_task_create` succeed. -/
def metatask_exists (le : ListKeyEnv) (e : BuildEnv) (base_iter big_kds : Bool) : Bool :=
  le.udata_ok && (!base_iter || le.iter_data_ok) && (!big_kds || le.kds_ok) && le.key_buf_ok
    && decide (e.metatask_create_ret = 0)

/-- What `H5_daos_list_key_init` leaves when it fails after its meta task was
created ("The metatask should clean everything up"): the reference count is as
on entry, nothing was freed, the meta task, at position `st.tasks.length`,
keeps the private data and is the new `*dep_task`; it was saved as
`*first_task` when there was none, and otherwise scheduled when the engine
accepted it. -/
def left_to_metatask (e : BuildEnv) (st st1 : BuildState) : Prop :=
  st1.rc = st.rc ∧ st1.frees = st.frees ∧ st1.dep_task = some st.tasks.length ∧
  ∃ t, st1.tasks[st.tasks.length]? = some t ∧ t.fn = .H5_daos_list_key_finish ∧
    t.priv = true ∧
    (st.first_task = none → st1.first_task = some st.tasks.length) ∧
    (st.first_task ≠ none → e.metatask_schedule_ret = 0 → t.scheduled = true)

/-- The success contract of a builder for the task `t` it added to the chain
at position `st.tasks.length`: the incoming `*dep_task` is its only
predecessor; with no first task yet it is not scheduled and becomes the first
task, otherwise it is scheduled and the first task stays; the request gained
one reference. -/
def chained (st st1 : BuildState) (pos : Nat) (t : Task) : Prop :=
  t.deps = st.dep_task.toList ∧
  (st.first_task = none → t.scheduled = false ∧ st1.first_task = some pos) ∧
  (st.first_task ≠ none → t.scheduled = true ∧ st1.first_task = st.first_task) ∧
  st1.rc = st.rc + 1

/-- The failure contract of the claim: the request's count, `*first_task` and
`*dep_task` are as on entry, the builder freed as many blocks as it allocated
plus the `given` ones it was handed, and of the tasks it created none that
carries callbacks or a body is scheduled. -/
def failed_clean (st st1 : BuildState) (given : Nat) : Prop :=
  st1.rc = st.rc ∧ st1.first_task = st.first_task ∧ st1.dep_task = st.dep_task ∧
  st1.frees + st.mallocs = st.frees + st1.mallocs + given ∧
  ∃ new, st1.tasks = st.tasks ++ new ∧
    ∀ t ∈ new, t.scheduled = true → t.fn = .no_body ∧ t.cbs = false ∧ t.priv = false

/-! ## Property callbacks and the 128-bit hash -/

/-- The property callback `H5_daos_str_prop_compare` (lines 1007-1027); a
`NULL` string is `none`, and `strcmp` is the C library's. -/
def H5_daos_str_prop_compare (strcmp : String → String → Int)
    (value1 value2 : Option String) : Int :=
  match value1, value2 with
  | some s1, some s2 => strcmp s1 s2
  | some _, none => 1
  | none, some _ => -1
  | none, none => 0

/-- The property callback `H5_daos_bool_prop_compare` (lines 1054-1062):
`return *bool1 == *bool2;`. -/
def H5_daos_bool_prop_compare (bool1 bool2 : Bool) : Int :=
  if bool1 = bool2 then 1 else 0

/-- The intermediate values of `H5_daos_mult128` (lines 3066-3118), each as
the routine computes it in 64-bit arithmetic except that the three sums held
in `temp` and the two sums added into the answer words before the cross
products are kept unreduced, so that a wrap-around would show. -/
structure Mult128Steps where
  xlyl : Nat
  xlyh : Nat
  xhyl : Nat
  xhyh : Nat
  temp1 : Nat
  ans_lo : Nat
  temp2 : Nat
  temp3 : Nat
  ans_hi1 : Nat
deriving DecidableEq, Repr

/-- The first part of `H5_daos_mult128`: the product `x_lo * y_lo` assembled
from the four 32-bit partial products. -/
def mult128_steps (x_lo y_lo : Nat) : Mult128Steps :=
  let xlyl := ((x_lo &&& 0xffffffff) * (y_lo &&& 0xffffffff)) % 2 ^ 64
  let xlyh := ((x_lo &&& 0xffffffff) * (y_lo >>> 32)) % 2 ^ 64
  let xhyl := ((x_lo >>> 32) * (y_lo &&& 0xffffffff)) % 2 ^ 64
  let xhyh := ((x_lo >>> 32) * (y_lo >>> 32)) % 2 ^ 64
  let temp1 := (xlyl >>> 32) + (xlyh &&& 0xffffffff) + (xhyl &&& 0xffffffff)
  let ans_lo := (xlyl &&& 0xffffffff) + ((temp1 % 2 ^ 64) <<< 32) % 2 ^ 64
  let temp2 := ((temp1 % 2 ^ 64) >>> 32) + ((xlyh >>> 32) + (xhyl >>> 32) + (xhyh &&& 0xffffffff))
  let temp3 := ((temp2 % 2 ^ 64) >>> 32) + (xhyh >>> 32)
  let ans_hi1 := ((temp2 % 2 ^ 64) &&& 0xffffffff) + ((temp3 % 2 ^ 64) <<< 32) % 2 ^ 64
  { xlyl := xlyl, xlyh := xlyh, xhyl := xhyl, xhyh := xhyh, temp1 := temp1, ans_lo := ans_lo,
    temp2 := temp2, temp3 := temp3, ans_hi1 := ans_hi1 }

/-- The function `H5_daos_mult128` (lines 3066-3118) on 64-bit words: returns
`(*ans_lo, *ans_hi)`.  The last statement adds the cross products
`x_lo * y_hi + x_hi * y_lo`, wrapping on purpose. -/
def H5_daos_mult128 (x_lo x_hi y_lo y_hi : Nat) : Nat × Nat :=
  let s := mult128_steps x_lo y_lo
  (s.ans_lo % 2 ^ 64,
   (s.ans_hi1 % 2 ^ 64 + ((x_lo * y_hi) % 2 ^ 64 + (x_hi * y_lo) % 2 ^ 64) % 2 ^ 64) % 2 ^ 64)

/-- Modelled from the spec: the macro `UINT64DECODE_VAR` of the absent header,
the little-endian value of the first `l` bytes at the pointer (`l` at most
8). -/
def UINT64DECODE_VAR (p : List Nat) (l : Nat) : Nat :=
  ((p.take l).foldr (fun byte acc => byte % 256 + 256 * acc) 0) % 2 ^ 64

/-- The `while` loop of `H5_daos_hash128` (lines 3152-3183) on the bytes of
the name that are left: each pass decodes up to 8 bytes into `name_lo`, up to
8 more into `name_hi`, XORs the two hash words with them and multiplies by the
prime `0x1000000 * 2^64 + 0x13b`.  One unit of fuel is used per pass. -/
def hash128_loop : Nat → List Nat → Nat → Nat → Option (Nat × Nat)
  | _, [], hash_lo, hash_hi => some (hash_lo, hash_hi)
  | 0, _ :: _, _, _ => none
  | fuel + 1, b :: rest, hash_lo, hash_hi =>
    let name := b :: rest
    let name_lo :=
      if name.length ≥ 8 then UINT64DECODE name else UINT64DECODE_VAR name name.length
    let rem1 := name.drop 8
    let name_hi :=
      if rem1.length > 0 then
        if rem1.length ≥ 8 then UINT64DECODE rem1 else UINT64DECODE_VAR rem1 rem1.length
      else 0
    let r := H5_daos_mult128 (hash_lo ^^^ name_lo) (hash_hi ^^^ name_hi) 0x13b 0x1000000
    hash128_loop fuel (rem1.drop 8) r.1 r.2

/-- The function `H5_daos_hash128` (lines 3131-3192): `name` holds the
`strlen(name)` bytes before the terminator; the result is the 16-byte buffer
written through `hash`. -/
def H5_daos_hash128 (name : List Nat) : Option (List Nat) :=
  (hash128_loop (name.length + 1) name 0x62b821756295c58d 0x6c62272e07bb0142).map
    (fun h => UINT64ENCODE h.1 ++ UINT64ENCODE h.2)

/-- The 128-bit FNV offset basis. -/
def fnv_offset_basis : Nat := 0x6c62272e07bb014262b821756295c58d

/-- The 128-bit FNV prime, `2^88 + 0x13b`. -/
def fnv_prime : Nat := 2 ^ 88 + 0x13b

/-- The hash in the words of the claim: starting from the offset basis, for
each byte of the name in order the hash is XORed with the byte and multiplied
by the prime modulo 2^128. -/
def fnv128_bytewise (name : List Nat) : Nat :=
  name.foldl (fun h byte => ((h ^^^ (byte % 256)) * fnv_prime) % 2 ^ 128) fnv_offset_basis

/-- The little-endian value of a list of bytes. -/
def le_value (bytes : List Nat) : Nat :=
  bytes.foldr (fun byte acc => byte % 256 + 256 * acc) 0

/-- The 16-byte little-endian encoding of a 128-bit value, low 64 bits
first. -/
def le_bytes16 (h : Nat) : List Nat :=
  UINT64ENCODE (h % 2 ^ 64) ++ UINT64ENCODE (h / 2 ^ 64 % 2 ^ 64)

/-- The hash as the code computes it, on 128-bit values: starting from the
offset basis, for each block of 16 bytes of the name in order (the last one
may be shorter) the hash is XORed with the little-endian value of the block
and multiplied by the prime modulo 2^128. -/
def fnv128_blockwise : Nat → List Nat → Nat → Nat
  | _, [], h => h
  | 0, _ :: _, h => h
  | fuel + 1, b :: rest, h =>
    fnv128_blockwise fuel ((b :: rest).drop 16)
      (((h ^^^ le_value ((b :: rest).take 16)) * fnv_prime) % 2 ^ 128)

/-! ## The object class property -/

/-- What the property-list queries of `H5daos_get_object_class` find:
`H5Pexist` failing, the property not existing, `H5Pget` failing, or `H5Pget`
giving the string pointer (`none` is `NULL`; the string is given by the
characters before its terminator). -/
inductive ObjClassProp
  | exist_error
  | absent
  | get_error
  | value (tmp_object_class : Option (List Char))
deriving DecidableEq, Repr

/-- The C library's `strncpy(dst, src, n)` on a destination of at least `n`
characters: the first `n` characters of `src`, padded with NULs up to `n`
when `src` is shorter; the rest of the destination is untouched. -/
def strncpy (dst src : List Char) (n : Nat) : List Char :=
  src.take n ++ List.replicate (n - src.length) (Char.ofNat 0) ++ dst.drop n

/-- The function `H5daos_get_object_class` (lines 663-708): returns
`ret_value` and the output buffer (`none` is a `NULL` pointer). -/
def H5daos_get_object_class (prop : ObjClassProp) (object_class : Option (List Char))
    (size : Nat) : Int × Option (List Char) :=
  match prop with
  | .exist_error => (FAIL, object_class)
  | .get_error => (FAIL, object_class)
  | .value (some s) =>
    let len := s.length
    match object_class with
    | some buf =>
      if size > 0 then
        let b := strncpy buf s size
        ((len : Int), some (if len ≥ size then b.set (size - 1) (Char.ofNat 0) else b))
      else ((len : Int), some buf)
    | none => ((len : Int), none)
  | .value none =>
    match object_class with
    | some buf => if size > 0 then (0, some (buf.set 0 (Char.ofNat 0))) else (0, some buf)
    | none => (0, none)
  | .absent =>
    match object_class with
    | some buf => if size > 0 then (0, some (buf.set 0 (Char.ofNat 0))) else (0, some buf)
    | none => (0, none)

/-- The stored object-class string of the claim: empty when the property is
absent or its value is `NULL`. -/
def stored_class (prop : ObjClassProp) : List Char :=
  match prop with
  | .value (some s) => s
  | _ => []

/-! ## The teardown of a key listing -/

/-- The enumeration-wide state reached through `udata->iter_data`: whether
this iteration began a short circuit, whether the hold on the iteration root
object is still there, what has been stored through `op_ret_p`, and whether
the visited-link table, the recursive link path and the iteration data itself
are allocated. -/
structure IterShared where
  short_circuit_init : Bool
  root_obj_held : Bool
  op_ret_stored : Option Int
  visited_link_table : Bool
  recursive_link_path : Bool
  iter_data : Bool
deriving DecidableEq, Repr

/-- The state of one level of a key listing: whether its key buffer, its
dynamic descriptor buffer and its private data are allocated, and whether its
target object is open. -/
structure IterLevel where
  key_buf : Bool
  kds_dyn : Bool
  udata : Bool
  target_obj_open : Bool
deriving DecidableEq, Repr

/-- What `H5_daos_list_key_finish` leaves: the shared state, the level, the
request and the code the meta task is completed with. -/
structure FinishResult where
  shared : IterShared
  level : IterLevel
  req : H5_daos_req_t
  ret_value : Int
deriving DecidableEq, Repr

/-- The task body `H5_daos_list_key_finish` (lines 3843-3931) on a task that
has its private data, with the state it tears down.  `is_link_iter` is
`iter_type == H5_DAOS_ITER_TYPE_LINK`, `op_ret_p` whether that pointer is set,
`dec_ref_ok` and `close_ok` the results of `H5Idec_ref` and
`H5_daos_object_close`.  The result is `none` when
`assert(udata->iter_data->is_recursive)` fails on a nested level. -/
def H5_daos_list_key_finish_state (c : Codes) (base_iter is_recursive is_link_iter
    op_ret_p : Bool) (op_ret : Int) (dec_ref_ok close_ok : Bool) (sh : IterShared)
    (lv : IterLevel) (req : H5_daos_req_t) : Option FinishResult :=
  if base_iter = false ∧ is_recursive = false then none
  else
    let req1 :=
      if base_iter = true ∧ sh.short_circuit_init = true ∧
          req.status = -c.H5_DAOS_SHORT_CIRCUIT
      then { req with status := -c.H5_DAOS_INCOMPLETE } else req
    let sh1 : IterShared :=
      if base_iter then
        { short_circuit_init := false
          root_obj_held := if dec_ref_ok then false else sh.root_obj_held
          op_ret_stored := if op_ret_p then some op_ret else sh.op_ret_stored
          visited_link_table := if is_link_iter then false else sh.visited_link_table
          recursive_link_path := if is_link_iter then false else sh.recursive_link_path
          iter_data := false }
      else sh
    let ret_value : Int :=
      if (base_iter = true ∧ dec_ref_ok = false) ∨ close_ok = false
      then -c.H5_DAOS_H5_CLOSE_ERROR else 0
    let lv1 : IterLevel :=
      { key_buf := false, kds_dyn := false, udata := false
        target_obj_open := if close_ok then false else lv.target_obj_open }
    let req2 := record_own_error c ret_value "key list finish" req1
    let freed := H5_daos_req_free_int req2
    some { shared := sh1, level := lv1, req := freed.1
           ret_value := if freed.2 < 0 then -c.H5_DAOS_FREE_ERROR else ret_value }

/-! ## A key listing run to completion -/

/-- Modelled from the spec: the store's "list next page" operation is outside
`src/`.  Sections 3 and 4.6: a page request with page size `k` over the keys
that remain returns up to `k` of them and moves the anchor; the anchor is
exhausted when no key remains.  Returns the number of keys that remain and
whether the anchor is exhausted. -/
def store_list_page (k remaining : Nat) : Nat × Bool :=
  (remaining - min k remaining, decide (remaining - min k remaining = 0))

/-- The state of one level of a key listing while it runs: the tasks built,
the keys the store has not returned yet, the shared and the level state, the
request, and how often the meta task body has run. -/
structure EnumState where
  build : BuildState
  remaining : Nat
  shared : IterShared
  level : IterLevel
  req : H5_daos_req_t
  finish_calls : Nat
deriving DecidableEq, Repr

/-- Modelled from the spec: the completion callback of a page request is
supplied by the caller of `H5_daos_list_key_init` and is outside `src/`.
Section 4.6, (b) and (c): when the anchor is not exhausted the callback
continues the enumeration by calling `H5_daos_list_key_start` again on the
same private data (with fresh `first_task` / `dep_task` pointers, scheduling
the new first task itself); when the anchor is exhausted it lets the meta
task run, whose body is `H5_daos_list_key_finish`.  The loop below runs the
pages one after the other, one unit of fuel per page; `m` is the meta task. -/
def key_list_loop (c : Codes) (k m : Nat) (base_iter is_recursive : Bool) :
    Nat → EnumState → Option EnumState
  | 0, _ => none
  | fuel + 1, s =>
    let page := store_list_page k s.remaining
    if page.2 then
      match H5_daos_list_key_finish_state c base_iter is_recursive true false 0 true true
          s.shared s.level s.req with
      | none => none
      | some r =>
        some { s with
          build := { s.build with
            tasks := modify_task (fun t => { t with scheduled := true }) m s.build.tasks }
          remaining := page.1
          shared := r.shared
          level := r.level
          req := r.req
          finish_calls := s.finish_calls + 1 }
    else
      let r := H5_daos_list_key_start c BuildEnv.ok m
        { s.build with first_task := none, dep_task := none }
      key_list_loop c k m base_iter is_recursive fuel
        { s with
          build := { r.2 with
            tasks := modify_task (fun t => { t with scheduled := true })
              s.build.tasks.length r.2.tasks }
          remaining := page.1 }

/-- A key listing over an object holding `n_keys` keys with page size `k`,
started with `H5_daos_list_key_init` on an empty chain and run to completion,
every allocation and engine call succeeding.  The iteration is a link
iteration whose visited-link table and path are allocated. -/
def key_list_run (c : Codes) (n_keys k : Nat) (base_iter is_recursive : Bool)
    (req : H5_daos_req_t) : Option EnumState :=
  let init := H5_daos_list_key_init c ⟨true, true, true, true⟩ BuildEnv.ok base_iter is_recursive
    false ⟨[], none, none, req.rc, 0, 0⟩
  key_list_loop c k 0 base_iter is_recursive (n_keys + 1)
    { build := init.2
      remaining := n_keys
      shared := ⟨false, true, none, true, true, true⟩
      level := ⟨true, false, true, true⟩
      req := { req with rc := init.2.rc }
      finish_calls := 0 }

/-- The page requests among the tasks built: the list tasks created by
`H5_daos_list_key_start`. -/
def page_requests (st : BuildState) : Nat :=
  st.tasks.countP (fun t => decide (t.fn = .DAOS_OPC_OBJ_LIST))


/-! ## Opening a dataset collectively (`H5_daos_dataset_open`) -/

/-- The three call sites of `MPI_Bcast` in `H5_daos_dataset_open`: the
broadcast of the static buffer (lines 548 and 562), the "second broadcast" of
the serialized records (lines 554 and 590), and the broadcast of the zeroed
buffer in the failure cleanup (line 627). -/
inductive BcastSite where
  | header
  | payload
  | failure
deriving DecidableEq, Repr

/-- One `MPI_Bcast` call: its call site, the memory that starts at the buffer
argument (up to the end of that buffer) and the `count` argument. -/
structure BcastCall where
  site : BcastSite
  buf : List Nat
  count : Int
deriving DecidableEq, Repr

/-- The internal metadata of a dataset in the store: its object id and the
three records kept under the type, space and creation property list keys. -/
structure DsetMeta where
  oid_lo : Nat
  oid_hi : Nat
  type_buf : List Nat
  space_buf : List Nat
  dcpl_buf : List Nat
deriving DecidableEq, Repr

/-- The outcomes of the calls `H5_daos_dataset_open` makes on one process, in
the order of the source; `locate_ok` stands for the location checks, the
path traversal and the link lookup of lines 439-457. -/
structure OpenEnv where
  item_ok : Bool
  loc_params_ok : Bool
  coll_md_ops_ok : Bool
  calloc_ok : Bool
  locate_ok : Bool
  obj_open_ok : Bool
  fetch_sizes_ok : Bool
  malloc_ok : Bool
  fetch_ok : Bool
  bcast_ok : Bool
  bcast2_ok : Bool
  tdecode_ok : Bool
  sdecode_ok : Bool
  select_all_ok : Bool
  pdecode_ok : Bool
  pcopy_ok : Bool
deriving DecidableEq, Repr

/-- Every call succeeds. -/
def OpenEnv.ok : OpenEnv :=
  ⟨true, true, true, true, true, true, true, true, true, true, true, true, true, true, true, true⟩

/-- The calls of the coordinator up to and including its broadcast of the
static buffer succeed: it reads the metadata and sends the header. -/
def OpenEnv.reads_ok (e : OpenEnv) : Bool :=
  e.item_ok && e.loc_params_ok && e.coll_md_ops_ok && e.calloc_ok && e.locate_ok &&
    e.obj_open_ok && e.fetch_sizes_ok && e.malloc_ok && e.fetch_ok && e.bcast_ok

/-- The calls of a receiver up to its last decode call succeed. -/
def OpenEnv.receives_ok (e : OpenEnv) : Bool :=
  e.item_ok && e.loc_params_ok && e.coll_md_ops_ok && e.calloc_ok && e.bcast_ok &&
    e.malloc_ok && e.bcast2_ok && e.obj_open_ok && e.tdecode_ok && e.sdecode_ok &&
    e.select_all_ok

/-- What one process did in `H5_daos_dataset_open`: the `MPI_Bcast` calls it
made, the memory at the pointers it passed to `H5Tdecode`, `H5Sdecode` and
`H5Pdecode` (in the order of the calls made), and whether it returned the
dataset (`ret_value != NULL`). -/
structure OpenOut where
  bcasts : List BcastCall
  views : List (List Nat)
  ret_ok : Bool
deriving DecidableEq, Repr

/-- The conversion of an unsigned value to the `int` count of `MPI_Bcast`
(`(int)tot_len`, and `sizeof(dinfo_buf_static)` passed for an `int`): the low
32 bits read as a two's complement number. -/
def int_cast (n : Nat) : Int :=
  if n % 2 ^ 32 < 2 ^ 31 then ((n % 2 ^ 32 : Nat) : Int) else ((n % 2 ^ 32 : Nat) : Int) - 2 ^ 32

/-- Memory that was not written yet: `n` bytes of whatever `junk` holds. -/
def fresh_buf (junk : Nat → Nat) (n : Nat) : List Nat :=
  (List.range n).map junk

/-- The effect of `MPI_Bcast` on a process that is not the root: the first
`count` bytes of the buffer are replaced by the first `count` bytes the root
sent. -/
def MPI_Bcast_recv (buf msg : List Nat) (count : Nat) : List Nat :=
  msg.take count ++ buf.drop count

/-- The label `done:` of `H5_daos_dataset_open` with `ret_value == NULL`
(lines 620-634): when `must_bcast` is set the static buffer is zeroed and
broadcast. -/
def open_fail (S : Nat) (must_bcast : Bool) (bcasts : List BcastCall) (views : List (List Nat)) :
    OpenOut :=
  ⟨bcasts ++ (if must_bcast then [⟨.failure, List.replicate S 0, int_cast S⟩] else []),
    views, false⟩

/-- Lines 601-618 of `H5_daos_dataset_open`, common to all processes: the
three records are decoded at `p`, `p + type_len` and `p + type_len +
space_len`, where `p` is `off` bytes into `buf`. -/
def open_decode (S : Nat) (e : OpenEnv) (must_bcast : Bool) (bcasts : List BcastCall)
    (buf : List Nat) (off type_len space_len : Nat) : OpenOut :=
  let v1 := buf.drop off
  if !e.tdecode_ok then open_fail S must_bcast bcasts [v1]
  else
    let v2 := buf.drop (off + type_len)
    if !e.sdecode_ok then open_fail S must_bcast bcasts [v1, v2]
    else if !e.select_all_ok then open_fail S must_bcast bcasts [v1, v2]
    else
      let v3 := buf.drop (off + type_len + space_len)
      if !e.pdecode_ok then open_fail S must_bcast bcasts [v1, v2, v3]
      else if !e.pcopy_ok then open_fail S must_bcast bcasts [v1, v2, v3]
      else ⟨bcasts, [v1, v2, v3], true⟩

/-- The function `H5_daos_dataset_open` (daos_vol_dset.c, lines 380-644) on one
process, as far as its broadcasts and its decode calls go.  `S` is
`sizeof(dinfo_buf_static)` (`H5_DAOS_DINFO_BUF_SIZE`, a constant of the absent
header), `junk` the contents of memory not yet written, `md` what the store
holds for the dataset (used by the process that reads it) and `msgs` the
messages of the root, in order, for a process that receives.  The variable
`must_bcast` is set at line 436 and never cleared. -/
def H5_daos_dataset_open (S : Nat) (junk : Nat → Nat) (e : OpenEnv)
    (is_collective_md_read dapl_default dapl_coll : Bool) (my_rank num_procs : Nat)
    (md : DsetMeta) (msgs : List (List Nat)) : OpenOut :=
  if !e.item_ok then open_fail S false [] []
  else if !e.loc_params_ok then open_fail S false [] []
  else if !is_collective_md_read && !dapl_default && !e.coll_md_ops_ok then
    open_fail S false [] []
  else
    let collective :=
      if !is_collective_md_read && !dapl_default then dapl_coll else is_collective_md_read
    if !e.calloc_ok then open_fail S false [] []
    else if !collective || my_rank == 0 then
      let must_bcast := collective && decide (num_procs > 1)
      if !e.locate_ok then open_fail S must_bcast [] []
      else if !e.obj_open_ok then open_fail S must_bcast [] []
      else if !e.fetch_sizes_ok then open_fail S must_bcast [] []
      else
        let type_len := md.type_buf.length % 2 ^ 64
        let space_len := md.space_buf.length % 2 ^ 64
        let dcpl_len := md.dcpl_buf.length % 2 ^ 64
        if type_len == 0 || space_len == 0 || dcpl_len == 0 then open_fail S must_bcast [] []
        else
          let tot_len := (type_len + space_len + dcpl_len) % 2 ^ 64
          let dyn := decide ((tot_len + 40) % 2 ^ 64 > S)
          if dyn && !e.malloc_ok then open_fail S must_bcast [] []
          else
            let cap := if dyn then (tot_len + 40) % 2 ^ 64 else S
            if !e.fetch_ok then open_fail S must_bcast [] []
            else
              let body := md.type_buf ++ md.space_buf ++ md.dcpl_buf ++
                fresh_buf junk (cap - (40 + (md.type_buf ++ md.space_buf ++ md.dcpl_buf).length))
              if collective && decide (num_procs > 1) then
                let dinfo_buf := UINT64ENCODE md.oid_lo ++ UINT64ENCODE md.oid_hi ++
                  UINT64ENCODE type_len ++ UINT64ENCODE space_len ++ UINT64ENCODE dcpl_len ++ body
                let b1 : BcastCall := ⟨.header, dinfo_buf, int_cast S⟩
                if !e.bcast_ok then open_fail S must_bcast [b1] []
                else if dyn then
                  let b2 : BcastCall := ⟨.payload, dinfo_buf.drop 40, int_cast tot_len⟩
                  if !e.bcast2_ok then open_fail S must_bcast [b1, b2] []
                  else open_decode S e must_bcast [b1, b2] dinfo_buf 40 type_len space_len
                else open_decode S e must_bcast [b1] dinfo_buf 40 type_len space_len
              else
                open_decode S e must_bcast [] (fresh_buf junk 40 ++ body) 40 type_len space_len
    else
      let static0 := fresh_buf junk S
      let b1 : BcastCall := ⟨.header, static0, int_cast S⟩
      let static1 := MPI_Bcast_recv static0 (msgs.getD 0 []) (int_cast S).toNat
      if !e.bcast_ok then open_fail S false [b1] []
      else
        let type_len := UINT64DECODE (static1.drop 16)
        let space_len := UINT64DECODE (static1.drop 24)
        let dcpl_len := UINT64DECODE (static1.drop 32)
        let tot_len := (type_len + space_len + dcpl_len) % 2 ^ 64
        if type_len == 0 then open_fail S false [b1] []
        else if (tot_len + 40) % 2 ^ 64 > S then
          if decide (tot_len > S) && !e.malloc_ok then open_fail S false [b1] []
          else
            let dinfo_buf := if tot_len > S then fresh_buf junk tot_len else static1
            let b2 : BcastCall := ⟨.payload, dinfo_buf, int_cast tot_len⟩
            let received := MPI_Bcast_recv dinfo_buf (msgs.getD 1 []) (int_cast tot_len).toNat
            if !e.bcast2_ok then open_fail S false [b1, b2] []
            else if !e.obj_open_ok then open_fail S false [b1, b2] []
            else open_decode S e false [b1, b2] received 0 type_len space_len
        else if !e.obj_open_ok then open_fail S false [b1] []
        else open_decode S e false [b1] static1 40 type_len space_len

/-- The messages a root process put on the wire: for each of its `MPI_Bcast`
calls the first `count` bytes at the buffer argument. -/
def root_messages (out : OpenOut) : List (List Nat) :=
  out.bcasts.map (fun b => b.buf.take b.count.toNat)

/-- The "second broadcast" calls among the broadcasts of a process. -/
def payload_calls (out : OpenOut) : List BcastCall :=
  out.bcasts.filter (fun b => decide (b.site = BcastSite.payload))

/-- A collective open by the coordinator (rank 0, environment `e0`) and one
receiver (rank `rank`, environment `e1`), the receiver being handed the
messages of the coordinator. -/
def collective_open (S : Nat) (junk0 junk1 : Nat → Nat) (e0 e1 : OpenEnv) (rank num_procs : Nat)
    (md : DsetMeta) : OpenOut × OpenOut :=
  let c := H5_daos_dataset_open S junk0 e0 true true false 0 num_procs md []
  (c, H5_daos_dataset_open S junk1 e1 true true false rank num_procs
    ⟨0, 0, [], [], []⟩ (root_messages c))
/-! ## Theorems -/

theorem record_task_error_of_error (c : Codes) (r : Int) (n : String) (req : H5_daos_req_t)
    (h : req.status < -c.H5_DAOS_SHORT_CIRCUIT) : record_task_error c r n req = req := by
  unfold record_task_error
  rw [if_neg]
  rintro ⟨_, h2⟩
  omega

theorem record_task_error_of_ok (c : Codes) (r : Int) (n : String) (req : H5_daos_req_t)
    (h : ¬ r < -c.H5_DAOS_PRE_ERROR) : record_task_error c r n req = req := by
  unfold record_task_error
  rw [if_neg]
  rintro ⟨h1, _⟩
  exact h h1

theorem record_task_error_of_first (c : Codes) (r : Int) (n : String) (req : H5_daos_req_t)
    (h : r < -c.H5_DAOS_PRE_ERROR) (h0 : -c.H5_DAOS_SHORT_CIRCUIT ≤ req.status) :
    record_task_error c r n req = { req with status := r, failed_task := some n } := by
  unfold record_task_error
  rw [if_pos ⟨h, h0⟩]

/-- One step of a chain on a request without an error and not short
circuiting: the operation is attempted and one reference is released. -/
theorem run_step_live (c : Codes) (req : H5_daos_req_t) (s : ChainStep)
    (h1 : ¬ req.status < -c.H5_DAOS_SHORT_CIRCUIT)
    (h2 : req.status ≠ -c.H5_DAOS_SHORT_CIRCUIT) :
    run_step c req s =
      ({ record_task_error c s.op_result s.udata.task_name req with
          rc := (record_task_error c s.op_result s.udata.task_name req).rc - 1 },
       { task_name := s.udata.task_name, prep_completed := none, op_attempted := true,
         dt_result := s.op_result, comp_cb_ran := true, refs_released := 1 }) := by
  have hrc : (record_task_error c s.op_result s.udata.task_name req).rc = req.rc := by
    unfold record_task_error; split <;> rfl
  simp [run_step, H5_daos_generic_prep_cb, H5_daos_generic_comp_cb, H5_daos_req_free_int,
    h1, h2, hrc]

/-- One step of a chain on a request that already carries an error: the
prepare callback force-completes the task with the precursor-error code, the
operation is not attempted, the request keeps its status and label, and one
reference is released. -/
theorem run_step_failed (c : Codes) (req : H5_daos_req_t) (s : ChainStep)
    (h1 : req.status < -c.H5_DAOS_SHORT_CIRCUIT) :
    run_step c req s =
      ({ req with rc := req.rc - 1 },
       { task_name := s.udata.task_name, prep_completed := some (-c.H5_DAOS_PRE_ERROR),
         op_attempted := false, dt_result := -c.H5_DAOS_PRE_ERROR, comp_cb_ran := true,
         refs_released := 1 }) := by
  simp [run_step, H5_daos_generic_prep_cb, H5_daos_generic_comp_cb, H5_daos_req_free_int,
    h1, record_task_error_of_error c _ _ req h1]

/-- C1 (short-circuit correctness).  A chain of five dependent generic steps
on a request whose status is incomplete, in which the operations of steps 1
and 2 return non-failing results and the operation of step 3 fails with a code
`e` below `-H5_DAOS_PRE_ERROR`: the operations of steps 4 and 5 are never
attempted, their prepare callbacks force-complete them with
`-H5_DAOS_PRE_ERROR`, all five completion callbacks run and each releases one
reference, and the request ends with status `e` and `failed_task` the name of
step 3.  The order of the header constants relied on is
`H5_DAOS_INCOMPLETE < H5_DAOS_SHORT_CIRCUIT <= H5_DAOS_PRE_ERROR`. -/
theorem C1_short_circuit_chain (c : Codes) (req : H5_daos_req_t)
    (s1 s2 s3 s4 s5 : ChainStep)
    (hinc : c.H5_DAOS_INCOMPLETE < c.H5_DAOS_SHORT_CIRCUIT)
    (hpre : c.H5_DAOS_SHORT_CIRCUIT ≤ c.H5_DAOS_PRE_ERROR)
    (hst : req.status = -c.H5_DAOS_INCOMPLETE)
    (h1 : ¬ s1.op_result < -c.H5_DAOS_PRE_ERROR)
    (h2 : ¬ s2.op_result < -c.H5_DAOS_PRE_ERROR)
    (h3 : s3.op_result < -c.H5_DAOS_PRE_ERROR) :
    (run_chain c req [s1, s2, s3, s4, s5]).1.status = s3.op_result ∧
    (run_chain c req [s1, s2, s3, s4, s5]).1.failed_task = some s3.udata.task_name ∧
    (run_chain c req [s1, s2, s3, s4, s5]).1.rc = req.rc - 5 ∧
    (run_chain c req [s1, s2, s3, s4, s5]).2.map StepTrace.op_attempted
      = [true, true, true, false, false] ∧
    (run_chain c req [s1, s2, s3, s4, s5]).2.map StepTrace.prep_completed
      = [none, none, none, some (-c.H5_DAOS_PRE_ERROR), some (-c.H5_DAOS_PRE_ERROR)] ∧
    (run_chain c req [s1, s2, s3, s4, s5]).2.map StepTrace.comp_cb_ran
      = [true, true, true, true, true] ∧
    (run_chain c req [s1, s2, s3, s4, s5]).2.map StepTrace.refs_released
      = [1, 1, 1, 1, 1] := by
  obtain ⟨st, ft, rc, th, nc⟩ := req
  simp only at hst
  subst hst
  have k1 : ¬ (-c.H5_DAOS_INCOMPLETE < -c.H5_DAOS_SHORT_CIRCUIT) := by omega
  have k2 : ¬ (c.H5_DAOS_INCOMPLETE = c.H5_DAOS_SHORT_CIRCUIT) := by omega
  have k3 : -c.H5_DAOS_SHORT_CIRCUIT ≤ -c.H5_DAOS_INCOMPLETE := by omega
  have k4 : s3.op_result < -c.H5_DAOS_SHORT_CIRCUIT := by omega
  have k5 : ¬ (-c.H5_DAOS_SHORT_CIRCUIT ≤ s3.op_result) := by omega
  have k6 : ¬ (c.H5_DAOS_SHORT_CIRCUIT ≤ c.H5_DAOS_INCOMPLETE) := by omega
  simp [run_chain, run_step, H5_daos_generic_prep_cb, H5_daos_generic_comp_cb,
    record_task_error, H5_daos_req_free_int, k1, k2, k3, k4, k5, k6, h1, h2, h3]
  omega

/-- Witness of C1: a chain on the sample codes whose third step fails with
code -20. -/
theorem C1_short_circuit_chain_witness :
    (run_chain sampleCodes ⟨-1, none, 6, false, false⟩
      [⟨⟨"a"⟩, 0⟩, ⟨⟨"b"⟩, 0⟩, ⟨⟨"c"⟩, -20⟩, ⟨⟨"d"⟩, 0⟩, ⟨⟨"e"⟩, 0⟩]).1.status = -20 ∧
    (run_chain sampleCodes ⟨-1, none, 6, false, false⟩
      [⟨⟨"a"⟩, 0⟩, ⟨⟨"b"⟩, 0⟩, ⟨⟨"c"⟩, -20⟩, ⟨⟨"d"⟩, 0⟩, ⟨⟨"e"⟩, 0⟩]).1.failed_task
      = some "c" :=
  have h := C1_short_circuit_chain sampleCodes ⟨-1, none, 6, false, false⟩
    ⟨⟨"a"⟩, 0⟩ ⟨⟨"b"⟩, 0⟩ ⟨⟨"c"⟩, -20⟩ ⟨⟨"d"⟩, 0⟩ ⟨⟨"e"⟩, 0⟩
    (by decide) (by decide) (by decide) (by decide) (by decide) (by decide)
  ⟨h.1, h.2.1⟩

/-- Status and label of a request after `H5_daos_generic_comp_cb`. -/
theorem generic_comp_cb_fields (c : Codes) (r : Int) (ud : H5_daos_generic_cb_ud_t)
    (req : H5_daos_req_t) :
    (H5_daos_generic_comp_cb c r (some ud) req).1.status
        = (record_task_error c r ud.task_name req).status ∧
    (H5_daos_generic_comp_cb c r (some ud) req).1.failed_task
        = (record_task_error c r ud.task_name req).failed_task := by
  simp [H5_daos_generic_comp_cb, H5_daos_req_free_int]

/-- A request that carries an error keeps its status and label through any
sequence of generic completion callbacks. -/
theorem comp_cb_seq_sticky (c : Codes) (tasks : List (Int × H5_daos_generic_cb_ud_t)) :
    ∀ req : H5_daos_req_t, req.status < -c.H5_DAOS_SHORT_CIRCUIT →
      (comp_cb_seq c req tasks).status = req.status ∧
      (comp_cb_seq c req tasks).failed_task = req.failed_task := by
  induction tasks with
  | nil => intro req _; exact ⟨rfl, rfl⟩
  | cons t rest ih =>
    intro req h
    have hf := generic_comp_cb_fields c t.1 t.2 req
    rw [record_task_error_of_error c _ _ req h] at hf
    have h2 : (H5_daos_generic_comp_cb c t.1 (some t.2) req).1.status
        < -c.H5_DAOS_SHORT_CIRCUIT := by rw [hf.1]; exact h
    have := ih _ h2
    simp only [comp_cb_seq]
    rw [this.1, this.2, hf.1, hf.2]
    exact ⟨rfl, rfl⟩

/-- C2 (single-error capture).  For every sequence of task completions handled
by `H5_daos_generic_comp_cb` on a request that starts without an error, the
status and `failed_task` after the last callback are the result code and the
task name of the first task of the sequence whose result is failing (below
`-H5_DAOS_PRE_ERROR`), however many later tasks fail as well.  The order of
the header constants relied on is `H5_DAOS_SHORT_CIRCUIT <= H5_DAOS_PRE_ERROR`. -/
theorem C2_first_failure_wins (c : Codes) (tasks : List (Int × H5_daos_generic_cb_ud_t))
    (e : Int) (ud : H5_daos_generic_cb_ud_t)
    (hpre : c.H5_DAOS_SHORT_CIRCUIT ≤ c.H5_DAOS_PRE_ERROR) :
    ∀ req : H5_daos_req_t, -c.H5_DAOS_SHORT_CIRCUIT ≤ req.status →
      tasks.find? (fun t => decide (t.1 < -c.H5_DAOS_PRE_ERROR)) = some (e, ud) →
      (comp_cb_seq c req tasks).status = e ∧
      (comp_cb_seq c req tasks).failed_task = some ud.task_name := by
  induction tasks with
  | nil => intro req _ hf; simp at hf
  | cons t rest ih =>
    intro req h0 hf
    have hfld := generic_comp_cb_fields c t.1 t.2 req
    by_cases ht : t.1 < -c.H5_DAOS_PRE_ERROR
    · have hte : t = (e, ud) := by
        simpa [List.find?, ht] using hf
      rw [record_task_error_of_first c _ _ req ht h0] at hfld
      have herr : (H5_daos_generic_comp_cb c t.1 (some t.2) req).1.status
          < -c.H5_DAOS_SHORT_CIRCUIT := by rw [hfld.1]; show t.1 < _; omega
      have hs := comp_cb_seq_sticky c rest _ herr
      simp only [comp_cb_seq]
      rw [hs.1, hs.2, hfld.1, hfld.2, hte]
      exact ⟨rfl, rfl⟩
    · have hrest : rest.find? (fun t => decide (t.1 < -c.H5_DAOS_PRE_ERROR)) = some (e, ud) := by
        simpa [List.find?, ht] using hf
      rw [record_task_error_of_ok c _ _ req ht] at hfld
      have h1 : -c.H5_DAOS_SHORT_CIRCUIT
          ≤ (H5_daos_generic_comp_cb c t.1 (some t.2) req).1.status := by rw [hfld.1]; exact h0
      simp only [comp_cb_seq]
      exact ih _ h1 hrest

/-- Witness of C2: three completions on the sample codes, the second and the
third failing; the second one is recorded. -/
theorem C2_first_failure_wins_witness :
    (comp_cb_seq sampleCodes ⟨-1, none, 4, false, false⟩
      [(0, ⟨"a"⟩), (-20, ⟨"b"⟩), (-30, ⟨"c"⟩)]).status = -20 ∧
    (comp_cb_seq sampleCodes ⟨-1, none, 4, false, false⟩
      [(0, ⟨"a"⟩), (-20, ⟨"b"⟩), (-30, ⟨"c"⟩)]).failed_task = some "b" :=
  C2_first_failure_wins sampleCodes [(0, ⟨"a"⟩), (-20, ⟨"b"⟩), (-30, ⟨"c"⟩)] (-20) ⟨"b"⟩
    (by decide) ⟨-1, none, 4, false, false⟩ (by decide) (by decide)

/-! ### The finalizer: counting lemmas -/

theorem issued_append (opc : daos_opc_t) (l1 l2 : List Call) :
    issued opc (l1 ++ l2) = issued opc l1 + issued opc l2 := by
  simp [issued, List.countP_append]

theorem tx_closes_append (l1 l2 : List Call) :
    tx_closes (l1 ++ l2) = tx_closes l1 + tx_closes l2 := by
  simp [tx_closes, List.countP_append]

theorem notifications_append (l1 l2 : List Call) :
    notifications (l1 ++ l2) = notifications l1 ++ notifications l2 := by
  simp [notifications, List.filterMap_append]

theorem any_schedules_iff (l : List Call) :
    l.any (fun call => Call.schedules .DAOS_OPC_TX_ABORT call
      || Call.schedules .DAOS_OPC_TX_COMMIT call) = true
    ↔ 0 < issued .DAOS_OPC_TX_ABORT l + issued .DAOS_OPC_TX_COMMIT l := by
  induction l with
  | nil => simp [issued]
  | cons x xs ih =>
    simp only [issued] at ih
    by_cases h1 : Call.schedules .DAOS_OPC_TX_ABORT x = true <;>
      by_cases h2 : Call.schedules .DAOS_OPC_TX_COMMIT x = true <;>
      simp_all [issued, List.countP_cons]

/-- The calls of `H5_daos_tx_comp_cb`: one `daos_tx_close`, the completion of
the finalize task, the notification when a callback is registered, and the
release of the reference. -/
theorem tx_comp_cb_calls (c : Codes) (env : TxEnv) (dt_result : Int) (req : H5_daos_req_t) :
    (H5_daos_tx_comp_cb c env dt_result req).2.2 =
      [.daos_tx_close env.tx_close_ret, .tse_task_complete_finalize env.tx_close_ret] ++
      (if req.notify_cb then
        [.notify_cb (notify_status c env.tx_close_ret
            (record_task_error c dt_result "transaction commit/abort" req).status)
          env.notify_ret]
       else []) ++ [.H5_daos_req_free_int] := by
  have hn : (record_task_error c dt_result "transaction commit/abort" req).notify_cb
      = req.notify_cb := by
    unfold record_task_error; split <;> rfl
  by_cases h : env.tx_close_ret = 0 <;> cases hnc : req.notify_cb <;>
    simp [H5_daos_tx_comp_cb, make_notify, h, hn, hnc]

/-- The start block when every engine call succeeds. -/
theorem start_tx_task_ok (c : Codes) (env : TxEnv) (opc : daos_opc_t) (req : H5_daos_req_t)
    (rv : Int) (h : env.engine_ok = true) :
    start_tx_task c env opc req rv =
      { req := { req with rc := req.rc + 1 }, ret_value := rv, close_tx := false
        calls := [.daos_task_create opc 0, .daos_task_get_args opc true,
                  .tse_task_register_comp_cb opc 0, .tse_task_set_priv opc,
                  .tse_task_schedule opc 0] } := by
  simp only [TxEnv.engine_ok, Bool.and_eq_true, decide_eq_true_eq] at h
  obtain ⟨⟨⟨h1, h2⟩, h3⟩, h4⟩ := h
  simp [start_tx_task, h1, h2, h3, h4]

/-- The start block when task creation, argument lookup or callback
registration fails: the fallback is requested, no task has been scheduled, the
transaction has not been closed yet and no notification has been made. -/
theorem start_tx_task_fail (c : Codes) (env : TxEnv) (opc : daos_opc_t) (req : H5_daos_req_t)
    (rv : Int) (h : env.engine_ok = false) (hns : env.schedule_refused = false) :
    (start_tx_task c env opc req rv).close_tx = true ∧
    (start_tx_task c env opc req rv).req = { req with th_open := false } ∧
    (∀ o, issued o (start_tx_task c env opc req rv).calls = 0) ∧
    tx_closes (start_tx_task c env opc req rv).calls = 0 ∧
    notifications (start_tx_task c env opc req rv).calls = [] := by
  obtain ⟨cr, ga, rg, sc, cl, nr⟩ := env
  simp only [TxEnv.engine_ok] at h
  simp only [TxEnv.schedule_refused] at hns
  by_cases h1 : cr = 0 <;> cases ga <;> by_cases h2 : rg = 0 <;> by_cases h3 : sc = 0 <;>
    simp_all [start_tx_task, issued, tx_closes, notifications, Call.schedules, Call.closes_tx]

/-- The failure code left in `ret_value` by a failed start block is negative
when the engine reports failures by negative codes. -/
theorem start_tx_task_fail_ret (c : Codes) (env : TxEnv) (opc : daos_opc_t)
    (req : H5_daos_req_t) (rv : Int) (h : env.engine_ok = false)
    (hget : 0 < c.H5_DAOS_DAOS_GET_ERROR) (hcr : env.task_create_ret ≤ 0)
    (hrg : env.register_ret ≤ 0) (hsc : env.schedule_ret ≤ 0) :
    (start_tx_task c env opc req rv).ret_value < 0 := by
  obtain ⟨cr, ga, rg, sc, cl, nr⟩ := env
  simp only [TxEnv.engine_ok] at h
  simp only at hcr hrg hsc
  by_cases h1 : cr = 0 <;> cases ga <;> by_cases h2 : rg = 0 <;> by_cases h3 : sc = 0 <;>
    simp_all [start_tx_task] <;> omega

/-- The calls of the `done:` part of `H5_daos_h5op_finalize` when the
transaction is no longer open there: the fallback close when requested, the
notification when a callback is registered, the completion of the finalize
task and the release of the reference. -/
theorem finalize_done_calls_closed (c : Codes) (env : TxEnv) (a : FinAcc)
    (h : a.close_tx = true ∨ a.req.th_open = false) :
    (finalize_done c env a).2.2 =
      a.calls ++ (if a.close_tx then [.daos_tx_close env.tx_close_ret] else []) ++
      (if a.req.notify_cb then
        [.notify_cb (notify_status c
            (if a.close_tx = true ∧ env.tx_close_ret ≠ 0 then env.tx_close_ret else a.ret_value)
            a.req.status) env.notify_ret]
       else []) ++
      [.tse_task_complete_finalize
        (if a.req.notify_cb = true ∧ env.notify_ret < 0 then -c.H5_DAOS_CALLBACK_ERROR
         else if a.close_tx = true ∧ env.tx_close_ret ≠ 0 then env.tx_close_ret
         else a.ret_value),
       .H5_daos_req_free_int] := by
  obtain ⟨req, rv, ct, calls⟩ := a
  obtain ⟨st, ft, rc, th, nc⟩ := req
  simp only at h
  cases ct <;> cases th <;> cases nc <;> by_cases h1 : env.tx_close_ret = 0 <;>
    by_cases h2 : env.notify_ret < 0 <;>
    simp_all [finalize_done, make_notify]

/-- The `done:` part of `H5_daos_h5op_finalize` when the transaction stays
open (an abort or commit task was scheduled): nothing is closed or notified,
the reference is released. -/
theorem finalize_done_open (c : Codes) (env : TxEnv) (a : FinAcc)
    (h1 : a.close_tx = false) (h2 : a.req.th_open = true) :
    finalize_done c env a =
      ((H5_daos_req_free_int (record_own_error c a.ret_value "h5 op finalize" a.req)).1,
        a.ret_value, a.calls ++ [.H5_daos_req_free_int]) := by
  simp [finalize_done, h1, h2, H5_daos_req_free_int]

/-- On a request with an open transaction the part before `done:` is the start
block, for the abort opcode on an error status and for the commit opcode
otherwise. -/
theorem finalize_body_open (c : Codes) (env : TxEnv) (req : H5_daos_req_t)
    (hth : req.th_open = true) :
    finalize_body c env req =
      start_tx_task c env
        (if req.status < -c.H5_DAOS_SHORT_CIRCUIT then .DAOS_OPC_TX_ABORT
         else .DAOS_OPC_TX_COMMIT) req
        (if req.status < -c.H5_DAOS_SHORT_CIRCUIT then req.status else 0) := by
  unfold finalize_body
  split <;> simp [hth]

/-- The finalizer run to completion on a request with an open transaction
when every engine call succeeds: the calls of `H5_daos_h5op_finalize` followed
by those of `H5_daos_tx_comp_cb`. -/
theorem run_finalizer_ok (c : Codes) (env : TxEnv) (dt_result : Int) (req : H5_daos_req_t)
    (hth : req.th_open = true) (hok : env.engine_ok = true) :
    (run_finalizer c env dt_result req).2 =
      (start_tx_task c env
        (if req.status < -c.H5_DAOS_SHORT_CIRCUIT then .DAOS_OPC_TX_ABORT
         else .DAOS_OPC_TX_COMMIT) req
        (if req.status < -c.H5_DAOS_SHORT_CIRCUIT then req.status else 0)).calls
      ++ [.H5_daos_req_free_int]
      ++ (H5_daos_tx_comp_cb c env dt_result (H5_daos_h5op_finalize c env req).1).2.2 := by
  have hb := finalize_body_open c env req hth
  have hs := start_tx_task_ok c env
    (if req.status < -c.H5_DAOS_SHORT_CIRCUIT then .DAOS_OPC_TX_ABORT else .DAOS_OPC_TX_COMMIT)
    req (if req.status < -c.H5_DAOS_SHORT_CIRCUIT then req.status else 0) hok
  have hd := finalize_done_open c env (finalize_body c env req)
    (by rw [hb, hs]) (by rw [hb, hs]; exact hth)
  have hcalls : (H5_daos_h5op_finalize c env req).2.2
      = (finalize_body c env req).calls ++ [.H5_daos_req_free_int] := by
    unfold H5_daos_h5op_finalize; rw [hd]
  have hany : (H5_daos_h5op_finalize c env req).2.2.any
      (fun call => Call.schedules .DAOS_OPC_TX_ABORT call
        || Call.schedules .DAOS_OPC_TX_COMMIT call) = true := by
    rw [hcalls, hb, hs]
    split <;> simp [Call.schedules]
  unfold run_finalizer
  simp only [hany, if_true]
  rw [hcalls, hb]

/-- The finalizer run to completion on a request with an open transaction
when task creation, argument lookup or callback registration fails:
`H5_daos_tx_comp_cb` does not run, and the calls are those of the failed start
block, the fallback close, the notification when a callback is registered, the
completion of the finalize task and the release of the reference. -/
theorem run_finalizer_fail (c : Codes) (env : TxEnv) (dt_result : Int) (req : H5_daos_req_t)
    (hth : req.th_open = true) (hok : env.engine_ok = false)
    (hns : env.schedule_refused = false) :
    (run_finalizer c env dt_result req).2 =
      (finalize_body c env req).calls ++ [.daos_tx_close env.tx_close_ret] ++
      (if req.notify_cb then
        [.notify_cb (notify_status c
            (if env.tx_close_ret ≠ 0 then env.tx_close_ret
             else (finalize_body c env req).ret_value)
            req.status) env.notify_ret]
       else []) ++
      [.tse_task_complete_finalize
        (if req.notify_cb = true ∧ env.notify_ret < 0 then -c.H5_DAOS_CALLBACK_ERROR
         else if env.tx_close_ret ≠ 0 then env.tx_close_ret
         else (finalize_body c env req).ret_value),
       .H5_daos_req_free_int] := by
  have hb := finalize_body_open c env req hth
  obtain ⟨f1, f2, f3, f4, f5⟩ := start_tx_task_fail c env
    (if req.status < -c.H5_DAOS_SHORT_CIRCUIT then .DAOS_OPC_TX_ABORT else .DAOS_OPC_TX_COMMIT)
    req (if req.status < -c.H5_DAOS_SHORT_CIRCUIT then req.status else 0) hok hns
  rw [← hb] at f1 f2 f3 f4 f5
  have hd := finalize_done_calls_closed c env (finalize_body c env req) (Or.inl f1)
  simp only [f1, f2, if_true, true_and] at hd
  have hcalls : (H5_daos_h5op_finalize c env req).2.2 = _ := hd
  have hany : (H5_daos_h5op_finalize c env req).2.2.any
      (fun call => Call.schedules .DAOS_OPC_TX_ABORT call
        || Call.schedules .DAOS_OPC_TX_COMMIT call) = false := by
    rw [Bool.eq_false_iff, Ne, any_schedules_iff, hcalls]
    simp only [issued_append, f3]
    cases req.notify_cb <;> simp [issued, Call.schedules]
  unfold run_finalizer
  simp only [hany]
  exact hcalls

/-- C4, as amended (commit/abort exclusivity).  For every request that reaches
the finalizer with a transaction open, every result of the scheduled task and
every outcome of the engine calls other than a failure of `tse_task_schedule`:
when all engine calls succeed exactly one of abort and commit is issued (abort
on an error status, commit otherwise); when task creation, argument lookup or
callback registration fails and the fallback runs, neither is issued; and on
each of these paths `daos_tx_close` is called exactly once. -/
theorem C4_one_close_at_most_one_tx_task (c : Codes) (env : TxEnv) (dt_result : Int)
    (req : H5_daos_req_t) (hth : req.th_open = true)
    (hns : env.schedule_refused = false) :
    issued .DAOS_OPC_TX_ABORT (run_finalizer c env dt_result req).2
      = (if env.engine_ok = true ∧ req.status < -c.H5_DAOS_SHORT_CIRCUIT then 1 else 0) ∧
    issued .DAOS_OPC_TX_COMMIT (run_finalizer c env dt_result req).2
      = (if env.engine_ok = true ∧ ¬ req.status < -c.H5_DAOS_SHORT_CIRCUIT then 1 else 0) ∧
    tx_closes (run_finalizer c env dt_result req).2 = 1 := by
  cases hok : env.engine_ok
  · rw [run_finalizer_fail c env dt_result req hth hok hns]
    have hb := finalize_body_open c env req hth
    obtain ⟨_, _, f3, f4, _⟩ := start_tx_task_fail c env
      (if req.status < -c.H5_DAOS_SHORT_CIRCUIT then .DAOS_OPC_TX_ABORT else .DAOS_OPC_TX_COMMIT)
      req (if req.status < -c.H5_DAOS_SHORT_CIRCUIT then req.status else 0) hok hns
    rw [← hb] at f3 f4
    simp only [issued_append, tx_closes_append, f3, f4]
    cases req.notify_cb <;> simp [issued, tx_closes, Call.schedules, Call.closes_tx]
  · rw [run_finalizer_ok c env dt_result req hth hok, tx_comp_cb_calls,
      start_tx_task_ok c env _ req _ hok]
    simp only [issued_append, tx_closes_append]
    by_cases h1 : req.status < -c.H5_DAOS_SHORT_CIRCUIT <;>
      cases (H5_daos_h5op_finalize c env req).1.notify_cb <;>
      simp [issued, tx_closes, Call.schedules, Call.closes_tx, h1]

/-- Witness of C4 as amended: a commit on the sample codes. -/
theorem C4_one_close_at_most_one_tx_task_witness :
    issued .DAOS_OPC_TX_COMMIT
      (run_finalizer sampleCodes ⟨0, true, 0, 0, 0, 0⟩ 0 ⟨-1, none, 2, true, true⟩).2 = 1 ∧
    tx_closes
      (run_finalizer sampleCodes ⟨0, true, 0, 0, 0, 0⟩ 0 ⟨-1, none, 2, true, true⟩).2 = 1 :=
  have h := C4_one_close_at_most_one_tx_task sampleCodes ⟨0, true, 0, 0, 0, 0⟩ 0
    ⟨-1, none, 2, true, true⟩ rfl rfl
  ⟨h.2.1, h.2.2⟩

/-- C4 as stated fails: on a request with an open transaction and no error,
when `daos_task_create` is refused by the engine (return code -5) the fallback
closes the transaction once, but no commit and no abort task is created or
issued. -/
theorem C4_counterexample :
    (⟨-1, none, 2, true, false⟩ : H5_daos_req_t).th_open = true ∧
    issued .DAOS_OPC_TX_ABORT
      (run_finalizer sampleCodes ⟨-5, true, 0, 0, 0, 0⟩ 0 ⟨-1, none, 2, true, false⟩).2
    + issued .DAOS_OPC_TX_COMMIT
      (run_finalizer sampleCodes ⟨-5, true, 0, 0, 0, 0⟩ 0 ⟨-1, none, 2, true, false⟩).2 = 0 ∧
    (run_finalizer sampleCodes ⟨-5, true, 0, 0, 0, 0⟩ 0 ⟨-1, none, 2, true, false⟩).2 =
      [.daos_task_create .DAOS_OPC_TX_COMMIT (-5), .daos_tx_close 0,
       .tse_task_complete_finalize (-5), .H5_daos_req_free_int] := by
  decide

/-- The `done:` part of `H5_daos_h5op_finalize` creates no task. -/
theorem finalize_done_creates (c : Codes) (env : TxEnv) (a : FinAcc) (o : daos_opc_t) :
    (finalize_done c env a).2.2.any (Call.creates o) = a.calls.any (Call.creates o) := by
  obtain ⟨req, rv, ct, calls⟩ := a
  obtain ⟨st, ft, rc, th, nc⟩ := req
  cases ct <;> cases th <;> cases nc <;>
    simp [finalize_done, make_notify, Call.creates, List.any_append]

/-- The callback `H5_daos_tx_comp_cb` creates no task. -/
theorem tx_comp_cb_creates (c : Codes) (env : TxEnv) (dt_result : Int) (req : H5_daos_req_t)
    (o : daos_opc_t) :
    (H5_daos_tx_comp_cb c env dt_result req).2.2.any (Call.creates o) = false := by
  rw [tx_comp_cb_calls]
  cases req.notify_cb <;> simp [Call.creates, List.any_append]

/-- The start block creates the task of its opcode and no other. -/
theorem start_tx_task_creates (c : Codes) (env : TxEnv) (opc o : daos_opc_t)
    (req : H5_daos_req_t) (rv : Int) :
    (start_tx_task c env opc req rv).calls.any (Call.creates o) = decide (opc = o) := by
  unfold start_tx_task
  split_ifs <;>
    simp [Call.creates, List.any_append, tx_comp_cb_creates]

/-- C5 (decision rule).  `H5_daos_h5op_finalize` decides between abort and
commit from the request status only: for every request and every outcome of
the engine calls, it calls `daos_task_create` for an abort task iff the status
is an unrecoverable error (below `-H5_DAOS_SHORT_CIRCUIT`) and a transaction
is open, for a commit task iff the status is not an unrecoverable error and a
transaction is open, and for neither when no transaction is open. -/
theorem C5_commit_or_abort_by_status (c : Codes) (env : TxEnv) (req : H5_daos_req_t) :
    ((H5_daos_h5op_finalize c env req).2.2.any (Call.creates .DAOS_OPC_TX_ABORT) = true
      ↔ (req.status < -c.H5_DAOS_SHORT_CIRCUIT ∧ req.th_open = true)) ∧
    ((H5_daos_h5op_finalize c env req).2.2.any (Call.creates .DAOS_OPC_TX_COMMIT) = true
      ↔ (¬ req.status < -c.H5_DAOS_SHORT_CIRCUIT ∧ req.th_open = true)) ∧
    (req.th_open = false →
      (H5_daos_h5op_finalize c env req).2.2.any (Call.creates .DAOS_OPC_TX_ABORT) = false ∧
      (H5_daos_h5op_finalize c env req).2.2.any (Call.creates .DAOS_OPC_TX_COMMIT) = false) := by
  have key : ∀ o, (H5_daos_h5op_finalize c env req).2.2.any (Call.creates o)
      = (finalize_body c env req).calls.any (Call.creates o) := fun o => by
    unfold H5_daos_h5op_finalize
    exact finalize_done_creates c env _ o
  rw [key, key]
  unfold finalize_body
  by_cases h1 : req.status < -c.H5_DAOS_SHORT_CIRCUIT <;> cases hth : req.th_open <;>
    simp [h1, start_tx_task_creates]

/-- The request after `H5_daos_h5op_finalize` on a request with an open
transaction when every engine call succeeds: only the reference count was
touched (one reference taken for the new task, one released). -/
theorem finalize_req_ok (c : Codes) (env : TxEnv) (req : H5_daos_req_t)
    (hsc : 0 ≤ c.H5_DAOS_SHORT_CIRCUIT)
    (hth : req.th_open = true) (hok : env.engine_ok = true) :
    (H5_daos_h5op_finalize c env req).1 = { req with rc := req.rc + 1 - 1 } := by
  have hb := finalize_body_open c env req hth
  have hs := start_tx_task_ok c env
    (if req.status < -c.H5_DAOS_SHORT_CIRCUIT then .DAOS_OPC_TX_ABORT else .DAOS_OPC_TX_COMMIT)
    req (if req.status < -c.H5_DAOS_SHORT_CIRCUIT then req.status else 0) hok
  have hd := finalize_done_open c env (finalize_body c env req)
    (by rw [hb, hs]) (by rw [hb, hs]; exact hth)
  unfold H5_daos_h5op_finalize
  rw [hd, hb, hs]
  by_cases h : req.status < -c.H5_DAOS_SHORT_CIRCUIT
  · have : ¬ (-c.H5_DAOS_SHORT_CIRCUIT ≤ req.status) := by omega
    simp [record_own_error, H5_daos_req_free_int, h, this]
  · have : ¬ ((0:Int) < -c.H5_DAOS_SHORT_CIRCUIT) := by omega
    simp [record_own_error, H5_daos_req_free_int, h, this]

/-- The status after the error-recording block. -/
theorem record_task_error_status (c : Codes) (r : Int) (n : String) (req : H5_daos_req_t) :
    (record_task_error c r n req).status =
      if r < -c.H5_DAOS_PRE_ERROR ∧ req.status ≥ -c.H5_DAOS_SHORT_CIRCUIT then r
      else req.status := by
  unfold record_task_error; split <;> rfl

/-- The single notification off the path on which `tse_task_schedule` fails.
For every request with a notify callback registered, every result of the
scheduled task and every outcome of the engine and store calls (0 or a
negative code) other than a failure of `tse_task_schedule`, the notify
callback is invoked exactly once across `H5_daos_h5op_finalize` and
`H5_daos_tx_comp_cb`, with the tri-state outcome `notify_outcome`.  When an
abort or commit task was scheduled the notifying callback is
`H5_daos_tx_comp_cb`, it hits no error iff `daos_tx_close` succeeds, and the
status is the one after the failure of the scheduled task has been recorded;
otherwise the notifying callback is `H5_daos_h5op_finalize`, it hits no error
iff no transaction was open, and the status is the one of the request. -/
theorem notify_once_unless_schedule_refused (c : Codes) (env : TxEnv) (dt_result : Int)
    (req : H5_daos_req_t)
    (hn : req.notify_cb = true) (hns : env.schedule_refused = false)
    (hinc : c.H5_DAOS_INCOMPLETE ≤ c.H5_DAOS_SHORT_CIRCUIT)
    (hsc : 0 ≤ c.H5_DAOS_SHORT_CIRCUIT)
    (hget : 0 < c.H5_DAOS_DAOS_GET_ERROR)
    (hcr : env.task_create_ret ≤ 0) (hrg : env.register_ret ≤ 0)
    (hsch : env.schedule_ret ≤ 0) (hcl : env.tx_close_ret ≤ 0) :
    notifications (run_finalizer c env dt_result req).2 =
      [if req.th_open = true ∧ env.engine_ok = true then
        notify_outcome c (decide (env.tx_close_ret = 0))
          (record_task_error c dt_result "transaction commit/abort" req).status
       else notify_outcome c (!req.th_open) req.status] := by
  cases hth : req.th_open
  · -- no transaction: the finalize task notifies
    have hany : (H5_daos_h5op_finalize c env req).2.2.any
        (fun call => Call.schedules .DAOS_OPC_TX_ABORT call
          || Call.schedules .DAOS_OPC_TX_COMMIT call) = false := by
      by_cases h1 : req.status < -c.H5_DAOS_SHORT_CIRCUIT <;>
        simp [H5_daos_h5op_finalize, finalize_done, finalize_body, make_notify, hth, hn, h1,
          Call.schedules]
    unfold run_finalizer
    simp only [hany]
    by_cases h1 : req.status < -c.H5_DAOS_SHORT_CIRCUIT
    · have k1 : ¬ (0 ≤ req.status) := by omega
      have k2 : req.status ≠ -c.H5_DAOS_INCOMPLETE := by omega
      have k3 : req.status ≠ -c.H5_DAOS_SHORT_CIRCUIT := by omega
      simp [H5_daos_h5op_finalize, finalize_done, finalize_body, make_notify, hth, hn, h1,
        notifications, notify_status, notify_outcome, k1, k2, k3]
    · simp [H5_daos_h5op_finalize, finalize_done, finalize_body, make_notify, hth, hn, h1,
        notifications, notify_status, notify_outcome]
  · cases hok : env.engine_ok
    · rw [run_finalizer_fail c env dt_result req hth hok hns]
      have hb := finalize_body_open c env req hth
      obtain ⟨_, _, _, _, f5⟩ := start_tx_task_fail c env
        (if req.status < -c.H5_DAOS_SHORT_CIRCUIT then .DAOS_OPC_TX_ABORT
         else .DAOS_OPC_TX_COMMIT)
        req (if req.status < -c.H5_DAOS_SHORT_CIRCUIT then req.status else 0) hok hns
      have fr := start_tx_task_fail_ret c env
        (if req.status < -c.H5_DAOS_SHORT_CIRCUIT then .DAOS_OPC_TX_ABORT
         else .DAOS_OPC_TX_COMMIT)
        req (if req.status < -c.H5_DAOS_SHORT_CIRCUIT then req.status else 0) hok hget hcr hrg hsch
      rw [← hb] at f5 fr
      have k : ¬ (0 ≤ (if env.tx_close_ret = 0 then (finalize_body c env req).ret_value
          else env.tx_close_ret)) := by
        split <;> omega
      simp only [notifications_append, f5, hn, if_true]
      simp [notifications, notify_status, notify_outcome, k]
    · rw [run_finalizer_ok c env dt_result req hth hok, tx_comp_cb_calls,
        start_tx_task_ok c env _ req _ hok, finalize_req_ok c env req hsc hth hok]
      have hge : (0 ≤ env.tx_close_ret) ↔ env.tx_close_ret = 0 := by omega
      simp only [notifications_append, hn, if_true]
      simp [notifications, notify_status, notify_outcome, hge, record_task_error_status]

/-- C6 fails on the code when `tse_task_schedule` refuses the commit task.  A
request without error (`-H5_DAOS_INCOMPLETE`), with an open transaction and a
notify callback; `daos_task_create`, `daos_task_get_args` and
`tse_task_register_comp_cb` succeed and `tse_task_schedule` returns -1005.
The finalizer force-completes the commit task, whose registered callback
`H5_daos_tx_comp_cb` closes the transaction, completes the finalize task and
notifies `SUCCEED`; back in `H5_daos_h5op_finalize` the fallback closes the
transaction again and notifies `FAIL`: the callback is invoked twice, the
transaction is closed twice and two references are released. -/
theorem C6_notified_twice_when_schedule_fails :
    notifications (run_finalizer sampleCodes ⟨0, true, 0, -1005, 0, 0⟩ 0
        ⟨-sampleCodes.H5_DAOS_INCOMPLETE, none, 2, true, true⟩).2
      = [.H5ES_STATUS_SUCCEED, .H5ES_STATUS_FAIL] ∧
    (run_finalizer sampleCodes ⟨0, true, 0, -1005, 0, 0⟩ 0
        ⟨-sampleCodes.H5_DAOS_INCOMPLETE, none, 2, true, true⟩).2
      = [.daos_task_create .DAOS_OPC_TX_COMMIT 0, .daos_task_get_args .DAOS_OPC_TX_COMMIT true,
         .tse_task_register_comp_cb .DAOS_OPC_TX_COMMIT 0, .tse_task_set_priv .DAOS_OPC_TX_COMMIT,
         .tse_task_schedule .DAOS_OPC_TX_COMMIT (-1005),
         .tse_task_complete_tx .DAOS_OPC_TX_COMMIT 0,
         .daos_tx_close 0, .tse_task_complete_finalize 0,
         .notify_cb .H5ES_STATUS_SUCCEED 0, .H5_daos_req_free_int,
         .daos_tx_close 0, .notify_cb .H5ES_STATUS_FAIL 0,
         .tse_task_complete_finalize (-1005), .H5_daos_req_free_int] ∧
    (run_finalizer sampleCodes ⟨0, true, 0, -1005, 0, 0⟩ 0
        ⟨-sampleCodes.H5_DAOS_INCOMPLETE, none, 2, true, true⟩).1
      = ⟨-1005, some "h5 op finalize", 0, false, true⟩ := by
  refine ⟨?_, ?_, ?_⟩ <;> decide


/-! ### The collective error check -/

/-- The completion callback of the collective error check on a rank other
than 0, for a broadcast that completed with result 0, whatever the status of
the request: a received status at or below `-H5_DAOS_H5_OPEN_ERROR` replaces
the status and the label of the request. -/
theorem collective_comp_cb_remote (c : Codes) (my_rank : Nat) (status_buf : Int)
    (obj_close : Option Int) (req : H5_daos_req_t)
    (hpre : 0 ≤ c.H5_DAOS_PRE_ERROR) (hrank : my_rank ≠ 0)
    (hassert : status_buf ≠ -c.H5_DAOS_PRE_ERROR)
    (hbuf : status_buf ≤ -c.H5_DAOS_H5_OPEN_ERROR) :
    (H5_daos_collective_error_check_comp_cb c 0 my_rank status_buf obj_close req).map
        (fun r => (r.1.status, r.1.failed_task))
      = some (-c.H5_DAOS_REMOTE_ERROR, some "remote task") := by
  have k : ¬ ((0 : Int) < -c.H5_DAOS_PRE_ERROR) := by omega
  simp [H5_daos_collective_error_check_comp_cb, H5_daos_req_free_int, k, hrank, hassert, hbuf]

/-- C3 (sticky error status) fails on the code in
`H5_daos_collective_error_check_comp_cb`.  On rank 1, a request that already
carries the error -30 with label "y" and whose broadcast completed with result
0, having received the status -20 from rank 0, ends with status
`-H5_DAOS_REMOTE_ERROR` and label "remote task": the recorded error and its
label are overwritten. -/
theorem C3_collective_error_check_overwrites :
    (⟨-30, some "y", 2, false, false⟩ : H5_daos_req_t).status
        < -sampleCodes.H5_DAOS_SHORT_CIRCUIT ∧
    H5_daos_collective_error_check_comp_cb sampleCodes 0 1 (-20) none
        ⟨-30, some "y", 2, false, false⟩
      = some (⟨-7, some "remote task", 1, false, false⟩, 0) := by
  decide

/-- C9 as stated fails: with 4 participants of which only participant 2 (rank
1) carries an error (-20), a collective error check whose broadcast completes
successfully on every rank leaves participants 1, 3 and 4 with their
incomplete status: the four requests do not report the same failure. -/
theorem C9_counterexample :
    collective_error_check_round sampleCodes
        [⟨-1, none, 1, false, false⟩, ⟨-20, some "x", 1, false, false⟩,
         ⟨-1, none, 1, false, false⟩, ⟨-1, none, 1, false, false⟩]
      = some [⟨-1, none, 1, false, false⟩, ⟨-20, some "x", 1, false, false⟩,
              ⟨-1, none, 1, false, false⟩, ⟨-1, none, 1, false, false⟩] := by
  decide

/-- C9, as amended (collective convergence).  Four participants run a
collective error check whose broadcast completes successfully on every rank.
When the local step of the coordinator (rank 0) has failed with a status `e`
at or below `-H5_DAOS_H5_OPEN_ERROR` and the other three carry no error, all
four requests report a failure afterwards: the coordinator keeps `e` and its
label, the other three report `-H5_DAOS_REMOTE_ERROR` with the label "remote
task".  When the coordinator carries no error, the check changes the status
and label of no request, whatever the other participants carry, so a failure
of participant 2 alone stays with participant 2.  The order of the header
constants relied on is `0 <= H5_DAOS_SHORT_CIRCUIT < H5_DAOS_PRE_ERROR <
H5_DAOS_H5_OPEN_ERROR`. -/
theorem C9_coordinator_failure_converges (c : Codes) (r0 r1 r2 r3 : H5_daos_req_t)
    (hsc : 0 ≤ c.H5_DAOS_SHORT_CIRCUIT)
    (hpre : c.H5_DAOS_SHORT_CIRCUIT < c.H5_DAOS_PRE_ERROR)
    (hopen : c.H5_DAOS_PRE_ERROR < c.H5_DAOS_H5_OPEN_ERROR) :
    (r0.status ≤ -c.H5_DAOS_H5_OPEN_ERROR →
      collective_error_check_round c [r0, r1, r2, r3] =
        some [r0,
              { r1 with status := -c.H5_DAOS_REMOTE_ERROR, failed_task := some "remote task" },
              { r2 with status := -c.H5_DAOS_REMOTE_ERROR, failed_task := some "remote task" },
              { r3 with status := -c.H5_DAOS_REMOTE_ERROR, failed_task := some "remote task" }]) ∧
    (-c.H5_DAOS_SHORT_CIRCUIT ≤ r0.status →
      collective_error_check_round c [r0, r1, r2, r3] = some [r0, r1, r2, r3]) := by
  have k : ¬ ((0 : Int) < -c.H5_DAOS_PRE_ERROR) := by omega
  constructor
  · intro h0
    have k1 : r0.status ≠ -c.H5_DAOS_PRE_ERROR := by omega
    simp [collective_error_check_round, H5_daos_collective_error_check,
      H5_daos_collective_error_check_prep_cb, H5_daos_collective_error_check_comp_cb,
      H5_daos_req_free_int, MPI_Ibcast, all_some, List.enum, List.enumFrom, k, k1, h0]
  · intro h0
    have k1 : r0.status ≠ -c.H5_DAOS_PRE_ERROR := by omega
    have k2 : ¬ (r0.status ≤ -c.H5_DAOS_H5_OPEN_ERROR) := by omega
    simp [collective_error_check_round, H5_daos_collective_error_check,
      H5_daos_collective_error_check_prep_cb, H5_daos_collective_error_check_comp_cb,
      H5_daos_req_free_int, MPI_Ibcast, all_some, List.enum, List.enumFrom, k, k1, k2]

/-- Witness of C9 as amended: the coordinator fails with -20 on the sample
codes. -/
theorem C9_coordinator_failure_converges_witness :
    collective_error_check_round sampleCodes
        [⟨-20, some "x", 1, false, false⟩, ⟨-1, none, 1, false, false⟩,
         ⟨-1, none, 1, false, false⟩, ⟨-1, none, 1, false, false⟩]
      = some [⟨-20, some "x", 1, false, false⟩, ⟨-7, some "remote task", 1, false, false⟩,
              ⟨-7, some "remote task", 1, false, false⟩,
              ⟨-7, some "remote task", 1, false, false⟩] :=
  (C9_coordinator_failure_converges sampleCodes ⟨-20, some "x", 1, false, false⟩
    ⟨-1, none, 1, false, false⟩ ⟨-1, none, 1, false, false⟩ ⟨-1, none, 1, false, false⟩
    (by decide) (by decide) (by decide)).1 (by decide)

/-- C10 (collective status word).  In the collective error check: the status
word the coordinator broadcasts is its request status at prepare time; on
every other rank whose broadcast task completed with result 0 and whose
request carries no error, the request gets status `-H5_DAOS_REMOTE_ERROR` and
label "remote task" when the received status is at or below
`-H5_DAOS_H5_OPEN_ERROR`, and keeps its status and label otherwise; on rank 0
the outcome of the callback does not depend on the received buffer and a
broadcast result of 0 leaves the status and the label as they were.  The
received status is not `-H5_DAOS_PRE_ERROR` (asserted by the callback), and
the order of the header constants relied on is `0 <= H5_DAOS_PRE_ERROR`. -/
theorem C10_status_word (c : Codes) (s : RankState) (dt_result : Int) (my_rank : Nat)
    (status_buf other_buf : Int) (obj_close : Option Int) (req : H5_daos_req_t)
    (hpre : 0 ≤ c.H5_DAOS_PRE_ERROR) :
    (s.my_rank = 0 →
      (H5_daos_collective_error_check_prep_cb s).map RankState.coll_status
        = some s.req.status) ∧
    (my_rank ≠ 0 → -c.H5_DAOS_SHORT_CIRCUIT ≤ req.status →
      status_buf ≠ -c.H5_DAOS_PRE_ERROR →
      (H5_daos_collective_error_check_comp_cb c 0 my_rank status_buf obj_close req).map
          (fun r => (r.1.status, r.1.failed_task))
        = some (if status_buf ≤ -c.H5_DAOS_H5_OPEN_ERROR then
                  (-c.H5_DAOS_REMOTE_ERROR, some "remote task")
                else (req.status, req.failed_task))) ∧
    (H5_daos_collective_error_check_comp_cb c dt_result 0 status_buf obj_close req
        = H5_daos_collective_error_check_comp_cb c dt_result 0 other_buf obj_close req) ∧
    ((H5_daos_collective_error_check_comp_cb c 0 0 status_buf obj_close req).map
        (fun r => (r.1.status, r.1.failed_task)) = some (req.status, req.failed_task)) := by
  have k : ¬ ((0 : Int) < -c.H5_DAOS_PRE_ERROR) := by omega
  refine ⟨?_, ?_, ?_, ?_⟩
  · intro h
    simp [H5_daos_collective_error_check_prep_cb, h]
  · intro hr h0 hb
    by_cases h1 : status_buf ≤ -c.H5_DAOS_H5_OPEN_ERROR <;>
      simp [H5_daos_collective_error_check_comp_cb, H5_daos_req_free_int, k, hr, hb, h1]
  · simp [H5_daos_collective_error_check_comp_cb]
  · simp [H5_daos_collective_error_check_comp_cb, H5_daos_req_free_int, k]

/-- Witness of C10: rank 2 receives the status -20 on the sample codes. -/
theorem C10_status_word_witness :
    (H5_daos_collective_error_check_comp_cb sampleCodes 0 2 (-20) none
        ⟨-1, none, 2, false, false⟩).map (fun r => (r.1.status, r.1.failed_task))
      = some (-7, some "remote task") :=
  (C10_status_word sampleCodes ⟨0, ⟨-20, none, 2, false, false⟩, 0⟩ 0 2 (-20) 0 none
    ⟨-1, none, 2, false, false⟩ (by decide)).2.1 (by decide) (by decide) (by decide)


/-! ### The object-index lease -/

theorem lease_set_lease (f : H5_daos_file_t) (b b2 : Bool) (l : Lease) :
    (f.set_lease b l).lease b2 = if b2 = b then l else f.lease b2 := by
  cases b <;> cases b2 <;> simp [H5_daos_file_t.set_lease, H5_daos_file_t.lease]

theorem set_lease_set_lease (f : H5_daos_file_t) (b : Bool) (l l2 : Lease) :
    (f.set_lease b l).set_lease b l2 = f.set_lease b l2 := by
  cases b <;> simp [H5_daos_file_t.set_lease]

theorem set_lease_rank (f : H5_daos_file_t) (b : Bool) (l : Lease) :
    (f.set_lease b l).my_rank = f.my_rank ∧ (f.set_lease b l).num_procs = f.num_procs := by
  cases b <;> simp [H5_daos_file_t.set_lease]

/-- The adjust macro when the batch ends inside the 64-bit range. -/
theorem adjust_eq (k : OidxConsts) (l : Lease)
    (hfu : k.H5_DAOS_OIDX_FIRST_USER < k.H5_DAOS_OIDX_NALLOC)
    (hs : l.next_oidx + k.H5_DAOS_OIDX_NALLOC ≤ 2 ^ 64) :
    H5_DAOS_ADJUST_MAX_AND_NEXT_OIDX k l =
      some ⟨max l.next_oidx k.H5_DAOS_OIDX_FIRST_USER,
            l.next_oidx + k.H5_DAOS_OIDX_NALLOC - 1⟩ := by
  have h1 : (l.next_oidx + k.H5_DAOS_OIDX_NALLOC + (2 ^ 64 - 1)) % 2 ^ 64
      = l.next_oidx + k.H5_DAOS_OIDX_NALLOC - 1 := by
    norm_num at hs ⊢
    omega
  unfold H5_DAOS_ADJUST_MAX_AND_NEXT_OIDX
  simp only [h1, gt_iff_lt, hfu, if_true]
  split
  · rename_i h; rw [max_eq_right (by omega)]
  · rename_i h; rw [max_eq_left (by omega)]

/-- The allocate macro when the increment does not wrap. -/
theorem allocate_eq (l : Lease) (h : l.next_oidx ≤ l.max_oidx)
    (hw : l.next_oidx + 1 < 2 ^ 64) :
    H5_DAOS_ALLOCATE_NEXT_OIDX l = some (l.next_oidx, ⟨l.next_oidx + 1, l.max_oidx⟩) := by
  unfold H5_DAOS_ALLOCATE_NEXT_OIDX
  rw [if_pos h, Nat.mod_eq_of_lt hw]

/-- The adjust-then-allocate step of the two completion callbacks on a lease
whose `next_oidx` holds the start `s` of the granted batch. -/
theorem adjust_allocate_eq (k : OidxConsts) (l : Lease) (s : Nat)
    (hfu : k.H5_DAOS_OIDX_FIRST_USER < k.H5_DAOS_OIDX_NALLOC)
    (hs : s + k.H5_DAOS_OIDX_NALLOC < 2 ^ 64) :
    (H5_DAOS_ADJUST_MAX_AND_NEXT_OIDX k { l with next_oidx := s }).bind
        H5_DAOS_ALLOCATE_NEXT_OIDX
      = some (max s k.H5_DAOS_OIDX_FIRST_USER,
          ⟨max s k.H5_DAOS_OIDX_FIRST_USER + 1, s + k.H5_DAOS_OIDX_NALLOC - 1⟩) := by
  rw [adjust_eq k _ hfu (by show s + _ ≤ _; omega)]
  simp only [Option.some_bind]
  rw [allocate_eq]
  · show max s _ ≤ s + _ - 1
    rcases le_total s k.H5_DAOS_OIDX_FIRST_USER with h | h
    · rw [max_eq_right h]; omega
    · rw [max_eq_left h]; omega
  · show max s _ + 1 < 2 ^ 64
    rcases le_total s k.H5_DAOS_OIDX_FIRST_USER with h | h
    · rw [max_eq_right h]; omega
    · rw [max_eq_left h]; omega

/-- The adjust macro on a lease whose `next_oidx` is the start `s` of a batch
that ends inside the 64-bit range, whatever its `max_oidx`. -/
theorem adjust_at (k : OidxConsts) (s m : Nat)
    (hfu : k.H5_DAOS_OIDX_FIRST_USER < k.H5_DAOS_OIDX_NALLOC)
    (hs : s + k.H5_DAOS_OIDX_NALLOC < 2 ^ 64) :
    H5_DAOS_ADJUST_MAX_AND_NEXT_OIDX k ⟨s, m⟩ =
      some ⟨max s k.H5_DAOS_OIDX_FIRST_USER, s + k.H5_DAOS_OIDX_NALLOC - 1⟩ :=
  adjust_eq k ⟨s, m⟩ hfu (by show s + _ ≤ _; omega)

/-- The allocate macro right after the adjust macro. -/
theorem allocate_at (k : OidxConsts) (s : Nat)
    (hfu : k.H5_DAOS_OIDX_FIRST_USER < k.H5_DAOS_OIDX_NALLOC)
    (hs : s + k.H5_DAOS_OIDX_NALLOC < 2 ^ 64) :
    H5_DAOS_ALLOCATE_NEXT_OIDX
        ⟨max s k.H5_DAOS_OIDX_FIRST_USER, s + k.H5_DAOS_OIDX_NALLOC - 1⟩ =
      some (max s k.H5_DAOS_OIDX_FIRST_USER,
        ⟨max s k.H5_DAOS_OIDX_FIRST_USER + 1, s + k.H5_DAOS_OIDX_NALLOC - 1⟩) := by
  apply allocate_eq
  · show max s _ ≤ s + _ - 1
    rcases le_total s k.H5_DAOS_OIDX_FIRST_USER with h | h
    · rw [max_eq_right h]; omega
    · rw [max_eq_left h]; omega
  · show max s _ + 1 < 2 ^ 64
    rcases le_total s k.H5_DAOS_OIDX_FIRST_USER with h | h
    · rw [max_eq_right h]; omega
    · rw [max_eq_left h]; omega

/-- One call of `H5_daos_oidx_generate` run to completion is the closed-form
lease step on the lease selected by the flag, on every rank and for every
number of processes, when neither the batch nor the local increment leaves the
64-bit range. -/
theorem oidx_generate_run_eq (c : Codes) (k : OidxConsts) (file : H5_daos_file_t)
    (req : H5_daos_req_t) (b : Bool) (s : Nat)
    (hpre : 0 ≤ c.H5_DAOS_PRE_ERROR)
    (hfu : k.H5_DAOS_OIDX_FIRST_USER < k.H5_DAOS_OIDX_NALLOC)
    (hrank : file.my_rank < file.num_procs)
    (hs : s + k.H5_DAOS_OIDX_NALLOC < 2 ^ 64)
    (hl : (file.lease b).max_oidx + 1 < 2 ^ 64) :
    ∃ req2, oidx_generate_run c k file req b s =
      some (file.set_lease b (lease_step k (file.lease b) s).2, req2,
        some (lease_step k (file.lease b) s).1) := by
  have kp : ¬ ((0 : Int) < -c.H5_DAOS_PRE_ERROR) := by omega
  have hadj := fun m => adjust_at k s m hfu hs
  have hal := allocate_at k s hfu hs
  by_cases hex : (file.lease b).max_oidx = 0 ∨ (file.lease b).next_oidx > (file.lease b).max_oidx
  · obtain ⟨rk, np, n1, m1, n2, m2⟩ := file
    simp only at hrank
    cases b
    · simp [H5_daos_file_t.lease] at hex
      simp [oidx_generate_run, H5_daos_oidx_generate, H5_daos_oidx_generate_comp_cb,
        oidx_cb_done, H5_daos_file_t.lease, H5_daos_file_t.set_lease, lease_step, hex, kp,
        hadj, hal, H5_daos_req_free_int]
    · simp [H5_daos_file_t.lease] at hex
      by_cases h0 : rk = 0
      · by_cases h1 : np = 1
        · simp [oidx_generate_run, H5_daos_oidx_generate, H5_daos_oidx_generate_comp_cb,
            oidx_cb_done, H5_daos_file_t.lease, H5_daos_file_t.set_lease, lease_step, hex, kp,
            hadj, hal, H5_daos_req_free_int, h0, h1]
        · have h2 : 1 < np := by omega
          simp [oidx_generate_run, H5_daos_oidx_generate, H5_daos_oidx_generate_comp_cb,
            H5_daos_oidx_bcast_comp_cb, H5_daos_oidx_bcast_prep_cb,
            oidx_cb_done, H5_daos_file_t.lease, H5_daos_file_t.set_lease, lease_step, hex, kp,
            hadj, hal, H5_daos_req_free_int, h0, h1, h2]
      · have h2 : 1 < np := by omega
        simp [oidx_generate_run, H5_daos_oidx_generate, H5_daos_oidx_generate_comp_cb,
          H5_daos_oidx_bcast_comp_cb, H5_daos_oidx_bcast_prep_cb,
          oidx_cb_done, H5_daos_file_t.lease, H5_daos_file_t.set_lease, lease_step, hex, kp,
          hadj, hal, H5_daos_req_free_int, h0, h2]
  · have hle : (file.lease b).next_oidx ≤ (file.lease b).max_oidx := by
      by_contra h; exact hex (Or.inr (by omega))
    have ha := allocate_eq (file.lease b) hle (by omega)
    refine ⟨req, ?_⟩
    simp [oidx_generate_run, H5_daos_oidx_generate, lease_step, hex, ha]

theorem filter_flag_singleton (b b2 : Bool) (x : Nat) :
    ([(b, x)].filter (fun p => p.1 == b2)).map Prod.snd = if b = b2 then [x] else [] := by
  cases b <;> cases b2 <;> rfl

/-- The closed-form lease step preserves the state invariant.  When the lease
is exhausted, the batch granted has to start at or above the bound, and the
new bound is the end of that batch; a local allocation keeps the bound. -/
theorem oidx_inv_step (k : OidxConsts) (f : H5_daos_file_t) (outs : List (Bool × Nat))
    (lo : Nat) (b : Bool) (s : Nat) (hinv : OidxInv f outs lo)
    (hgrant : (f.lease b).max_oidx = 0 ∨ (f.lease b).next_oidx > (f.lease b).max_oidx → lo ≤ s)
    (hfu : k.H5_DAOS_OIDX_FIRST_USER < k.H5_DAOS_OIDX_NALLOC) :
    OidxInv (f.set_lease b (lease_step k (f.lease b) s).2)
      (outs ++ [(b, (lease_step k (f.lease b) s).1)])
      (if (f.lease b).max_oidx = 0 ∨ (f.lease b).next_oidx > (f.lease b).max_oidx
        then s + k.H5_DAOS_OIDX_NALLOC else lo) := by
  obtain ⟨hbm, hbo, hln, hwf, hdj, hnd, hso⟩ := hinv
  have hother : ∀ b2 : Bool, b2 ≠ b → (b2 = !b) := by
    intro b2 h; cases b <;> cases b2 <;> simp_all
  by_cases hex : (f.lease b).max_oidx = 0 ∨ (f.lease b).next_oidx > (f.lease b).max_oidx
  · -- replenishment
    have hlo : lo ≤ s := hgrant hex
    rw [if_pos hex]
    have hstep : lease_step k (f.lease b) s =
        (max s k.H5_DAOS_OIDX_FIRST_USER,
          ⟨max s k.H5_DAOS_OIDX_FIRST_USER + 1, s + k.H5_DAOS_OIDX_NALLOC - 1⟩) := by
      simp [lease_step, hex]
    rw [hstep]
    have hM1 : s ≤ max s k.H5_DAOS_OIDX_FIRST_USER := le_max_left _ _
    have hM2 : max s k.H5_DAOS_OIDX_FIRST_USER < s + k.H5_DAOS_OIDX_NALLOC := by
      rcases le_total s k.H5_DAOS_OIDX_FIRST_USER with h | h
      · rw [max_eq_right h]; omega
      · rw [max_eq_left h]; omega
    generalize max s k.H5_DAOS_OIDX_FIRST_USER = M at hM1 hM2 ⊢
    refine ⟨?_, ?_, ?_, ?_, ?_, ?_, ?_⟩
    · intro b2 h
      rw [lease_set_lease] at h ⊢
      by_cases hb : b2 = b
      · simp only [hb, if_true]; omega
      · simp only [hb, if_false] at h ⊢
        have := hbm b2 h; omega
    · intro p hp
      rcases List.mem_append.mp hp with h | h
      · have := hbo p h; omega
      · simp only [List.mem_singleton] at h; subst h; show M < _; omega
    · intro p hp
      rw [lease_set_lease]
      rcases List.mem_append.mp hp with h | h
      · by_cases hb : p.1 = b
        · simp only [hb, if_true]; have := hbo p h; omega
        · simp only [hb, if_false]; exact hln p h
      · simp only [List.mem_singleton] at h; subst h; simp
    · intro p hp b2
      rw [lease_set_lease]
      rcases List.mem_append.mp hp with h | h
      · by_cases hb : b2 = b
        · simp only [hb, if_true, Lease.holds]; have := hbo p h; omega
        · simp only [hb, if_false]; exact hwf p h b2
      · simp only [List.mem_singleton] at h; subst h
        by_cases hb : b2 = b
        · simp only [hb, if_true, Lease.holds]; omega
        · simp only [hb, if_false, Lease.holds]
          intro ⟨h1, _, h3⟩
          have := hbm b2 h1
          omega
    · intro x
      rw [lease_set_lease, lease_set_lease]
      cases b
      · simp only [if_true, Bool.true_eq_false, if_false, Lease.holds]
        intro ⟨⟨_, h2, _⟩, ⟨h4, _, h6⟩⟩
        have := hbm true h4; omega
      · simp only [if_true, Bool.false_eq_true, if_false, Lease.holds]
        intro ⟨⟨h1, _, h3⟩, ⟨_, h5, _⟩⟩
        have := hbm false h1; omega
    · rw [List.map_append, List.nodup_append]
      refine ⟨hnd, by simp, ?_⟩
      intro a ha hb
      simp only [List.map_cons, List.map_nil, List.mem_singleton] at hb
      obtain ⟨p, hp, rfl⟩ := List.mem_map.mp ha
      have := hbo p hp; omega
    · intro b2
      rw [List.filter_append, List.map_append, List.pairwise_append, filter_flag_singleton]
      refine ⟨hso b2, ?_, ?_⟩
      · split <;> simp
      · intro x hx y hy
        obtain ⟨p, hp, rfl⟩ := List.mem_map.mp hx
        have hp2 := (List.mem_filter.mp hp).1
        have := hbo p hp2
        split at hy
        · simp only [List.mem_singleton] at hy; omega
        · simp at hy
  · -- local allocation
    rw [if_neg hex]
    have hne : (f.lease b).max_oidx ≠ 0 := fun h => hex (Or.inl h)
    have hle : (f.lease b).next_oidx ≤ (f.lease b).max_oidx := by
      by_contra h; exact hex (Or.inr (by omega))
    have hstep : lease_step k (f.lease b) s =
        ((f.lease b).next_oidx, ⟨(f.lease b).next_oidx + 1, (f.lease b).max_oidx⟩) := by
      simp [lease_step, hex]
    rw [hstep]
    have hmax := hbm b hne
    have hholds : (f.lease b).holds (f.lease b).next_oidx := ⟨hne, le_refl _, hle⟩
    refine ⟨?_, ?_, ?_, ?_, ?_, ?_, ?_⟩
    · intro b2 h
      rw [lease_set_lease] at h ⊢
      by_cases hb : b2 = b
      · simp only [hb, if_true]; omega
      · simp only [hb, if_false] at h ⊢
        have := hbm b2 h; omega
    · intro p hp
      rcases List.mem_append.mp hp with h | h
      · have := hbo p h; omega
      · simp only [List.mem_singleton] at h; subst h
        show (f.lease b).next_oidx < _; omega
    · intro p hp
      rw [lease_set_lease]
      rcases List.mem_append.mp hp with h | h
      · by_cases hb : p.1 = b
        · simp only [hb, if_true]; have := hln p h; rw [hb] at this; omega
        · simp only [hb, if_false]; exact hln p h
      · simp only [List.mem_singleton] at h; subst h; simp
    · intro p hp b2
      rw [lease_set_lease]
      rcases List.mem_append.mp hp with h | h
      · by_cases hb : b2 = b
        · simp only [hb, if_true, Lease.holds]
          intro ⟨h1, h2, h3⟩
          exact hwf p h b ⟨h1, by omega, h3⟩
        · simp only [hb, if_false]; exact hwf p h b2
      · simp only [List.mem_singleton] at h; subst h
        by_cases hb : b2 = b
        · simp only [hb, if_true, Lease.holds]; omega
        · simp only [hb, if_false]
          intro h2
          have hb2 := hother b2 hb
          subst hb2
          cases b
          · exact hdj _ ⟨hholds, h2⟩
          · exact hdj _ ⟨h2, hholds⟩
    · intro x
      rw [lease_set_lease, lease_set_lease]
      cases b
      · simp only [if_true, Bool.true_eq_false, if_false]
        intro ⟨⟨h1, h2, h3⟩, h4⟩
        have h2b : (f.lease false).next_oidx + 1 ≤ x := h2
        exact hdj x ⟨⟨h1, by omega, h3⟩, h4⟩
      · simp only [if_true, Bool.false_eq_true, if_false]
        intro ⟨h4, ⟨h1, h2, h3⟩⟩
        have h2b : (f.lease true).next_oidx + 1 ≤ x := h2
        exact hdj x ⟨h4, ⟨h1, by omega, h3⟩⟩
    · rw [List.map_append, List.nodup_append]
      refine ⟨hnd, by simp, ?_⟩
      intro a ha hb
      simp only [List.map_cons, List.map_nil, List.mem_singleton] at hb
      obtain ⟨p, hp, rfl⟩ := List.mem_map.mp ha
      apply hwf p hp b
      rw [hb]; exact hholds
    · intro b2
      rw [List.filter_append, List.map_append, List.pairwise_append, filter_flag_singleton]
      refine ⟨hso b2, ?_, ?_⟩
      · split <;> simp
      · intro x hx y hy
        obtain ⟨p, hp, rfl⟩ := List.mem_map.mp hx
        have hp2 := (List.mem_filter.mp hp)
        have hpb : p.1 = b2 := by simpa using hp2.2
        have := hln p hp2.1
        split at hy
        · rename_i hb
          simp only [List.mem_singleton] at hy
          subst hb; rw [hpb] at this; omega
        · simp at hy

/-- A sequence of calls served by a store that grants disjoint batches in
increasing order runs to completion, every call hands out an index, and the
state invariant holds at the end for the indices handed out before and during
the sequence. -/
theorem oidx_generate_store_seq_inv (c : Codes) (k : OidxConsts) (grant : Nat → Nat)
    (hpre : 0 ≤ c.H5_DAOS_PRE_ERROR)
    (hfu : k.H5_DAOS_OIDX_FIRST_USER < k.H5_DAOS_OIDX_NALLOC) :
    ∀ (calls : List Bool) (file : H5_daos_file_t) (req : H5_daos_req_t)
      (acc : List (Bool × Nat)) (lo used : Nat),
      file.my_rank < file.num_procs → OidxInv file acc lo →
      (0 < calls.length → lo ≤ grant used) →
      (∀ i, used ≤ i → i + 1 < used + calls.length →
        grant i + k.H5_DAOS_OIDX_NALLOC ≤ grant (i + 1)) →
      (∀ i, used ≤ i → i < used + calls.length → grant i + k.H5_DAOS_OIDX_NALLOC < 2 ^ 64) →
      ∃ f2 req2 used2 outs,
        oidx_generate_store_seq c k grant file req used calls = some (f2, req2, used2, outs) ∧
        outs.map Prod.fst = calls ∧ ∃ lo2, OidxInv f2 (acc ++ outs) lo2 := by
  intro calls
  induction calls with
  | nil =>
    intro file req acc lo used _ hinv _ _ _
    exact ⟨file, req, used, [], rfl, rfl, lo, by simpa using hinv⟩
  | cons b rest ih =>
    intro file req acc lo used hrank hinv hlo hinc hbd
    have hlo0 : lo ≤ grant used := hlo (by simp)
    have hs : grant used + k.H5_DAOS_OIDX_NALLOC < 2 ^ 64 :=
      hbd used (le_refl _) (by simp)
    have hl : (file.lease b).max_oidx + 1 < 2 ^ 64 := by
      by_cases h0 : (file.lease b).max_oidx = 0
      · rw [h0]; norm_num
      · have := hinv.bound_max b h0; omega
    obtain ⟨req1, hrun⟩ := oidx_generate_run_eq c k file req b (grant used) hpre hfu hrank hs hl
    have hinv1 := oidx_inv_step k file acc lo b (grant used) hinv (fun _ => hlo0) hfu
    have hrank1 : (file.set_lease b (lease_step k (file.lease b) (grant used)).2).my_rank
        < (file.set_lease b (lease_step k (file.lease b) (grant used)).2).num_procs := by
      rw [(set_lease_rank file _ _).1, (set_lease_rank file _ _).2]; exact hrank
    have hlen : (b :: rest).length = rest.length + 1 := rfl
    obtain ⟨f2, req2, used2, outs, hseq, hflags, lo2, hinv2⟩ :=
      ih _ req1 _ _
        (if (file.lease b).max_oidx = 0 ∨ (file.lease b).next_oidx > (file.lease b).max_oidx
          then used + 1 else used) hrank1 hinv1
        (by
          intro hpos
          split_ifs with hex
          · exact hinc used (le_refl _) (by rw [hlen]; omega)
          · exact hlo0)
        (by
          intro i hi1 hi2
          apply hinc i
          · split_ifs at hi1 <;> omega
          · rw [hlen]; split_ifs at hi2 <;> omega)
        (by
          intro i hi1 hi2
          apply hbd i
          · split_ifs at hi1 <;> omega
          · rw [hlen]; split_ifs at hi2 <;> omega)
    refine ⟨f2, req2, used2, (b, (lease_step k (file.lease b) (grant used)).1) :: outs, ?_, ?_,
      lo2, ?_⟩
    · simp only [oidx_generate_store_seq, hrun, hseq]
    · simp only [List.map_cons, hflags]
    · rw [List.append_assoc] at hinv2; exact hinv2

/-- The state invariant of a file whose two leases are fresh (`max_oidx` is
0), before any index has been handed out. -/
theorem oidx_inv_fresh (file : H5_daos_file_t)
    (h2 : file.max_oidx = 0) (h4 : file.max_oidx_collective = 0) :
    OidxInv file [] 0 := by
  refine ⟨?_, ?_, ?_, ?_, ?_, ?_, ?_⟩
  · intro b h; cases b <;> simp [H5_daos_file_t.lease, h2, h4] at h
  · intro p hp; simp at hp
  · intro p hp; simp at hp
  · intro p hp; simp at hp
  · intro x ⟨⟨h, _⟩, _⟩; simp [H5_daos_file_t.lease, h2] at h
  · simp
  · intro b; simp

/-- C7, as amended (lease monotonicity).  For any sequence of
`H5_daos_oidx_generate` calls on one file whose two leases are fresh
(`max_oidx` and `max_oidx_collective` are 0, as on a new file), with any
collective flags, on any rank, each call run to completion before the next,
served by a store that grants, each time a call finds its lease exhausted, the
next of successive disjoint batches of `H5_DAOS_OIDX_NALLOC` indices at
increasing start values (`grant i + NALLOC <= grant (i + 1)`), none of which
reaches the last 64-bit index: every call hands out an index, no index is
handed out twice by any two calls, and the indices handed out by the calls
that share a collective flag (that is, by one lease) are strictly increasing,
including across a replenishment of the lease.  The constants of the header
satisfy `H5_DAOS_OIDX_FIRST_USER < H5_DAOS_OIDX_NALLOC` (asserted by the code)
and `0 <= H5_DAOS_PRE_ERROR`. -/
theorem C7_indices_distinct_and_increasing_per_lease (c : Codes) (k : OidxConsts)
    (grant : Nat → Nat) (file : H5_daos_file_t) (req : H5_daos_req_t) (calls : List Bool)
    (hpre : 0 ≤ c.H5_DAOS_PRE_ERROR)
    (hfu : k.H5_DAOS_OIDX_FIRST_USER < k.H5_DAOS_OIDX_NALLOC)
    (hrank : file.my_rank < file.num_procs)
    (h2 : file.max_oidx = 0) (h4 : file.max_oidx_collective = 0)
    (hinc : ∀ i, i + 1 < calls.length → grant i + k.H5_DAOS_OIDX_NALLOC ≤ grant (i + 1))
    (hbd : ∀ i, i < calls.length → grant i + k.H5_DAOS_OIDX_NALLOC < 2 ^ 64) :
    ∃ f2 req2 used outs,
      oidx_generate_store_seq c k grant file req 0 calls = some (f2, req2, used, outs) ∧
      outs.map Prod.fst = calls ∧
      (outs.map Prod.snd).Nodup ∧
      ∀ b, ((outs.filter (fun p => p.1 == b)).map Prod.snd).Pairwise (fun x y => x < y) := by
  obtain ⟨f2, req2, used, outs, hseq, hflags, lo2, hinv⟩ :=
    oidx_generate_store_seq_inv c k grant hpre hfu calls file req [] 0 0 hrank
      (oidx_inv_fresh file h2 h4) (fun _ => Nat.zero_le _)
      (fun i _ hi => hinc i (by omega)) (fun i _ hi => hbd i (by omega))
  rw [List.nil_append] at hinv
  exact ⟨f2, req2, used, outs, hseq, hflags, hinv.nodup, hinv.sorted⟩

/-- Witness of C7 as amended, on batches of 4 indices granted at 0, 4, 8: five
calls, of which the first two use up the first batch of the independent lease
(indices 2 and 3), the third replenishes that exhausted lease with the
adjacent batch (index 4), the fourth opens the collective lease (index 8) and
the fifth is served locally (index 5). -/
theorem C7_indices_distinct_and_increasing_per_lease_witness :
    oidx_generate_store_seq sampleCodes smallOidx (fun i => 4 * i) ⟨0, 1, 0, 0, 0, 0⟩
        ⟨-1, none, 1, false, false⟩ 0 [false, false, false, true, false]
      = some (⟨0, 1, 6, 7, 9, 11⟩, ⟨-1, none, 1, false, false⟩, 3,
          [(false, 2), (false, 3), (false, 4), (true, 8), (false, 5)]) ∧
    ∃ f2 req2 used outs,
      oidx_generate_store_seq sampleCodes smallOidx (fun i => 4 * i) ⟨0, 1, 0, 0, 0, 0⟩
        ⟨-1, none, 1, false, false⟩ 0 [false, false, false, true, false]
        = some (f2, req2, used, outs) ∧
      outs.map Prod.fst = [false, false, false, true, false] ∧
      (outs.map Prod.snd).Nodup ∧
      ∀ b, ((outs.filter (fun p => p.1 == b)).map Prod.snd).Pairwise (fun x y => x < y) :=
  ⟨by decide,
   C7_indices_distinct_and_increasing_per_lease sampleCodes smallOidx (fun i => 4 * i)
    ⟨0, 1, 0, 0, 0, 0⟩ ⟨-1, none, 1, false, false⟩ [false, false, false, true, false]
    (by decide) (by decide) (by decide) rfl rfl
    (fun i _ => by show 4 * i + 4 ≤ 4 * (i + 1); omega)
    (fun i hi => by
      have h5 : i < 5 := hi
      show 4 * i + 4 < 2 ^ 64
      omega)⟩

/-- C7 as stated fails: an independent call, a collective call and a second
independent call on a fresh file, the store granting the batches that start
at 0 and 1024, hand out the indices 2, 1024 and 3, which are not increasing. -/
theorem C7_counterexample :
    (oidx_generate_store_seq sampleCodes sampleOidx (fun i => 1024 * i) ⟨0, 1, 0, 0, 0, 0⟩
        ⟨-1, none, 1, false, false⟩ 0 [false, true, false]).map
          (fun r => (r.2.2.1, r.2.2.2.map Prod.snd))
      = some (2, [2, 1024, 3]) ∧
    ¬ ((1024 : Nat) < 3) := by
  decide

/-- A local allocation: a call on a lease that is not exhausted hands out
`next_oidx` and increments it in 64-bit arithmetic. -/
theorem oidx_generate_run_local (c : Codes) (k : OidxConsts) (file : H5_daos_file_t)
    (req : H5_daos_req_t) (b : Bool) (s : Nat)
    (h0 : (file.lease b).max_oidx ≠ 0)
    (hle : (file.lease b).next_oidx ≤ (file.lease b).max_oidx) :
    oidx_generate_run c k file req b s =
      some (file.set_lease b ⟨((file.lease b).next_oidx + 1) % 2 ^ 64, (file.lease b).max_oidx⟩,
        req, some (file.lease b).next_oidx) := by
  have hex : ¬ ((file.lease b).max_oidx = 0 ∨ (file.lease b).next_oidx > (file.lease b).max_oidx) := by
    rintro (h | h)
    · exact h0 h
    · omega
  simp [oidx_generate_run, H5_daos_oidx_generate, H5_DAOS_ALLOCATE_NEXT_OIDX, hex, hle]

/-- Two sequences of calls run one after the other. -/
theorem oidx_generate_seq_append (c : Codes) (k : OidxConsts) (l2 : List (Bool × Nat))
    (f2 : H5_daos_file_t) (r2 : H5_daos_req_t) (o2 : List (Bool × Nat)) :
    ∀ (l1 : List (Bool × Nat)) (f r f1 r1 o1),
      oidx_generate_seq c k f r l1 = some (f1, r1, o1) →
      oidx_generate_seq c k f1 r1 l2 = some (f2, r2, o2) →
      oidx_generate_seq c k f r (l1 ++ l2) = some (f2, r2, o1 ++ o2) := by
  intro l1
  induction l1 with
  | nil =>
    intro f r f1 r1 o1 h1 h2
    simp only [oidx_generate_seq, Option.some.injEq, Prod.mk.injEq] at h1
    obtain ⟨rfl, rfl, rfl⟩ := h1
    simpa using h2
  | cons call rest ih =>
    intro f r f1 r1 o1 h1 h2
    simp only [oidx_generate_seq, List.cons_append] at h1 ⊢
    cases hrun : oidx_generate_run c k f r call.1 call.2 with
    | none => simp [hrun] at h1
    | some x =>
      simp only [hrun] at h1 ⊢
      cases hrest : oidx_generate_seq c k x.1 x.2.1 rest with
      | none => simp [hrest] at h1
      | some t =>
        simp only [hrest, Option.some.injEq, Prod.mk.injEq] at h1
        obtain ⟨e1, e2, e3⟩ := h1
        have hr : oidx_generate_seq c k x.1 x.2.1 (rest.append l2)
            = some (f2, r2, t.2.2 ++ o2) :=
          ih x.1 x.2.1 t.1 t.2.1 t.2.2 hrest (by rw [e1, e2]; exact h2)
        simp only [hr, Option.some.injEq, Prod.mk.injEq, true_and]
        rw [← e3]
        cases x.2.2 <;> simp

/-- Independent calls served by local allocation: `n` calls on a lease with
`next_oidx = a` and `a + n <= max_oidx` hand out `a, a + 1, ..., a + n - 1`. -/
theorem oidx_generate_seq_local (c : Codes) (k : OidxConsts) (g : Nat) (rk np m n2 m2 : Nat)
    (req : H5_daos_req_t) (hm : m < 2 ^ 64) :
    ∀ (n a : Nat), a + n ≤ m →
      oidx_generate_seq c k ⟨rk, np, a, m, n2, m2⟩ req (List.replicate n (false, g)) =
        some (⟨rk, np, a + n, m, n2, m2⟩, req,
          (List.range' a n).map (fun x => (false, x))) := by
  intro n
  induction n with
  | zero => intro a _; simp [oidx_generate_seq]
  | succ n ih =>
    intro a ha
    have h0 : m ≠ 0 := by omega
    have hrun := oidx_generate_run_local c k ⟨rk, np, a, m, n2, m2⟩ req false g
      (by simpa [H5_daos_file_t.lease] using h0)
      (by simp [H5_daos_file_t.lease]; omega)
    simp only [H5_daos_file_t.lease, H5_daos_file_t.set_lease, Bool.false_eq_true,
      if_false] at hrun
    rw [Nat.mod_eq_of_lt (by omega)] at hrun
    have hih := ih (a + 1) (by omega)
    simp only [List.replicate_succ, oidx_generate_seq, hrun, hih, List.range'_succ,
      List.map_cons]
    simp [Nat.add_assoc, Nat.add_comm 1 n]

/-- C8 fails on the code at the end of the 64-bit range.  On a fresh file, an
independent call that is granted the batch starting at `2 ^ 64 - 1024` (so
that `s + H5_DAOS_OIDX_NALLOC = 2 ^ 64`) followed by 1024 further independent
calls: the indices handed out are `2 ^ 64 - 1024, ..., 2 ^ 64 - 1` and then 0,
which is below `H5_DAOS_OIDX_FIRST_USER`; `next_oidx` has wrapped to 0 while
`max_oidx` is `2 ^ 64 - 1`, so the exhausted lease is not replenished. -/
theorem C8_last_index_wraps_to_reserved :
    (2 ^ 64 - 1024) + sampleOidx.H5_DAOS_OIDX_NALLOC ≤ 2 ^ 64 ∧
    0 < sampleOidx.H5_DAOS_OIDX_FIRST_USER ∧
    oidx_generate_seq sampleCodes sampleOidx ⟨0, 1, 0, 0, 0, 0⟩ ⟨-1, none, 1, false, false⟩
        ([(false, 2 ^ 64 - 1024)] ++ (List.replicate 1022 (false, 0)
          ++ [(false, 0), (false, 0)]))
      = some (⟨0, 1, 1, 2 ^ 64 - 1, 0, 0⟩, ⟨-1, none, 1, false, false⟩,
          [(false, 2 ^ 64 - 1024)] ++ ((List.range' (2 ^ 64 - 1023) 1022).map
            (fun x => (false, x)) ++ [(false, 2 ^ 64 - 1), (false, 0)])) := by
  refine ⟨by decide, by decide, ?_⟩
  have e1 : oidx_generate_seq sampleCodes sampleOidx ⟨0, 1, 0, 0, 0, 0⟩
      ⟨-1, none, 1, false, false⟩ [(false, 2 ^ 64 - 1024)]
      = some (⟨0, 1, 2 ^ 64 - 1023, 2 ^ 64 - 1, 0, 0⟩, ⟨-1, none, 1, false, false⟩,
          [(false, 2 ^ 64 - 1024)]) := by decide
  have e2 := oidx_generate_seq_local sampleCodes sampleOidx 0 0 1 (2 ^ 64 - 1) 0 0
    ⟨-1, none, 1, false, false⟩ (by norm_num) 1022 (2 ^ 64 - 1023) (by norm_num)
  have e3 : oidx_generate_seq sampleCodes sampleOidx ⟨0, 1, 2 ^ 64 - 1023 + 1022, 2 ^ 64 - 1, 0, 0⟩
      ⟨-1, none, 1, false, false⟩ [(false, 0), (false, 0)]
      = some (⟨0, 1, 1, 2 ^ 64 - 1, 0, 0⟩, ⟨-1, none, 1, false, false⟩,
          [(false, 2 ^ 64 - 1), (false, 0)]) := by decide
  exact oidx_generate_seq_append _ _ _ _ _ _ _ _ _ _ _ _ e1
    (oidx_generate_seq_append _ _ _ _ _ _ _ _ _ _ _ _ e2 e3)


/-! ### The index broadcast -/

/-- The 8 bytes written by `UINT64ENCODE` decode to the value written. -/
theorem UINT64DECODE_ENCODE (n : Nat) (h : n < 2 ^ 64) : UINT64DECODE (UINT64ENCODE n) = n := by
  simp only [UINT64ENCODE, UINT64DECODE, List.range, List.range.loop, List.map, List.take,
    List.foldr]
  norm_num at h ⊢
  omega

/-- The lease and the index after the completion callback of the index
broadcast with result 0 are determined by what `next_oidx_collective` holds
after the decoding step, the same way on every rank. -/
theorem oidx_bcast_comp_cb_lease (c : Codes) (k : OidxConsts) (buffer : Nat)
    (file : H5_daos_file_t) (req : H5_daos_req_t) (hpre : 0 ≤ c.H5_DAOS_PRE_ERROR) :
    (H5_daos_oidx_bcast_comp_cb c k 0 buffer file req).map
        (fun r => (r.1.lease true, r.2.2.1))
      = ((H5_DAOS_ADJUST_MAX_AND_NEXT_OIDX k
            ⟨if file.my_rank ≠ 0 then buffer else file.next_oidx_collective,
             file.max_oidx_collective⟩).bind H5_DAOS_ALLOCATE_NEXT_OIDX).map
          (fun r => (r.2, some r.1)) := by
  have kp : ¬ ((0 : Int) < -c.H5_DAOS_PRE_ERROR) := by omega
  by_cases hr : file.my_rank = 0
  · simp only [H5_daos_oidx_bcast_comp_cb, kp, false_and, if_false, if_true, hr, ne_eq,
      not_true_eq_false, H5_daos_file_t.lease]
    cases h1 : H5_DAOS_ADJUST_MAX_AND_NEXT_OIDX k
        ⟨file.next_oidx_collective, file.max_oidx_collective⟩ with
    | none => simp
    | some l1 =>
      cases h2 : H5_DAOS_ALLOCATE_NEXT_OIDX l1 with
      | none => simp [h2]
      | some r => simp [h2, oidx_cb_done, H5_daos_file_t.set_lease]
  · simp only [H5_daos_oidx_bcast_comp_cb, kp, false_and, if_false, if_true, hr, ne_eq,
      not_false_eq_true, H5_daos_file_t.lease]
    cases h1 : H5_DAOS_ADJUST_MAX_AND_NEXT_OIDX k ⟨buffer, file.max_oidx_collective⟩ with
    | none => simp
    | some l1 =>
      cases h2 : H5_DAOS_ALLOCATE_NEXT_OIDX l1 with
      | none => simp [h2]
      | some r => simp [h2, oidx_cb_done, H5_daos_file_t.set_lease]

/-- The adjust macro does not read `max_oidx`. -/
theorem adjust_ignores_max (k : OidxConsts) (n m1 m2 : Nat) :
    H5_DAOS_ADJUST_MAX_AND_NEXT_OIDX k ⟨n, m1⟩ = H5_DAOS_ADJUST_MAX_AND_NEXT_OIDX k ⟨n, m2⟩ := by
  simp [H5_DAOS_ADJUST_MAX_AND_NEXT_OIDX]

/-- C11 (synchronized lease).  For every batch start `s` (a 64-bit value) that
the store wrote into `next_oidx_collective` of rank 0: the 8-byte buffer
written by `H5_daos_oidx_bcast_prep_cb` on rank 0 decodes to `s`, and after
the completion callback of the broadcast has run with result 0 on rank 0 and
on a receiving rank holding that buffer, the receiving rank has the same
`next_oidx_collective`, `max_oidx_collective` and returned index as rank 0,
whatever its lease and its request held before (the runs also agree when an
assertion of the macros fails).  When the batch ends inside the 64-bit range
both ranks end with `next = max(s, FIRST_USER) + 1`, `max = s + NALLOC - 1`
and the index `max(s, FIRST_USER)`.  The order of the header constants relied
on is `0 <= H5_DAOS_PRE_ERROR`. -/
theorem C11_broadcast_synchronizes_lease (c : Codes) (k : OidxConsts)
    (rank0 receiver : H5_daos_file_t) (req0 reqr : H5_daos_req_t) (s : Nat)
    (hpre : 0 ≤ c.H5_DAOS_PRE_ERROR)
    (h0 : rank0.my_rank = 0) (hr : receiver.my_rank ≠ 0)
    (hs : rank0.next_oidx_collective = s) (h64 : s < 2 ^ 64) :
    UINT64DECODE (oidx_bcast_buffer rank0) = s ∧
    (oidx_bcast_comp_cb_bytes c k 0 (oidx_bcast_buffer rank0) receiver reqr).map
        (fun r => (r.1.lease true, r.2.2.1))
      = (oidx_bcast_comp_cb_bytes c k 0 (oidx_bcast_buffer rank0) rank0 req0).map
        (fun r => (r.1.lease true, r.2.2.1)) ∧
    (k.H5_DAOS_OIDX_FIRST_USER < k.H5_DAOS_OIDX_NALLOC →
      s + k.H5_DAOS_OIDX_NALLOC < 2 ^ 64 →
      (oidx_bcast_comp_cb_bytes c k 0 (oidx_bcast_buffer rank0) receiver reqr).map
          (fun r => (r.1.lease true, r.2.2.1))
        = some (⟨max s k.H5_DAOS_OIDX_FIRST_USER + 1, s + k.H5_DAOS_OIDX_NALLOC - 1⟩,
            some (max s k.H5_DAOS_OIDX_FIRST_USER))) := by
  have hdec : UINT64DECODE (oidx_bcast_buffer rank0) = s := by
    simp only [oidx_bcast_buffer, H5_daos_oidx_bcast_prep_cb, hs]
    exact UINT64DECODE_ENCODE s h64
  have e1 := oidx_bcast_comp_cb_lease c k s receiver reqr hpre
  have e0 := oidx_bcast_comp_cb_lease c k s rank0 req0 hpre
  simp only [hr, ne_eq, not_false_eq_true, if_true] at e1
  simp only [h0, ne_eq, not_true_eq_false, if_false, hs] at e0
  rw [adjust_ignores_max k s _ receiver.max_oidx_collective] at e0
  refine ⟨hdec, ?_, ?_⟩
  · simp only [oidx_bcast_comp_cb_bytes, hdec, e1, e0]
  · intro hfu hsn
    simp only [oidx_bcast_comp_cb_bytes, hdec, e1]
    rw [adjust_at k s _ hfu hsn]
    simp only [Option.some_bind]
    rw [allocate_at k s hfu hsn]
    rfl

/-- Witness of C11: the batch starting at 1024 on the sample constants,
received by rank 3. -/
theorem C11_broadcast_synchronizes_lease_witness :
    UINT64DECODE (oidx_bcast_buffer ⟨0, 4, 0, 0, 1024, 0⟩) = 1024 ∧
    (oidx_bcast_comp_cb_bytes sampleCodes sampleOidx 0 (oidx_bcast_buffer ⟨0, 4, 0, 0, 1024, 0⟩)
        ⟨3, 4, 0, 0, 7, 9⟩ ⟨-1, none, 2, false, false⟩).map
        (fun r => (r.1.lease true, r.2.2.1))
      = some (⟨1025, 2047⟩, some 1024) :=
  have h := C11_broadcast_synchronizes_lease sampleCodes sampleOidx ⟨0, 4, 0, 0, 1024, 0⟩
    ⟨3, 4, 0, 0, 7, 9⟩ ⟨-1, none, 2, false, false⟩ ⟨-1, none, 2, false, false⟩ 1024
    (by decide) rfl (by decide) rfl (by decide)
  ⟨h.1, h.2.2 (by decide) (by decide)⟩


/-! ### The prepare callbacks -/

/-- C15 as stated fails for the two broadcast prepare callbacks.  On rank 0,
`H5_daos_collective_error_check_prep_cb` run on a request that carries the
error -20 writes that status into the broadcast buffer, and
`H5_daos_oidx_bcast_prep_cb` does not read the request at all: the buffer gets
the 8 bytes of `next_oidx_collective` (1024).  Neither completes its task. -/
theorem C15_counterexample :
    (⟨-20, some "x", 2, false, false⟩ : H5_daos_req_t).status
        < -sampleCodes.H5_DAOS_SHORT_CIRCUIT ∧
    H5_daos_collective_error_check_prep_cb ⟨0, ⟨-20, some "x", 2, false, false⟩, 0⟩
      = some ⟨0, ⟨-20, some "x", 2, false, false⟩, -20⟩ ∧
    oidx_bcast_buffer ⟨0, 4, 0, 0, 1024, 0⟩ = [0, 4, 0, 0, 0, 0, 0, 0] := by
  decide

/-- C15, as amended (short-circuit check).  The seven prepare callbacks
`H5_daos_generic_prep_cb`, `H5_daos_pool_connect_prep_cb`,
`H5_daos_pool_disconnect_prep_cb`, `H5_daos_pool_query_prep_cb`,
`H5_daos_md_rw_prep_cb`, `H5_daos_list_key_prep_cb` and
`H5_daos_obj_open_prep_cb`, run on a task that has its private data, perform
the short-circuit check: on a request whose status is an unrecoverable error
they complete the task with `-H5_DAOS_PRE_ERROR`, on a short circuit with
`-H5_DAOS_SHORT_CIRCUIT`, and in both cases fill in no argument; when the
status is neither and the callback's own checks pass (valid pool UUID or
handle, argument struct available) they fill in the arguments and do not
complete the task.  The two broadcast prepare callbacks
`H5_daos_oidx_bcast_prep_cb` and `H5_daos_collective_error_check_prep_cb` make
no such check: they never complete the task and fill the buffer whatever the
status of the request.  The order of the header constants relied on is
`0 < H5_DAOS_SHORT_CIRCUIT` and `0 < H5_DAOS_PRE_ERROR`. -/
theorem C15_short_circuit_check (c : Codes) (req : H5_daos_req_t)
    (ud : H5_daos_generic_cb_ud_t) (invalid args_non_null : Bool) (s : RankState)
    (hsc : 0 < c.H5_DAOS_SHORT_CIRCUIT) (hpre : 0 < c.H5_DAOS_PRE_ERROR) :
    ((req.status < -c.H5_DAOS_SHORT_CIRCUIT →
        (H5_daos_generic_prep_cb c (some ud) req).completed = some (-c.H5_DAOS_PRE_ERROR)) ∧
     (req.status = -c.H5_DAOS_SHORT_CIRCUIT →
        (H5_daos_generic_prep_cb c (some ud) req).completed
          = some (-c.H5_DAOS_SHORT_CIRCUIT)) ∧
     (¬ req.status < -c.H5_DAOS_SHORT_CIRCUIT → req.status ≠ -c.H5_DAOS_SHORT_CIRCUIT →
        (H5_daos_generic_prep_cb c (some ud) req).completed = none)) ∧
    short_circuit_check c req.status
      (H5_daos_pool_connect_prep_cb c true invalid args_non_null req) ∧
    short_circuit_check c req.status
      (H5_daos_pool_disconnect_prep_cb c true invalid args_non_null req) ∧
    short_circuit_check c req.status
      (H5_daos_pool_query_prep_cb c true invalid args_non_null req) ∧
    short_circuit_check c req.status (H5_daos_md_rw_prep_cb c true args_non_null req) ∧
    short_circuit_check c req.status (H5_daos_list_key_prep_cb c true args_non_null req) ∧
    short_circuit_check c req.status (H5_daos_obj_open_prep_cb c true args_non_null req) ∧
    (¬ req.status < -c.H5_DAOS_SHORT_CIRCUIT → req.status ≠ -c.H5_DAOS_SHORT_CIRCUIT →
      H5_daos_pool_connect_prep_cb c true false true req = ⟨0, none, true⟩ ∧
      H5_daos_pool_disconnect_prep_cb c true false true req = ⟨0, none, true⟩ ∧
      H5_daos_pool_query_prep_cb c true false true req = ⟨0, none, true⟩ ∧
      H5_daos_md_rw_prep_cb c true true req = ⟨0, none, true⟩ ∧
      H5_daos_list_key_prep_cb c true true req = ⟨0, none, true⟩ ∧
      H5_daos_obj_open_prep_cb c true true req = ⟨0, none, true⟩) ∧
    (s.my_rank = 0 →
      H5_daos_collective_error_check_prep_cb s = some { s with coll_status := s.req.status }) := by
  have k1 : -c.H5_DAOS_PRE_ERROR < 0 := by omega
  have k2 : -c.H5_DAOS_SHORT_CIRCUIT < 0 := by omega
  refine ⟨⟨?_, ?_, ?_⟩, ?_, ?_, ?_, ?_, ?_, ?_, ?_, ?_⟩
  · intro h; simp [H5_daos_generic_prep_cb, h]
  · intro h
    have : ¬ (-c.H5_DAOS_SHORT_CIRCUIT < -c.H5_DAOS_SHORT_CIRCUIT) := by omega
    simp [H5_daos_generic_prep_cb, h]
  · intro h1 h2; simp [H5_daos_generic_prep_cb, h1, h2]
  · constructor
    · intro h; simp [H5_daos_pool_connect_prep_cb, pool_prep_done, h, k1]
    · intro h; simp [H5_daos_pool_connect_prep_cb, pool_prep_done, h, k2]
  · constructor
    · intro h; simp [H5_daos_pool_disconnect_prep_cb, pool_prep_done, h, k1]
    · intro h; simp [H5_daos_pool_disconnect_prep_cb, pool_prep_done, h, k2]
  · constructor
    · intro h; simp [H5_daos_pool_query_prep_cb, pool_prep_done, h, k1]
    · intro h; simp [H5_daos_pool_query_prep_cb, pool_prep_done, h, k2]
  · constructor
    · intro h; simp [H5_daos_md_rw_prep_cb, h]
    · intro h; simp [H5_daos_md_rw_prep_cb, h]
  · constructor
    · intro h; simp [H5_daos_list_key_prep_cb, h]
    · intro h; simp [H5_daos_list_key_prep_cb, h]
  · constructor
    · intro h; simp [H5_daos_obj_open_prep_cb, h]
    · intro h; simp [H5_daos_obj_open_prep_cb, h]
  · intro h1 h2
    simp [H5_daos_pool_connect_prep_cb, H5_daos_pool_disconnect_prep_cb,
      H5_daos_pool_query_prep_cb, H5_daos_md_rw_prep_cb, H5_daos_list_key_prep_cb,
      H5_daos_obj_open_prep_cb, pool_prep_done, h1, h2]
  · intro h; simp [H5_daos_collective_error_check_prep_cb, h]

/-- Witness of C15 as amended: the pool connect prepare callback on a request
with the error -20, on the sample codes. -/
theorem C15_short_circuit_check_witness :
    short_circuit_check sampleCodes (-20)
      (H5_daos_pool_connect_prep_cb sampleCodes true false true
        ⟨-20, some "x", 2, false, false⟩) :=
  (C15_short_circuit_check sampleCodes ⟨-20, some "x", 2, false, false⟩ ⟨"t"⟩ false true
    ⟨0, ⟨-1, none, 1, false, false⟩, 0⟩ (by decide) (by decide)).2.1


/-! ### The progress pump -/

theorem slices_append (a b : List PumpEvent) : slices (a ++ b) = slices a ++ slices b := by
  induction a with
  | nil => rfl
  | cons x rest ih => cases x <;> simp [slices, ih]

theorem progress_mpi_fields (c : Codes) (e : PassEnv) (st : PumpState) :
    (progress_mpi c e st).timeout_rem = st.timeout_rem ∧
    (progress_mpi c e st).is_empty2 = st.is_empty2 ∧
    slices (progress_mpi c e st).trace = slices st.trace := by
  unfold progress_mpi
  cases h : st.H5_daos_mpi_task_g with
  | none => simp
  | some t =>
    simp only
    split_ifs <;> simp [slices_append, slices]

theorem progress_daos_some (c : Codes) (k : PumpConsts) (sched : Nat) (ff : Bool)
    (e : EngineCall) (st st1 : PumpState) (b : Bool)
    (h : progress_daos c k sched ff e st = some (st1, b)) :
    slices st1.trace = slices st.trace ++ [min st.timeout_rem k.H5_DAOS_ASYNC_POLL_INTERVAL] ∧
    (b = true → (e.ret ≠ 0 ∧ e.ret ≠ -k.DER_TIMEDOUT) ∧ st1.ret_value = FAIL) ∧
    (b = false → ¬ (e.ret ≠ 0 ∧ e.ret ≠ -k.DER_TIMEDOUT) ∧
      st1.timeout_rem = st.timeout_rem - k.H5_DAOS_ASYNC_POLL_INTERVAL ∧
      st1.ret_value = st.ret_value) ∧
    (ff = true → st1.is_empty1 = e.is_empty ∧ st1.is_empty2 = st.is_empty2) := by
  unfold progress_daos at h
  cases hs : engine_slot c st.H5_daos_mpi_task_g e.mpi_task_started with
  | none => simp [hs] at h
  | some slot =>
    simp only [hs] at h
    have hmin : (if st.timeout_rem > k.H5_DAOS_ASYNC_POLL_INTERVAL
        then k.H5_DAOS_ASYNC_POLL_INTERVAL else st.timeout_rem)
        = min st.timeout_rem k.H5_DAOS_ASYNC_POLL_INTERVAL := by
      split_ifs with hh
      · exact (min_eq_right (le_of_lt hh)).symm
      · exact (min_eq_left (not_lt.mp hh)).symm
    rw [hmin] at h
    by_cases hh : e.ret ≠ 0 ∧ e.ret ≠ -k.DER_TIMEDOUT
    · rw [if_pos hh] at h
      simp only [Option.some.injEq, Prod.mk.injEq] at h
      obtain ⟨h1, h2⟩ := h
      subst h1; subst h2
      refine ⟨by simp [slices_append, slices], fun _ => ⟨hh, rfl⟩, by simp, ?_⟩
      intro hf; simp [hf]
    · rw [if_neg hh] at h
      simp only [Option.some.injEq, Prod.mk.injEq] at h
      obtain ⟨h1, h2⟩ := h
      subst h1; subst h2
      refine ⟨by simp [slices_append, slices], by simp, fun _ => ⟨hh, rfl, rfl⟩, ?_⟩
      intro hf; simp [hf]


theorem progress_cond_iff (c : Codes) (req_given : Bool) (e : PassEnv) (st : PumpState)
    (h : st.is_empty1 = e.call1.is_empty) :
    progress_cond c req_given e st = true ↔ (keep_going c req_given e ∧ st.timeout_rem > 0) := by
  unfold progress_cond keep_going
  cases req_given <;> simp [h]

theorem engine_slot_none_started (c : Codes) (slot : Option Nat) :
    engine_slot c slot none = some slot := rfl

theorem progress_loop_spec (c : Codes) (k : PumpConsts) (req_given : Bool) (env : Nat → PassEnv)
    (hI : 0 < k.H5_DAOS_ASYNC_POLL_INTERVAL) :
    ∀ (fuel i : Nat) (st : PumpState), st.timeout_rem.toNat < fuel →
      progress_loop c k req_given env fuel i st ≠ .out_of_fuel ∧
      ((∀ j, (env j).call1.mpi_task_started = none) →
        progress_loop c k req_given env fuel i st ≠ .assert_failed) ∧
      ∀ st1, progress_loop c k req_given env fuel i st = .returned st1 →
        ∃ m : Nat,
          slices st1.trace = slices st.trace ++ (List.range (m + 1)).map
            (fun j : Nat => min (st.timeout_rem - (j : Int) * k.H5_DAOS_ASYNC_POLL_INTERVAL)
              k.H5_DAOS_ASYNC_POLL_INTERVAL) ∧
          (∀ j, j < m →
            st.timeout_rem - ((j : Int) + 1) * k.H5_DAOS_ASYNC_POLL_INTERVAL > 0 ∧
            keep_going c req_given (env (i + j)) ∧ ¬ engine_error k (env (i + j))) ∧
          ((engine_error k (env (i + m)) ∧ st1.ret_value = FAIL) ∨
           (¬ engine_error k (env (i + m)) ∧
            ¬ (st.timeout_rem - ((m : Int) + 1) * k.H5_DAOS_ASYNC_POLL_INTERVAL > 0 ∧
               keep_going c req_given (env (i + m))))) := by
  intro fuel
  induction fuel with
  | zero => intro i st h; omega
  | succ fuel ih =>
    intro i st hfuel
    obtain ⟨hm1, _, hm3⟩ := progress_mpi_fields c (env i) st
    unfold progress_loop
    cases hd : progress_daos c k 1 true (env i).call1 (progress_mpi c (env i) st) with
    | none =>
      refine ⟨by simp, ?_, by simp⟩
      intro hno
      exfalso
      unfold progress_daos at hd
      rw [hno i, engine_slot_none_started] at hd
      simp only at hd
      split_ifs at hd
    | some r =>
      obtain ⟨st1, b⟩ := r
      obtain ⟨hs, hbt, hbf, hff⟩ := progress_daos_some c k 1 true (env i).call1 _ st1 b hd
      rw [hm1, hm3] at hs
      cases b with
      | true =>
        obtain ⟨herr, hret⟩ := hbt rfl
        refine ⟨by simp, fun _ => by simp, ?_⟩
        intro st2 h2
        simp only [PumpResult.returned.injEq] at h2
        subst h2
        refine ⟨0, ?_, ?_, ?_⟩
        · simp [hs, List.range_succ]
        · intro j hj; omega
        · left; exact ⟨herr, hret⟩
      | false =>
        obtain ⟨hnerr, hrem, _⟩ := hbf rfl
        rw [hm1] at hrem
        have hcond := progress_cond_iff c req_given (env i) st1 (hff rfl).1
        simp only
        by_cases hc : progress_cond c req_given (env i) st1 = true
        · rw [if_pos hc]
          obtain ⟨hkg, hpos⟩ := hcond.mp hc
          have hf1 : st1.timeout_rem.toNat < fuel := by omega
          obtain ⟨i1, i2, i3⟩ := ih (i + 1) st1 hf1
          refine ⟨i1, i2, ?_⟩
          intro st2 h2
          obtain ⟨m, e1, e2, e3⟩ := i3 st2 h2
          refine ⟨m + 1, ?_, ?_, ?_⟩
          · rw [e1, hs, List.range_succ_eq_map (m + 1), List.map_cons, List.map_map,
              List.append_assoc]
            congr 1
            simp only [List.singleton_append, Nat.cast_zero, zero_mul, sub_zero, List.cons.injEq,
              true_and]
            apply List.map_congr_left
            intro j _
            simp only [Function.comp, hrem, Nat.cast_succ]
            congr 1
            ring
          · intro j hj
            cases j with
            | zero =>
              refine ⟨?_, hkg, hnerr⟩
              simp only [Nat.cast_zero, zero_add, one_mul]
              omega
            | succ j =>
              obtain ⟨a1, a2, a3⟩ := e2 j (by omega)
              have hidx : i + (j + 1) = i + 1 + j := by omega
              rw [hidx]
              refine ⟨?_, a2, a3⟩
              rw [hrem] at a1
              push_cast
              linarith
          · have hidx : i + (m + 1) = i + 1 + m := by omega
            rw [hidx]
            rcases e3 with ⟨b1, b2⟩ | ⟨b1, b2⟩
            · left; exact ⟨b1, b2⟩
            · right
              refine ⟨b1, ?_⟩
              rw [hrem] at b2
              intro hx
              apply b2
              refine ⟨?_, hx.2⟩
              have := hx.1
              push_cast at this
              linarith
        · rw [if_neg hc]
          refine ⟨by simp, fun _ => by simp, ?_⟩
          intro st2 h2
          simp only [PumpResult.returned.injEq] at h2
          subst h2
          refine ⟨0, ?_, ?_, ?_⟩
          · simp [hs, List.range_succ]
          · intro j hj; omega
          · right
            refine ⟨hnerr, ?_⟩
            intro hx
            apply hc
            apply hcond.mpr
            refine ⟨hx.2, ?_⟩
            have := hx.1
            simp only [Nat.cast_zero, zero_add, one_mul, add_zero] at this
            rw [hrem]
            exact this


/-- C16 (the pump loop of `H5_daos_progress`).  With a positive poll interval
the function does not loop forever, and it returns unless an `assert` of a
broadcast task body fails (it returns whenever the engine starts no broadcast
during the run).  When it returns after `m + 1` passes: it made `m + 1`
engine progress calls, at least one, pass `j` with the time slice
`min(T - j * INTERVAL, INTERVAL)` where `T = min(timeout, INT64_MAX)`; after
each pass but the last the remaining timeout `T - (j + 1) * INTERVAL` was
still positive, the engine had reported no error, and the request's status
was `-H5_DAOS_INCOMPLETE` or `-H5_DAOS_SHORT_CIRCUIT` (with a request) or the
engine had not reported its queue empty (without one); and after the last
pass either the engine had reported an error other than timed-out, and the
function returns `FAIL` at once, or the condition for looping again failed. -/
theorem C16_progress_loop (c : Codes) (k : PumpConsts) (req_given : Bool) (timeout : Nat)
    (slot : Option Nat) (env : Nat → PassEnv) (hI : 0 < k.H5_DAOS_ASYNC_POLL_INTERVAL) :
    H5_daos_progress c k req_given timeout slot env ≠ .out_of_fuel ∧
    ((∀ j, (env j).call1.mpi_task_started = none) →
      ∃ st, H5_daos_progress c k req_given timeout slot env = .returned st) ∧
    ∀ st, H5_daos_progress c k req_given timeout slot env = .returned st →
      ∃ m : Nat,
        slices st.trace = (List.range (m + 1)).map
          (fun j : Nat => min (min (timeout : Int) INT64_MAX
            - (j : Int) * k.H5_DAOS_ASYNC_POLL_INTERVAL) k.H5_DAOS_ASYNC_POLL_INTERVAL) ∧
        (∀ j, j < m →
          min (timeout : Int) INT64_MAX - ((j : Int) + 1) * k.H5_DAOS_ASYNC_POLL_INTERVAL > 0 ∧
          keep_going c req_given (env j) ∧ ¬ engine_error k (env j)) ∧
        ((engine_error k (env m) ∧ st.ret_value = FAIL) ∨
         (¬ engine_error k (env m) ∧
          ¬ (min (timeout : Int) INT64_MAX
              - ((m : Int) + 1) * k.H5_DAOS_ASYNC_POLL_INTERVAL > 0 ∧
             keep_going c req_given (env m)))) := by
  have hT : (pump_init timeout slot).timeout_rem = min (timeout : Int) INT64_MAX := by
    unfold pump_init
    simp only
    split_ifs with h
    · exact (min_eq_right (le_of_lt h)).symm
    · exact (min_eq_left (not_lt.mp h)).symm
  have htr : slices (pump_init timeout slot).trace = [] := rfl
  obtain ⟨h1, h2, h3⟩ := progress_loop_spec c k req_given env hI
    ((pump_init timeout slot).timeout_rem.toNat + 1) 0 (pump_init timeout slot) (by omega)
  refine ⟨h1, ?_, ?_⟩
  · intro hno
    have h2b := h2 hno
    unfold H5_daos_progress
    cases hr : progress_loop c k req_given env ((pump_init timeout slot).timeout_rem.toNat + 1) 0
        (pump_init timeout slot) with
    | assert_failed => exact absurd hr h2b
    | out_of_fuel => exact absurd hr h1
    | returned st => exact ⟨st, rfl⟩
  · intro st hst
    obtain ⟨m, e1, e2, e3⟩ := h3 st hst
    rw [htr, hT] at e1
    rw [hT] at e2 e3
    simp only [zero_add, List.nil_append] at e1 e2 e3
    exact ⟨m, e1, e2, e3⟩

/-- Witness of C16: a request that stays incomplete, a timeout of 25 and a
poll interval of 10 give three passes with the slices 10, 10 and 5. -/
theorem C16_progress_loop_witness :
    0 < samplePump.H5_DAOS_ASYNC_POLL_INTERVAL ∧
    H5_daos_progress sampleCodes samplePump true 25 none
      (fun _ => ⟨true, false, ⟨0, false, none⟩, ⟨0, false, none⟩, -1⟩) ≠ .out_of_fuel ∧
    H5_daos_progress sampleCodes samplePump true 25 none
      (fun _ => ⟨true, false, ⟨0, false, none⟩, ⟨0, false, none⟩, -1⟩)
      = .returned ⟨-5, 0, false, false, none,
          [.daos_progress 1 10, .daos_progress 1 10, .daos_progress 1 5]⟩ :=
  ⟨by decide,
   (C16_progress_loop sampleCodes samplePump true 25 none
      (fun _ => ⟨true, false, ⟨0, false, none⟩, ⟨0, false, none⟩, -1⟩) (by decide)).1,
   by decide⟩

theorem progress_2_cond_no_request (c : Codes) (e : PassEnv) (st : PumpState)
    (h : st.is_empty2 = false) :
    progress_2_cond c false e st = decide (st.timeout_rem > 0) := by
  simp [progress_2_cond, h]

theorem progress_2_loop_is_empty2 (c : Codes) (k : PumpConsts) (req_given : Bool)
    (env : Nat → PassEnv) :
    ∀ (fuel i : Nat) (st st1 : PumpState), st.is_empty2 = false →
      progress_2_loop c k req_given env fuel i st = .returned st1 → st1.is_empty2 = false := by
  intro fuel
  induction fuel with
  | zero => intro i st st1 _ h; simp [progress_2_loop] at h
  | succ fuel ih =>
    intro i st st1 h0 h
    unfold progress_2_loop at h
    obtain ⟨_, hm2, _⟩ := progress_mpi_fields c (env i) st
    cases hd : progress_daos c k 1 true (env i).call1 (progress_mpi c (env i) st) with
    | none => simp [hd] at h
    | some r =>
      obtain ⟨sa, b⟩ := r
      obtain ⟨_, _, _, hff⟩ := progress_daos_some c k 1 true (env i).call1 _ sa b hd
      have ha : sa.is_empty2 = false := by rw [(hff rfl).2, hm2, h0]
      rw [hd] at h
      cases b with
      | true =>
        simp only [PumpResult.returned.injEq] at h
        rw [← h]; exact ha
      | false =>
        simp only at h
        cases hd2 : progress_daos c k 2 true (env i).call2 sa with
        | none => simp [hd2] at h
        | some r2 =>
          obtain ⟨sb, b2⟩ := r2
          obtain ⟨_, _, _, hff2⟩ := progress_daos_some c k 2 true (env i).call2 _ sb b2 hd2
          have hb : sb.is_empty2 = false := by rw [(hff2 rfl).2, ha]
          rw [hd2] at h
          cases b2 with
          | true =>
            simp only [PumpResult.returned.injEq] at h
            rw [← h]; exact hb
          | false =>
            simp only at h
            split_ifs at h with hc
            · exact ih (i + 1) sb st1 hb h
            · simp only [PumpResult.returned.injEq] at h
              rw [← h]; exact hb

/-- C17 fails in the code: `H5_daos_progress_2` hands `&is_empty1` to both
engine calls (lines 4878 and 4888), so `is_empty2` keeps its initial `FALSE`
and the test `!(is_empty1 && is_empty2)` never ends the loop.  Called without
a request with a timeout of 100 and a poll interval of 10, with both
schedulers reporting their queues empty in every pass, from the first on, it
does not stop after the first pass (two engine calls) but makes five passes,
ten engine calls, until the timeout is used up. -/
theorem C17_progress_2_ignores_empty_queues :
    H5_daos_progress_2 sampleCodes samplePump false 100 none
      (fun _ => ⟨true, false, ⟨0, true, none⟩, ⟨0, true, none⟩, 0⟩)
      = .returned ⟨0, 0, true, false, none,
          [.daos_progress 1 10, .daos_progress 2 10, .daos_progress 1 10, .daos_progress 2 10,
           .daos_progress 1 10, .daos_progress 2 10, .daos_progress 1 10, .daos_progress 2 10,
           .daos_progress 1 10, .daos_progress 2 10]⟩ := by
  decide

/-- C18 fails in the code: `D_DONE_ERROR` leaves `ret_value = FAIL` for the
rest of the call, and the test `if(ret_value < 0)` of every later pass reads
it.  Task 7 is in flight on entry and its `MPI_Test` fails in the first pass:
it is completed with `-H5_DAOS_MPI_ERROR`.  During that pass the engine starts
the broadcast task 8.  In the second pass `MPI_Test` succeeds and reports not
complete, yet task 8 is force-completed with `-H5_DAOS_MPI_ERROR` and the slot
is cleared. -/
theorem C18_sticky_poll_failure :
    H5_daos_progress sampleCodes samplePump false 20 (some 7)
      (fun i => if i = 0 then ⟨false, false, ⟨0, false, some 8⟩, ⟨0, false, none⟩, 0⟩
        else ⟨true, false, ⟨0, false, none⟩, ⟨0, false, none⟩, 0⟩)
      = .returned ⟨0, FAIL, false, false, none,
          [.MPI_Test 7, .tse_task_complete 7 (-sampleCodes.H5_DAOS_MPI_ERROR) none,
           .daos_progress 1 10,
           .MPI_Test 8, .tse_task_complete 8 (-sampleCodes.H5_DAOS_MPI_ERROR) none,
           .daos_progress 1 10]⟩ := by
  decide


/-! ### Object identifiers -/

/-- C19 (index and kind survive the encoding).  For every index and every
object kind among group, dataset, datatype and map, a successful
`H5_daos_oid_encode` gives an identifier whose `lo` is the index and on which
`H5_daos_oid_to_type` returns the kind, and the tags stored for two distinct
kinds differ.  The tags and the mask are constants of the absent header: they
are taken pairwise distinct and inside the mask; the id-generation step is
taken to leave `lo` and the masked bits of `hi` as they are. -/
theorem C19_encode_keeps_index_and_kind (t : TypeConsts) (d : DaosConsts)
    (name2id : String → Nat) (gen : daos_obj_id_t → Nat → Nat → daos_obj_id_t)
    (oidx : Nat) (obj_type : H5I_type_t) (plist : PlistProp) (default_object_class : Nat)
    (r : EncodeResult)
    (hkind : is_object_kind obj_type)
    (hgen : ∀ oid feats cid, (gen oid feats cid).lo = oid.lo ∧
      (gen oid feats cid).hi &&& t.H5_DAOS_TYPE_MASK = oid.hi &&& t.H5_DAOS_TYPE_MASK)
    (hmask : t.H5_DAOS_TYPE_GRP &&& t.H5_DAOS_TYPE_MASK = t.H5_DAOS_TYPE_GRP ∧
      t.H5_DAOS_TYPE_DSET &&& t.H5_DAOS_TYPE_MASK = t.H5_DAOS_TYPE_DSET ∧
      t.H5_DAOS_TYPE_DTYPE &&& t.H5_DAOS_TYPE_MASK = t.H5_DAOS_TYPE_DTYPE ∧
      t.H5_DAOS_TYPE_MAP &&& t.H5_DAOS_TYPE_MASK = t.H5_DAOS_TYPE_MAP)
    (hdistinct : [t.H5_DAOS_TYPE_GRP, t.H5_DAOS_TYPE_DSET, t.H5_DAOS_TYPE_DTYPE,
      t.H5_DAOS_TYPE_MAP].Nodup)
    (hr : H5_daos_oid_encode t d name2id gen oidx obj_type plist default_object_class = some r)
    (hok : r.ret_value = SUCCEED) :
    r.oid.lo = oidx ∧ H5_daos_oid_to_type t r.oid = obj_type ∧
    ∀ other, is_object_kind other → type_tag t other = type_tag t obj_type →
      other = obj_type := by
  simp only [List.nodup_cons, List.mem_cons, List.mem_singleton, not_or, List.not_mem_nil,
    not_false_eq_true, List.nodup_nil, and_true] at hdistinct
  obtain ⟨⟨d1, d2, d3⟩, ⟨d4, d5⟩, d6⟩ := hdistinct
  obtain ⟨m1, m2, m3, m4⟩ := hmask
  have hfail : FAIL ≠ SUCCEED := by decide
  refine ⟨?_, ?_, ?_⟩
  · unfold H5_daos_oid_encode at hr
    rcases hkind with h | h | h | h <;> subst h <;> simp only [type_tag] at hr <;>
      cases hp : plist_object_class d name2id plist <;> simp [hp] at hr <;>
      subst hr <;> first | exact absurd hok hfail | simp [(hgen _ _ _).1]
  · unfold H5_daos_oid_encode at hr
    rcases hkind with h | h | h | h <;> subst h <;> simp only [type_tag] at hr <;>
      cases hp : plist_object_class d name2id plist <;> simp [hp] at hr <;>
      subst hr <;> first
        | exact absurd hok hfail
        | simp [H5_daos_oid_to_type, (hgen _ _ _).2, m1, m2, m3, m4, d1, d2, d3, d4, d5, d6,
            Ne.symm d1, Ne.symm d2, Ne.symm d3, Ne.symm d4, Ne.symm d5, Ne.symm d6]
  · intro other ho he
    rcases hkind with h | h | h | h <;> subst h <;>
      rcases ho with h2 | h2 | h2 | h2 <;> subst h2 <;>
      simp [type_tag, d1, d2, d3, d4, d5, d6,
        Ne.symm d1, Ne.symm d2, Ne.symm d3, Ne.symm d4, Ne.symm d5, Ne.symm d6] at he ⊢

/-- Witness of C19: index 77, a dataset, no creation property list, on the
sample constants. -/
theorem C19_encode_keeps_index_and_kind_witness :
    (H5_daos_oid_encode sampleTypes sampleDaos sample_name2id sample_generate_id 77
      .H5I_DATASET .H5P_DEFAULT 0).map (fun r => (r.ret_value, r.oid.lo))
      = some (SUCCEED, 77) ∧
    H5_daos_oid_to_type sampleTypes
      (sample_generate_id ⟨77, sampleTypes.H5_DAOS_TYPE_DSET⟩
        (sampleDaos.DAOS_OF_DKEY_HASHED ||| sampleDaos.DAOS_OF_AKEY_LEXICAL) sampleDaos.OC_SX)
      = .H5I_DATASET :=
  ⟨by decide,
   (C19_encode_keeps_index_and_kind sampleTypes sampleDaos sample_name2id sample_generate_id 77
      .H5I_DATASET .H5P_DEFAULT 0
      ⟨SUCCEED, sample_generate_id ⟨77, sampleTypes.H5_DAOS_TYPE_DSET⟩
        (sampleDaos.DAOS_OF_DKEY_HASHED ||| sampleDaos.DAOS_OF_AKEY_LEXICAL) sampleDaos.OC_SX,
        some (sampleDaos.DAOS_OF_DKEY_HASHED ||| sampleDaos.DAOS_OF_AKEY_LEXICAL,
          sampleDaos.OC_SX)⟩
      (Or.inr (Or.inl rfl))
      (by
        intro oid feats cid
        refine ⟨rfl, ?_⟩
        show (oid.hi % 2 ^ 32 + 2 ^ 32 * ((feats * 2 ^ 16 + cid) % 2 ^ 32)) &&& (3 * 2 ^ 30)
          = oid.hi &&& (3 * 2 ^ 30)
        apply Nat.eq_of_testBit_eq
        intro i
        simp only [Nat.testBit_land]
        by_cases hi : i < 32
        · have h1 : (oid.hi % 2 ^ 32 + 2 ^ 32 * ((feats * 2 ^ 16 + cid) % 2 ^ 32)).testBit i
              = oid.hi.testBit i := by
            rw [Nat.add_comm, Nat.testBit_mul_pow_two_add _ (Nat.mod_lt _ (by norm_num))]
            rw [if_pos hi, Nat.testBit_mod_two_pow]
            simp [hi]
          rw [h1]
        · have h2 : (3 * 2 ^ 30 : Nat).testBit i = false := by
            apply Nat.testBit_lt_two_pow
            calc (3 * 2 ^ 30 : Nat) < 2 ^ 32 := by norm_num
              _ ≤ 2 ^ i := Nat.pow_le_pow_right (by norm_num) (by omega)
          rw [h2, Bool.and_false, Bool.and_false])
      (by decide) (by decide) (by decide) rfl).2.1⟩

/-- C20 (the override chain of the object class).  For an object kind among
group, dataset, datatype and map and property-list queries that do not fail,
`H5_daos_oid_encode` resolves the class as the chain of the claim does: when
the chain ends in an error (the creation call names a class the store does
not know) it returns `FAIL` without calling the id-generation step; otherwise
it returns `SUCCEED` having generated the identifier with the class the chain
gives - the class named by a non-empty property, else the file's default when
it is not `OC_UNKNOWN`, else `OC_SX` for datasets and `OC_S1` for the other
kinds.  An absent, `NULL` or empty property, or `H5P_DEFAULT`, counts as no
override. -/
theorem C20_class_override_chain (t : TypeConsts) (d : DaosConsts) (name2id : String → Nat)
    (gen : daos_obj_id_t → Nat → Nat → daos_obj_id_t) (oidx : Nat) (obj_type : H5I_type_t)
    (plist : PlistProp) (default_object_class : Nat)
    (hkind : is_object_kind obj_type)
    (hplist : plist ≠ .exist_error ∧ plist ≠ .get_error) :
    ∃ r, H5_daos_oid_encode t d name2id gen oidx obj_type plist default_object_class = some r ∧
      r.generate_call.map (fun call => call.2)
        = placement_class_spec d name2id obj_type (call_override plist) default_object_class ∧
      r.ret_value = (if placement_class_spec d name2id obj_type (call_override plist)
          default_object_class = none then FAIL else SUCCEED) := by
  obtain ⟨hp1, hp2⟩ := hplist
  have hsome : ∃ hi, type_tag t obj_type = some hi := by
    rcases hkind with h | h | h | h <;> subst h <;> simp [type_tag]
  obtain ⟨hi, hhi⟩ := hsome
  unfold H5_daos_oid_encode
  rw [hhi]
  simp only
  cases plist with
  | exist_error => exact absurd rfl hp1
  | get_error => exact absurd rfl hp2
  | H5P_DEFAULT =>
    simp only [plist_object_class, call_override, placement_class_spec]
    by_cases hd : default_object_class = d.OC_UNKNOWN <;>
      by_cases hds : obj_type = .H5I_DATASET <;> simp [hd, hds]
  | absent =>
    simp only [plist_object_class, call_override, placement_class_spec]
    by_cases hd : default_object_class = d.OC_UNKNOWN <;>
      by_cases hds : obj_type = .H5I_DATASET <;> simp [hd, hds]
  | value o =>
    cases o with
    | none =>
      simp only [plist_object_class, call_override, placement_class_spec]
      by_cases hd : default_object_class = d.OC_UNKNOWN <;>
        by_cases hds : obj_type = .H5I_DATASET <;> simp [hd, hds]
    | some s =>
      by_cases hs : s = ""
      · simp only [plist_object_class, call_override, placement_class_spec, hs]
        by_cases hd : default_object_class = d.OC_UNKNOWN <;>
          by_cases hds : obj_type = .H5I_DATASET <;> simp [hd, hds]
      · by_cases hn : name2id s = d.OC_UNKNOWN
        · simp [plist_object_class, call_override, placement_class_spec, hs, hn, FAIL, SUCCEED]
        · have hn2 : ¬ d.OC_UNKNOWN = name2id s := fun h => hn h.symm
          simp [plist_object_class, call_override, placement_class_spec, hs, hn, hn2]

/-- Witness of C20: a group created with the property "RP_2G1" in a file
whose default class is 200 gets the class 240 of the property. -/
theorem C20_class_override_chain_witness :
    (H5_daos_oid_encode sampleTypes sampleDaos sample_name2id sample_generate_id 5
      .H5I_GROUP (.value (some "RP_2G1")) 200).map (fun r => (r.ret_value, r.generate_call))
      = some (SUCCEED, some (10, 240)) ∧
    ∃ r, H5_daos_oid_encode sampleTypes sampleDaos sample_name2id sample_generate_id 5
        .H5I_GROUP (.value (some "RP_2G1")) 200 = some r ∧
      r.generate_call.map (fun call => call.2)
        = placement_class_spec sampleDaos sample_name2id .H5I_GROUP
            (call_override (.value (some "RP_2G1"))) 200 ∧
      r.ret_value = (if placement_class_spec sampleDaos sample_name2id .H5I_GROUP
          (call_override (.value (some "RP_2G1"))) 200 = none then FAIL else SUCCEED) :=
  ⟨by decide,
   C20_class_override_chain sampleTypes sampleDaos sample_name2id sample_generate_id 5
     .H5I_GROUP (.value (some "RP_2G1")) 200 (Or.inl rfl) ⟨by decide, by decide⟩⟩


/-! ### The builders -/

theorem schedule_or_first_success (e : BuildEnv) (st st1 freed : BuildState) (t : Task)
    (hd : t.deps = st.dep_task.toList) (hs : t.scheduled = false)
    (h1 : st1.first_task = st.first_task)
    (h : (schedule_or_first e st st1 freed t).1 = SUCCEED) :
    ∃ t1, (schedule_or_first e st st1 freed t).2.tasks = st.tasks ++ [t1] ∧
      chained st (schedule_or_first e st st1 freed t).2 st.tasks.length t1 ∧
      (schedule_or_first e st st1 freed t).2.dep_task = some st.tasks.length := by
  have hfail : FAIL ≠ SUCCEED := by decide
  unfold schedule_or_first at h ⊢
  cases hf : st.first_task with
  | none =>
    refine ⟨t, ?_⟩
    simp [chained, hf, hd, hs]
  | some f =>
    simp only [hf] at h ⊢
    by_cases hr : e.schedule_ret ≠ 0
    · rw [if_pos hr] at h; exact absurd h hfail
    · rw [if_neg hr]
      refine ⟨{ t with scheduled := true }, ?_⟩
      simp [chained, hf, hd, h1]

theorem pool_builder_success (fn : TaskFn) (e : BuildEnv) (st : BuildState)
    (h : (pool_builder fn e st).1 = SUCCEED) :
    ∃ t, (pool_builder fn e st).2.tasks = st.tasks ++ [t] ∧
      chained st (pool_builder fn e st).2 st.tasks.length t ∧
      (pool_builder fn e st).2.dep_task = some st.tasks.length := by
  have hfail : FAIL ≠ SUCCEED := by decide
  unfold pool_builder at h ⊢
  split_ifs at h ⊢ with h1 h2 h3
  · exact absurd h hfail
  · exact absurd h hfail
  · exact absurd h hfail
  · exact schedule_or_first_success e st _ _ _ rfl rfl rfl h

theorem args_builder_success (fn : TaskFn) (e : BuildEnv) (st : BuildState)
    (h : (args_builder fn e st).1 = SUCCEED) :
    ∃ t, (args_builder fn e st).2.tasks = st.tasks ++ [t] ∧
      chained st (args_builder fn e st).2 st.tasks.length t ∧
      (args_builder fn e st).2.dep_task = some st.tasks.length := by
  have hfail : FAIL ≠ SUCCEED := by decide
  unfold args_builder at h ⊢
  split_ifs at h ⊢ with h1 h2 h3 h4
  · exact absurd h hfail
  · exact absurd h hfail
  · exact absurd h hfail
  · exact absurd h hfail
  · exact schedule_or_first_success e st _ _ _ rfl rfl rfl h

theorem oidx_bcast_success (e : BuildEnv) (st : BuildState)
    (h : (H5_daos_oidx_bcast e st).1 = SUCCEED) :
    ∃ t, (H5_daos_oidx_bcast e st).2.tasks = st.tasks ++ [t] ∧
      chained st (H5_daos_oidx_bcast e st).2 st.tasks.length t ∧
      (H5_daos_oidx_bcast e st).2.dep_task = some st.tasks.length := by
  have hfail : FAIL ≠ SUCCEED := by decide
  unfold H5_daos_oidx_bcast at h ⊢
  split_ifs at h ⊢ with h1 h2 h3 h4
  · exact absurd h hfail
  · exact absurd h hfail
  · exact absurd h hfail
  · exact absurd h hfail
  · exact schedule_or_first_success e st _ _ _ rfl rfl rfl h

theorem mpi_ibcast_success (e : BuildEnv) (udata_given buffer_given : Bool) (st : BuildState)
    (h : (H5_daos_mpi_ibcast e udata_given buffer_given st).1 = SUCCEED) :
    ∃ meta t, (H5_daos_mpi_ibcast e udata_given buffer_given st).2.tasks
        = st.tasks ++ [meta, t] ∧
      chained st (H5_daos_mpi_ibcast e udata_given buffer_given st).2 (st.tasks.length + 1) t ∧
      meta.fn = .no_body ∧ meta.deps = [] ∧ meta.scheduled = true ∧
      (H5_daos_mpi_ibcast e udata_given buffer_given st).2.dep_task
        = some st.tasks.length := by
  have hfail : FAIL ≠ SUCCEED := by decide
  have key : ∀ r, H5_daos_mpi_ibcast e udata_given buffer_given st = r → r.1 = SUCCEED →
      ∃ meta t, r.2.tasks = st.tasks ++ [meta, t] ∧
        chained st r.2 (st.tasks.length + 1) t ∧
        meta.fn = .no_body ∧ meta.deps = [] ∧ meta.scheduled = true ∧
        r.2.dep_task = some st.tasks.length := by
    intro r hr hs
    unfold H5_daos_mpi_ibcast at hr
    by_cases c1 : udata_given = false ∧ e.malloc_ok = false
    · rw [if_pos c1] at hr; subst hr; exact absurd hs hfail
    rw [if_neg c1] at hr
    simp only at hr
    by_cases c2 : (udata_given && buffer_given) = false ∧ e.buffer_ok = false
    · rw [if_pos c2] at hr; subst hr; exact absurd hs hfail
    rw [if_neg c2] at hr
    by_cases c3 : e.metatask_create_ret ≠ 0
    · rw [if_pos c3] at hr; subst hr; exact absurd hs hfail
    rw [if_neg c3] at hr
    by_cases c4 : e.task_create_ret ≠ 0
    · rw [if_pos c4] at hr; subst hr; exact absurd hs hfail
    rw [if_neg c4] at hr
    by_cases c5 : st.dep_task.isSome ∧ e.register_deps_ret ≠ 0
    · rw [if_pos c5] at hr; subst hr; exact absurd hs hfail
    rw [if_neg c5] at hr
    by_cases c6 : e.register_cbs_ret ≠ 0
    · rw [if_pos c6] at hr; subst hr; exact absurd hs hfail
    rw [if_neg c6] at hr
    by_cases c7 : e.metatask_schedule_ret ≠ 0
    · rw [if_pos c7] at hr; subst hr; exact absurd hs hfail
    rw [if_neg c7] at hr
    cases hf : st.first_task with
    | none =>
      simp only [hf] at hr
      subst hr
      refine ⟨_, _, rfl, ?_⟩
      cases udata_given <;> cases buffer_given <;> simp [chained, hf]
    | some f =>
      simp only [hf] at hr
      by_cases c8 : e.schedule_ret ≠ 0
      · rw [if_pos c8] at hr; subst hr; exact absurd hs hfail
      rw [if_neg c8] at hr
      subst hr
      refine ⟨_, _, rfl, ?_⟩
      cases udata_given <;> cases buffer_given <;> simp [chained, hf]
  exact key _ rfl h

/-- C13 (what a builder leaves on success).  Whenever `H5_daos_pool_connect`,
`H5_daos_pool_disconnect`, `H5_daos_pool_query`, `H5_daos_obj_open` or
`H5_daos_oidx_bcast` returns success it has added one task whose only
predecessor is the incoming `*dep_task` (none if it was `NULL`); with
`*first_task` `NULL` the task is not scheduled and becomes `*first_task`,
otherwise it is scheduled and `*first_task` is unchanged; `req->rc` grew by
exactly 1; and `*dep_task` is the new task.  `H5_daos_mpi_ibcast` adds two
tasks: a meta task without body and without predecessor, which it schedules at
once and which becomes `*dep_task`, and the broadcast task, for which the
same holds as for the task of the other builders. -/
theorem C13_builder_success (e : BuildEnv) (udata_given buffer_given : Bool) (st : BuildState) :
    (∀ b ∈ [H5_daos_pool_connect, H5_daos_pool_disconnect, H5_daos_pool_query,
        H5_daos_obj_open, H5_daos_oidx_bcast],
      (b e st).1 = SUCCEED →
      ∃ t, (b e st).2.tasks = st.tasks ++ [t] ∧
        chained st (b e st).2 st.tasks.length t ∧
        (b e st).2.dep_task = some st.tasks.length) ∧
    ((H5_daos_mpi_ibcast e udata_given buffer_given st).1 = SUCCEED →
      ∃ meta t, (H5_daos_mpi_ibcast e udata_given buffer_given st).2.tasks
          = st.tasks ++ [meta, t] ∧
        chained st (H5_daos_mpi_ibcast e udata_given buffer_given st).2
          (st.tasks.length + 1) t ∧
        meta.fn = .no_body ∧ meta.deps = [] ∧ meta.scheduled = true ∧
        (H5_daos_mpi_ibcast e udata_given buffer_given st).2.dep_task
          = some st.tasks.length) := by
  refine ⟨?_, mpi_ibcast_success e udata_given buffer_given st⟩
  intro b hb
  simp only [List.mem_cons, List.mem_singleton, List.not_mem_nil, or_false] at hb
  rcases hb with h | h | h | h | h <;> subst h
  · exact pool_builder_success _ e st
  · exact pool_builder_success _ e st
  · exact pool_builder_success _ e st
  · exact args_builder_success _ e st
  · exact oidx_bcast_success e st

/-- Witness of C13: the broadcast builder called with a running chain (task 0
is the first task and the tail) when every call succeeds. -/
theorem C13_builder_success_witness :
    (H5_daos_mpi_ibcast BuildEnv.ok false false
      ⟨[⟨.DAOS_OPC_OBJ_OPEN, [], true, true, true⟩], some 0, some 0, 2, 1, 0⟩).1 = SUCCEED ∧
    ∃ meta t, (H5_daos_mpi_ibcast BuildEnv.ok false false
        ⟨[⟨.DAOS_OPC_OBJ_OPEN, [], true, true, true⟩], some 0, some 0, 2, 1, 0⟩).2.tasks
          = [⟨.DAOS_OPC_OBJ_OPEN, [], true, true, true⟩] ++ [meta, t] ∧
      chained ⟨[⟨.DAOS_OPC_OBJ_OPEN, [], true, true, true⟩], some 0, some 0, 2, 1, 0⟩
        (H5_daos_mpi_ibcast BuildEnv.ok false false
          ⟨[⟨.DAOS_OPC_OBJ_OPEN, [], true, true, true⟩], some 0, some 0, 2, 1, 0⟩).2 (1 + 1) t ∧
      meta.fn = .no_body ∧ meta.deps = [] ∧ meta.scheduled = true ∧
      (H5_daos_mpi_ibcast BuildEnv.ok false false
        ⟨[⟨.DAOS_OPC_OBJ_OPEN, [], true, true, true⟩], some 0, some 0, 2, 1, 0⟩).2.dep_task
          = some 1 :=
  ⟨by decide,
   (C13_builder_success BuildEnv.ok false false
      ⟨[⟨.DAOS_OPC_OBJ_OPEN, [], true, true, true⟩], some 0, some 0, 2, 1, 0⟩).2 (by decide)⟩

theorem failed_clean_intro (st st1 : BuildState) (given : Nat) (new : List Task)
    (h1 : st1.rc = st.rc) (h2 : st1.first_task = st.first_task)
    (h3 : st1.dep_task = st.dep_task)
    (h4 : st1.frees + st.mallocs = st.frees + st1.mallocs + given)
    (h5 : st1.tasks = st.tasks ++ new)
    (h6 : ∀ t ∈ new, t.scheduled = true → t.fn = .no_body ∧ t.cbs = false ∧ t.priv = false) :
    failed_clean st st1 given :=
  ⟨h1, h2, h3, h4, new, h5, h6⟩

theorem schedule_or_first_failed (e : BuildEnv) (st st1 freed : BuildState) (t : Task)
    (given : Nat) (hs : t.scheduled = false)
    (h1 : freed.rc = st.rc) (h2 : freed.first_task = st.first_task)
    (h3 : freed.dep_task = st.dep_task)
    (h4 : freed.frees + st.mallocs = st.frees + freed.mallocs + given)
    (h : (schedule_or_first e st st1 freed t).1 = FAIL) :
    failed_clean st (schedule_or_first e st st1 freed t).2 given := by
  have hok : SUCCEED ≠ FAIL := by decide
  unfold schedule_or_first at h ⊢
  cases hf : st.first_task with
  | none => simp only [hf] at h; exact absurd h hok
  | some f =>
    simp only [hf] at h ⊢
    by_cases hr : e.schedule_ret ≠ 0
    · rw [if_pos hr]
      exact failed_clean_intro st _ given [t] h1 h2 h3 h4 rfl
        (by intro x hx hsx; simp only [List.mem_singleton] at hx; subst hx; rw [hs] at hsx
            exact absurd hsx (by decide))
    · rw [if_neg hr] at h; exact absurd h hok

theorem pool_builder_failed (fn : TaskFn) (e : BuildEnv) (st : BuildState)
    (h : (pool_builder fn e st).1 = FAIL) : failed_clean st (pool_builder fn e st).2 0 := by
  unfold pool_builder at h ⊢
  by_cases c1 : e.malloc_ok = false
  · rw [if_pos c1]
    exact failed_clean_intro st _ 0 [] rfl rfl rfl rfl (by simp) (by simp)
  rw [if_neg c1] at h ⊢
  simp only at h ⊢
  by_cases c2 : e.task_create_ret ≠ 0
  · rw [if_pos c2]
    exact failed_clean_intro st _ 0 [] rfl rfl rfl (by simp only; omega) (by simp) (by simp)
  rw [if_neg c2] at h ⊢
  by_cases c3 : e.register_cbs_ret ≠ 0
  · rw [if_pos c3]
    exact failed_clean_intro st _ 0 _ rfl rfl rfl (by simp only; omega) rfl (by simp)
  rw [if_neg c3] at h ⊢
  exact schedule_or_first_failed e st _ _ _ 0 rfl rfl rfl rfl (by simp only; omega) h

theorem args_builder_failed (fn : TaskFn) (e : BuildEnv) (st : BuildState)
    (h : (args_builder fn e st).1 = FAIL) : failed_clean st (args_builder fn e st).2 0 := by
  unfold args_builder at h ⊢
  by_cases c1 : e.task_create_ret ≠ 0
  · rw [if_pos c1]
    exact failed_clean_intro st _ 0 [] rfl rfl rfl rfl (by simp) (by simp)
  rw [if_neg c1] at h ⊢
  simp only at h ⊢
  by_cases c2 : e.register_cbs_ret ≠ 0
  · rw [if_pos c2]
    exact failed_clean_intro st _ 0 _ rfl rfl rfl rfl rfl (by simp)
  rw [if_neg c2] at h ⊢
  by_cases c3 : e.malloc_ok = false
  · rw [if_pos c3]
    exact failed_clean_intro st _ 0 _ rfl rfl rfl rfl rfl (by simp)
  rw [if_neg c3] at h ⊢
  by_cases c4 : e.get_args_ok = false
  · rw [if_pos c4]
    exact failed_clean_intro st _ 0 _ rfl rfl rfl (by simp only; omega) rfl (by simp)
  rw [if_neg c4] at h ⊢
  exact schedule_or_first_failed e st _ _ _ 0 rfl rfl rfl rfl (by simp only; omega) h

theorem oidx_bcast_failed (e : BuildEnv) (st : BuildState)
    (h : (H5_daos_oidx_bcast e st).1 = FAIL) : failed_clean st (H5_daos_oidx_bcast e st).2 0 := by
  unfold H5_daos_oidx_bcast at h ⊢
  by_cases c1 : e.malloc_ok = false
  · rw [if_pos c1]
    exact failed_clean_intro st _ 0 [] rfl rfl rfl rfl (by simp) (by simp)
  rw [if_neg c1] at h ⊢
  simp only at h ⊢
  by_cases c2 : e.task_create_ret ≠ 0
  · rw [if_pos c2]
    exact failed_clean_intro st _ 0 [] rfl rfl rfl (by simp only; omega) (by simp) (by simp)
  rw [if_neg c2] at h ⊢
  by_cases c3 : st.dep_task.isSome ∧ e.register_deps_ret ≠ 0
  · rw [if_pos c3]
    exact failed_clean_intro st _ 0 _ rfl rfl rfl (by simp only; omega) rfl (by simp)
  rw [if_neg c3] at h ⊢
  by_cases c4 : e.register_cbs_ret ≠ 0
  · rw [if_pos c4]
    exact failed_clean_intro st _ 0 _ rfl rfl rfl (by simp only; omega) rfl (by simp)
  rw [if_neg c4] at h ⊢
  exact schedule_or_first_failed e st _ _ _ 0 rfl rfl rfl rfl (by simp only; omega) h

theorem mpi_ibcast_failed (e : BuildEnv) (udata_given buffer_given : Bool) (st : BuildState)
    (h : (H5_daos_mpi_ibcast e udata_given buffer_given st).1 = FAIL) :
    failed_clean st (H5_daos_mpi_ibcast e udata_given buffer_given st).2
      ((if udata_given then 1 else 0) + (if udata_given && buffer_given then 1 else 0)) := by
  have hok : SUCCEED ≠ FAIL := by decide
  have key : ∀ r, H5_daos_mpi_ibcast e udata_given buffer_given st = r → r.1 = FAIL →
      failed_clean st r.2
        ((if udata_given then 1 else 0) + (if udata_given && buffer_given then 1 else 0)) := by
    intro r hr hs
    unfold H5_daos_mpi_ibcast at hr
    by_cases c1 : udata_given = false ∧ e.malloc_ok = false
    · rw [if_pos c1] at hr; subst hr
      exact failed_clean_intro st _ _ [] rfl rfl rfl (by simp [c1.1]) (by simp) (by simp)
    rw [if_neg c1] at hr
    simp only at hr
    by_cases c2 : (udata_given && buffer_given) = false ∧ e.buffer_ok = false
    · rw [if_pos c2] at hr; subst hr
      refine failed_clean_intro st _ _ [] rfl rfl rfl ?_ (by simp) (by simp)
      cases udata_given <;> cases buffer_given <;> simp at c2 ⊢ <;> omega
    rw [if_neg c2] at hr
    have harith : st.frees + 2 + st.mallocs
        = st.frees + (st.mallocs + (if udata_given = true then 0 else 1)
            + (if (udata_given && buffer_given) = true then 0 else 1))
          + ((if udata_given = true then 1 else 0)
            + (if (udata_given && buffer_given) = true then 1 else 0)) := by
      cases udata_given <;> cases buffer_given <;> simp <;> omega
    by_cases c3 : e.metatask_create_ret ≠ 0
    · rw [if_pos c3] at hr; subst hr
      exact failed_clean_intro st _ _ [] rfl rfl rfl harith (by simp) (by simp)
    rw [if_neg c3] at hr
    by_cases c4 : e.task_create_ret ≠ 0
    · rw [if_pos c4] at hr; subst hr
      exact failed_clean_intro st _ _ _ rfl rfl rfl harith rfl (by simp)
    rw [if_neg c4] at hr
    by_cases c5 : st.dep_task.isSome ∧ e.register_deps_ret ≠ 0
    · rw [if_pos c5] at hr; subst hr
      exact failed_clean_intro st _ _ _ rfl rfl rfl harith rfl (by simp)
    rw [if_neg c5] at hr
    by_cases c6 : e.register_cbs_ret ≠ 0
    · rw [if_pos c6] at hr; subst hr
      exact failed_clean_intro st _ _ _ rfl rfl rfl harith rfl (by simp)
    rw [if_neg c6] at hr
    by_cases c7 : e.metatask_schedule_ret ≠ 0
    · rw [if_pos c7] at hr; subst hr
      exact failed_clean_intro st _ _ _ rfl rfl rfl harith rfl (by simp)
    rw [if_neg c7] at hr
    cases hf : st.first_task with
    | none => simp only [hf] at hr; subst hr; exact absurd hs hok
    | some f =>
      simp only [hf] at hr
      by_cases c8 : e.schedule_ret ≠ 0
      · rw [if_pos c8] at hr; subst hr
        exact failed_clean_intro st _ _ _ rfl hf.symm rfl harith rfl (by simp)
      · rw [if_neg c8] at hr; subst hr; exact absurd hs hok
  exact key _ rfl h


theorem schedule_or_first_handed (e : BuildEnv) (st st1 freed : BuildState) (t : Task)
    (h : (schedule_or_first e st st1 freed t).1 = SUCCEED) :
    (schedule_or_first e st st1 freed t).2.rc = st.rc + 1 ∧
    (schedule_or_first e st st1 freed t).2.dep_task = some st.tasks.length ∧
    ∃ t1, (schedule_or_first e st st1 freed t).2.tasks = st.tasks ++ [t1] ∧
      t1.fn = t.fn ∧ t1.cbs = t.cbs ∧ t1.priv = t.priv ∧
      (t1.scheduled = true ∨
        (schedule_or_first e st st1 freed t).2.first_task = some st.tasks.length) := by
  have hfail : FAIL ≠ SUCCEED := by decide
  unfold schedule_or_first at h ⊢
  cases hf : st.first_task with
  | none => exact ⟨rfl, rfl, t, rfl, rfl, rfl, rfl, Or.inr rfl⟩
  | some f =>
    simp only [hf] at h ⊢
    by_cases hr : e.schedule_ret ≠ 0
    · rw [if_pos hr] at h; exact absurd h hfail
    · rw [if_neg hr]
      exact ⟨rfl, rfl, _, rfl, rfl, rfl, rfl, Or.inl rfl⟩

theorem args_builder_ret (fn : TaskFn) (e : BuildEnv) (st : BuildState) :
    (args_builder fn e st).1 = FAIL ∨ (args_builder fn e st).1 = SUCCEED := by
  unfold args_builder schedule_or_first
  split_ifs <;> first | exact Or.inl rfl | (cases st.first_task <;> simp)

theorem args_builder_handed (fn : TaskFn) (e : BuildEnv) (st : BuildState)
    (h : (args_builder fn e st).1 = SUCCEED) :
    (args_builder fn e st).2.rc = st.rc + 1 ∧
    (args_builder fn e st).2.dep_task = some st.tasks.length ∧
    ∃ t1, (args_builder fn e st).2.tasks = st.tasks ++ [t1] ∧
      t1.fn = fn ∧ t1.cbs = true ∧ t1.priv = true ∧
      (t1.scheduled = true ∨ (args_builder fn e st).2.first_task = some st.tasks.length) := by
  have hfail : FAIL ≠ SUCCEED := by decide
  unfold args_builder at h ⊢
  split_ifs at h ⊢ with h1 h2 h3 h4
  · exact absurd h hfail
  · exact absurd h hfail
  · exact absurd h hfail
  · exact absurd h hfail
  · exact schedule_or_first_handed e st _ _ _ h

theorem oidx_generate_tasks_failed (e eb : BuildEnv) (file : H5_daos_file_t) (collective : Bool)
    (st : BuildState)
    (h : (H5_daos_oidx_generate_tasks e eb file collective st).1 = FAIL) :
    failed_clean st (H5_daos_oidx_generate_tasks e eb file collective st).2 0 ∨
    ((H5_daos_oidx_generate_tasks e eb file collective st).2.rc = st.rc + 1 ∧
      (H5_daos_oidx_generate_tasks e eb file collective st).2.dep_task
        = some st.tasks.length ∧
      ∃ t new, (H5_daos_oidx_generate_tasks e eb file collective st).2.tasks
          = st.tasks ++ t :: new ∧
        t.fn = .DAOS_OPC_CONT_ALLOC_OIDS ∧ t.cbs = true ∧ t.priv = true ∧
        (t.scheduled = true ∨
          (H5_daos_oidx_generate_tasks e eb file collective st).2.first_task
            = some st.tasks.length)) := by
  have hok : SUCCEED ≠ FAIL := by decide
  have hneg : FAIL < 0 := by decide
  have hpos : ¬ SUCCEED < 0 := by decide
  have key : ∀ r, H5_daos_oidx_generate_tasks e eb file collective st = r → r.1 = FAIL →
      failed_clean st r.2 0 ∨
      (r.2.rc = st.rc + 1 ∧ r.2.dep_task = some st.tasks.length ∧
        ∃ t new, r.2.tasks = st.tasks ++ t :: new ∧
          t.fn = .DAOS_OPC_CONT_ALLOC_OIDS ∧ t.cbs = true ∧ t.priv = true ∧
          (t.scheduled = true ∨ r.2.first_task = some st.tasks.length)) := by
    intro r hr hs
    unfold H5_daos_oidx_generate_tasks at hr
    simp only at hr
    by_cases c0 : (file.lease collective).max_oidx = 0 ∨
        (file.lease collective).next_oidx > (file.lease collective).max_oidx
    · rw [if_pos c0] at hr
      by_cases c1 : collective = false ∨ file.my_rank = 0
      · rw [if_pos c1] at hr
        rcases args_builder_ret .DAOS_OPC_CONT_ALLOC_OIDS e st with ha | ha
        · rw [if_pos (by rw [ha]; exact hneg)] at hr
          subst hr
          exact Or.inl (args_builder_failed _ e st ha)
        · rw [if_neg (by rw [ha]; exact hpos)] at hr
          obtain ⟨g1, g2, t1, g3, g4, g5, g6, g7⟩ := args_builder_handed _ e st ha
          by_cases c2 : collective = true ∧ file.num_procs > 1
          · rw [if_pos c2] at hr
            by_cases c3 : (H5_daos_oidx_bcast eb (args_builder .DAOS_OPC_CONT_ALLOC_OIDS e st).2).1 < 0
            · rw [if_pos c3] at hr
              have hb : (H5_daos_oidx_bcast eb
                  (args_builder .DAOS_OPC_CONT_ALLOC_OIDS e st).2).1 = FAIL := by
                have : ∀ x y, (H5_daos_oidx_bcast x y).1 = FAIL ∨
                    (H5_daos_oidx_bcast x y).1 = SUCCEED := by
                  intro x y
                  unfold H5_daos_oidx_bcast schedule_or_first
                  split_ifs <;> first
                    | exact Or.inl rfl
                    | (cases y.first_task <;> simp)
                rcases this eb (args_builder .DAOS_OPC_CONT_ALLOC_OIDS e st).2 with hx | hx
                · exact hx
                · rw [hx] at c3; exact absurd c3 hpos
              obtain ⟨f1, f2, f3, _, new, f5, _⟩ := oidx_bcast_failed eb _ hb
              subst hr
              right
              refine ⟨by rw [f1, g1], by rw [f3, g2], t1, new, ?_, g4, g5, g6, ?_⟩
              · show (H5_daos_oidx_bcast eb
                  (args_builder .DAOS_OPC_CONT_ALLOC_OIDS e st).2).2.tasks = _
                rw [f5, g3, List.append_assoc]; rfl
              · rcases g7 with g7 | g7
                · exact Or.inl g7
                · right
                  show (H5_daos_oidx_bcast eb
                    (args_builder .DAOS_OPC_CONT_ALLOC_OIDS e st).2).2.first_task = _
                  rw [f2, g7]
            · rw [if_neg c3] at hr; subst hr; exact absurd hs hok
          · rw [if_neg c2] at hr; subst hr; rw [ha] at hs; exact absurd hs hok
      · rw [if_neg c1] at hr
        rw [if_neg hpos] at hr
        by_cases c2 : collective = true ∧ file.num_procs > 1
        · rw [if_pos c2] at hr
          by_cases c3 : (H5_daos_oidx_bcast eb st).1 < 0
          · rw [if_pos c3] at hr
            have hb : (H5_daos_oidx_bcast eb st).1 = FAIL := by
              have : ∀ x y, (H5_daos_oidx_bcast x y).1 = FAIL ∨
                  (H5_daos_oidx_bcast x y).1 = SUCCEED := by
                intro x y
                unfold H5_daos_oidx_bcast schedule_or_first
                split_ifs <;> first
                  | exact Or.inl rfl
                  | (cases y.first_task <;> simp)
              rcases this eb st with hx | hx
              · exact hx
              · rw [hx] at c3; exact absurd c3 hpos
            subst hr
            exact Or.inl (oidx_bcast_failed eb st hb)
          · rw [if_neg c3] at hr; subst hr; exact absurd hs hok
        · rw [if_neg c2] at hr; subst hr; exact absurd hs hok
    · rw [if_neg c0] at hr; subst hr; exact absurd hs hok
  exact key _ rfl h

theorem queue_metatask_rc (e : BuildEnv) (m : Nat) (rv : Int) (st : BuildState) :
    (queue_metatask e m rv st).2.rc = st.rc := by
  unfold queue_metatask
  cases st.first_task with
  | none => rfl
  | some f => simp only; split_ifs <;> rfl

theorem list_key_start_rc (c : Codes) (e : BuildEnv) (m : Nat) (st : BuildState) :
    (H5_daos_list_key_start c e m st).2.rc = st.rc := by
  unfold H5_daos_list_key_start
  by_cases c1 : e.task_create_ret ≠ 0
  · rw [if_pos c1]; exact queue_metatask_rc _ _ _ _
  rw [if_neg c1]
  simp only
  by_cases c2 : e.register_cbs_ret ≠ 0
  · rw [if_pos c2]; exact queue_metatask_rc _ _ _ _
  rw [if_neg c2]
  by_cases c3 : e.get_args_ok = false
  · rw [if_pos c3]; exact queue_metatask_rc _ _ _ _
  rw [if_neg c3]
  cases hf : st.first_task with
  | none => rfl
  | some f =>
    simp only
    by_cases c4 : e.schedule_ret ≠ 0
    · rw [if_pos c4]; exact queue_metatask_rc _ _ _ _
    · rw [if_neg c4]

theorem list_key_init_failed_rc (c : Codes) (le : ListKeyEnv) (e : BuildEnv)
    (base_iter is_recursive big_kds : Bool) (st : BuildState)
    (h : (H5_daos_list_key_init c le e base_iter is_recursive big_kds st).1 ≠ 0) :
    (H5_daos_list_key_init c le e base_iter is_recursive big_kds st).2.rc = st.rc := by
  have key : ∀ r, H5_daos_list_key_init c le e base_iter is_recursive big_kds st = r →
      r.1 ≠ 0 → r.2.rc = st.rc := by
    intro r hr hs
    unfold H5_daos_list_key_init at hr
    by_cases c1 : le.udata_ok = false
    · rw [if_pos c1] at hr; subst hr; rfl
    rw [if_neg c1] at hr
    simp only at hr
    by_cases c2 : base_iter = true ∧ le.iter_data_ok = false
    · rw [if_pos c2] at hr; subst hr; rfl
    rw [if_neg c2] at hr
    by_cases c3 : big_kds = true ∧ le.kds_ok = false
    · rw [if_pos c3] at hr; subst hr; rfl
    rw [if_neg c3] at hr
    by_cases c4 : le.key_buf_ok = false
    · rw [if_pos c4] at hr; subst hr; rfl
    rw [if_neg c4] at hr
    by_cases c5 : e.metatask_create_ret ≠ 0
    · rw [if_pos c5] at hr; subst hr; rfl
    rw [if_neg c5] at hr
    have hrc := list_key_start_rc c e st.tasks.length
      { tasks := st.tasks ++ [⟨.H5_daos_list_key_finish, [], false, true, false⟩],
        first_task := st.first_task, dep_task := st.dep_task, rc := st.rc,
        mallocs := st.mallocs + 1 + (if base_iter = true then 1 else 0)
          + (if big_kds = true then 1 else 0) + 1,
        frees := st.frees }
    generalize H5_daos_list_key_start c e st.tasks.length _ = rs at hr hrc
    by_cases c6 : rs.1 ≠ 0
    · rw [if_pos c6] at hr
      by_cases c7 : some st.tasks.length ≠ rs.2.dep_task
      · rw [if_pos c7] at hr; subst hr
        rw [queue_metatask_rc]; exact hrc
      · rw [if_neg c7] at hr; subst hr; exact hrc
    · rw [if_neg c6] at hr
      subst hr
      exact absurd rfl hs
  exact key _ rfl h


theorem oidx_bcast_ret (e : BuildEnv) (st : BuildState) :
    (H5_daos_oidx_bcast e st).1 = FAIL ∨ (H5_daos_oidx_bcast e st).1 = SUCCEED := by
  unfold H5_daos_oidx_bcast schedule_or_first
  split_ifs <;> first
    | exact Or.inl rfl
    | (cases st.first_task <;> simp)

/-- A failure of `H5_daos_oidx_generate` before it handed a task to the chain
leaves the state clean. -/
theorem oidx_generate_failed_before_handover (e eb : BuildEnv) (file : H5_daos_file_t)
    (collective : Bool) (st : BuildState)
    (h : (H5_daos_oidx_generate_tasks e eb file collective st).1 = FAIL)
    (hno : oidx_tasks_handed e eb file collective st = false) :
    failed_clean st (H5_daos_oidx_generate_tasks e eb file collective st).2 0 := by
  have hok : SUCCEED ≠ FAIL := by decide
  have hneg : FAIL < 0 := by decide
  have hpos : ¬ SUCCEED < 0 := by decide
  have key : ∀ r, H5_daos_oidx_generate_tasks e eb file collective st = r → r.1 = FAIL →
      failed_clean st r.2 0 := by
    intro r hr hs
    unfold H5_daos_oidx_generate_tasks at hr
    unfold oidx_tasks_handed at hno
    simp only at hr
    by_cases c0 : (file.lease collective).max_oidx = 0 ∨
        (file.lease collective).next_oidx > (file.lease collective).max_oidx
    · rw [if_pos c0] at hr
      simp only [c0, decide_True, Bool.true_and] at hno
      by_cases c1 : collective = false ∨ file.my_rank = 0
      · rw [if_pos c1] at hr
        rw [if_pos c1] at hno
        rcases args_builder_ret .DAOS_OPC_CONT_ALLOC_OIDS e st with ha | ha
        · rw [if_pos (by rw [ha]; exact hneg)] at hr
          subst hr
          exact args_builder_failed _ e st ha
        · rw [ha] at hno
          exact absurd hno (by decide)
      · rw [if_neg c1] at hr
        rw [if_neg hpos] at hr
        by_cases c2 : collective = true ∧ file.num_procs > 1
        · rw [if_pos c2] at hr
          rcases oidx_bcast_ret eb st with hx | hx
          · rw [if_pos (by rw [hx]; exact hneg)] at hr
            subst hr
            exact oidx_bcast_failed eb st hx
          · rw [if_neg (by rw [hx]; exact hpos)] at hr; subst hr; exact absurd hs hok
        · rw [if_neg c2] at hr; subst hr; exact absurd hs hok
    · rw [if_neg c0] at hr; subst hr; exact absurd hs hok
  exact key _ rfl h

/-- When `H5_daos_oidx_generate` succeeds without handing a task to the chain
it has left the state as it was. -/
theorem oidx_generate_ok_without_handover (e eb : BuildEnv) (file : H5_daos_file_t)
    (collective : Bool) (st : BuildState)
    (h : ¬ (H5_daos_oidx_generate_tasks e eb file collective st).1 < 0)
    (hno : oidx_tasks_handed e eb file collective st = false) :
    H5_daos_oidx_generate_tasks e eb file collective st = (SUCCEED, st) := by
  have hneg : FAIL < 0 := by decide
  have hpos : ¬ SUCCEED < 0 := by decide
  have key : ∀ r, H5_daos_oidx_generate_tasks e eb file collective st = r → ¬ r.1 < 0 →
      r = (SUCCEED, st) := by
    intro r hr hs
    unfold H5_daos_oidx_generate_tasks at hr
    unfold oidx_tasks_handed at hno
    simp only at hr
    by_cases c0 : (file.lease collective).max_oidx = 0 ∨
        (file.lease collective).next_oidx > (file.lease collective).max_oidx
    · rw [if_pos c0] at hr
      simp only [c0, decide_True, Bool.true_and] at hno
      by_cases c1 : collective = false ∨ file.my_rank = 0
      · rw [if_pos c1] at hr
        rw [if_pos c1] at hno
        rcases args_builder_ret .DAOS_OPC_CONT_ALLOC_OIDS e st with ha | ha
        · rw [if_pos (by rw [ha]; exact hneg)] at hr
          subst hr
          rw [ha] at hs
          exact absurd hneg hs
        · rw [ha] at hno
          exact absurd hno (by decide)
      · rw [if_neg c1] at hr
        rw [if_neg hpos] at hr
        rw [if_neg c1] at hno
        by_cases c2 : collective = true ∧ file.num_procs > 1
        · rw [if_pos c2] at hr
          rcases oidx_bcast_ret eb st with hx | hx
          · rw [if_pos (by rw [hx]; exact hneg)] at hr
            subst hr
            exact absurd hneg hs
          · rw [hx] at hno
            simp only [c2, and_self, decide_True, Bool.true_and] at hno
            exact absurd hno (by decide)
        · rw [if_neg c2] at hr; exact hr.symm
    · rw [if_neg c0] at hr; exact hr.symm
  exact key _ rfl h

/-- A failure of `H5_daos_oid_generate` before `H5_daos_oidx_generate` handed a
task to the chain leaves the state clean. -/
theorem oid_generate_failed_before_handover (eo e eb : BuildEnv)
    (encode_ok plist_default inc_ref_ok : Bool) (file : H5_daos_file_t) (collective : Bool)
    (st : BuildState)
    (h : (H5_daos_oid_generate eo e eb encode_ok plist_default inc_ref_ok file collective st).1
      = FAIL)
    (hno : eo.malloc_ok = true →
      oidx_tasks_handed e eb file collective { st with mallocs := st.mallocs + 1 } = false) :
    failed_clean st
      (H5_daos_oid_generate eo e eb encode_ok plist_default inc_ref_ok file collective st).2 0 := by
  have key : ∀ r,
      H5_daos_oid_generate eo e eb encode_ok plist_default inc_ref_ok file collective st = r →
      r.1 = FAIL → failed_clean st r.2 0 := by
    intro r hr hs
    unfold H5_daos_oid_generate at hr
    by_cases c1 : eo.malloc_ok = false
    · rw [if_pos c1] at hr; subst hr
      exact failed_clean_intro st _ 0 [] rfl rfl rfl rfl (by simp) (by simp)
    rw [if_neg c1] at hr
    have hno1 := hno (by cases hm : eo.malloc_ok <;> simp_all)
    simp only at hr
    by_cases c2 : (H5_daos_oidx_generate_tasks e eb file collective
        { st with mallocs := st.mallocs + 1 }).1 < 0
    · rw [if_pos c2] at hr; subst hr
      have hf : (H5_daos_oidx_generate_tasks e eb file collective
          { st with mallocs := st.mallocs + 1 }).1 = FAIL := by
        have hret : ∀ x, (H5_daos_oidx_generate_tasks e eb file collective x).1 = FAIL ∨
            (H5_daos_oidx_generate_tasks e eb file collective x).1 = SUCCEED := by
          intro x
          unfold H5_daos_oidx_generate_tasks
          simp only
          split_ifs <;> first
            | exact Or.inl rfl
            | exact Or.inr rfl
            | exact args_builder_ret _ _ _
        rcases hret { st with mallocs := st.mallocs + 1 } with hx | hx
        · exact hx
        · rw [hx] at c2; exact absurd c2 (by decide)
      obtain ⟨f1, f2, f3, f4, new, f5, f6⟩ :=
        oidx_generate_failed_before_handover e eb file collective _ hf hno1
      exact failed_clean_intro st _ 0 new f1 f2 f3 (by simp only at f4 ⊢; omega) f5 f6
    rw [if_neg c2] at hr
    have hsame := oidx_generate_ok_without_handover e eb file collective _ c2 hno1
    rw [hsame] at hr
    simp only [if_true] at hr
    subst hr
    exact failed_clean_intro st _ 0 [] rfl rfl rfl (by simp only; omega) (by simp) (by simp)
  exact key _ rfl h

/-- A failure of `H5_daos_list_key_init` before its meta task exists, for an
iteration that is recursive or not the base: the direct cleanup frees what was
allocated and nothing else was touched. -/
theorem list_key_init_failed_before_metatask (c : Codes) (le : ListKeyEnv) (e : BuildEnv)
    (base_iter is_recursive big_kds : Bool) (st : BuildState)
    (hm : metatask_exists le e base_iter big_kds = false)
    (hrec : base_iter = true → is_recursive = true)
    (halloc : 0 < c.H5_DAOS_ALLOC_ERROR) :
    (H5_daos_list_key_init c le e base_iter is_recursive big_kds st).1 ≠ 0 ∧
    failed_clean st (H5_daos_list_key_init c le e base_iter is_recursive big_kds st).2 0 := by
  have hfail : FAIL ≠ 0 := by decide
  have hal : -c.H5_DAOS_ALLOC_ERROR ≠ 0 := by omega
  have key : ∀ r, H5_daos_list_key_init c le e base_iter is_recursive big_kds st = r →
      r.1 ≠ 0 ∧ failed_clean st r.2 0 := by
    intro r hr
    unfold H5_daos_list_key_init at hr
    by_cases c1 : le.udata_ok = false
    · rw [if_pos c1] at hr; subst hr
      exact ⟨hfail, failed_clean_intro st _ 0 [] rfl rfl rfl rfl (by simp) (by simp)⟩
    rw [if_neg c1] at hr
    simp only at hr
    by_cases c2 : base_iter = true ∧ le.iter_data_ok = false
    · rw [if_pos c2] at hr; subst hr
      refine ⟨hfail, failed_clean_intro st _ 0 [] rfl rfl rfl ?_ (by simp [list_key_direct_cleanup])
        (by simp)⟩
      simp [list_key_direct_cleanup]
      omega
    rw [if_neg c2] at hr
    by_cases c3 : big_kds = true ∧ le.kds_ok = false
    · rw [if_pos c3] at hr; subst hr
      refine ⟨hal, failed_clean_intro st _ 0 [] rfl rfl rfl ?_ (by simp [list_key_direct_cleanup])
        (by simp)⟩
      cases base_iter <;> cases is_recursive <;> simp_all [list_key_direct_cleanup] <;> omega
    rw [if_neg c3] at hr
    by_cases c4 : le.key_buf_ok = false
    · rw [if_pos c4] at hr; subst hr
      refine ⟨hal, failed_clean_intro st _ 0 [] rfl rfl rfl ?_ (by simp [list_key_direct_cleanup])
        (by simp)⟩
      cases base_iter <;> cases is_recursive <;> cases big_kds <;>
        simp_all [list_key_direct_cleanup] <;> omega
    rw [if_neg c4] at hr
    by_cases c5 : e.metatask_create_ret ≠ 0
    · rw [if_pos c5] at hr; subst hr
      refine ⟨c5, failed_clean_intro st _ 0 [] rfl rfl rfl ?_ (by simp [list_key_direct_cleanup])
        (by simp)⟩
      cases base_iter <;> cases is_recursive <;> cases big_kds <;>
        simp_all [list_key_direct_cleanup] <;> omega
    exfalso
    unfold metatask_exists at hm
    cases h1 : le.udata_ok <;> cases h2 : le.iter_data_ok <;> cases h3 : le.kds_ok <;>
      cases h4 : le.key_buf_ok <;> cases base_iter <;> cases big_kds <;> simp_all
  exact key _ rfl

theorem modify_task_getElem (f : Task → Task) :
    ∀ (m : Nat) (l : List Task), (modify_task f m l)[m]? = (l[m]?).map f
  | 0, [] => by simp [modify_task]
  | _ + 1, [] => by simp [modify_task]
  | 0, t :: rest => by simp [modify_task]
  | m + 1, t :: rest => by simp [modify_task, modify_task_getElem f m rest]

/-- What the block that queues the iteration meta task leaves. -/
theorem queue_metatask_left (e : BuildEnv) (m : Nat) (rv : Int) (st : BuildState) (t0 : Task)
    (h0 : st.tasks[m]? = some t0) (hfn : t0.fn = .H5_daos_list_key_finish)
    (hp : t0.priv = true) :
    (queue_metatask e m rv st).2.rc = st.rc ∧
    (queue_metatask e m rv st).2.frees = st.frees ∧
    (queue_metatask e m rv st).2.dep_task = some m ∧
    ∃ t, (queue_metatask e m rv st).2.tasks[m]? = some t ∧
      t.fn = .H5_daos_list_key_finish ∧ t.priv = true ∧
      (st.first_task = none → (queue_metatask e m rv st).2.first_task = some m) ∧
      (st.first_task ≠ none → e.metatask_schedule_ret = 0 → t.scheduled = true) := by
  have h1 : ∃ t1, (if (st.dep_task.isSome && decide (e.metatask_deps_ret ≠ 0)) = true
        then st.tasks
        else modify_task (fun t => { t with deps := t.deps ++ st.dep_task.toList }) m
          st.tasks)[m]? = some t1 ∧ t1.fn = .H5_daos_list_key_finish ∧ t1.priv = true := by
    split_ifs
    · exact ⟨t0, h0, hfn, hp⟩
    · rw [modify_task_getElem, h0]
      exact ⟨_, rfl, hfn, hp⟩
  obtain ⟨t1, g1, g2, g3⟩ := h1
  have key : ∀ r, queue_metatask e m rv st = r →
      r.2.rc = st.rc ∧ r.2.frees = st.frees ∧ r.2.dep_task = some m ∧
      ∃ t, r.2.tasks[m]? = some t ∧ t.fn = .H5_daos_list_key_finish ∧ t.priv = true ∧
        (st.first_task = none → r.2.first_task = some m) ∧
        (st.first_task ≠ none → e.metatask_schedule_ret = 0 → t.scheduled = true) := by
    intro r hr
    unfold queue_metatask at hr
    simp only at hr
    cases hf : st.first_task with
    | none =>
      simp only [hf] at hr
      subst hr
      exact ⟨rfl, rfl, rfl, t1, g1, g2, g3, fun _ => rfl, fun h => absurd rfl h⟩
    | some f =>
      simp only [hf] at hr
      by_cases hs : e.metatask_schedule_ret ≠ 0
      · rw [if_pos hs] at hr
        subst hr
        exact ⟨rfl, rfl, rfl, t1, g1, g2, g3, (fun h => Option.noConfusion h), fun _ h => absurd h hs⟩
      · rw [if_neg hs] at hr
        subst hr
        refine ⟨rfl, rfl, rfl, { t1 with scheduled := true }, ?_, g2, g3, (fun h => Option.noConfusion h),
          fun _ _ => rfl⟩
        show (modify_task _ m _)[m]? = _
        rw [modify_task_getElem, g1]
        rfl
  exact key _ rfl

/-- What `H5_daos_list_key_start` leaves when it fails. -/
theorem list_key_start_left (c : Codes) (e : BuildEnv) (m : Nat) (st : BuildState) (t0 : Task)
    (h0 : st.tasks[m]? = some t0) (hfn : t0.fn = .H5_daos_list_key_finish)
    (hp : t0.priv = true) (hr : (H5_daos_list_key_start c e m st).1 ≠ 0) :
    (H5_daos_list_key_start c e m st).2.rc = st.rc ∧
    (H5_daos_list_key_start c e m st).2.frees = st.frees ∧
    (H5_daos_list_key_start c e m st).2.dep_task = some m ∧
    ∃ t, (H5_daos_list_key_start c e m st).2.tasks[m]? = some t ∧
      t.fn = .H5_daos_list_key_finish ∧ t.priv = true ∧
      (st.first_task = none → (H5_daos_list_key_start c e m st).2.first_task = some m) ∧
      (st.first_task ≠ none → e.metatask_schedule_ret = 0 → t.scheduled = true) := by
  have hlt : m < st.tasks.length := by
    by_contra hc
    rw [List.getElem?_eq_none (by omega)] at h0
    cases h0
  have happ : ∀ x : Task, (st.tasks ++ [x])[m]? = some t0 := by
    intro x
    rw [List.getElem?_append_left hlt]
    exact h0
  have key : ∀ r, H5_daos_list_key_start c e m st = r → r.1 ≠ 0 →
      r.2.rc = st.rc ∧ r.2.frees = st.frees ∧ r.2.dep_task = some m ∧
      ∃ t, r.2.tasks[m]? = some t ∧ t.fn = .H5_daos_list_key_finish ∧ t.priv = true ∧
        (st.first_task = none → r.2.first_task = some m) ∧
        (st.first_task ≠ none → e.metatask_schedule_ret = 0 → t.scheduled = true) := by
    intro r hrr hne
    unfold H5_daos_list_key_start at hrr
    by_cases c1 : e.task_create_ret ≠ 0
    · rw [if_pos c1] at hrr; subst hrr
      exact queue_metatask_left e m _ st t0 h0 hfn hp
    rw [if_neg c1] at hrr
    simp only at hrr
    by_cases c2 : e.register_cbs_ret ≠ 0
    · rw [if_pos c2] at hrr; subst hrr
      exact queue_metatask_left e m _ { st with tasks := st.tasks ++ [_] } t0 (happ _) hfn hp
    rw [if_neg c2] at hrr
    by_cases c3 : e.get_args_ok = false
    · rw [if_pos c3] at hrr; subst hrr
      exact queue_metatask_left e m _ { st with tasks := st.tasks ++ [_] } t0 (happ _) hfn hp
    rw [if_neg c3] at hrr
    cases hf : st.first_task with
    | none =>
      simp only [hf] at hrr
      subst hrr
      exact absurd rfl hne
    | some f =>
      simp only [hf] at hrr
      by_cases c4 : e.schedule_ret ≠ 0
      · rw [if_pos c4] at hrr; subst hrr
        have := queue_metatask_left e m e.schedule_ret
          { st with tasks := st.tasks ++
              [⟨.DAOS_OPC_OBJ_LIST, st.dep_task.toList, true, true, false⟩] } t0 (happ _) hfn hp
        simp only [hf] at this
        exact this
      · rw [if_neg c4] at hrr; subst hrr
        exact absurd rfl hne
  exact key _ rfl hr

/-- A failure of `H5_daos_list_key_init` after its meta task was created
leaves the cleanup to the meta task. -/
theorem list_key_init_failed_after_metatask (c : Codes) (le : ListKeyEnv) (e : BuildEnv)
    (base_iter is_recursive big_kds : Bool) (st : BuildState)
    (hm : metatask_exists le e base_iter big_kds = true)
    (h : (H5_daos_list_key_init c le e base_iter is_recursive big_kds st).1 ≠ 0) :
    left_to_metatask e st (H5_daos_list_key_init c le e base_iter is_recursive big_kds st).2 := by
  have key : ∀ r, H5_daos_list_key_init c le e base_iter is_recursive big_kds st = r →
      r.1 ≠ 0 → left_to_metatask e st r.2 := by
    intro r hr hs
    unfold metatask_exists at hm
    simp only [Bool.and_eq_true, Bool.or_eq_true, Bool.not_eq_true', decide_eq_true_eq] at hm
    obtain ⟨⟨⟨⟨m1, m2⟩, m3⟩, m4⟩, m5⟩ := hm
    unfold H5_daos_list_key_init at hr
    rw [if_neg (by simp [m1])] at hr
    simp only at hr
    rw [if_neg (by rcases m2 with h | h <;> simp [h])] at hr
    rw [if_neg (by rcases m3 with h | h <;> simp [h])] at hr
    rw [if_neg (by simp [m4])] at hr
    rw [if_neg (by simp [m5])] at hr
    have hleft := list_key_start_left c e st.tasks.length
      { tasks := st.tasks ++ [⟨.H5_daos_list_key_finish, [], false, true, false⟩],
        first_task := st.first_task, dep_task := st.dep_task, rc := st.rc,
        mallocs := st.mallocs + 1 + (if base_iter = true then 1 else 0)
          + (if big_kds = true then 1 else 0) + 1,
        frees := st.frees }
      ⟨.H5_daos_list_key_finish, [], false, true, false⟩ (by simp) rfl rfl
    generalize H5_daos_list_key_start c e st.tasks.length _ = rs at hr hleft
    by_cases c6 : rs.1 ≠ 0
    · rw [if_pos c6] at hr
      obtain ⟨g1, g2, g3, t, g4, g5, g6, g7, g8⟩ := hleft c6
      rw [if_neg (by rw [g3]; simp)] at hr
      subst hr
      exact ⟨g1, g2, g3, t, g4, g5, g6, g7, g8⟩
    · rw [if_neg c6] at hr
      subst hr
      exact absurd rfl hs
  exact key _ rfl h

/-- C14 as stated fails for `H5_daos_list_key_init` once its meta task
exists.  A base, recursive iteration started on an empty chain (`req->rc` is
1): the private data, the copy of the iteration data and the key buffer are
allocated, the meta task is created with the private data, and
`tse_task_register_cbs` fails for the list task inside
`H5_daos_list_key_start`.  The builder returns the error with `req->rc` still
1, but it has freed none of the three blocks and it leaves the meta task,
whose body `H5_daos_list_key_finish` will free them and release the request,
as `*first_task` and `*dep_task`. -/
theorem C14_counterexample :
    H5_daos_list_key_init sampleCodes ⟨true, true, true, true⟩
      { BuildEnv.ok with register_cbs_ret := -1 } true true false ⟨[], none, none, 1, 0, 0⟩
    = (-1,
       ⟨[⟨.H5_daos_list_key_finish, [], false, true, false⟩,
         ⟨.DAOS_OPC_OBJ_LIST, [], false, false, false⟩], some 0, some 0, 1, 3, 0⟩) := by
  decide

/-- C14, as amended (what a builder leaves on failure).  For
`H5_daos_pool_connect`, `H5_daos_pool_disconnect`, `H5_daos_pool_query`,
`H5_daos_obj_open`, `H5_daos_oidx_bcast` and `H5_daos_mpi_ibcast`, at every
failing allocation or engine call: the builder returns failure with `req->rc`,
`*first_task` and `*dep_task` as on entry, having freed its private data
(`H5_daos_mpi_ibcast` that of its caller too), and no task it created that has
a body, a callback or private data is scheduled.  The same holds for
`H5_daos_oidx_generate` and `H5_daos_oid_generate` at every failure that
occurs before `H5_daos_oidx_generate` has handed a task to the chain, and for
`H5_daos_list_key_init`, on an iteration that is recursive or not the base, at
every failure that occurs before its meta task exists.  Once the meta task
exists, `H5_daos_list_key_init` returns failure with `req->rc` as on entry and
leaves the cleanup to the meta task: nothing is freed, the meta task keeps the
private data and is the new `*dep_task`, saved as `*first_task` when there was
none and otherwise scheduled when the engine accepts it.  The constant
`H5_DAOS_ALLOC_ERROR` of the header is positive. -/
theorem C14_builder_failure (c : Codes) (eo e eb : BuildEnv) (le : ListKeyEnv)
    (udata_given buffer_given encode_ok plist_default inc_ref_ok : Bool)
    (base_iter is_recursive big_kds collective : Bool)
    (file : H5_daos_file_t) (st : BuildState) (halloc : 0 < c.H5_DAOS_ALLOC_ERROR) :
    (∀ b ∈ [H5_daos_pool_connect, H5_daos_pool_disconnect, H5_daos_pool_query,
        H5_daos_obj_open, H5_daos_oidx_bcast],
      (b e st).1 = FAIL → failed_clean st (b e st).2 0) ∧
    ((H5_daos_mpi_ibcast e udata_given buffer_given st).1 = FAIL →
      failed_clean st (H5_daos_mpi_ibcast e udata_given buffer_given st).2
        ((if udata_given then 1 else 0) + (if udata_given && buffer_given then 1 else 0))) ∧
    ((H5_daos_oidx_generate_tasks e eb file collective st).1 = FAIL →
      oidx_tasks_handed e eb file collective st = false →
      failed_clean st (H5_daos_oidx_generate_tasks e eb file collective st).2 0) ∧
    ((H5_daos_oid_generate eo e eb encode_ok plist_default inc_ref_ok file collective st).1
        = FAIL →
      (eo.malloc_ok = true →
        oidx_tasks_handed e eb file collective { st with mallocs := st.mallocs + 1 } = false) →
      failed_clean st
        (H5_daos_oid_generate eo e eb encode_ok plist_default inc_ref_ok file collective st).2
        0) ∧
    (metatask_exists le e base_iter big_kds = false →
      (base_iter = true → is_recursive = true) →
      (H5_daos_list_key_init c le e base_iter is_recursive big_kds st).1 ≠ 0 ∧
      failed_clean st (H5_daos_list_key_init c le e base_iter is_recursive big_kds st).2 0) ∧
    (metatask_exists le e base_iter big_kds = true →
      (H5_daos_list_key_init c le e base_iter is_recursive big_kds st).1 ≠ 0 →
      left_to_metatask e st
        (H5_daos_list_key_init c le e base_iter is_recursive big_kds st).2) := by
  refine ⟨?_, mpi_ibcast_failed e udata_given buffer_given st,
    oidx_generate_failed_before_handover e eb file collective st,
    oid_generate_failed_before_handover eo e eb encode_ok plist_default inc_ref_ok file
      collective st,
    fun hm hrec =>
      list_key_init_failed_before_metatask c le e base_iter is_recursive big_kds st hm hrec
        halloc,
    list_key_init_failed_after_metatask c le e base_iter is_recursive big_kds st⟩
  intro b hb
  simp only [List.mem_cons, List.mem_singleton, List.not_mem_nil, or_false] at hb
  rcases hb with h | h | h | h | h <;> subst h
  · exact pool_builder_failed _ e st
  · exact pool_builder_failed _ e st
  · exact pool_builder_failed _ e st
  · exact args_builder_failed _ e st
  · exact oidx_bcast_failed e st

/-- Witness of C14 as amended: `H5_daos_oid_generate` called with a running
chain on a lease that is not exhausted, when the synchronous
`H5_daos_oid_encode` fails (an unknown object class): the builder returns
failure, has freed its private data and has touched nothing else. -/
theorem C14_builder_failure_witness :
    H5_daos_oid_generate BuildEnv.ok BuildEnv.ok BuildEnv.ok false true true
        ⟨0, 1, 5, 1023, 0, 0⟩ false
        ⟨[⟨.DAOS_OPC_OBJ_OPEN, [], true, true, true⟩], some 0, some 0, 2, 1, 0⟩
      = (FAIL, ⟨[⟨.DAOS_OPC_OBJ_OPEN, [], true, true, true⟩], some 0, some 0, 2, 2, 1⟩) ∧
    failed_clean ⟨[⟨.DAOS_OPC_OBJ_OPEN, [], true, true, true⟩], some 0, some 0, 2, 1, 0⟩
      (H5_daos_oid_generate BuildEnv.ok BuildEnv.ok BuildEnv.ok false true true
        ⟨0, 1, 5, 1023, 0, 0⟩ false
        ⟨[⟨.DAOS_OPC_OBJ_OPEN, [], true, true, true⟩], some 0, some 0, 2, 1, 0⟩).2 0 :=
  ⟨by decide,
   (C14_builder_failure sampleCodes BuildEnv.ok BuildEnv.ok BuildEnv.ok
      ⟨true, true, true, true⟩ false false false true true false false false false
      ⟨0, 1, 5, 1023, 0, 0⟩
      ⟨[⟨.DAOS_OPC_OBJ_OPEN, [], true, true, true⟩], some 0, some 0, 2, 1, 0⟩
      (by decide)).2.2.2.1 (by decide) (fun _ => by decide)⟩


/-- C12 fails in the code: when `H5_daos_list_key_start` fails inside
`H5_daos_list_key_init`, the meta task is queued by the cleanup of
`H5_daos_list_key_start` and `H5_daos_list_key_init` skips `req->rc++` (lines
4120-4124), yet the meta task's body `H5_daos_list_key_finish` releases the
request.  With a running chain (task 0, `req->rc` = 2) and a failing
`daos_task_create` for the list task, the builder returns the error with
`req->rc` still 2 and the meta task scheduled behind task 0; and
`H5_daos_list_key_finish` run on a request that holds only its creator's
reference brings the count to 0. -/
theorem C12_list_key_start_failure_unbalanced :
    H5_daos_list_key_init sampleCodes ⟨true, true, true, true⟩
      { BuildEnv.ok with task_create_ret := -1 } true false false
      ⟨[⟨.DAOS_OPC_OBJ_OPEN, [], true, true, true⟩], some 0, some 0, 2, 1, 0⟩
    = (-1,
       ⟨[⟨.DAOS_OPC_OBJ_OPEN, [], true, true, true⟩,
         ⟨.H5_daos_list_key_finish, [0], false, true, true⟩], some 0, some 1, 2, 4, 0⟩) ∧
    H5_daos_list_key_finish sampleCodes true true false true true
      ⟨-sampleCodes.H5_DAOS_INCOMPLETE, none, 1, true, false⟩
    = (⟨-sampleCodes.H5_DAOS_INCOMPLETE, none, 0, true, false⟩, 0) := by
  decide


/-! ### Property callbacks and the 128-bit hash -/

/-- C30 fails in the code: `H5_daos_bool_prop_compare` returns `*bool1 ==
*bool2`, that is 1 when the two values are equal and 0 when they differ, the
reverse of the convention of `H5_daos_str_prop_compare`, which returns 0 for
two `NULL`s and a non-zero value when exactly one string is `NULL`. -/
theorem C30_bool_compare_inverted :
    (∀ b1 b2 : Bool, H5_daos_bool_prop_compare b1 b2 = 0 ↔ b1 ≠ b2) ∧
    H5_daos_bool_prop_compare true true = 1 ∧ H5_daos_bool_prop_compare false false = 1 ∧
    H5_daos_bool_prop_compare true false = 0 ∧
    (∀ strcmp, H5_daos_str_prop_compare strcmp none none = 0 ∧
      H5_daos_str_prop_compare strcmp (some "a") none = 1 ∧
      H5_daos_str_prop_compare strcmp none (some "a") = -1) := by
  refine ⟨?_, rfl, rfl, rfl, fun _ => ⟨rfl, rfl, rfl⟩⟩
  intro b1 b2
  cases b1 <;> cases b2 <;> simp [H5_daos_bool_prop_compare]

theorem and_mask32 (x : Nat) : x &&& 0xffffffff = x % 2 ^ 32 := by
  have h : (0xffffffff : Nat) = 2 ^ 32 - 1 := by norm_num
  rw [h, Nat.and_pow_two_sub_one_eq_mod]

theorem mult128_steps_spec (x_lo y_lo : Nat) (hx : x_lo < 2 ^ 64) (hy : y_lo < 2 ^ 64) :
    (mult128_steps x_lo y_lo).temp1 < 2 ^ 64 ∧
    (mult128_steps x_lo y_lo).temp2 < 2 ^ 64 ∧
    (mult128_steps x_lo y_lo).temp3 < 2 ^ 64 ∧
    (mult128_steps x_lo y_lo).ans_lo < 2 ^ 64 ∧
    (mult128_steps x_lo y_lo).ans_hi1 < 2 ^ 64 ∧
    (mult128_steps x_lo y_lo).ans_lo + 2 ^ 64 * (mult128_steps x_lo y_lo).ans_hi1
      = x_lo * y_lo := by
  simp only [mult128_steps, and_mask32, Nat.shiftRight_eq_div_pow, Nat.shiftLeft_eq]
  have ha : x_lo % 2 ^ 32 ≤ 2 ^ 32 - 1 := by omega
  have hb : x_lo / 2 ^ 32 ≤ 2 ^ 32 - 1 := by omega
  have hc : y_lo % 2 ^ 32 ≤ 2 ^ 32 - 1 := by omega
  have hd : y_lo / 2 ^ 32 ≤ 2 ^ 32 - 1 := by omega
  have hprod : x_lo * y_lo = x_lo % 2 ^ 32 * (y_lo % 2 ^ 32)
      + 2 ^ 32 * (x_lo % 2 ^ 32 * (y_lo / 2 ^ 32) + x_lo / 2 ^ 32 * (y_lo % 2 ^ 32))
      + 2 ^ 64 * (x_lo / 2 ^ 32 * (y_lo / 2 ^ 32)) := by
    conv_lhs => rw [← Nat.mod_add_div x_lo (2 ^ 32), ← Nat.mod_add_div y_lo (2 ^ 32)]
    ring
  have h1 : x_lo % 2 ^ 32 * (y_lo % 2 ^ 32) ≤ (2 ^ 32 - 1) * (2 ^ 32 - 1) :=
    Nat.mul_le_mul ha hc
  have h2 : x_lo % 2 ^ 32 * (y_lo / 2 ^ 32) ≤ (2 ^ 32 - 1) * (2 ^ 32 - 1) :=
    Nat.mul_le_mul ha hd
  have h3 : x_lo / 2 ^ 32 * (y_lo % 2 ^ 32) ≤ (2 ^ 32 - 1) * (2 ^ 32 - 1) :=
    Nat.mul_le_mul hb hc
  have h4 : x_lo / 2 ^ 32 * (y_lo / 2 ^ 32) ≤ (2 ^ 32 - 1) * (2 ^ 32 - 1) :=
    Nat.mul_le_mul hb hd
  generalize x_lo * y_lo = P at hprod ⊢
  generalize x_lo % 2 ^ 32 * (y_lo % 2 ^ 32) = P1 at h1 hprod ⊢
  generalize x_lo % 2 ^ 32 * (y_lo / 2 ^ 32) = P2 at h2 hprod ⊢
  generalize x_lo / 2 ^ 32 * (y_lo % 2 ^ 32) = P3 at h3 hprod ⊢
  generalize x_lo / 2 ^ 32 * (y_lo / 2 ^ 32) = P4 at h4 hprod ⊢
  norm_num at h1 h2 h3 h4 hprod ⊢
  omega

theorem mult128_correct (x_lo x_hi y_lo y_hi : Nat) (hxl : x_lo < 2 ^ 64) (hyl : y_lo < 2 ^ 64) :
    (H5_daos_mult128 x_lo x_hi y_lo y_hi).2 * 2 ^ 64 + (H5_daos_mult128 x_lo x_hi y_lo y_hi).1
      = ((x_hi * 2 ^ 64 + x_lo) * (y_hi * 2 ^ 64 + y_lo)) % 2 ^ 128 ∧
    (H5_daos_mult128 x_lo x_hi y_lo y_hi).1 < 2 ^ 64 ∧
    (H5_daos_mult128 x_lo x_hi y_lo y_hi).2 < 2 ^ 64 ∧
    (mult128_steps x_lo y_lo).temp1 < 2 ^ 64 ∧ (mult128_steps x_lo y_lo).temp2 < 2 ^ 64 ∧
    (mult128_steps x_lo y_lo).temp3 < 2 ^ 64 ∧ (mult128_steps x_lo y_lo).ans_lo < 2 ^ 64 ∧
    (mult128_steps x_lo y_lo).ans_hi1 < 2 ^ 64 := by
  obtain ⟨t1, t2, t3, t4, t5, t6⟩ := mult128_steps_spec x_lo y_lo hxl hyl
  have hfull : (x_hi * 2 ^ 64 + x_lo) * (y_hi * 2 ^ 64 + y_lo)
      = x_lo * y_lo + 2 ^ 64 * (x_lo * y_hi + x_hi * y_lo) + 2 ^ 128 * (x_hi * y_hi) := by
    ring
  refine ⟨?_, ?_, ?_, t1, t2, t3, t4, t5⟩
  · simp only [H5_daos_mult128]
    rw [hfull]
    generalize (mult128_steps x_lo y_lo).ans_lo = lo at t4 t6 ⊢
    generalize (mult128_steps x_lo y_lo).ans_hi1 = hi at t5 t6 ⊢
    generalize x_lo * y_lo = P at t6 ⊢
    generalize x_lo * y_hi = Q
    generalize x_hi * y_lo = R
    generalize x_hi * y_hi = T
    norm_num at t4 t5 t6 ⊢
    omega
  · simp only [H5_daos_mult128]
    exact Nat.mod_lt _ (by norm_num)
  · simp only [H5_daos_mult128]
    exact Nat.mod_lt _ (by norm_num)

/-- C26 (128-bit multiplication).  For all 64-bit words (the bound is needed
for the low words only), `H5_daos_mult128`
returns the product modulo 2^128: `ans_hi * 2^64 + ans_lo = ((x_hi * 2^64 +
x_lo) * (y_hi * 2^64 + y_lo)) mod 2^128`, both answer words are below 2^64,
and none of the sums the routine holds in `temp` or adds into the answer
words before the cross products wraps around (the unreduced sums are below
2^64). -/
theorem C26_mult128 (x_lo x_hi y_lo y_hi : Nat) (hxl : x_lo < 2 ^ 64) (hyl : y_lo < 2 ^ 64) :
    (H5_daos_mult128 x_lo x_hi y_lo y_hi).2 * 2 ^ 64 + (H5_daos_mult128 x_lo x_hi y_lo y_hi).1
      = ((x_hi * 2 ^ 64 + x_lo) * (y_hi * 2 ^ 64 + y_lo)) % 2 ^ 128 ∧
    (H5_daos_mult128 x_lo x_hi y_lo y_hi).1 < 2 ^ 64 ∧
    (H5_daos_mult128 x_lo x_hi y_lo y_hi).2 < 2 ^ 64 ∧
    (mult128_steps x_lo y_lo).temp1 < 2 ^ 64 ∧ (mult128_steps x_lo y_lo).temp2 < 2 ^ 64 ∧
    (mult128_steps x_lo y_lo).temp3 < 2 ^ 64 ∧ (mult128_steps x_lo y_lo).ans_lo < 2 ^ 64 ∧
    (mult128_steps x_lo y_lo).ans_hi1 < 2 ^ 64 :=
  mult128_correct x_lo x_hi y_lo y_hi hxl hyl

/-- Witness of C26: the largest operands. -/
theorem C26_mult128_witness :
    H5_daos_mult128 (2 ^ 64 - 1) (2 ^ 64 - 1) (2 ^ 64 - 1) (2 ^ 64 - 1) = (1, 0) ∧
    (H5_daos_mult128 (2 ^ 64 - 1) (2 ^ 64 - 1) (2 ^ 64 - 1) (2 ^ 64 - 1)).2 * 2 ^ 64
      + (H5_daos_mult128 (2 ^ 64 - 1) (2 ^ 64 - 1) (2 ^ 64 - 1) (2 ^ 64 - 1)).1
      = (((2 ^ 64 - 1) * 2 ^ 64 + (2 ^ 64 - 1)) * ((2 ^ 64 - 1) * 2 ^ 64 + (2 ^ 64 - 1)))
          % 2 ^ 128 :=
  ⟨by decide,
   (C26_mult128 (2 ^ 64 - 1) (2 ^ 64 - 1) (2 ^ 64 - 1) (2 ^ 64 - 1) (by norm_num)
      (by norm_num)).1⟩

theorem le_value_lt (bytes : List Nat) : le_value bytes < 256 ^ bytes.length := by
  induction bytes with
  | nil => simp [le_value]
  | cons b rest ih =>
    have hb : b % 256 < 256 := Nat.mod_lt _ (by norm_num)
    simp only [le_value, List.foldr_cons, List.length_cons, pow_succ] at ih ⊢
    omega

theorem le_value_append (a b : List Nat) :
    le_value (a ++ b) = le_value a + 256 ^ a.length * le_value b := by
  induction a with
  | nil => simp [le_value]
  | cons x rest ih =>
    simp only [le_value, List.cons_append, List.foldr_cons, List.length_cons, pow_succ] at ih ⊢
    rw [ih]
    ring

theorem le_value_take8_lt (name : List Nat) : le_value (name.take 8) < 2 ^ 64 := by
  have h := le_value_lt (name.take 8)
  have hl : (name.take 8).length ≤ 8 := by simp
  calc le_value (name.take 8) < 256 ^ (name.take 8).length := h
    _ ≤ 256 ^ 8 := Nat.pow_le_pow_right (by norm_num) hl
    _ = 2 ^ 64 := by norm_num

theorem decode_word (name : List Nat) :
    (if name.length ≥ 8 then UINT64DECODE name else UINT64DECODE_VAR name name.length)
      = le_value (name.take 8) := by
  have hlt := le_value_take8_lt name
  split_ifs with h
  · simp only [UINT64DECODE]
    exact Nat.mod_eq_of_lt hlt
  · have ht : name.take 8 = name := List.take_of_length_le (by omega)
    simp only [UINT64DECODE_VAR, List.take_length]
    rw [ht] at hlt
    rw [ht]
    exact Nat.mod_eq_of_lt hlt

theorem decode_word_hi (rem1 : List Nat) :
    (if rem1.length > 0 then
        if rem1.length ≥ 8 then UINT64DECODE rem1 else UINT64DECODE_VAR rem1 rem1.length
      else 0) = le_value (rem1.take 8) := by
  by_cases h : rem1.length > 0
  · rw [if_pos h]; exact decode_word rem1
  · rw [if_neg h]
    have : rem1 = [] := List.length_eq_zero.mp (by omega)
    subst this
    rfl

theorem le_value_take16 (name : List Nat) :
    le_value (name.take 16)
      = le_value (name.take 8) + 2 ^ 64 * le_value ((name.drop 8).take 8) := by
  have hsplit : name.take 16 = name.take 8 ++ (name.drop 8).take 8 := by
    rw [← List.take_add]
  rw [hsplit, le_value_append]
  by_cases h : name.length ≥ 8
  · have hl : (name.take 8).length = 8 := by simp; omega
    rw [hl]; norm_num
  · have hd : name.drop 8 = [] := List.drop_eq_nil_of_le (by omega)
    rw [hd]; simp [le_value]

theorem xor_words (hi lo nhi nlo : Nat) (hlo : lo < 2 ^ 64) (hnlo : nlo < 2 ^ 64) :
    (hi * 2 ^ 64 + lo) ^^^ (nlo + 2 ^ 64 * nhi) = (hi ^^^ nhi) * 2 ^ 64 + (lo ^^^ nlo) := by
  have hx : lo ^^^ nlo < 2 ^ 64 := Nat.xor_lt_two_pow hlo hnlo
  apply Nat.eq_of_testBit_eq
  intro j
  have e1 : hi * 2 ^ 64 + lo = 2 ^ 64 * hi + lo := by ring
  have e2 : nlo + 2 ^ 64 * nhi = 2 ^ 64 * nhi + nlo := by ring
  have e3 : (hi ^^^ nhi) * 2 ^ 64 + (lo ^^^ nlo) = 2 ^ 64 * (hi ^^^ nhi) + (lo ^^^ nlo) := by ring
  rw [e1, e2, e3, Nat.testBit_xor, Nat.testBit_mul_pow_two_add _ hlo,
    Nat.testBit_mul_pow_two_add _ hnlo, Nat.testBit_mul_pow_two_add _ hx]
  by_cases hj : j < 64
  · simp [hj, Nat.testBit_xor]
  · simp [hj, Nat.testBit_xor]

theorem fnv_prime_words : (0x1000000 : Nat) * 2 ^ 64 + 0x13b = fnv_prime := by
  norm_num [fnv_prime]

theorem hash128_loop_spec : ∀ (fuel : Nat) (name : List Nat) (lo hi : Nat),
    name.length ≤ fuel → lo < 2 ^ 64 → hi < 2 ^ 64 →
    hash128_loop fuel name lo hi
      = some (fnv128_blockwise fuel name (hi * 2 ^ 64 + lo) % 2 ^ 64,
              fnv128_blockwise fuel name (hi * 2 ^ 64 + lo) / 2 ^ 64) := by
  intro fuel
  induction fuel with
  | zero =>
    intro name lo hi hlen hlo hhi
    have : name = [] := List.length_eq_zero.mp (by omega)
    subst this
    simp only [hash128_loop, fnv128_blockwise]
    congr 1
    have h1 : (hi * 2 ^ 64 + lo) % 2 ^ 64 = lo := by omega
    have h2 : (hi * 2 ^ 64 + lo) / 2 ^ 64 = hi := by omega
    rw [h1, h2]
  | succ fuel ih =>
    intro name lo hi hlen hlo hhi
    cases name with
    | nil =>
      simp only [hash128_loop, fnv128_blockwise]
      congr 1
      have h1 : (hi * 2 ^ 64 + lo) % 2 ^ 64 = lo := by omega
      have h2 : (hi * 2 ^ 64 + lo) / 2 ^ 64 = hi := by omega
      rw [h1, h2]
    | cons b rest =>
      simp only [hash128_loop, fnv128_blockwise]
      rw [decode_word (b :: rest), decode_word_hi ((b :: rest).drop 8)]
      have hnlo := le_value_take8_lt (b :: rest)
      have hxl : lo ^^^ le_value ((b :: rest).take 8) < 2 ^ 64 := Nat.xor_lt_two_pow hlo hnlo
      obtain ⟨m1, m2, m3, _⟩ := mult128_correct (lo ^^^ le_value ((b :: rest).take 8))
        (hi ^^^ le_value (((b :: rest).drop 8).take 8)) 0x13b 0x1000000 hxl (by norm_num)
      have hdrop : ((b :: rest).drop 8).drop 8 = (b :: rest).drop 16 := by
        rw [List.drop_drop]
      have hlen2 : (((b :: rest).drop 8).drop 8).length ≤ fuel := by
        rw [hdrop]
        simp only [List.length_drop, List.length_cons] at hlen ⊢
        omega
      rw [ih _ _ _ hlen2 m2 m3, hdrop]
      have hstate : (H5_daos_mult128 (lo ^^^ le_value ((b :: rest).take 8))
            (hi ^^^ le_value (((b :: rest).drop 8).take 8)) 0x13b 0x1000000).2 * 2 ^ 64
          + (H5_daos_mult128 (lo ^^^ le_value ((b :: rest).take 8))
            (hi ^^^ le_value (((b :: rest).drop 8).take 8)) 0x13b 0x1000000).1
          = ((hi * 2 ^ 64 + lo) ^^^ le_value ((b :: rest).take 16)) * fnv_prime % 2 ^ 128 := by
        rw [m1, le_value_take16, xor_words hi lo _ _ hlo hnlo, fnv_prime_words]
      rw [hstate]


theorem fnv128_blockwise_lt : ∀ (fuel : Nat) (name : List Nat) (h : Nat),
    h < 2 ^ 128 → fnv128_blockwise fuel name h < 2 ^ 128 := by
  intro fuel
  induction fuel with
  | zero => intro name h hh; cases name <;> simpa [fnv128_blockwise] using hh
  | succ fuel ih =>
    intro name h hh
    cases name with
    | nil => simpa [fnv128_blockwise] using hh
    | cons b rest =>
      simp only [fnv128_blockwise]
      exact ih _ _ (Nat.mod_lt _ (by norm_num))

theorem hash128_blockwise (name : List Nat) :
    H5_daos_hash128 name
      = some (le_bytes16 (fnv128_blockwise (name.length + 1) name fnv_offset_basis)) := by
  have hb : (0x6c62272e07bb0142 : Nat) * 2 ^ 64 + 0x62b821756295c58d = fnv_offset_basis := by
    norm_num [fnv_offset_basis]
  have hlt := fnv128_blockwise_lt (name.length + 1) name fnv_offset_basis
    (by norm_num [fnv_offset_basis])
  unfold H5_daos_hash128
  rw [hash128_loop_spec (name.length + 1) name _ _ (by omega) (by norm_num) (by norm_num), hb]
  simp only [Option.map_some', le_bytes16]
  have hdiv : fnv128_blockwise (name.length + 1) name fnv_offset_basis / 2 ^ 64 % 2 ^ 64
      = fnv128_blockwise (name.length + 1) name fnv_offset_basis / 2 ^ 64 := by
    apply Nat.mod_eq_of_lt
    omega
  rw [hdiv]

/-- C25 as stated fails: for the two-byte name "ab" the 16 bytes written by
`H5_daos_hash128` are not the encoding of the byte-by-byte FNV hash. -/
theorem C25_counterexample :
    H5_daos_hash128 [97, 98] ≠ some (le_bytes16 (fnv128_bytewise [97, 98])) := by
  decide

/-- C25, as amended (the 128-bit hash).  For every name, `H5_daos_hash128`
writes the 16-byte little-endian encoding (low 64 bits first) of the hash
obtained from the 128-bit FNV offset basis by taking the name in blocks of 16
bytes in order (the last block may be shorter): the hash is XORed with the
little-endian value of the block and multiplied by the FNV prime `2^88 +
0x13b` modulo 2^128.  The hash of the empty name is the offset basis, and for
a name of one byte the result is the byte-by-byte FNV hash. -/
theorem C25_hash128_blockwise (name : List Nat) (b : Nat) :
    H5_daos_hash128 name
      = some (le_bytes16 (fnv128_blockwise (name.length + 1) name fnv_offset_basis)) ∧
    H5_daos_hash128 [] = some (le_bytes16 fnv_offset_basis) ∧
    H5_daos_hash128 [b] = some (le_bytes16 (fnv128_bytewise [b])) := by
  refine ⟨hash128_blockwise name, ?_, ?_⟩
  · rw [hash128_blockwise]; rfl
  · rw [hash128_blockwise]
    simp [fnv128_blockwise, fnv128_bytewise, le_value]


/-! ### The object class property -/

theorem take_set_self (l : List Char) (n : Nat) (a : Char) :
    (l.set n a).take n = l.take n :=
  List.ext_getElem? fun i => by
    rw [List.getElem?_take, List.getElem?_take]
    split
    · next h => rw [List.getElem?_set_ne (by omega)]
    · rfl

/-- C24 (reading the object class).  For every property list on which the
queries succeed and every output buffer, `H5daos_get_object_class` returns
the full length of the stored string (0 when the property is absent or
`NULL`) whatever the buffer size; a buffer that is not `NULL`, with `size >
0` and room for `size` characters, ends up holding the first `min(len,
size - 1)` characters of the string followed by a NUL; a `NULL` buffer or a
size of 0 leaves the buffer as it was. -/
theorem C24_get_object_class (prop : ObjClassProp) (object_class : Option (List Char))
    (size : Nat) (hok : prop ≠ .exist_error ∧ prop ≠ .get_error) :
    (H5daos_get_object_class prop object_class size).1 = (stored_class prop).length ∧
    (∀ buf, object_class = some buf → size > 0 → size ≤ buf.length →
      ∃ out, (H5daos_get_object_class prop object_class size).2 = some out ∧
        out.length = buf.length ∧
        out.take (min (stored_class prop).length (size - 1))
          = (stored_class prop).take (min (stored_class prop).length (size - 1)) ∧
        out.get? (min (stored_class prop).length (size - 1)) = some (Char.ofNat 0)) ∧
    (object_class = none ∨ size = 0 →
      (H5daos_get_object_class prop object_class size).2 = object_class) := by
  obtain ⟨h1, h2⟩ := hok
  cases prop with
  | exist_error => exact absurd rfl h1
  | get_error => exact absurd rfl h2
  | absent =>
    refine ⟨?_, ?_, ?_⟩
    · cases object_class <;> simp [H5daos_get_object_class, stored_class]
      split_ifs <;> rfl
    · intro buf hb hs hl
      subst hb
      cases buf with
      | nil => simp at hl; omega
      | cons x rest => simp [H5daos_get_object_class, stored_class, hs]
    · intro h
      rcases h with h | h
      · subst h; rfl
      · subst h; cases object_class <;> rfl
  | value o =>
    cases o with
    | none =>
      refine ⟨?_, ?_, ?_⟩
      · cases object_class <;> simp [H5daos_get_object_class, stored_class]
        split_ifs <;> rfl
      · intro buf hb hs hl
        subst hb
        cases buf with
        | nil => simp at hl; omega
        | cons x rest => simp [H5daos_get_object_class, stored_class, hs]
      · intro h
        rcases h with h | h
        · subst h; rfl
        · subst h; cases object_class <;> rfl
    | some s =>
      refine ⟨?_, ?_, ?_⟩
      · cases object_class <;> simp [H5daos_get_object_class, stored_class]
        split_ifs <;> rfl
      · intro buf hb hs hl
        subst hb
        simp only [H5daos_get_object_class, stored_class, hs, if_true]
        have hlen : (strncpy buf s size).length = buf.length := by
          simp only [strncpy, List.length_append, List.length_take, List.length_replicate,
            List.length_drop]
          omega
        by_cases hge : s.length ≥ size
        · rw [if_pos hge]
          refine ⟨_, rfl, by rw [List.length_set, hlen], ?_, ?_⟩
          · have hm : min s.length (size - 1) = size - 1 := by omega
            rw [hm, take_set_self]
            simp only [strncpy]
            rw [List.append_assoc, List.take_append_of_le_length (by simp; omega),
              List.take_take]
            congr 1
            omega
          · have hm : min s.length (size - 1) = size - 1 := by omega
            rw [hm, List.get?_eq_getElem?, List.getElem?_set_self (by rw [hlen]; omega)]
        · rw [if_neg hge]
          have hm : min s.length (size - 1) = s.length := by omega
          refine ⟨_, rfl, hlen, ?_, ?_⟩
          · rw [hm]
            simp only [strncpy]
            rw [List.append_assoc, List.take_append_of_le_length (by simp; omega),
              List.take_take]
            simp
            omega
          · rw [hm]
            simp only [strncpy]
            have ht : s.take size = s := List.take_of_length_le (by omega)
            rw [ht, List.append_assoc, List.get?_eq_getElem?,
              List.getElem?_append_right (by omega)]
            rw [Nat.sub_self, List.getElem?_append_left (by simp; omega),
              List.getElem?_replicate_of_lt (by omega)]
      · intro h
        rcases h with h | h
        · subst h; rfl
        · subst h; cases object_class <;> rfl

/-- Witness of C24: the class "SX" read into a buffer of 2 characters. -/
theorem C24_get_object_class_witness :
    H5daos_get_object_class (.value (some ['S', 'X'])) (some ['a', 'b']) 2
      = (2, some ['S', Char.ofNat 0]) ∧
    (H5daos_get_object_class (.value (some ['S', 'X'])) (some ['a', 'b']) 2).1
      = (stored_class (.value (some ['S', 'X']))).length :=
  ⟨by decide,
   (C24_get_object_class (.value (some ['S', 'X'])) (some ['a', 'b']) 2
      ⟨by decide, by decide⟩).1⟩


/-! ### The lease after a failed batch allocation -/

/-- C27 fails in the code: the broadcast of the lease goes ahead after the
coordinator's batch allocation failed (the prepare callback sends
`next_oidx_collective` as it is), and `H5_daos_oidx_bcast_comp_cb` extends the
lease whenever the broadcast itself succeeded.  Two processes with a fresh
collective lease (0, 0); the allocation task of rank 0 fails with -1005:
`H5_daos_oidx_generate_comp_cb` records the error and leaves the lease of rank
0 alone.  Rank 0 then broadcasts its unchanged `next_oidx_collective` = 0, and
rank 1, whose broadcast task completes with 0, sets its lease to (3, 1023) and
hands out index 2 although the store granted no batch.  Rank 0 does the same
when its broadcast task completes with result 0. -/
theorem C27_lease_extended_without_grant :
    H5_daos_oidx_generate_comp_cb sampleCodes sampleOidx (-1005) true ⟨0, 2, 0, 0, 0, 0⟩
      ⟨-sampleCodes.H5_DAOS_INCOMPLETE, none, 3, false, false⟩
      = some (⟨0, 2, 0, 0, 0, 0⟩, ⟨-1005, some "OIDX generation", 2, false, false⟩, none, 0) ∧
    H5_daos_oidx_bcast_comp_cb sampleCodes sampleOidx 0
      (H5_daos_oidx_bcast_prep_cb ⟨0, 2, 0, 0, 0, 0⟩) ⟨1, 2, 0, 0, 0, 0⟩
      ⟨-sampleCodes.H5_DAOS_INCOMPLETE, none, 2, false, false⟩
      = some (⟨1, 2, 0, 0, 3, 1023⟩,
          ⟨-sampleCodes.H5_DAOS_INCOMPLETE, none, 1, false, false⟩, some 2, 0) ∧
    H5_daos_oidx_bcast_comp_cb sampleCodes sampleOidx 0
      (H5_daos_oidx_bcast_prep_cb ⟨0, 2, 0, 0, 0, 0⟩) ⟨0, 2, 0, 0, 0, 0⟩
      ⟨-1005, some "OIDX generation", 2, false, false⟩
      = some (⟨0, 2, 0, 0, 3, 1023⟩, ⟨-1005, some "OIDX generation", 1, false, false⟩,
          some 2, 0) := by
  refine ⟨?_, ?_, ?_⟩ <;> rfl


/-! ### The status of a finalized request -/

theorem status_after_mark_record (c : Codes) (rv : Int) (name : String) (r : H5_daos_req_t)
    (hinc : 0 < c.H5_DAOS_INCOMPLETE) (hsc : c.H5_DAOS_INCOMPLETE ≤ c.H5_DAOS_SHORT_CIRCUIT)
    (hrv : rv = 0 ∨ rv < -c.H5_DAOS_SHORT_CIRCUIT) :
    (record_own_error c rv name (mark_completed c rv r)).status ≠ -c.H5_DAOS_INCOMPLETE ∧
    (record_own_error c rv name (mark_completed c rv r)).status ≠ -c.H5_DAOS_SHORT_CIRCUIT ∧
    ((record_own_error c rv name (mark_completed c rv r)).status = 0 →
      rv = 0 ∧ ¬ r.status < -c.H5_DAOS_SHORT_CIRCUIT) := by
  unfold record_own_error mark_completed
  rcases hrv with h | h
  · subst h
    have k : ¬ ((0 : Int) < -c.H5_DAOS_SHORT_CIRCUIT) := by omega
    simp only [k, false_and, if_false, ge_iff_le, le_refl, true_and]
    split_ifs with h1
    · simp only; omega
    · simp only [not_or] at h1
      refine ⟨h1.1, h1.2, ?_⟩
      intro h0; omega
  · have k : ¬ (rv ≥ 0) := by omega
    simp only [k, false_and, if_false]
    split_ifs with h1
    · simp only; omega
    · have : r.status < -c.H5_DAOS_SHORT_CIRCUIT := by
        by_contra hc
        exact h1 ⟨h, by omega⟩
      omega

theorem free_int_status (r : H5_daos_req_t) : (H5_daos_req_free_int r).1.status = r.status := rfl

theorem make_notify_fields (c : Codes) (env : TxEnv) (a : FinAcc) :
    (make_notify c env a).req = a.req ∧
    (make_notify c env a).ret_value
      = (if a.req.notify_cb = true ∧ env.notify_ret < 0 then -c.H5_DAOS_CALLBACK_ERROR
         else a.ret_value) := by
  unfold make_notify
  cases h : a.req.notify_cb <;> by_cases h2 : env.notify_ret < 0 <;> simp [h2]

theorem tx_comp_cb_status (c : Codes) (env : TxEnv) (dt_result : Int) (req : H5_daos_req_t) :
    ∃ r : H5_daos_req_t,
      r.status = (record_task_error c dt_result "transaction commit/abort" req).status ∧
      (H5_daos_tx_comp_cb c env dt_result req).1.status
        = (record_own_error c
            (if req.notify_cb = true ∧ env.notify_ret < 0 then -c.H5_DAOS_CALLBACK_ERROR
             else env.tx_close_ret)
            "transaction commit/abort completion callback"
            (mark_completed c
              (if req.notify_cb = true ∧ env.notify_ret < 0 then -c.H5_DAOS_CALLBACK_ERROR
               else env.tx_close_ret) r)).status := by
  have hn : (record_task_error c dt_result "transaction commit/abort" req).notify_cb
      = req.notify_cb := by
    unfold record_task_error; split_ifs <;> rfl
  by_cases hcl : env.tx_close_ret ≠ 0
  · refine ⟨record_task_error c dt_result "transaction commit/abort" req, rfl, ?_⟩
    unfold H5_daos_tx_comp_cb
    simp only [if_pos hcl, free_int_status]
    rw [(make_notify_fields c env _).1, (make_notify_fields c env _).2]
    simp only [hn]
  · refine ⟨{ record_task_error c dt_result "transaction commit/abort" req with
        th_open := false }, rfl, ?_⟩
    have h0 : env.tx_close_ret = 0 := by
      by_contra h; exact hcl h
    unfold H5_daos_tx_comp_cb
    simp only [if_neg hcl, free_int_status]
    rw [(make_notify_fields c env _).1, (make_notify_fields c env _).2]
    simp only [hn, h0]


theorem finalize_done_closed_status (c : Codes) (env : TxEnv) (a : FinAcc)
    (h : a.close_tx = true ∨ a.req.th_open = false) :
    ∃ r : H5_daos_req_t, r.status = a.req.status ∧
      (finalize_done c env a).1.status
        = (record_own_error c
            (if a.req.notify_cb = true ∧ env.notify_ret < 0 then -c.H5_DAOS_CALLBACK_ERROR
             else if a.close_tx = true ∧ env.tx_close_ret ≠ 0 then env.tx_close_ret
             else a.ret_value)
            "h5 op finalize"
            (mark_completed c
              (if a.req.notify_cb = true ∧ env.notify_ret < 0 then -c.H5_DAOS_CALLBACK_ERROR
               else if a.close_tx = true ∧ env.tx_close_ret ≠ 0 then env.tx_close_ret
               else a.ret_value) r)).status := by
  obtain ⟨req, rv, ct, calls⟩ := a
  simp only at h ⊢
  cases ct with
  | true =>
    refine ⟨{ req with th_open := false }, rfl, ?_⟩
    unfold finalize_done
    simp only [if_true, free_int_status]
    rw [(make_notify_fields c env _).1, (make_notify_fields c env _).2]
    simp
  | false =>
    have hth : req.th_open = false := by
      rcases h with h | h
      · exact absurd h (by decide)
      · exact h
    refine ⟨req, rfl, ?_⟩
    unfold finalize_done
    simp only [Bool.false_eq_true, if_false, hth, if_true, free_int_status]
    rw [(make_notify_fields c env _).1, (make_notify_fields c env _).2]
    simp

theorem run_finalizer_fst (c : Codes) (env : TxEnv) (dt_result : Int) (req : H5_daos_req_t) :
    (run_finalizer c env dt_result req).1
      = (if (H5_daos_h5op_finalize c env req).2.2.any
            (fun call => Call.schedules .DAOS_OPC_TX_ABORT call
              || Call.schedules .DAOS_OPC_TX_COMMIT call) = true
         then (H5_daos_tx_comp_cb c env dt_result (H5_daos_h5op_finalize c env req).1).1
         else (H5_daos_h5op_finalize c env req).1) := by
  unfold run_finalizer
  simp only
  by_cases h : (H5_daos_h5op_finalize c env req).2.2.any
      (fun call => Call.schedules .DAOS_OPC_TX_ABORT call
        || Call.schedules .DAOS_OPC_TX_COMMIT call) = true
  · rw [if_pos h, if_pos h]
  · rw [if_neg h, if_neg h]

theorem finalize_any_no_tx (c : Codes) (env : TxEnv) (req : H5_daos_req_t)
    (hth : req.th_open = false) :
    (H5_daos_h5op_finalize c env req).2.2.any
      (fun call => Call.schedules .DAOS_OPC_TX_ABORT call
        || Call.schedules .DAOS_OPC_TX_COMMIT call) = false := by
  have hb : (finalize_body c env req).calls = [] ∧ (finalize_body c env req).req = req ∧
      (finalize_body c env req).close_tx = false := by
    unfold finalize_body
    split_ifs <;> simp_all
  have hd := finalize_done_calls_closed c env (finalize_body c env req)
    (Or.inr (by rw [hb.2.1]; exact hth))
  have hcalls : (H5_daos_h5op_finalize c env req).2.2 = _ := hd
  rw [Bool.eq_false_iff, Ne, any_schedules_iff, hcalls, hb.1, hb.2.1, hb.2.2]
  simp only [issued_append]
  cases req.notify_cb <;> simp [issued, Call.schedules]

theorem finalize_any_fail (c : Codes) (env : TxEnv) (req : H5_daos_req_t)
    (hth : req.th_open = true) (hok : env.engine_ok = false)
    (hns : env.schedule_refused = false) :
    (H5_daos_h5op_finalize c env req).2.2.any
      (fun call => Call.schedules .DAOS_OPC_TX_ABORT call
        || Call.schedules .DAOS_OPC_TX_COMMIT call) = false := by
  have hb := finalize_body_open c env req hth
  obtain ⟨f1, f2, f3, f4, f5⟩ := start_tx_task_fail c env
    (if req.status < -c.H5_DAOS_SHORT_CIRCUIT then .DAOS_OPC_TX_ABORT else .DAOS_OPC_TX_COMMIT)
    req (if req.status < -c.H5_DAOS_SHORT_CIRCUIT then req.status else 0) hok hns
  rw [← hb] at f1 f2 f3 f4 f5
  have hd := finalize_done_calls_closed c env (finalize_body c env req) (Or.inl f1)
  simp only [f1, f2, if_true, true_and] at hd
  have hcalls : (H5_daos_h5op_finalize c env req).2.2 = _ := hd
  rw [Bool.eq_false_iff, Ne, any_schedules_iff, hcalls]
  simp only [issued_append, f3]
  cases req.notify_cb <;> simp [issued, Call.schedules]

theorem finalize_any_ok (c : Codes) (env : TxEnv) (req : H5_daos_req_t)
    (hth : req.th_open = true) (hok : env.engine_ok = true) :
    (H5_daos_h5op_finalize c env req).2.2.any
      (fun call => Call.schedules .DAOS_OPC_TX_ABORT call
        || Call.schedules .DAOS_OPC_TX_COMMIT call) = true := by
  have hb := finalize_body_open c env req hth
  have hs := start_tx_task_ok c env
    (if req.status < -c.H5_DAOS_SHORT_CIRCUIT then .DAOS_OPC_TX_ABORT else .DAOS_OPC_TX_COMMIT)
    req (if req.status < -c.H5_DAOS_SHORT_CIRCUIT then req.status else 0) hok
  have hd := finalize_done_open c env (finalize_body c env req)
    (by rw [hb, hs]) (by rw [hb, hs]; exact hth)
  have hcalls : (H5_daos_h5op_finalize c env req).2.2
      = (finalize_body c env req).calls ++ [.H5_daos_req_free_int] := by
    unfold H5_daos_h5op_finalize; rw [hd]
  rw [hcalls, hb, hs]
  split <;> simp [Call.schedules]

theorem start_tx_task_fail_code (c : Codes) (env : TxEnv) (opc : daos_opc_t)
    (req : H5_daos_req_t) (rv : Int) (h : env.engine_ok = false)
    (hget : c.H5_DAOS_SHORT_CIRCUIT < c.H5_DAOS_DAOS_GET_ERROR)
    (hcr : env.task_create_ret = 0 ∨ env.task_create_ret < -c.H5_DAOS_SHORT_CIRCUIT)
    (hrg : env.register_ret = 0 ∨ env.register_ret < -c.H5_DAOS_SHORT_CIRCUIT)
    (hsc : env.schedule_ret = 0 ∨ env.schedule_ret < -c.H5_DAOS_SHORT_CIRCUIT) :
    (start_tx_task c env opc req rv).ret_value < -c.H5_DAOS_SHORT_CIRCUIT := by
  obtain ⟨cr, ga, rg, sc, cl, nr⟩ := env
  simp only [TxEnv.engine_ok] at h
  simp only at hcr hrg hsc
  by_cases h1 : cr = 0 <;> cases ga <;> by_cases h2 : rg = 0 <;> by_cases h3 : sc = 0 <;>
    simp_all [start_tx_task]

/-- The status of a finalized request off the path on which
`tse_task_schedule` fails.  For every request, every result of the abort or
commit task and every outcome of `daos_task_create`, `daos_task_get_args`,
`tse_task_register_comp_cb`, `daos_tx_close` and the notify callback, where a
failing call returns a code below `-H5_DAOS_SHORT_CIRCUIT` (as the error codes
of the store and the engine are): once the finalizer has run the request's
status is neither `-H5_DAOS_INCOMPLETE` nor `-H5_DAOS_SHORT_CIRCUIT`, and it is
0 only if the status was no error on entry and, when a transaction was open,
every engine call and the transaction close succeeded. -/
theorem finalized_status_unless_schedule_refused (c : Codes) (env : TxEnv) (dt_result : Int)
    (req : H5_daos_req_t) (hns : env.schedule_refused = false)
    (hinc : 0 < c.H5_DAOS_INCOMPLETE) (hsc : c.H5_DAOS_INCOMPLETE ≤ c.H5_DAOS_SHORT_CIRCUIT)
    (hget : c.H5_DAOS_SHORT_CIRCUIT < c.H5_DAOS_DAOS_GET_ERROR)
    (hcb : c.H5_DAOS_SHORT_CIRCUIT < c.H5_DAOS_CALLBACK_ERROR)
    (hcr : env.task_create_ret = 0 ∨ env.task_create_ret < -c.H5_DAOS_SHORT_CIRCUIT)
    (hrg : env.register_ret = 0 ∨ env.register_ret < -c.H5_DAOS_SHORT_CIRCUIT)
    (hsch : env.schedule_ret = 0 ∨ env.schedule_ret < -c.H5_DAOS_SHORT_CIRCUIT)
    (hcl : env.tx_close_ret = 0 ∨ env.tx_close_ret < -c.H5_DAOS_SHORT_CIRCUIT) :
    (run_finalizer c env dt_result req).1.status ≠ -c.H5_DAOS_INCOMPLETE ∧
    (run_finalizer c env dt_result req).1.status ≠ -c.H5_DAOS_SHORT_CIRCUIT ∧
    ((run_finalizer c env dt_result req).1.status = 0 →
      ¬ req.status < -c.H5_DAOS_SHORT_CIRCUIT ∧
      (req.th_open = true → env.engine_ok = true ∧ env.tx_close_ret = 0)) := by
  have hcbneg : -c.H5_DAOS_CALLBACK_ERROR < -c.H5_DAOS_SHORT_CIRCUIT := by omega
  rw [run_finalizer_fst]
  cases hth : req.th_open
  · -- no transaction
    rw [finalize_any_no_tx c env req hth]
    simp only [Bool.false_eq_true, if_false]
    have hb : (finalize_body c env req).req = req ∧
        (finalize_body c env req).close_tx = false ∧
        (finalize_body c env req).ret_value
          = (if req.status < -c.H5_DAOS_SHORT_CIRCUIT then req.status else 0) := by
      unfold finalize_body
      split_ifs <;> simp_all
    obtain ⟨r, hr, hst⟩ := finalize_done_closed_status c env (finalize_body c env req)
      (Or.inr (by rw [hb.1]; exact hth))
    have hst2 : (H5_daos_h5op_finalize c env req).1.status = _ := hst
    rw [hst2]
    have hrv : (if (finalize_body c env req).req.notify_cb = true ∧ env.notify_ret < 0
          then -c.H5_DAOS_CALLBACK_ERROR
          else if (finalize_body c env req).close_tx = true ∧ env.tx_close_ret ≠ 0
          then env.tx_close_ret else (finalize_body c env req).ret_value) = 0 ∨
        (if (finalize_body c env req).req.notify_cb = true ∧ env.notify_ret < 0
          then -c.H5_DAOS_CALLBACK_ERROR
          else if (finalize_body c env req).close_tx = true ∧ env.tx_close_ret ≠ 0
          then env.tx_close_ret else (finalize_body c env req).ret_value)
          < -c.H5_DAOS_SHORT_CIRCUIT := by
      rw [hb.2.1, hb.2.2]
      simp only [Bool.false_eq_true, false_and, if_false]
      split_ifs <;> omega
    obtain ⟨s1, s2, s3⟩ := status_after_mark_record c _ "h5 op finalize" r hinc hsc hrv
    refine ⟨s1, s2, ?_⟩
    intro h0
    obtain ⟨_, k⟩ := s3 h0
    rw [hr, hb.1] at k
    exact ⟨k, fun h => absurd h (by decide)⟩
  · cases hok : env.engine_ok
    · -- an engine call of the start block fails
      rw [finalize_any_fail c env req hth hok hns]
      simp only [Bool.false_eq_true, if_false]
      have hb := finalize_body_open c env req hth
      obtain ⟨f1, f2, _, _, _⟩ := start_tx_task_fail c env
        (if req.status < -c.H5_DAOS_SHORT_CIRCUIT then .DAOS_OPC_TX_ABORT
         else .DAOS_OPC_TX_COMMIT)
        req (if req.status < -c.H5_DAOS_SHORT_CIRCUIT then req.status else 0) hok hns
      have fr := start_tx_task_fail_code c env
        (if req.status < -c.H5_DAOS_SHORT_CIRCUIT then .DAOS_OPC_TX_ABORT
         else .DAOS_OPC_TX_COMMIT)
        req (if req.status < -c.H5_DAOS_SHORT_CIRCUIT then req.status else 0) hok hget hcr hrg
        hsch
      rw [← hb] at f1 f2 fr
      obtain ⟨r, hr, hst⟩ := finalize_done_closed_status c env (finalize_body c env req)
        (Or.inl f1)
      have hst2 : (H5_daos_h5op_finalize c env req).1.status = _ := hst
      rw [hst2]
      have hrv : (if (finalize_body c env req).req.notify_cb = true ∧ env.notify_ret < 0
            then -c.H5_DAOS_CALLBACK_ERROR
            else if (finalize_body c env req).close_tx = true ∧ env.tx_close_ret ≠ 0
            then env.tx_close_ret else (finalize_body c env req).ret_value)
            < -c.H5_DAOS_SHORT_CIRCUIT := by
        split_ifs with g1 g2
        · exact hcbneg
        · rcases hcl with h | h
          · exact absurd h g2.2
          · exact h
        · exact fr
      obtain ⟨s1, s2, s3⟩ := status_after_mark_record c _ "h5 op finalize" r hinc hsc
        (Or.inr hrv)
      refine ⟨s1, s2, ?_⟩
      intro h0
      obtain ⟨k, _⟩ := s3 h0
      omega
    · -- the abort or commit task runs
      rw [finalize_any_ok c env req hth hok]
      simp only [if_true]
      rw [finalize_req_ok c env req (by omega) hth hok]
      obtain ⟨r, hr, hst⟩ := tx_comp_cb_status c env dt_result
        { req with rc := req.rc + 1 - 1 }
      rw [hst]
      have hrv : (if ({ req with rc := req.rc + 1 - 1 } : H5_daos_req_t).notify_cb = true
            ∧ env.notify_ret < 0
            then -c.H5_DAOS_CALLBACK_ERROR else env.tx_close_ret) = 0 ∨
          (if ({ req with rc := req.rc + 1 - 1 } : H5_daos_req_t).notify_cb = true
            ∧ env.notify_ret < 0
            then -c.H5_DAOS_CALLBACK_ERROR else env.tx_close_ret)
            < -c.H5_DAOS_SHORT_CIRCUIT := by
        split_ifs
        · exact Or.inr hcbneg
        · exact hcl
      obtain ⟨s1, s2, s3⟩ := status_after_mark_record c _
        "transaction commit/abort completion callback" r hinc hsc hrv
      refine ⟨s1, s2, ?_⟩
      intro h0
      obtain ⟨k1, k2⟩ := s3 h0
      have hcl0 : env.tx_close_ret = 0 := by
        split_ifs at k1 with g
        · omega
        · exact k1
      refine ⟨?_, fun _ => ⟨trivial, hcl0⟩⟩
      intro hlt
      apply k2
      rw [hr]
      have : (record_task_error c dt_result "transaction commit/abort"
          { req with rc := req.rc + 1 - 1 }).status = req.status := by
        unfold record_task_error
        have : ¬ (req.status ≥ -c.H5_DAOS_SHORT_CIRCUIT) := by omega
        simp [this]
      rw [this]
      exact hlt

/-- C28 fails on the code when `tse_task_schedule` refuses the commit task.  A
request without error (`-H5_DAOS_INCOMPLETE`) with an open transaction;
`daos_task_create`, `daos_task_get_args` and `tse_task_register_comp_cb`
succeed and `tse_task_schedule` returns -1005.  When control returns from
`tse_task_complete(commit_task, 0)` at line 3389, the callback
`H5_daos_tx_comp_cb` has completed the finalize task with the result 0 and set
the request's status to 0, although the scheduling call failed, and has
released the reference of the finalize task.  Only afterwards does
`H5_daos_h5op_finalize` complete the finalize task a second time and store
-1005, through a request on which it holds no reference any more. -/
theorem C28_completed_as_success_when_schedule_fails :
    (start_tx_task sampleCodes ⟨0, true, 0, -1005, 0, 0⟩ .DAOS_OPC_TX_COMMIT
        ⟨-sampleCodes.H5_DAOS_INCOMPLETE, none, 1, true, false⟩ 0).req
      = ⟨0, none, 0, false, false⟩ ∧
    (start_tx_task sampleCodes ⟨0, true, 0, -1005, 0, 0⟩ .DAOS_OPC_TX_COMMIT
        ⟨-sampleCodes.H5_DAOS_INCOMPLETE, none, 1, true, false⟩ 0).calls
      = [.daos_task_create .DAOS_OPC_TX_COMMIT 0, .daos_task_get_args .DAOS_OPC_TX_COMMIT true,
         .tse_task_register_comp_cb .DAOS_OPC_TX_COMMIT 0, .tse_task_set_priv .DAOS_OPC_TX_COMMIT,
         .tse_task_schedule .DAOS_OPC_TX_COMMIT (-1005),
         .tse_task_complete_tx .DAOS_OPC_TX_COMMIT 0,
         .daos_tx_close 0, .tse_task_complete_finalize 0, .H5_daos_req_free_int] ∧
    (run_finalizer sampleCodes ⟨0, true, 0, -1005, 0, 0⟩ 0
        ⟨-sampleCodes.H5_DAOS_INCOMPLETE, none, 1, true, false⟩)
      = (⟨-1005, some "h5 op finalize", -1, false, false⟩,
         [.daos_task_create .DAOS_OPC_TX_COMMIT 0, .daos_task_get_args .DAOS_OPC_TX_COMMIT true,
          .tse_task_register_comp_cb .DAOS_OPC_TX_COMMIT 0, .tse_task_set_priv .DAOS_OPC_TX_COMMIT,
          .tse_task_schedule .DAOS_OPC_TX_COMMIT (-1005),
          .tse_task_complete_tx .DAOS_OPC_TX_COMMIT 0,
          .daos_tx_close 0, .tse_task_complete_finalize 0, .H5_daos_req_free_int,
          .daos_tx_close 0, .tse_task_complete_finalize (-1005), .H5_daos_req_free_int]) := by
  refine ⟨?_, ?_, ?_⟩ <;> decide


/-! ### The teardown of a key listing -/

theorem list_key_finish_state_req (c : Codes) (base_iter is_recursive is_link_iter
    op_ret_p : Bool) (op_ret : Int) (dec_ref_ok close_ok : Bool) (sh : IterShared)
    (lv : IterLevel) (req : H5_daos_req_t) (r : FinishResult)
    (h : H5_daos_list_key_finish_state c base_iter is_recursive is_link_iter op_ret_p op_ret
      dec_ref_ok close_ok sh lv req = some r) :
    (r.req, r.ret_value)
      = H5_daos_list_key_finish c true base_iter sh.short_circuit_init dec_ref_ok close_ok
          req := by
  unfold H5_daos_list_key_finish_state at h
  by_cases h1 : base_iter = false ∧ is_recursive = false
  · rw [if_pos h1] at h; exact absurd h (by simp)
  · rw [if_neg h1] at h
    simp only [Option.some.injEq] at h
    subst h
    simp [H5_daos_list_key_finish]

/-- C23 as stated fails on a nested level: when closing the target object
fails there, `H5_daos_list_key_finish` records `-H5_DAOS_H5_CLOSE_ERROR` in
the request, whose status was `-H5_DAOS_INCOMPLETE`. -/
theorem C23_counterexample :
    (H5_daos_list_key_finish_state sampleCodes false true true false 0 true false
      ⟨false, true, none, true, true, true⟩ ⟨true, true, true, true⟩
      ⟨-sampleCodes.H5_DAOS_INCOMPLETE, none, 2, false, false⟩).map
      (fun r => (r.shared, r.req.status))
    = some (⟨false, true, none, true, true, true⟩, -sampleCodes.H5_DAOS_H5_CLOSE_ERROR) := by
  rfl

/-- C23, as amended (teardown when the meta task runs).  When
`H5_daos_list_key_finish` runs for the base level (`base_iter` set) the
enumeration-wide teardown is performed: the iteration data is freed, for a
link iteration the visited-link table and the recursive link path are freed,
the hold on the root object is dropped when `H5Idec_ref` succeeds, the
operator return value is stored when `op_ret_p` is set, and the short-circuit
flag is reset, a status `-H5_DAOS_SHORT_CIRCUIT` of an iteration that began
the short circuit going back to `-H5_DAOS_INCOMPLETE` first.  For a nested
level of a recursive iteration none of the shared state changes, and the
request status changes only when closing the target object fails: then
`-H5_DAOS_H5_CLOSE_ERROR` is recorded unless the request already has an
error.  In both cases the level's key buffer, descriptor buffer and private
data are freed, the target object is closed when `H5_daos_object_close`
succeeds, exactly one reference to the request is released, and an error
status is kept as it is.  The order relied on is `0 <=
H5_DAOS_SHORT_CIRCUIT`. -/
theorem C23_finish_teardown (c : Codes) (base_iter is_recursive is_link_iter op_ret_p : Bool)
    (op_ret : Int) (dec_ref_ok close_ok : Bool) (sh : IterShared) (lv : IterLevel)
    (req : H5_daos_req_t) (hsc : 0 ≤ c.H5_DAOS_SHORT_CIRCUIT)
    (hrec : base_iter = true ∨ is_recursive = true) :
    ∃ r, H5_daos_list_key_finish_state c base_iter is_recursive is_link_iter op_ret_p op_ret
        dec_ref_ok close_ok sh lv req = some r ∧
      (base_iter = true →
        r.shared.iter_data = false ∧ r.shared.short_circuit_init = false ∧
        (is_link_iter = true →
          r.shared.visited_link_table = false ∧ r.shared.recursive_link_path = false) ∧
        (dec_ref_ok = true → r.shared.root_obj_held = false) ∧
        (op_ret_p = true → r.shared.op_ret_stored = some op_ret) ∧
        (sh.short_circuit_init = true → req.status = -c.H5_DAOS_SHORT_CIRCUIT →
          dec_ref_ok = true → close_ok = true → r.req.status = -c.H5_DAOS_INCOMPLETE)) ∧
      (base_iter = false →
        r.shared = sh ∧
        (close_ok = true → r.req.status = req.status) ∧
        (close_ok = false → r.req.status
          = (if req.status ≥ -c.H5_DAOS_SHORT_CIRCUIT ∧
                -c.H5_DAOS_H5_CLOSE_ERROR < -c.H5_DAOS_SHORT_CIRCUIT
             then -c.H5_DAOS_H5_CLOSE_ERROR else req.status))) ∧
      r.level.key_buf = false ∧ r.level.kds_dyn = false ∧ r.level.udata = false ∧
      (close_ok = true → r.level.target_obj_open = false) ∧
      r.req.rc = req.rc - 1 ∧
      (req.status < -c.H5_DAOS_SHORT_CIRCUIT → r.req.status = req.status) := by
  have hnone : ¬ (base_iter = false ∧ is_recursive = false) := by
    rcases hrec with h | h <;> simp [h]
  have k0 : ¬ ((0 : Int) < -c.H5_DAOS_SHORT_CIRCUIT) := by omega
  refine ⟨_, by unfold H5_daos_list_key_finish_state; rw [if_neg hnone], ?_, ?_, rfl, rfl, rfl,
    ?_, ?_, ?_⟩
  · intro hb
    subst hb
    refine ⟨rfl, rfl, ?_, ?_, ?_, ?_⟩
    · intro h; subst h; exact ⟨rfl, rfl⟩
    · intro h; subst h; rfl
    · intro h; subst h; rfl
    · intro h1 h2 h3 h4
      subst h3; subst h4
      simp [record_own_error, H5_daos_req_free_int, h1, h2, k0]
  · intro hb
    subst hb
    refine ⟨rfl, ?_, ?_⟩
    · intro h; subst h
      simp [record_own_error, H5_daos_req_free_int, k0]
    · intro h; subst h
      simp only [record_own_error, H5_daos_req_free_int, Bool.false_eq_true, false_and,
        if_false, or_true, if_true]
      split_ifs with g1 g2 g2
      · rfl
      · exact absurd ⟨g1.2, g1.1⟩ g2
      · exact absurd ⟨g2.2, g2.1⟩ g1
      · rfl
  · intro h; subst h; rfl
  · simp only [record_own_error, H5_daos_req_free_int]
    split_ifs <;> rfl
  · intro hlt
    have k1 : ¬ (req.status = -c.H5_DAOS_SHORT_CIRCUIT) := by omega
    have k2 : ¬ (req.status ≥ -c.H5_DAOS_SHORT_CIRCUIT) := by omega
    simp [record_own_error, H5_daos_req_free_int, k1, k2]

/-- Witness of C23 as amended: the base level of a link iteration that began
a short circuit. -/
theorem C23_finish_teardown_witness :
    H5_daos_list_key_finish_state sampleCodes true true true true 7 true true
      ⟨true, true, none, true, true, true⟩ ⟨true, true, true, true⟩
      ⟨-sampleCodes.H5_DAOS_SHORT_CIRCUIT, none, 2, false, false⟩
    = some ⟨⟨false, false, some 7, false, false, false⟩, ⟨false, false, false, false⟩,
        ⟨-sampleCodes.H5_DAOS_INCOMPLETE, none, 1, false, false⟩, 0⟩ ∧
    ∃ r, H5_daos_list_key_finish_state sampleCodes true true true true 7 true true
        ⟨true, true, none, true, true, true⟩ ⟨true, true, true, true⟩
        ⟨-sampleCodes.H5_DAOS_SHORT_CIRCUIT, none, 2, false, false⟩ = some r ∧
      r.req.rc = 2 - 1 :=
  ⟨by rfl,
   (C23_finish_teardown sampleCodes true true true true 7 true true
      ⟨true, true, none, true, true, true⟩ ⟨true, true, true, true⟩
      ⟨-sampleCodes.H5_DAOS_SHORT_CIRCUIT, none, 2, false, false⟩ (by decide)
      (Or.inl rfl)).imp (fun _ h => ⟨h.1, h.2.2.2.2.2.2.2.1⟩)⟩


/-! ### A key listing run to completion -/

theorem countP_modify_task (p : Task → Bool) (f : Task → Task) (hf : ∀ t, p (f t) = p t) :
    ∀ (i : Nat) (l : List Task), (modify_task f i l).countP p = l.countP p := by
  intro i l
  induction l generalizing i with
  | nil => cases i <;> rfl
  | cons t rest ih =>
    cases i with
    | zero => simp [modify_task, List.countP_cons, hf]
    | succ i => simp [modify_task, List.countP_cons, ih]

theorem countP_list_scheduled (i : Nat) (l : List Task) :
    (modify_task (fun t => { t with scheduled := true }) i l).countP
        (fun t => decide (t.fn = TaskFn.DAOS_OPC_OBJ_LIST))
      = l.countP (fun t => decide (t.fn = TaskFn.DAOS_OPC_OBJ_LIST)) :=
  countP_modify_task (fun t => decide (t.fn = TaskFn.DAOS_OPC_OBJ_LIST))
    (fun t => { t with scheduled := true }) (fun _ => rfl) i l

theorem list_key_start_ok_pages (c : Codes) (m : Nat) (st : BuildState) :
    page_requests (H5_daos_list_key_start c BuildEnv.ok m st).2 = page_requests st + 1 := by
  unfold H5_daos_list_key_start
  cases hf : st.first_task <;>
    simp [BuildEnv.ok, page_requests, List.countP_append, List.countP_cons]

theorem key_list_loop_spec (c : Codes) (k m : Nat) (base_iter is_recursive : Bool)
    (hk : 0 < k) (hrec : base_iter = true ∨ is_recursive = true) :
    ∀ (fuel : Nat) (s : EnumState), s.remaining < fuel →
      ∃ s1, key_list_loop c k m base_iter is_recursive fuel s = some s1 ∧
        page_requests s1.build = page_requests s.build + (s.remaining - 1) / k ∧
        s1.remaining = 0 ∧ s1.finish_calls = s.finish_calls + 1 ∧
        s1.shared.visited_link_table = (if base_iter then false else s.shared.visited_link_table) ∧
        s1.req.rc = s.req.rc - 1 := by
  have hnone : ¬ (base_iter = false ∧ is_recursive = false) := by
    rcases hrec with h | h <;> simp [h]
  intro fuel
  induction fuel with
  | zero => intro s h; omega
  | succ fuel ih =>
    intro s hfuel
    unfold key_list_loop
    simp only [store_list_page]
    by_cases heof : s.remaining - min k s.remaining = 0
    · have hle : s.remaining ≤ k := by omega
      have hdiv : (s.remaining - 1) / k = 0 := Nat.div_eq_of_lt (by omega)
      simp only [heof, decide_True, if_true]
      unfold H5_daos_list_key_finish_state
      rw [if_neg hnone]
      refine ⟨_, rfl, ?_, rfl, rfl, ?_, ?_⟩
      · simp only [page_requests, hdiv, Nat.add_zero]
        exact countP_list_scheduled _ _
      · cases base_iter <;> rfl
      · simp only [record_own_error, H5_daos_req_free_int]
        split_ifs <;> rfl
    · have hgt : k < s.remaining := by omega
      have hmin : min k s.remaining = k := by omega
      simp only [heof, decide_False, Bool.false_eq_true, if_false]
      obtain ⟨s1, e1, e2, e3, e4, e5, e6⟩ := ih
        { s with
          build := { (H5_daos_list_key_start c BuildEnv.ok m
              { s.build with first_task := none, dep_task := none }).2 with
            tasks := modify_task (fun t => { t with scheduled := true })
              s.build.tasks.length (H5_daos_list_key_start c BuildEnv.ok m
                { s.build with first_task := none, dep_task := none }).2.tasks }
          remaining := s.remaining - min k s.remaining }
        (by simp only; omega)
      refine ⟨s1, e1, ?_, e3, e4, e5, e6⟩
      rw [e2]
      simp only [hmin]
      have hp : page_requests
          { (H5_daos_list_key_start c BuildEnv.ok m
              { s.build with first_task := none, dep_task := none }).2 with
            tasks := modify_task (fun t => { t with scheduled := true })
              s.build.tasks.length (H5_daos_list_key_start c BuildEnv.ok m
                { s.build with first_task := none, dep_task := none }).2.tasks }
          = page_requests s.build + 1 := by
        have h1 := list_key_start_ok_pages c m { s.build with first_task := none, dep_task := none }
        simp only [page_requests] at h1 ⊢
        rw [countP_list_scheduled, h1]
      rw [hp]
      have hd : (s.remaining - 1) / k = (s.remaining - k - 1) / k + 1 := by
        have : s.remaining - 1 = (s.remaining - k - 1) + k := by omega
        rw [this, Nat.add_div_right _ hk]
      omega

/-- C22 as stated fails for an object without keys: with `N = 0` and page size
4 the enumeration still issues one page request (the one
`H5_daos_list_key_init` makes), not `ceil(0 / 4) = 0`. -/
theorem C22_counterexample :
    (key_list_run sampleCodes 0 4 true true ⟨-1, none, 1, false, false⟩).map
      (fun s => page_requests s.build) = some 1 ∧ (0 + 4 - 1) / 4 = 0 := by
  constructor <;> rfl

/-- C22, as amended (pagination).  A key listing started with
`H5_daos_list_key_init` over an object holding `N` keys with a page size of
`k > 0` keys, every allocation and engine call succeeding, runs to the end:
it issues one page request when `N = 0` and `ceil(N / k)` page requests
otherwise, stops with the anchor exhausted (no key remains), runs the meta
task body once, which frees the visited-link table exactly when the level is
the base of the iteration, and leaves the reference count of the request as
it found it. -/
theorem C22_pagination (c : Codes) (n_keys k : Nat) (base_iter is_recursive : Bool)
    (req : H5_daos_req_t) (hk : 0 < k) (hrec : base_iter = true ∨ is_recursive = true) :
    ∃ s, key_list_run c n_keys k base_iter is_recursive req = some s ∧
      page_requests s.build = (if n_keys = 0 then 1 else (n_keys + k - 1) / k) ∧
      s.remaining = 0 ∧ s.finish_calls = 1 ∧
      s.shared.visited_link_table = !base_iter ∧
      s.req.rc = req.rc := by
  have hinit : H5_daos_list_key_init c ⟨true, true, true, true⟩ BuildEnv.ok base_iter
      is_recursive false ⟨[], none, none, req.rc, 0, 0⟩
      = (0, ⟨[⟨.H5_daos_list_key_finish, [], false, true, false⟩,
              ⟨.DAOS_OPC_OBJ_LIST, [], true, true, false⟩], some 1, some 0, req.rc + 1,
            (if base_iter then 3 else 2), 0⟩) := by
    cases base_iter <;> cases is_recursive <;> rfl
  unfold key_list_run
  simp only [hinit]
  obtain ⟨s1, e1, e2, e3, e4, e5, e6⟩ := key_list_loop_spec c k 0 base_iter is_recursive hk hrec
    (n_keys + 1)
    { build := ⟨[⟨.H5_daos_list_key_finish, [], false, true, false⟩,
              ⟨.DAOS_OPC_OBJ_LIST, [], true, true, false⟩], some 1, some 0, req.rc + 1,
            (if base_iter then 3 else 2), 0⟩
      remaining := n_keys
      shared := ⟨false, true, none, true, true, true⟩
      level := ⟨true, false, true, true⟩
      req := { req with rc := req.rc + 1 }
      finish_calls := 0 }
    (by simp only; omega)
  refine ⟨s1, e1, ?_, e3, e4, ?_, ?_⟩
  · rw [e2]
    simp only [page_requests]
    have h1 : List.countP (fun t : Task => decide (t.fn = TaskFn.DAOS_OPC_OBJ_LIST))
        [(⟨.H5_daos_list_key_finish, [], false, true, false⟩ : Task),
         (⟨.DAOS_OPC_OBJ_LIST, [], true, true, false⟩ : Task)] = 1 := by rfl
    rw [h1]
    by_cases hn : n_keys = 0
    · subst hn; simp
    · rw [if_neg hn]
      have : n_keys + k - 1 = (n_keys - 1) + k := by omega
      rw [this, Nat.add_div_right _ hk]
      omega
  · rw [e5]; cases base_iter <;> rfl
  · rw [e6]; simp

/-- Witness of C22 as amended: 9 keys with pages of 4 take 3 page requests. -/
theorem C22_pagination_witness :
    (key_list_run sampleCodes 9 4 true true ⟨-1, none, 1, false, false⟩).map
      (fun s => (page_requests s.build, s.remaining, s.finish_calls)) = some (3, 0, 1) ∧
    ∃ s, key_list_run sampleCodes 9 4 true true ⟨-1, none, 1, false, false⟩ = some s ∧
      page_requests s.build = (if 9 = 0 then 1 else (9 + 4 - 1) / 4) :=
  ⟨by rfl,
   (C22_pagination sampleCodes 9 4 true true ⟨-1, none, 1, false, false⟩ (by decide)
      (Or.inl rfl)).imp (fun _ h => ⟨h.1, h.2.1⟩)⟩


/-! ### Opening a dataset collectively -/

theorem UINT64ENCODE_length (n : Nat) : (UINT64ENCODE n).length = 8 := by
  simp [UINT64ENCODE]

theorem UINT64DECODE_append (n : Nat) (rest : List Nat) (h : n < 2 ^ 64) :
    UINT64DECODE (UINT64ENCODE n ++ rest) = n := by
  have ht : (UINT64ENCODE n ++ rest).take 8 = (UINT64ENCODE n).take 8 := by
    rw [List.take_append_eq_append_take, UINT64ENCODE_length]
    simp
  have h2 := UINT64DECODE_ENCODE n h
  unfold UINT64DECODE at h2 ⊢
  rw [ht]
  exact h2

theorem drop_encode (n k : Nat) (rest : List Nat) :
    (UINT64ENCODE n ++ rest).drop (8 + k) = rest.drop k := by
  have h := @List.drop_append _ (UINT64ENCODE n) rest k
  rwa [UINT64ENCODE_length] at h

theorem drop_header (a b c d f k : Nat) (rest : List Nat) :
    (UINT64ENCODE a ++ (UINT64ENCODE b ++ (UINT64ENCODE c ++ (UINT64ENCODE d ++
      (UINT64ENCODE f ++ rest))))).drop (40 + k) = rest.drop k := by
  rw [show 40 + k = 8 + (8 + (8 + (8 + (8 + k)))) by omega, drop_encode, drop_encode,
    drop_encode, drop_encode, drop_encode]

theorem int_cast_small (n : Nat) (h : n < 2 ^ 31) : int_cast n = (n : Int) := by
  unfold int_cast
  have h2 : n % 2 ^ 32 = n := Nat.mod_eq_of_lt (by omega)
  rw [h2, if_pos h]

theorem open_fail_bcasts (S : Nat) (mb : Bool) (bcasts : List BcastCall) (views : List (List Nat)) :
    ∃ tail, (open_fail S mb bcasts views).bcasts = bcasts ++ tail ∧
      ∀ b ∈ tail, b.site = BcastSite.failure := by
  refine ⟨if mb then [⟨.failure, List.replicate S 0, int_cast S⟩] else [], rfl, ?_⟩
  cases mb <;> simp

theorem open_decode_bcasts (S : Nat) (e : OpenEnv) (mb : Bool) (bcasts : List BcastCall)
    (buf : List Nat) (off tl sl : Nat) :
    ∃ tail, (open_decode S e mb bcasts buf off tl sl).bcasts = bcasts ++ tail ∧
      ∀ b ∈ tail, b.site = BcastSite.failure := by
  unfold open_decode
  simp only []
  split_ifs
  · exact open_fail_bcasts _ _ _ _
  · exact open_fail_bcasts _ _ _ _
  · exact open_fail_bcasts _ _ _ _
  · exact open_fail_bcasts _ _ _ _
  · exact open_fail_bcasts _ _ _ _
  · refine ⟨[], ?_, ?_⟩
    · simp
    · simp

theorem coordinator_bcasts (S : Nat) (junk : Nat → Nat) (e : OpenEnv) (n : Nat) (md : DsetMeta)
    (hS31 : S < 2 ^ 31) (hn : 1 < n) (h0 : e.reads_ok = true)
    (ht : 0 < md.type_buf.length) (hs : 0 < md.space_buf.length) (hd : 0 < md.dcpl_buf.length)
    (hlen : md.type_buf.length + md.space_buf.length + md.dcpl_buf.length < 2 ^ 31) :
    ∃ tail, (H5_daos_dataset_open S junk e true true false 0 n md []).bcasts =
        (⟨.header, UINT64ENCODE md.oid_lo ++ (UINT64ENCODE md.oid_hi ++
            (UINT64ENCODE md.type_buf.length ++ (UINT64ENCODE md.space_buf.length ++
            (UINT64ENCODE md.dcpl_buf.length ++ (md.type_buf ++ (md.space_buf ++ (md.dcpl_buf ++
              fresh_buf junk (S - (40 + (md.type_buf.length + md.space_buf.length +
                md.dcpl_buf.length)))))))))), (S : Int)⟩ : BcastCall) ::
          ((if S < 40 + (md.type_buf.length + md.space_buf.length + md.dcpl_buf.length) then
              [(⟨.payload, md.type_buf ++ (md.space_buf ++ (md.dcpl_buf ++
                  fresh_buf junk (S - (40 + (md.type_buf.length + md.space_buf.length +
                    md.dcpl_buf.length))))),
                ((md.type_buf.length + md.space_buf.length + md.dcpl_buf.length : Nat) : Int)⟩ :
                  BcastCall)]
            else []) ++ tail) ∧
      ∀ b ∈ tail, b.site = BcastSite.failure := by
  simp only [OpenEnv.reads_ok, Bool.and_eq_true] at h0
  obtain ⟨⟨⟨⟨⟨⟨⟨⟨⟨h1, h2⟩, h3⟩, h4⟩, h5⟩, h6⟩, h7⟩, h8⟩, h9⟩, h10⟩ := h0
  have m1 : md.type_buf.length % 2 ^ 64 = md.type_buf.length := Nat.mod_eq_of_lt (by omega)
  have m2 : md.space_buf.length % 2 ^ 64 = md.space_buf.length := Nat.mod_eq_of_lt (by omega)
  have m3 : md.dcpl_buf.length % 2 ^ 64 = md.dcpl_buf.length := Nat.mod_eq_of_lt (by omega)
  have m4 : (md.type_buf.length + md.space_buf.length + md.dcpl_buf.length) % 2 ^ 64
      = md.type_buf.length + md.space_buf.length + md.dcpl_buf.length :=
    Nat.mod_eq_of_lt (by omega)
  have m5 : (md.type_buf.length + md.space_buf.length + md.dcpl_buf.length + 40) % 2 ^ 64
      = md.type_buf.length + md.space_buf.length + md.dcpl_buf.length + 40 :=
    Nat.mod_eq_of_lt (by omega)
  have z1 : (md.type_buf.length == 0) = false := by
    rw [beq_eq_false_iff_ne]; omega
  have z2 : (md.space_buf.length == 0) = false := by
    rw [beq_eq_false_iff_ne]; omega
  have z3 : (md.dcpl_buf.length == 0) = false := by
    rw [beq_eq_false_iff_ne]; omega
  have hnn : decide (n > 1) = true := by simp; omega
  unfold H5_daos_dataset_open
  simp only [h1, h2, h3, h4, h5, h6, h7, h8, h9, h10, m1, m2, m3, m4, m5, z1, z2, z3, hnn,
    Bool.not_true, Bool.not_false, Bool.false_eq_true, if_false, Bool.true_and, Bool.and_true,
    Bool.and_false, Bool.or_false, Bool.false_or, BEq.refl, Bool.or_true, if_true,
    Bool.false_and, int_cast_small S hS31,
    int_cast_small _ hlen, List.length_append, List.append_assoc]
  have hdrop : ∀ rest : List Nat, List.drop 40 (UINT64ENCODE md.oid_lo ++
      (UINT64ENCODE md.oid_hi ++ (UINT64ENCODE md.type_buf.length ++
      (UINT64ENCODE md.space_buf.length ++ (UINT64ENCODE md.dcpl_buf.length ++ rest))))) = rest :=
    fun rest => by simpa using drop_header _ _ _ _ _ 0 rest
  simp only [hdrop]
  by_cases hdyn : S < 40 + (md.type_buf.length + md.space_buf.length + md.dcpl_buf.length)
  · have hd1 : decide (md.type_buf.length + md.space_buf.length + md.dcpl_buf.length + 40 > S)
        = true := by simp; omega
    have hp : md.type_buf.length + md.space_buf.length + md.dcpl_buf.length + 40 -
        (40 + (md.type_buf.length + (md.space_buf.length + md.dcpl_buf.length)))
        = S - (40 + (md.type_buf.length + md.space_buf.length + md.dcpl_buf.length)) := by omega
    simp only [hd1, if_true, hp, if_pos hdyn]
    by_cases hb2 : (!e.bcast2_ok) = true
    · simp only [if_pos hb2]
      obtain ⟨tail, h, htl⟩ := open_fail_bcasts S true
        [⟨.header, UINT64ENCODE md.oid_lo ++ (UINT64ENCODE md.oid_hi ++
            (UINT64ENCODE md.type_buf.length ++ (UINT64ENCODE md.space_buf.length ++
            (UINT64ENCODE md.dcpl_buf.length ++ (md.type_buf ++ (md.space_buf ++ (md.dcpl_buf ++
              fresh_buf junk (S - (40 + (md.type_buf.length + md.space_buf.length +
                md.dcpl_buf.length)))))))))), (S : Int)⟩,
         ⟨.payload, md.type_buf ++ (md.space_buf ++ (md.dcpl_buf ++
                  fresh_buf junk (S - (40 + (md.type_buf.length + md.space_buf.length +
                    md.dcpl_buf.length))))),
                ((md.type_buf.length + md.space_buf.length + md.dcpl_buf.length : Nat) : Int)⟩] []
      exact ⟨tail, by rw [h]; rfl, htl⟩
    · simp only [if_neg hb2]
      obtain ⟨tail, h, htl⟩ := open_decode_bcasts S e true
        [⟨.header, UINT64ENCODE md.oid_lo ++ (UINT64ENCODE md.oid_hi ++
            (UINT64ENCODE md.type_buf.length ++ (UINT64ENCODE md.space_buf.length ++
            (UINT64ENCODE md.dcpl_buf.length ++ (md.type_buf ++ (md.space_buf ++ (md.dcpl_buf ++
              fresh_buf junk (S - (40 + (md.type_buf.length + md.space_buf.length +
                md.dcpl_buf.length)))))))))), (S : Int)⟩,
         ⟨.payload, md.type_buf ++ (md.space_buf ++ (md.dcpl_buf ++
                  fresh_buf junk (S - (40 + (md.type_buf.length + md.space_buf.length +
                    md.dcpl_buf.length))))),
                ((md.type_buf.length + md.space_buf.length + md.dcpl_buf.length : Nat) : Int)⟩]
        (UINT64ENCODE md.oid_lo ++ (UINT64ENCODE md.oid_hi ++
            (UINT64ENCODE md.type_buf.length ++ (UINT64ENCODE md.space_buf.length ++
            (UINT64ENCODE md.dcpl_buf.length ++ (md.type_buf ++ (md.space_buf ++ (md.dcpl_buf ++
              fresh_buf junk (S - (40 + (md.type_buf.length + md.space_buf.length +
                md.dcpl_buf.length)))))))))))
        40 md.type_buf.length md.space_buf.length
      exact ⟨tail, by rw [h]; rfl, htl⟩
  · have hd1 : decide (md.type_buf.length + md.space_buf.length + md.dcpl_buf.length + 40 > S)
        = false := by simp; omega
    have hp : S -
        (40 + (md.type_buf.length + (md.space_buf.length + md.dcpl_buf.length)))
        = S - (40 + (md.type_buf.length + md.space_buf.length + md.dcpl_buf.length)) := by omega
    simp only [hd1, Bool.false_eq_true, if_false, hp, if_neg hdyn]
    obtain ⟨tail, h, htl⟩ := open_decode_bcasts S e true
        [⟨.header, UINT64ENCODE md.oid_lo ++ (UINT64ENCODE md.oid_hi ++
            (UINT64ENCODE md.type_buf.length ++ (UINT64ENCODE md.space_buf.length ++
            (UINT64ENCODE md.dcpl_buf.length ++ (md.type_buf ++ (md.space_buf ++ (md.dcpl_buf ++
              fresh_buf junk (S - (40 + (md.type_buf.length + md.space_buf.length +
                md.dcpl_buf.length)))))))))), (S : Int)⟩]
        (UINT64ENCODE md.oid_lo ++ (UINT64ENCODE md.oid_hi ++
            (UINT64ENCODE md.type_buf.length ++ (UINT64ENCODE md.space_buf.length ++
            (UINT64ENCODE md.dcpl_buf.length ++ (md.type_buf ++ (md.space_buf ++ (md.dcpl_buf ++
              fresh_buf junk (S - (40 + (md.type_buf.length + md.space_buf.length +
                md.dcpl_buf.length)))))))))))
        40 md.type_buf.length md.space_buf.length
    exact ⟨tail, by rw [h]; rfl, htl⟩

theorem blob_views (t s d z : List Nat) :
    (t ++ (s ++ (d ++ z))).take t.length = t ∧
    ((t ++ (s ++ (d ++ z))).drop t.length).take s.length = s ∧
    ((t ++ (s ++ (d ++ z))).drop (t.length + s.length)).take d.length = d := by
  refine ⟨by simp, by simp, ?_⟩
  rw [← List.append_assoc t s, ← List.length_append, List.drop_left]
  simp

theorem take_blobs (t s d x : List Nat) (k : Nat) (hk : t.length + s.length + d.length ≤ k) :
    (t ++ (s ++ (d ++ x))).take k
      = t ++ (s ++ (d ++ x.take (k - (t.length + s.length + d.length)))) := by
  rw [List.take_append_eq_append_take, List.take_of_length_le (by omega),
    List.take_append_eq_append_take, List.take_of_length_le (by omega),
    List.take_append_eq_append_take, List.take_of_length_le (by omega)]
  congr 4
  omega

theorem header_decode (lo hi a b c : Nat) (rest : List Nat)
    (ha : a < 2 ^ 64) (hb : b < 2 ^ 64) (hc : c < 2 ^ 64) :
    UINT64DECODE ((UINT64ENCODE lo ++ (UINT64ENCODE hi ++ (UINT64ENCODE a ++ (UINT64ENCODE b ++
      (UINT64ENCODE c ++ rest))))).drop 16) = a ∧
    UINT64DECODE ((UINT64ENCODE lo ++ (UINT64ENCODE hi ++ (UINT64ENCODE a ++ (UINT64ENCODE b ++
      (UINT64ENCODE c ++ rest))))).drop 24) = b ∧
    UINT64DECODE ((UINT64ENCODE lo ++ (UINT64ENCODE hi ++ (UINT64ENCODE a ++ (UINT64ENCODE b ++
      (UINT64ENCODE c ++ rest))))).drop 32) = c := by
  refine ⟨?_, ?_, ?_⟩
  · rw [show 16 = 8 + (8 + 0) by rfl, drop_encode, drop_encode, List.drop_zero,
      UINT64DECODE_append _ _ ha]
  · rw [show 24 = 8 + (8 + (8 + 0)) by rfl, drop_encode, drop_encode, drop_encode, List.drop_zero,
      UINT64DECODE_append _ _ hb]
  · rw [show 32 = 8 + (8 + (8 + (8 + 0))) by rfl, drop_encode, drop_encode, drop_encode,
      drop_encode, List.drop_zero, UINT64DECODE_append _ _ hc]

theorem open_decode_receiver (S : Nat) (e : OpenEnv) (bcasts : List BcastCall) (buf : List Nat)
    (off tl sl : Nat) (h1 : e.tdecode_ok = true) (h2 : e.sdecode_ok = true)
    (h3 : e.select_all_ok = true) :
    (open_decode S e false bcasts buf off tl sl).bcasts = bcasts ∧
    (open_decode S e false bcasts buf off tl sl).views
      = [buf.drop off, buf.drop (off + tl), buf.drop (off + tl + sl)] := by
  unfold open_decode open_fail
  simp only [h1, h2, h3, Bool.not_true, Bool.false_eq_true, if_false, List.append_nil]
  split_ifs <;> exact ⟨rfl, rfl⟩

theorem receiver_run (S : Nat) (junk : Nat → Nat) (e : OpenEnv) (rank n lo hi : Nat)
    (md0 : DsetMeta) (msgs : List (List Nat)) (t s d pad : List Nat)
    (hS : 40 ≤ S) (hS31 : S < 2 ^ 31) (hrank : rank ≠ 0) (h1 : e.receives_ok = true)
    (ht : 0 < t.length) (hlen : t.length + s.length + d.length < 2 ^ 31)
    (hm0 : msgs.getD 0 [] = (UINT64ENCODE lo ++ (UINT64ENCODE hi ++ (UINT64ENCODE t.length ++
      (UINT64ENCODE s.length ++ (UINT64ENCODE d.length ++ (t ++ (s ++ (d ++ pad)))))))).take S)
    (hm1 : S < 40 + (t.length + s.length + d.length) →
      msgs.getD 1 [] = (t ++ (s ++ (d ++ pad))).take (t.length + s.length + d.length)) :
    ∃ rbuf v1 v2 v3,
      (H5_daos_dataset_open S junk e true true false rank n md0 msgs).bcasts
        = (⟨.header, fresh_buf junk S, (S : Int)⟩ : BcastCall) ::
          (if S < 40 + (t.length + s.length + d.length) then
            [(⟨.payload, rbuf, ((t.length + s.length + d.length : Nat) : Int)⟩ : BcastCall)]
           else []) ∧
      t.length + s.length + d.length ≤ rbuf.length ∧
      (H5_daos_dataset_open S junk e true true false rank n md0 msgs).views = [v1, v2, v3] ∧
      v1.take t.length = t ∧ v2.take s.length = s ∧ v3.take d.length = d := by
  simp only [OpenEnv.receives_ok, Bool.and_eq_true] at h1
  obtain ⟨⟨⟨⟨⟨⟨⟨⟨⟨⟨e1, e2⟩, e3⟩, e4⟩, e5⟩, e6⟩, e7⟩, e8⟩, e9⟩, e10⟩, e11⟩ := h1
  have hr : (rank == 0) = false := by rw [beq_eq_false_iff_ne]; exact hrank
  have hfl : (fresh_buf junk S).length = S := by simp [fresh_buf]
  have hst : MPI_Bcast_recv (fresh_buf junk S) (msgs.getD 0 []) S
      = UINT64ENCODE lo ++ (UINT64ENCODE hi ++ (UINT64ENCODE t.length ++
        (UINT64ENCODE s.length ++ (UINT64ENCODE d.length ++
          ((t ++ (s ++ (d ++ pad))).take (S - 40)))))) := by
    unfold MPI_Bcast_recv
    rw [hm0, List.take_take, Nat.min_self,
      List.drop_of_length_le (by omega), List.append_nil]
    rw [List.take_append_eq_append_take, List.take_of_length_le (by simp only [UINT64ENCODE_length]; omega),
      List.take_append_eq_append_take, List.take_of_length_le (by simp only [UINT64ENCODE_length]; omega),
      List.take_append_eq_append_take, List.take_of_length_le (by simp only [UINT64ENCODE_length]; omega),
      List.take_append_eq_append_take, List.take_of_length_le (by simp only [UINT64ENCODE_length]; omega),
      List.take_append_eq_append_take, List.take_of_length_le (by simp only [UINT64ENCODE_length]; omega)]
    simp only [UINT64ENCODE_length]
    congr 6
  obtain ⟨d1, d2, d3⟩ := header_decode lo hi t.length s.length d.length
    ((t ++ (s ++ (d ++ pad))).take (S - 40)) (by omega) (by omega) (by omega)
  have m4 : (t.length + s.length + d.length) % 2 ^ 64 = t.length + s.length + d.length :=
    Nat.mod_eq_of_lt (by omega)
  have m5 : (t.length + s.length + d.length + 40) % 2 ^ 64 = t.length + s.length + d.length + 40 :=
    Nat.mod_eq_of_lt (by omega)
  have z1 : (t.length == 0) = false := by rw [beq_eq_false_iff_ne]; omega
  unfold H5_daos_dataset_open
  simp only [e1, e2, e3, e4, e5, e6, e7, e8, hr, hst, d1, d2, d3, m4, m5, z1,
    Bool.not_true, Bool.not_false, Bool.false_eq_true, if_false, Bool.true_and, Bool.and_true,
    Bool.and_false, Bool.or_false, Bool.false_or, Bool.or_true, if_true,
    Bool.false_and, int_cast_small S hS31, int_cast_small _ hlen, Int.toNat_ofNat]
  by_cases hdyn : S < 40 + (t.length + s.length + d.length)
  · have hg : t.length + s.length + d.length + 40 > S := by omega
    have hrec : ∀ X : List Nat, MPI_Bcast_recv X (msgs.getD 1 []) (t.length + s.length + d.length)
        = t ++ (s ++ (d ++ X.drop (t.length + s.length + d.length))) := by
      intro X
      unfold MPI_Bcast_recv
      rw [hm1 hdyn, List.take_take, Nat.min_self, take_blobs t s d pad _ (le_refl _),
        Nat.sub_self, List.take_zero]
      simp
    simp only [if_pos hg, if_pos hdyn, hrec]
    rw [(open_decode_receiver S e _ _ _ _ _ e9 e10 e11).1,
      (open_decode_receiver S e _ _ _ _ _ e9 e10 e11).2]
    refine ⟨_, _, _, _, rfl, ?_, rfl, ?_, ?_, ?_⟩
    · split_ifs
      · simp [fresh_buf]
      · simp only [List.length_append, UINT64ENCODE_length, List.length_take]
        omega
    · simp
    · simp
    · simp [Nat.add_assoc]
  · have hg : ¬ (t.length + s.length + d.length + 40 > S) := by omega
    have htk := take_blobs t s d pad (S - 40) (by omega)
    simp only [if_neg hg, if_neg hdyn, htk]
    rw [(open_decode_receiver S e _ _ _ _ _ e9 e10 e11).1,
      (open_decode_receiver S e _ _ _ _ _ e9 e10 e11).2]
    refine ⟨List.replicate (t.length + s.length + d.length) 0, _, _, _, rfl, by simp, rfl,
      ?_, ?_, ?_⟩
    · rw [drop_header _ _ _ _ _ 0]
      simp
    · rw [drop_header]
      exact (blob_views t s d _).2.1
    · rw [Nat.add_assoc, drop_header]
      exact (blob_views t s d _).2.2

/-- The agreement of the two sides on the second broadcast when the
receiver's own calls succeed.  In a collective `H5_daos_dataset_open` with
more than one process in which the coordinator reads the metadata and
broadcasts the header, with a static buffer of `S` bytes (`40 ≤ S`) and
records whose lengths add up to less than `2 ^ 31`: the coordinator makes the
second broadcast iff `5 * 8 + type_len + space_len + dcpl_len` exceeds `S`; a
receiver whose own calls succeed makes a second broadcast under the same
condition, evaluated on the lengths it decodes from the header; both pass the
count `type_len + space_len + dcpl_len`, the coordinator sending exactly the
three records; the receiver's buffer holds at least that many bytes; and the
pointers the receiver hands to `H5Tdecode`, `H5Sdecode` and `H5Pdecode` point
at the bytes of the three records the coordinator read. -/
theorem second_broadcast_agreement (S : Nat) (junk0 junk1 : Nat → Nat) (e0 e1 : OpenEnv)
    (rank num_procs : Nat) (md : DsetMeta)
    (hS : 40 ≤ S) (hS31 : S < 2 ^ 31) (hn : 1 < num_procs) (hrank : rank ≠ 0)
    (h0 : e0.reads_ok = true) (h1 : e1.receives_ok = true)
    (ht : 0 < md.type_buf.length) (hs : 0 < md.space_buf.length) (hd : 0 < md.dcpl_buf.length)
    (hlen : md.type_buf.length + md.space_buf.length + md.dcpl_buf.length < 2 ^ 31) :
    (payload_calls (collective_open S junk0 junk1 e0 e1 rank num_procs md).1).length
      = (if S < 5 * 8 + (md.type_buf.length + md.space_buf.length + md.dcpl_buf.length)
          then 1 else 0) ∧
    (payload_calls (collective_open S junk0 junk1 e0 e1 rank num_procs md).2).length
      = (if S < 5 * 8 + (md.type_buf.length + md.space_buf.length + md.dcpl_buf.length)
          then 1 else 0) ∧
    (∀ b ∈ payload_calls (collective_open S junk0 junk1 e0 e1 rank num_procs md).1,
      b.count = ((md.type_buf.length + md.space_buf.length + md.dcpl_buf.length : Nat) : Int) ∧
      b.buf = md.type_buf ++ md.space_buf ++ md.dcpl_buf) ∧
    (∀ b ∈ payload_calls (collective_open S junk0 junk1 e0 e1 rank num_procs md).2,
      b.count = ((md.type_buf.length + md.space_buf.length + md.dcpl_buf.length : Nat) : Int) ∧
      md.type_buf.length + md.space_buf.length + md.dcpl_buf.length ≤ b.buf.length) ∧
    ∃ v1 v2 v3, (collective_open S junk0 junk1 e0 e1 rank num_procs md).2.views = [v1, v2, v3] ∧
      v1.take md.type_buf.length = md.type_buf ∧
      v2.take md.space_buf.length = md.space_buf ∧
      v3.take md.dcpl_buf.length = md.dcpl_buf := by
  obtain ⟨tail, hc, htail⟩ := coordinator_bcasts S junk0 e0 num_procs md hS31 hn h0 ht hs hd hlen
  have hft : tail.filter (fun b => decide (b.site = BcastSite.payload)) = [] := by
    rw [List.filter_eq_nil_iff]
    intro b hb
    simp [htail b hb]
  have hm0 : (root_messages (H5_daos_dataset_open S junk0 e0 true true false 0 num_procs md
      [])).getD 0 [] = (UINT64ENCODE md.oid_lo ++ (UINT64ENCODE md.oid_hi ++
        (UINT64ENCODE md.type_buf.length ++ (UINT64ENCODE md.space_buf.length ++
        (UINT64ENCODE md.dcpl_buf.length ++ (md.type_buf ++ (md.space_buf ++ (md.dcpl_buf ++
          fresh_buf junk0 (S - (40 + (md.type_buf.length + md.space_buf.length +
            md.dcpl_buf.length))))))))))).take S := by
    simp [root_messages, hc]
  have hm1 : S < 40 + (md.type_buf.length + md.space_buf.length + md.dcpl_buf.length) →
      (root_messages (H5_daos_dataset_open S junk0 e0 true true false 0 num_procs md
        [])).getD 1 [] = (md.type_buf ++ (md.space_buf ++ (md.dcpl_buf ++
          fresh_buf junk0 (S - (40 + (md.type_buf.length + md.space_buf.length +
            md.dcpl_buf.length)))))).take
          (md.type_buf.length + md.space_buf.length + md.dcpl_buf.length) := by
    intro hdyn
    rw [root_messages, hc, if_pos hdyn]
    rfl
  obtain ⟨rbuf, v1, v2, v3, hrb, hrl, hrv, hv1, hv2, hv3⟩ := receiver_run S junk1 e1 rank
    num_procs md.oid_lo md.oid_hi ⟨0, 0, [], [], []⟩
    (root_messages (H5_daos_dataset_open S junk0 e0 true true false 0 num_procs md []))
    md.type_buf md.space_buf md.dcpl_buf
    (fresh_buf junk0 (S - (40 + (md.type_buf.length + md.space_buf.length +
      md.dcpl_buf.length)))) hS hS31 hrank h1 ht hlen hm0 hm1
  rw [show 5 * 8 = 40 from rfl]
  unfold collective_open payload_calls
  simp only [hc, hrb, hrv]
  refine ⟨?_, ?_, ?_, ?_, ⟨v1, v2, v3, rfl, hv1, hv2, hv3⟩⟩ <;>
  · by_cases hdyn : S < 40 + (md.type_buf.length + md.space_buf.length + md.dcpl_buf.length)
    · have hz : S - (40 + (md.type_buf.length + md.space_buf.length + md.dcpl_buf.length)) = 0 := by
        omega
      simp [hdyn, hft, hz, fresh_buf, hrl, List.filter_cons, List.filter_append]
    · simp [hdyn, hft, List.filter_cons, List.filter_append]

/-- C21 fails on the code for a receiver whose allocation fails.  Two
processes open a dataset collectively with a static buffer of 64 bytes and
records of 40, 20 and 10 bytes, so that `5 * 8 + 70` exceeds 64 and the
payload does not fit the receiver's static buffer either.  The coordinator
reads the metadata and makes both broadcasts.  The receiver decodes the same
three lengths from the header and evaluates the same condition, but its
`DV_malloc(tot_len)` at line 584 fails and it leaves through `done:` without
taking part in the second broadcast: the coordinator makes one second
broadcast, the receiver none. -/
theorem C21_receiver_skips_second_broadcast :
    ((collective_open 64 (fun _ => 0) (fun _ => 0) OpenEnv.ok
        { OpenEnv.ok with malloc_ok := false } 1 2
        ⟨5, 6, List.replicate 40 1, List.replicate 20 2, List.replicate 10 3⟩).1.bcasts.map
          (fun b => (b.site, b.count))
      = [(BcastSite.header, 64), (BcastSite.payload, 70)]) ∧
    ((collective_open 64 (fun _ => 0) (fun _ => 0) OpenEnv.ok
        { OpenEnv.ok with malloc_ok := false } 1 2
        ⟨5, 6, List.replicate 40 1, List.replicate 20 2, List.replicate 10 3⟩).2.bcasts.map
          (fun b => (b.site, b.count))
      = [(BcastSite.header, 64)]) ∧
    (payload_calls (collective_open 64 (fun _ => 0) (fun _ => 0) OpenEnv.ok
        { OpenEnv.ok with malloc_ok := false } 1 2
        ⟨5, 6, List.replicate 40 1, List.replicate 20 2, List.replicate 10 3⟩).1).length = 1 ∧
    (payload_calls (collective_open 64 (fun _ => 0) (fun _ => 0) OpenEnv.ok
        { OpenEnv.ok with malloc_ok := false } 1 2
        ⟨5, 6, List.replicate 40 1, List.replicate 20 2, List.replicate 10 3⟩).2).length = 0 := by
  refine ⟨?_, ?_, ?_, ?_⟩ <;> decide

/-- C29 fails on the code.  Two processes open a dataset collectively
(static buffer of 64 bytes, records of 2, 1 and 2 bytes, so no second
broadcast is due); the coordinator reads the metadata and broadcasts the
header, then its `H5Tdecode` fails.  As `must_bcast` is still set, the failure
cleanup broadcasts a zeroed header: the coordinator makes two broadcasts, the
receiver takes part in one.  When the coordinator fails before line 436
(`H5FL_CALLOC`), it makes no broadcast while the receiver waits for one. -/
theorem C29_broadcast_count_mismatch :
    ((collective_open 64 (fun _ => 0) (fun _ => 0)
        { OpenEnv.ok with tdecode_ok := false } OpenEnv.ok 1 2
        ⟨5, 6, [1, 2], [3], [4, 5]⟩).1.bcasts.map (fun b => b.site)
      = [BcastSite.header, BcastSite.failure]) ∧
    ((collective_open 64 (fun _ => 0) (fun _ => 0)
        { OpenEnv.ok with tdecode_ok := false } OpenEnv.ok 1 2
        ⟨5, 6, [1, 2], [3], [4, 5]⟩).2.bcasts.map (fun b => b.site)
      = [BcastSite.header]) ∧
    ((collective_open 64 (fun _ => 0) (fun _ => 0)
        { OpenEnv.ok with calloc_ok := false } OpenEnv.ok 1 2
        ⟨5, 6, [1, 2], [3], [4, 5]⟩).1.bcasts.length = 0) ∧
    ((collective_open 64 (fun _ => 0) (fun _ => 0)
        { OpenEnv.ok with calloc_ok := false } OpenEnv.ok 1 2
        ⟨5, 6, [1, 2], [3], [4, 5]⟩).2.bcasts.length = 1) := by
  refine ⟨?_, ?_, ?_, ?_⟩ <;> decide

end DaosVol
